import Mathlib

/-!
# SlicerRT: DICOM-RT import and isodose logic

A shallow embedding of `vtkSlicerDicomRtImportModuleLogic::Examine` and `LoadDicomRT` (with
`AddRoiPoint` and `AddRoiContour`) and of `vtkSlicerIsodoseModuleLogic::ComputeIsodose` and
`GetDefaultLabelMapColorNodeID`.

Conventions of the embedding:

* C++ `double` and `float` values are rationals (`ℚ`): arithmetic is exact, rounding is
  not modelled.
* Objects created with `New()` live in a heap (`World.heap`); a pointer is an index into
  it. The MRML scene is the sequence of pointers handed to `AddNode`, in call order.
* What the source obtains from classes that are not part of these files (the RT reader,
  the volume storage node, the topological hierarchy filter, the VTK surface filters, the
  lookup table, unique scene names) is a parameter: a field of the reader record or of an
  environment record.
-/

namespace SlicerRT

/-! ## Scalars, geometry, image data -/

/-- A 3-D point or an RGB triple. -/
abbrev Vec3 := ℚ × ℚ × ℚ

/-- The part of `vtkPolyData` the logic looks at: the point list (`GetNumberOfPoints`,
`GetPoint`). -/
structure vtkPolyData where
  points : List Vec3
deriving DecidableEq

/-- Number of points of a poly data (`GetNumberOfPoints`). -/
def vtkPolyData.GetNumberOfPoints (p : vtkPolyData) : Nat := p.points.length

/-- Point `i` of a poly data (`GetPoint`); the origin stands for an index out of range. -/
def vtkPolyData.GetPoint (p : vtkPolyData) (i : Nat) : Vec3 := p.points.getD i (0, 0, 0)

/-- Scalar type tag of an image (`VTK_FLOAT` or anything else). -/
inductive ScalarType where
  | Float
  | Other
deriving DecidableEq

/-- A single-component `vtkImageData`: its scalar type and its samples in memory order, each
sample given by its exact value, and the origin and spacing of its grid. `GetNumberOfPoints`
is the number of samples. -/
structure vtkImageData where
  ScalarType : ScalarType
  scalars : List ℚ
  Origin : Vec3 := (0, 0, 0)
  Spacing : Vec3 := (1, 1, 1)
deriving DecidableEq

/-- Number of grid points of an image (`GetNumberOfPoints`). -/
def vtkImageData.GetNumberOfPoints (img : vtkImageData) : Nat := img.scalars.length

/-- The filter `vtkImageCast` with `SetOutputScalarTypeToFloat`: every sample converted to
floating point (its value is kept, arithmetic being exact), the scalar type becomes float. -/
def vtkImageCast (img : vtkImageData) : vtkImageData :=
  { img with ScalarType := ScalarType.Float, scalars := img.scalars.map fun x => x }

/-! ## Reading a decimal number from a stream (`ss >> doubleValue`) -/

/-- Value of a decimal digit character, if it is one. -/
def digitValue (c : Char) : Option Nat :=
  if c.isDigit then some (c.toNat - 48) else none

/-- Consume a run of decimal digits: returns the accumulated number, how many digits were
read, and the rest of the input. -/
def readDigits : List Char → Nat → Nat → Nat × Nat × List Char
  | [], acc, n => (acc, n, [])
  | c :: cs, acc, n =>
    match digitValue c with
    | some d => readDigits cs (acc * 10 + d) (n + 1)
    | none => (acc, n, c :: cs)

/-- Consume an optional sign: `true` stands for a minus sign. -/
def readSign : List Char → Bool × List Char
  | '-' :: cs => (true, cs)
  | '+' :: cs => (false, cs)
  | cs => (false, cs)

/-- A decimal number as read from text: sign, the digits of integer and fraction part taken
together as one natural number, and the power of ten they are scaled by. -/
structure Decimal where
  negative : Bool
  digits : Nat
  exponent : Int
deriving DecidableEq

/-- Exact value of a decimal. -/
def Decimal.value (d : Decimal) : ℚ :=
  (if d.negative then -1 else 1) * (d.digits : ℚ) * (10 : ℚ) ^ d.exponent

/-- Formatted extraction of a floating-point number from a character stream: leading white
space is skipped, then an optional sign, digits with an optional decimal point, and an
optional exponent are read. At least one digit is required in the mantissa, and an
exponent marker must be followed by at least one digit. -/
def readDecimal (s : List Char) : Option Decimal :=
  let s := s.dropWhile Char.isWhitespace
  let (neg, s) := readSign s
  let (ip, ni, s) := readDigits s 0 0
  let (m, nf, s) :=
    match s with
    | '.' :: t => let (fp, nf, t) := readDigits t ip 0; (fp, nf, t)
    | t => (ip, 0, t)
  if ni + nf = 0 then none
  else
    match s with
    | c :: t =>
      if c = 'e' ∨ c = 'E' then
        let (eneg, t) := readSign t
        let (e, ne, _) := readDigits t 0 0
        if ne = 0 then none
        else some ⟨neg, m, (if eneg then -(e : Int) else (e : Int)) - (nf : Int)⟩
      else some ⟨neg, m, -(nf : Int)⟩
    | [] => some ⟨neg, m, -(nf : Int)⟩

/-- The number obtained by `ss << text; ss >> doubleValue`, when the extraction succeeds. -/
def parseDouble (text : String) : Option ℚ :=
  (readDecimal text.toList).map Decimal.value

/-! ## MRML nodes -/

/-- Identifier of a node in a scene: a well-known name such as
`vtkMRMLColorTableNodeRainbow`, or an identifier generated by the scene when a node is
added. -/
inductive NodeID where
  | named (s : String)
  | generated (n : Nat)
deriving DecidableEq

/-- A pointer to a node object: its index in the heap. -/
abbrev Ptr := Nat

/-- One entry of a color table: color name and RGBA. -/
structure ColorEntry where
  name : String
  r : ℚ
  g : ℚ
  b : ℚ
  a : ℚ
deriving DecidableEq

/-- Type of a color table node, as far as `AddColor` distinguishes it. -/
inductive ColorTableType where
  | User
  | File
  | Other
deriving DecidableEq

/-- A `vtkMRMLColorTableNode`: the lookup table values with their names (a slot that was
allocated by `SetNumberOfColors` and not yet written is `none`), the index of the last color
added, and the table range of the lookup table. -/
structure vtkMRMLColorTableNode where
  ColorType : ColorTableType := ColorTableType.Other
  Colors : List (Option ColorEntry) := []
  LastAddedColor : Int := -1
  TableRange : ℚ × ℚ := (0, 1)
  SaveWithScene : Bool := true
  SingletonTag : Option String := none
  Category : Option String := none
deriving DecidableEq

/-- Effect of `SetTypeToUser`: nothing if the type is user already; otherwise the type becomes
user, the table is emptied and the counter of added colors is reset. -/
def vtkMRMLColorTableNode.SetTypeToUser (n : vtkMRMLColorTableNode) : vtkMRMLColorTableNode :=
  if n.ColorType = ColorTableType.User then n
  else { n with ColorType := ColorTableType.User, Colors := [], LastAddedColor := -1 }

/-- Effect of `SetNumberOfColors`: refused unless the table is of user or file type;
otherwise the table is resized to `k` slots, existing slots are kept, new slots are
unwritten. -/
def vtkMRMLColorTableNode.SetNumberOfColors (n : vtkMRMLColorTableNode) (k : Nat) :
    vtkMRMLColorTableNode :=
  if n.ColorType ≠ ColorTableType.User ∧ n.ColorType ≠ ColorTableType.File then n
  else { n with Colors := (n.Colors.take k) ++ List.replicate (k - n.Colors.length) none }

/-- Number of colors of the table (`GetNumberOfColors`). -/
def vtkMRMLColorTableNode.GetNumberOfColors (n : vtkMRMLColorTableNode) : Nat :=
  n.Colors.length

/-- Effect of `SetColor(entry, name, r, g, b, a)`: writes the slot when the index is inside the
table and leaves the node unchanged otherwise. -/
def vtkMRMLColorTableNode.SetColor (n : vtkMRMLColorTableNode) (entry : Int) (name : String)
    (r g b a : ℚ) : vtkMRMLColorTableNode :=
  if entry < 0 ∨ (n.Colors.length : Int) ≤ entry then n
  else { n with Colors := n.Colors.set entry.toNat (some ⟨name, r, g, b, a⟩) }

/-- Effect of `AddColor(name, r, g, b, a)`: refused unless the table is of user or file type;
otherwise the counter of added colors is advanced and that slot is written with `SetColor`. -/
def vtkMRMLColorTableNode.AddColor (n : vtkMRMLColorTableNode) (name : String)
    (r g b : ℚ) (a : ℚ := 1) : vtkMRMLColorTableNode :=
  if n.ColorType ≠ ColorTableType.User ∧ n.ColorType ≠ ColorTableType.File then n
  else
    let n1 := { n with LastAddedColor := n.LastAddedColor + 1 }
    n1.SetColor n1.LastAddedColor name r g b a

/-- Display properties shared by model display nodes. -/
structure vtkMRMLModelDisplayNode where
  Visibility : Bool := true
  SliceIntersectionVisibility : Bool := false
  Color : Vec3 := (1 / 2, 1 / 2, 1 / 2)
  Opacity : ℚ := 1
  BackfaceCulling : Bool := true
deriving DecidableEq

/-- A `vtkMRMLModelNode`: its display node reference and its poly data. -/
structure vtkMRMLModelNode where
  DisplayNodeID : Option NodeID := none
  PolyData : Option vtkPolyData := none
  Selectable : Bool := true
deriving DecidableEq

/-- A hierarchy node (model, contour or annotation hierarchy): parent reference, reference
to the node it stands for (`SetModelNodeID` and `SetDisplayableNodeID` both write it), and
its display node reference. -/
structure vtkMRMLHierarchyNode where
  ParentNodeID : Option NodeID := none
  DisplayableNodeID : Option NodeID := none
  DisplayNodeID : Option NodeID := none
  AllowMultipleChildren : Bool := true
deriving DecidableEq

/-- A `vtkMRMLContourNode`, as far as the importer writes it. -/
structure vtkMRMLContourNode where
  StructureName : String := ""
  RibbonModelNodeId : Option NodeID := none
  ActiveRepresentation : Option Ptr := none
deriving DecidableEq

/-- A `vtkMRMLAnnotationFiducialNode`: control points (position, selected, visible), lock
flag, the glyph and color of its point display node and the color of its text display node
once these are created, and its display visibility. -/
structure vtkMRMLAnnotationFiducialNode where
  ControlPoints : List (Vec3 × Bool × Bool) := []
  Locked : Bool := false
  PointDisplayCreated : Bool := false
  TextDisplayCreated : Bool := false
  GlyphSphere3D : Bool := false
  PointDisplayColor : Option Vec3 := none
  TextDisplayColor : Option Vec3 := none
  DisplayVisibility : Bool := true
deriving DecidableEq

/-- A `vtkMRMLScalarVolumeNode`: spacing, origin, image data and display node reference. -/
structure vtkMRMLScalarVolumeNode where
  Spacing : Vec3 := (1, 1, 1)
  Origin : Vec3 := (0, 0, 0)
  ImageData : Option vtkImageData := none
  DisplayNodeID : Option NodeID := none
deriving DecidableEq

/-- A `vtkMRMLScalarVolumeDisplayNode`: its color node reference. -/
structure vtkMRMLScalarVolumeDisplayNode where
  ColorNodeID : Option NodeID := none
deriving DecidableEq

/-- The class of a node together with the data of that class. -/
inductive NodeData where
  | ColorTable (n : vtkMRMLColorTableNode)
  | ModelDisplay (n : vtkMRMLModelDisplayNode)
  | Model (n : vtkMRMLModelNode)
  | ModelHierarchy (n : vtkMRMLHierarchyNode)
  | ContourHierarchy (n : vtkMRMLHierarchyNode)
  | AnnotationHierarchy (n : vtkMRMLHierarchyNode)
  | Contour (n : vtkMRMLContourNode)
  | AnnotationFiducial (n : vtkMRMLAnnotationFiducialNode)
  | ScalarVolume (n : vtkMRMLScalarVolumeNode)
  | ScalarVolumeDisplay (n : vtkMRMLScalarVolumeDisplayNode)
deriving DecidableEq

/-- A node object: the members of the base class `vtkMRMLNode` and the class data. -/
structure vtkMRMLNode where
  ID : Option NodeID := none
  Name : String := ""
  HideFromEditors : Bool := true
  Attributes : List (String × String) := []
  data : NodeData
deriving DecidableEq

/-- Effect of `SetAttribute(name, value)`: an existing attribute of that name is replaced, a
new one is appended. -/
def vtkMRMLNode.SetAttribute (n : vtkMRMLNode) (name value : String) : vtkMRMLNode :=
  if n.Attributes.any (fun kv => kv.1 == name) then
    { n with Attributes := n.Attributes.map fun kv => if kv.1 == name then (name, value) else kv }
  else { n with Attributes := n.Attributes ++ [(name, value)] }

/-- Value of an attribute (`GetAttribute`), `none` standing for the null pointer. -/
def vtkMRMLNode.GetAttribute (n : vtkMRMLNode) (name : String) : Option String :=
  (n.Attributes.find? (fun kv => kv.1 == name)).map Prod.snd

/-! ## The scene and the log of observable calls -/

/-- Warnings and errors raised by the logic classes. -/
inductive Message where
  | InvalidLoadableInformation
  | CannotReadPolydata (roiIndex : Nat)
  | RoiHasNoPoints (roiIndex : Nat)
  | RoiAndDisplayNodeCountMismatch
  | FailedToLoadDoseVolume
  | DoseGridScalingNotSet
  | NoSceneForColorNodes
deriving DecidableEq

/-- Calls whose only effect in this embedding is that they happened, in call order. -/
inductive Event where
  | ReaderUpdate (fileName : String)
  | StartState
  | EndState
  | Warning (m : Message)
  | Error (m : Message)
  | SetReferenceActiveVolumeID (id : Option NodeID)
  | PropagateVolumeSelection
  | MarchingCubesUpdate (input : Option vtkImageData) (value : ℚ)
deriving DecidableEq

/-- The objects and the scene a logic call works on: the heap of node objects, the scene
node collection (pointers in `AddNode` order), the counter the scene generates identifiers
from, and the log of calls. -/
structure World where
  heap : List vtkMRMLNode := []
  Nodes : List Ptr := []
  UniqueIDIndex : Nat := 0
  log : List Event := []
deriving DecidableEq

/-- The heap grows by one object. -/
def World.alloc (w : World) (n : vtkMRMLNode) : World :=
  { w with heap := w.heap ++ [n] }

/-- A new node object (`vtkSmartPointer<T>::New()`): appended to the heap; its pointer is
returned with the world. -/
def World.New (w : World) (n : vtkMRMLNode) : World × Ptr :=
  (w.alloc n, w.heap.length)

/-- The node object a pointer refers to. -/
def World.node? (w : World) (p : Ptr) : Option vtkMRMLNode := w.heap[p]?

/-- Update through a pointer. -/
def World.modify (w : World) (p : Ptr) (f : vtkMRMLNode → vtkMRMLNode) : World :=
  { w with heap := w.heap.modify f p }

/-- Effect of `vtkMRMLScene::AddNode`: the scene gives the node a fresh identifier and appends it
to its node collection. -/
def World.AddNode (w : World) (p : Ptr) : World :=
  { w with
    heap := w.heap.modify (fun n => { n with ID := some (NodeID.generated w.UniqueIDIndex) }) p
    Nodes := w.Nodes ++ [p]
    UniqueIDIndex := w.UniqueIDIndex + 1 }

/-- Identifier of the node a pointer refers to (`GetID`). -/
def World.GetID (w : World) (p : Ptr) : Option NodeID := (w.node? p).bind (fun n => n.ID)

/-- The first node of the scene with the given identifier (`GetNodeByID`); the null
identifier finds nothing. -/
def World.GetNodeByID (w : World) (id : Option NodeID) : Option Ptr :=
  match id with
  | none => none
  | some i => w.Nodes.find? (fun p => w.GetID p == some i)

/-- Append an event to the log. -/
def World.emit (w : World) (e : Event) : World := { w with log := w.log ++ [e] }

/-- Update the class data of a node through a pointer. -/
def World.modifyData (w : World) (p : Ptr) (f : NodeData → NodeData) : World :=
  w.modify p fun n => { n with data := f n.data }

/-- Apply `f` to a node if it is a color table node (an update through a
`vtkMRMLColorTableNode*`). -/
def NodeData.mapColorTable (f : vtkMRMLColorTableNode → vtkMRMLColorTableNode) :
    NodeData → NodeData
  | NodeData.ColorTable n => NodeData.ColorTable (f n)
  | d => d

/-- Apply `f` to a node if it is a model display node (an update through the result of
`vtkMRMLModelDisplayNode::SafeDownCast`). -/
def NodeData.mapModelDisplay (f : vtkMRMLModelDisplayNode → vtkMRMLModelDisplayNode) :
    NodeData → NodeData
  | NodeData.ModelDisplay n => NodeData.ModelDisplay (f n)
  | d => d

/-- Apply `f` to a node if it is a hierarchy node of any of the three kinds. -/
def NodeData.mapHierarchy (f : vtkMRMLHierarchyNode → vtkMRMLHierarchyNode) :
    NodeData → NodeData
  | NodeData.ModelHierarchy n => NodeData.ModelHierarchy (f n)
  | NodeData.ContourHierarchy n => NodeData.ContourHierarchy (f n)
  | NodeData.AnnotationHierarchy n => NodeData.AnnotationHierarchy (f n)
  | d => d

/-- Apply `f` to a node if it is a model node. -/
def NodeData.mapModel (f : vtkMRMLModelNode → vtkMRMLModelNode) : NodeData → NodeData
  | NodeData.Model n => NodeData.Model (f n)
  | d => d

/-- Apply `f` to a node if it is a contour node. -/
def NodeData.mapContour (f : vtkMRMLContourNode → vtkMRMLContourNode) : NodeData → NodeData
  | NodeData.Contour n => NodeData.Contour (f n)
  | d => d

/-- Apply `f` to a node if it is a fiducial node. -/
def NodeData.mapFiducial (f : vtkMRMLAnnotationFiducialNode → vtkMRMLAnnotationFiducialNode) :
    NodeData → NodeData
  | NodeData.AnnotationFiducial n => NodeData.AnnotationFiducial (f n)
  | d => d

/-- The class of a node. -/
inductive NodeKind where
  | ColorTable
  | ModelDisplay
  | Model
  | ModelHierarchy
  | ContourHierarchy
  | AnnotationHierarchy
  | Contour
  | AnnotationFiducial
  | ScalarVolume
  | ScalarVolumeDisplay
deriving DecidableEq

/-- The class of a node, read off its data. -/
def NodeData.kind : NodeData → NodeKind
  | NodeData.ColorTable _ => NodeKind.ColorTable
  | NodeData.ModelDisplay _ => NodeKind.ModelDisplay
  | NodeData.Model _ => NodeKind.Model
  | NodeData.ModelHierarchy _ => NodeKind.ModelHierarchy
  | NodeData.ContourHierarchy _ => NodeKind.ContourHierarchy
  | NodeData.AnnotationHierarchy _ => NodeKind.AnnotationHierarchy
  | NodeData.Contour _ => NodeKind.Contour
  | NodeData.AnnotationFiducial _ => NodeKind.AnnotationFiducial
  | NodeData.ScalarVolume _ => NodeKind.ScalarVolume
  | NodeData.ScalarVolumeDisplay _ => NodeKind.ScalarVolumeDisplay

/-- The class of the node a pointer refers to. -/
def World.kind? (w : World) (p : Ptr) : Option NodeKind :=
  (w.node? p).map fun n => n.data.kind

/-- Apply `f` to a node if it is a scalar volume node. -/
def NodeData.mapScalarVolume (f : vtkMRMLScalarVolumeNode → vtkMRMLScalarVolumeNode) :
    NodeData → NodeData
  | NodeData.ScalarVolume n => NodeData.ScalarVolume (f n)
  | d => d

/-- The display node of a model node (`GetModelDisplayNode`): the scene node its display node
reference resolves to; null when the pointer is not a model node or nothing is found. -/
def World.GetModelDisplayNode (w : World) (p : Ptr) : Option Ptr :=
  match w.node? p with
  | some n =>
    match n.data with
    | NodeData.Model m => w.GetNodeByID m.DisplayNodeID
    | _ => none
  | none => none

/-! ## What the logic receives from its collaborators -/

/-- The string constants of `SlicerRtCommon` used by the two logic classes. -/
structure SlicerRtCommon where
  DICOMRTIMPORT_COLOR_TABLE_NODE_NAME_POSTFIX : String
  DICOMRTIMPORT_CONTOUR_NODE_NAME_POSTFIX : String
  DICOMRTIMPORT_ROOT_CONTOUR_HIERARCHY_NODE_NAME_POSTFIX : String
  DICOMRTIMPORT_ROOT_MODEL_HIERARCHY_NODE_NAME_POSTFIX : String
  DICOMRTIMPORT_ISOCENTER_HIERARCHY_NODE_NAME_POSTFIX : String
  CONTOUR_RIBBON_MODEL_NODE_NAME_POSTFIX : String
  DICOMRTIMPORT_SERIES_NAME_ATTRIBUTE_NAME : String
  DICOMRTIMPORT_DOSE_UNIT_NAME_ATTRIBUTE_NAME : String
  DICOMRTIMPORT_DOSE_UNIT_VALUE_ATTRIBUTE_NAME : String
  DICOMRTIMPORT_BEAM_SOURCE_AXIS_DISTANCE_ATTRIBUTE_NAME : String
  DICOMRTIMPORT_BEAM_GANTRY_ANGLE_ATTRIBUTE_NAME : String
  DICOMRTIMPORT_BEAM_COUCH_ANGLE_ATTRIBUTE_NAME : String
  DICOMRTIMPORT_BEAM_COLLIMATOR_ANGLE_ATTRIBUTE_NAME : String
  DICOMRTIMPORT_BEAM_JAW_POSITIONS_ATTRIBUTE_NAME : String

/-- One region of interest held by the RT reader: label, display color and contour poly data
(absent when the reader has none for it). -/
structure RoiEntry where
  Name : String
  DisplayColor : Vec3
  PolyData : Option vtkPolyData
deriving DecidableEq

/-- State of a `vtkSlicerDicomRtReader` after `Update()`: what it reports as loaded, its
regions in order (internal index 0, 1, ...), the dose pixel spacing, dose units and dose grid
scaling strings, and its beam accessors, which take the DICOM beam index. -/
structure vtkSlicerDicomRtReader where
  LoadRTStructureSetSuccessful : Bool
  LoadRTDoseSuccessful : Bool
  LoadRTPlanSuccessful : Bool
  RoiSequenceVector : List RoiEntry
  PixelSpacing : ℚ × ℚ
  DoseUnits : String
  DoseGridScaling : String
  NumberOfBeams : Nat
  BeamName : Nat → String
  BeamIsocenterPositionRas : Nat → Vec3
  BeamSourceAxisDistance : Nat → ℚ
  BeamGantryAngle : Nat → ℚ
  BeamPatientSupportAngle : Nat → ℚ
  BeamBeamLimitingDeviceAngle : Nat → ℚ
  BeamLeafJawPositions : Nat → (ℚ × ℚ) × (ℚ × ℚ)

/-- Number of regions of the reader (`GetNumberOfRois`). -/
def vtkSlicerDicomRtReader.GetNumberOfRois (r : vtkSlicerDicomRtReader) : Nat :=
  r.RoiSequenceVector.length

/-- Label of region `i` (`GetRoiName`). -/
def vtkSlicerDicomRtReader.GetRoiName (r : vtkSlicerDicomRtReader) (i : Nat) : String :=
  match r.RoiSequenceVector[i]? with
  | some e => e.Name
  | none => ""

/-- Display color of region `i` (`GetRoiDisplayColor`). -/
def vtkSlicerDicomRtReader.GetRoiDisplayColor (r : vtkSlicerDicomRtReader) (i : Nat) : Vec3 :=
  match r.RoiSequenceVector[i]? with
  | some e => e.DisplayColor
  | none => (0, 0, 0)

/-- Poly data of region `i` (`GetRoiPolyData`), `none` standing for the null pointer. -/
def vtkSlicerDicomRtReader.GetRoiPolyData (r : vtkSlicerDicomRtReader) (i : Nat) :
    Option vtkPolyData :=
  match r.RoiSequenceVector[i]? with
  | some e => e.PolyData
  | none => none

/-- One loadable of a `vtkDICOMImportInfo`, as handed to `InsertNextLoadable`: the file list
(`none` standing for a null array), the display name, tooltip and warning texts, the
selection flag and the confidence. -/
structure DICOMLoadable where
  Files : Option (List String)
  Name : String
  Tooltip : String := ""
  Warning : String := ""
  Selected : Bool := true
  Confidence : ℚ := 1 / 2
deriving DecidableEq

/-- A `vtkDICOMImportInfo`: the candidate file lists handed to `Examine` and the loadables, in
insertion order. -/
structure vtkDICOMImportInfo where
  FileLists : List (List String) := []
  Loadables : List DICOMLoadable := []
deriving DecidableEq

/-- File list of loadable `i` (`GetLoadableFiles`); null for an index that is not a
loadable. -/
def vtkDICOMImportInfo.GetLoadableFiles (info : vtkDICOMImportInfo) (i : Nat) :
    Option (List String) :=
  (info.Loadables[i]?).bind fun l => l.Files

/-- Name of loadable `i` (`GetLoadableName`). -/
def vtkDICOMImportInfo.GetLoadableName (info : vtkDICOMImportInfo) (i : Nat) : String :=
  match info.Loadables[i]? with
  | some l => l.Name
  | none => ""

/-- Effect of `RemoveAllLoadables`. -/
def vtkDICOMImportInfo.RemoveAllLoadables (info : vtkDICOMImportInfo) : vtkDICOMImportInfo :=
  { info with Loadables := [] }

/-- Effect of `InsertNextLoadable`: the loadable is appended. -/
def vtkDICOMImportInfo.InsertNextLoadable (info : vtkDICOMImportInfo)
    (files : Option (List String)) (name tooltip warning : String) (selected : Bool)
    (confidence : ℚ) : vtkDICOMImportInfo :=
  { info with Loadables := info.Loadables ++ [⟨files, name, tooltip, warning, selected, confidence⟩] }

/-- Number of candidate file lists (`GetNumberOfFileLists`). -/
def vtkDICOMImportInfo.GetNumberOfFileLists (info : vtkDICOMImportInfo) : Nat :=
  info.FileLists.length

/-- Candidate file list `i` (`GetFileList`); an index out of range reads as the empty list. -/
def vtkDICOMImportInfo.GetFileList (info : vtkDICOMImportInfo) (i : Nat) : List String :=
  info.FileLists.getD i []

/-- What the importer obtains from classes outside these files: the reader state produced
for a file name, the result of the volume storage node reading the listed files (`none` when
`ReadData` fails), the levels computed by the topological hierarchy filter for a collection
of poly data, the scene name built for a base name, the text a number is streamed as, and
whether an application logic and its selection node are available. -/
structure ImportEnv where
  Reader : String → vtkSlicerDicomRtReader
  ReadData : String → List String → Option vtkMRMLScalarVolumeNode
  TopologicalHierarchyLevels : List vtkPolyData → List Int
  BuildUniqueName : World → String → String
  StreamDouble : ℚ → String
  HasApplicationLogic : Bool
  HasSelectionNode : Bool

/-- The scene call `GenerateUniqueName`. -/
def GenerateUniqueName (env : ImportEnv) (w : World) (baseName : String) : String :=
  env.BuildUniqueName w baseName

/-- A `for` loop counting from `0` to `n - 1`, with the loop state threaded through. -/
def forLoop {σ : Type} (n : Nat) (body : σ → Nat → σ) (init : σ) : σ :=
  (List.range n).foldl body init

/-! ## `vtkSlicerDicomRtImportModuleLogic` -/

/-- The method `AddRoiPoint`: a locked fiducial named `baseName` with one control point at
`roiPosition` is added to the scene, its text and point display nodes are created and
colored, and it is hidden. Returns the fiducial node. -/
def AddRoiPoint (w : World) (roiPosition : Vec3) (baseName : String) (roiColor : Vec3) :
    World × Ptr :=
  let (w, fiducialNode) := w.New { data := NodeData.AnnotationFiducial {} }
  let w := w.modify fiducialNode fun n =>
    { n with
      Name := baseName
      data := NodeData.mapFiducial (fun f =>
        { f with
          ControlPoints := f.ControlPoints ++ [(roiPosition, false, true)]
          Locked := true }) n.data }
  let w := w.AddNode fiducialNode
  let w := w.modifyData fiducialNode (NodeData.mapFiducial fun f =>
    { f with
      TextDisplayCreated := true
      PointDisplayCreated := true
      GlyphSphere3D := true
      PointDisplayColor := some roiColor
      TextDisplayColor := some roiColor
      DisplayVisibility := false })
  (w, fiducialNode)

/-- The method `AddRoiContour`: a model display node (visible, slice intersections visible,
colored, back-face culling off) and a model node holding `roiPoly` and referring to that
display node are added to the scene. Returns the model node. -/
def AddRoiContour (C : SlicerRtCommon) (env : ImportEnv) (w : World) (roiPoly : vtkPolyData)
    (baseName : String) (roiColor : Vec3) : World × Ptr :=
  let (w, displayNode) := w.New { data := NodeData.ModelDisplay {} }
  let w := w.AddNode displayNode
  let w := w.modifyData displayNode (NodeData.mapModelDisplay fun d =>
    { d with
      SliceIntersectionVisibility := true
      Visibility := true
      Color := roiColor
      BackfaceCulling := false })
  let modelNodeName :=
    GenerateUniqueName env w (baseName ++ C.CONTOUR_RIBBON_MODEL_NODE_NAME_POSTFIX)
  let (w, modelNode) := w.New { data := NodeData.Model {} }
  let w := w.AddNode modelNode
  let w := w.modify modelNode fun n =>
    { n with
      Name := modelNodeName
      HideFromEditors := false
      data := NodeData.mapModel (fun m =>
        { m with
          DisplayNodeID := w.GetID displayNode
          PolyData := some roiPoly
          Selectable := true }) n.data }
  (w, modelNode)

/-- Local variables of the structure-set part of `LoadDicomRT` that live across the loop over
the regions: the world, the collection of contour poly data, the collection of their display
nodes (an item may be a null pointer), and the two lazily created hierarchy roots. -/
structure RoiLoopState where
  w : World
  roiCollection : List vtkPolyData := []
  displayNodeCollection : List (Option Ptr) := []
  modelHierarchyRootNode : Option Ptr := none
  contourHierarchyRootNode : Option Ptr := none

/-- The block "Create Contour node" of the region loop: the contour hierarchy root is created on
first use; a contour node and a contour hierarchy node under the root are added; the display
node of the model is collected. -/
def addContourNode (C : SlicerRtCommon) (env : ImportEnv) (seriesName roiLabel : String)
    (contourNodeName : String) (addedDisplayableNode : Ptr) (st : RoiLoopState) :
    RoiLoopState :=
  let (w, root) :=
    match st.contourHierarchyRootNode with
    | some r => (st.w, r)
    | none =>
      let (w, r) := st.w.New { data := NodeData.ContourHierarchy {} }
      let hierarchyNodeName := GenerateUniqueName env w
        (seriesName ++ C.DICOMRTIMPORT_ROOT_CONTOUR_HIERARCHY_NODE_NAME_POSTFIX)
      let w := w.modify r fun n =>
        ({ n with
          Name := hierarchyNodeName
          HideFromEditors := false
          data := NodeData.mapHierarchy (fun h => { h with AllowMultipleChildren := true })
            n.data }).SetAttribute C.DICOMRTIMPORT_SERIES_NAME_ATTRIBUTE_NAME seriesName
      (w.AddNode r, r)
  let (w, contourNode) := w.New { data := NodeData.Contour {} }
  let w := w.AddNode contourNode
  let w := w.modify contourNode fun n =>
    { n with
      Name := contourNodeName
      HideFromEditors := false
      data := NodeData.mapContour (fun c =>
        { c with
          StructureName := roiLabel
          RibbonModelNodeId := w.GetID addedDisplayableNode
          ActiveRepresentation := some addedDisplayableNode }) n.data }
  let (w, contourHierarchyNode) := w.New { data := NodeData.ContourHierarchy {} }
  let w := w.AddNode contourHierarchyNode
  let w := w.modifyData contourHierarchyNode (NodeData.mapHierarchy fun h =>
    { h with ParentNodeID := w.GetID root, DisplayableNodeID := w.GetID contourNode })
  { st with
    w := w
    contourHierarchyRootNode := some root
    displayNodeCollection :=
      st.displayNodeCollection ++ [w.GetModelDisplayNode addedDisplayableNode] }

/-- The block "Add new node to the hierarchy node" of the region loop: the model hierarchy
root and its display node are created on first use; a model hierarchy node under the root
is added for the new entity. -/
def addToModelHierarchy (C : SlicerRtCommon) (env : ImportEnv) (seriesName : String)
    (addedDisplayableNode : Ptr) (st : RoiLoopState) : RoiLoopState :=
  let (w, root) :=
    match st.modelHierarchyRootNode with
    | some r => (st.w, r)
    | none =>
      let (w, r) := st.w.New { data := NodeData.ModelHierarchy {} }
      let hierarchyNodeName := GenerateUniqueName env w
        (seriesName ++ C.DICOMRTIMPORT_ROOT_MODEL_HIERARCHY_NODE_NAME_POSTFIX)
      let w := w.modify r fun n =>
        { n with
          Name := hierarchyNodeName
          HideFromEditors := false
          data := NodeData.mapHierarchy (fun h => { h with AllowMultipleChildren := true })
            n.data }
      let w := w.AddNode r
      let (w, modelDisplayNode) := w.New { data := NodeData.ModelDisplay {} }
      let w := w.modify modelDisplayNode fun n =>
        { n with
          Name := hierarchyNodeName ++ "Display"
          data := NodeData.mapModelDisplay (fun d => { d with Visibility := true }) n.data }
      let w := w.AddNode modelDisplayNode
      let w := w.modifyData r (NodeData.mapHierarchy fun h =>
        { h with DisplayNodeID := w.GetID modelDisplayNode })
      (w, r)
  let (w, modelHierarchyNode) := w.New { data := NodeData.ModelHierarchy {} }
  let w := w.AddNode modelHierarchyNode
  let w := w.modifyData modelHierarchyNode (NodeData.mapHierarchy fun h =>
    { h with ParentNodeID := w.GetID root, DisplayableNodeID := w.GetID addedDisplayableNode })
  { st with w := w, modelHierarchyRootNode := some root }

/-- One iteration of the loop over the regions, for internal region index
`internalROIIndex`. -/
def roiLoopBody (C : SlicerRtCommon) (env : ImportEnv) (rtReader : vtkSlicerDicomRtReader)
    (seriesName : String) (structureSetColorTableNode : Ptr) (st : RoiLoopState)
    (internalROIIndex : Nat) : RoiLoopState :=
  let roiLabel := rtReader.GetRoiName internalROIIndex
  let roiColor := rtReader.GetRoiDisplayColor internalROIIndex
  -- Save color into the color table
  let w := st.w.modifyData structureSetColorTableNode (NodeData.mapColorTable fun t =>
    t.AddColor roiLabel roiColor.1 roiColor.2.1 roiColor.2.2)
  -- Get structure
  match rtReader.GetRoiPolyData internalROIIndex with
  | none =>
    { st with w := w.emit (Event.Warning (Message.CannotReadPolydata internalROIIndex)) }
  | some roiPoly =>
    if roiPoly.GetNumberOfPoints < 1 then
      { st with w := w.emit (Event.Warning (Message.RoiHasNoPoints internalROIIndex)) }
    else
      let contourNodeName :=
        GenerateUniqueName env w (roiLabel ++ C.DICOMRTIMPORT_CONTOUR_NODE_NAME_POSTFIX)
      if roiPoly.GetNumberOfPoints = 1 then
        -- Point ROI
        let (w, added) := AddRoiPoint w (roiPoly.GetPoint 0) contourNodeName roiColor
        let addedDisplayableNode : Option Ptr := some added
        match addedDisplayableNode with
        | some a => addToModelHierarchy C env seriesName a { st with w := w }
        | none => { st with w := w }
      else
        -- Contour ROI
        let (w, added) := AddRoiContour C env w roiPoly contourNodeName roiColor
        let addedDisplayableNode : Option Ptr := some added
        let st := { st with w := w, roiCollection := st.roiCollection ++ [roiPoly] }
        match addedDisplayableNode with
        | some a =>
          addToModelHierarchy C env seriesName a
            (addContourNode C env seriesName roiLabel contourNodeName a st)
        | none => st

/-- Largest level found by the scan over the output levels, starting from `0`. -/
def numberOfLevels (levels : List Int) : Int :=
  levels.foldl (fun acc v => if v > acc then v else acc) 0

/-- The opacity expression `1.0 - ((double)level) / (numberOfLevels+1)`. -/
def contourOpacity (level numberOfLevels : Int) : ℚ :=
  1 - (level : ℚ) / ((numberOfLevels + 1 : Int) : ℚ)

/-- The block "Set opacities according to topological hierarchy levels": with auto opacity on
and as many collected display nodes as poly data, each collected display node that is a
model display node gets the opacity of the level at its index (`GetValue` outside the level
array reads `0` here); with differing counts a warning is raised and nothing is set. -/
def setContourOpacities (env : ImportEnv) (AutoContourOpacity : Bool)
    (roiCollection : List vtkPolyData) (displayNodeCollection : List (Option Ptr))
    (w : World) : World :=
  if AutoContourOpacity then
    if roiCollection.length = displayNodeCollection.length then
      let levels := env.TopologicalHierarchyLevels roiCollection
      let n := numberOfLevels levels
      forLoop roiCollection.length
        (fun w i =>
          let level := levels.getD i 0
          match displayNodeCollection.getD i none with
          | some displayNode =>
            w.modifyData displayNode (NodeData.mapModelDisplay fun d =>
              { d with Opacity := contourOpacity level n })
          | none => w)
        w
    else w.emit (Event.Warning Message.RoiAndDisplayNodeCountMismatch)
  else w

/-- State of the region loop when it is entered: the color table node has been created,
added to the scene, sized to the number of regions plus two and given its two reserved
colors. Returns the loop state and the color table node. -/
def structureSetColorTable (C : SlicerRtCommon) (env : ImportEnv)
    (rtReader : vtkSlicerDicomRtReader) (seriesName : String) (w : World) : World × Ptr :=
  let (w, structureSetColorTableNode) := w.New { data := NodeData.ColorTable {} }
  let structureSetColorTableNodeName := GenerateUniqueName env w
    (seriesName ++ C.DICOMRTIMPORT_COLOR_TABLE_NODE_NAME_POSTFIX)
  let w := w.modify structureSetColorTableNode fun n =>
    { n with
      Name := structureSetColorTableNodeName
      HideFromEditors := false
      data := NodeData.mapColorTable (fun t => t.SetTypeToUser) n.data }
  let w := w.AddNode structureSetColorTableNode
  let numberOfRois := rtReader.GetNumberOfRois
  let w := w.modifyData structureSetColorTableNode (NodeData.mapColorTable fun t =>
    (({ t.SetNumberOfColors (numberOfRois + 2) with
        TableRange := (0, (numberOfRois : ℚ) + 1) }).AddColor "Background" 0 0 0 0).AddColor
      "Invalid" (1 / 2) (1 / 2) (1 / 2) 1)
  (w, structureSetColorTableNode)

/-- Outcome of the structure-set part: the world, the color table node, and the final values
of the loop variables. -/
structure StructureSetResult where
  final : RoiLoopState
  structureSetColorTableNode : Ptr

/-- The structure-set part of `LoadDicomRT` (the body of the `RTSTRUCT` branch). -/
def LoadRTStructureSet (C : SlicerRtCommon) (env : ImportEnv) (AutoContourOpacity : Bool)
    (rtReader : vtkSlicerDicomRtReader) (seriesName : String) (w : World) :
    StructureSetResult :=
  let w := w.emit Event.StartState
  let (w, ct) := structureSetColorTable C env rtReader seriesName w
  let st := forLoop rtReader.GetNumberOfRois (roiLoopBody C env rtReader seriesName ct)
    { w := w }
  let w := setContourOpacities env AutoContourOpacity st.roiCollection
    st.displayNodeCollection st.w
  let w := w.emit Event.EndState
  { final := { st with w := w }, structureSetColorTableNode := ct }

/-- The loop "Apply dose grid scaling": walks the float buffer and replaces each sample by
the sample times `doseGridScaling`. -/
def applyDoseGridScaling : List ℚ → ℚ → List ℚ
  | [], _ => []
  | x :: rest, doseGridScaling => (x * doseGridScaling) :: applyDoseGridScaling rest doseGridScaling

/-- The value of `doseGridScaling` after `ss << GetDoseGridScaling(); ss >> doubleValue`: the
number read from the text; `0` is what a failed extraction stores. -/
def doseGridScalingOf (text : String) : ℚ := (parseDouble text).getD 0

/-- The float image the dose import stores: the loaded image cast to float, every sample
multiplied by the dose grid scaling. A volume without image data gives an empty image. -/
def scaledDoseImage (loaded : vtkMRMLScalarVolumeNode) (scalingText : String) : vtkImageData :=
  let floatVolumeData :=
    match loaded.ImageData with
    | some img => vtkImageCast img
    | none => { ScalarType := ScalarType.Float, scalars := [] }
  { floatVolumeData with
    scalars := applyDoseGridScaling floatVolumeData.scalars (doseGridScalingOf scalingText) }

/-- The success branch of the dose part of `LoadDicomRT`: `volumeNode` holds what `ReadData`
loaded (`loaded`); it is named and added to the scene, its spacing and dose attributes are
set, its image is replaced by the scaled float image, a display node with the rainbow color
node is added and referenced, and the volume is selected as active volume when a selection
node is available. -/
def importDoseVolume (C : SlicerRtCommon) (env : ImportEnv) (rtReader : vtkSlicerDicomRtReader)
    (seriesName : String) (volumeNode : Ptr) (loaded : vtkMRMLScalarVolumeNode) (w : World) :
    World :=
  let volumeNodeName := GenerateUniqueName env w seriesName
  let w := w.modify volumeNode fun n =>
    { n with Name := volumeNodeName, data := NodeData.mapScalarVolume (fun _ => loaded) n.data }
  let w := w.AddNode volumeNode
  -- Set new spacing
  let initialSpacing := loaded.Spacing
  let correctSpacing := rtReader.PixelSpacing
  let w := w.modify volumeNode fun n =>
    (({ n with
        data := NodeData.mapScalarVolume (fun v =>
          { v with Spacing := (correctSpacing.1, correctSpacing.2, initialSpacing.2.2) })
          n.data }).SetAttribute
      C.DICOMRTIMPORT_DOSE_UNIT_NAME_ATTRIBUTE_NAME rtReader.DoseUnits).SetAttribute
      C.DICOMRTIMPORT_DOSE_UNIT_VALUE_ATTRIBUTE_NAME rtReader.DoseGridScaling
  -- Apply dose grid scaling
  let floatVolumeData := scaledDoseImage loaded rtReader.DoseGridScaling
  let w := w.modifyData volumeNode (NodeData.mapScalarVolume fun v =>
    { v with ImageData := some floatVolumeData })
  -- Set default colormap to rainbow
  let (w, volumeDisplayNode) := w.New
    { data := NodeData.ScalarVolumeDisplay
        { ColorNodeID := some (NodeID.named "vtkMRMLColorTableNodeRainbow") } }
  let w := w.AddNode volumeDisplayNode
  let w := w.modifyData volumeNode (NodeData.mapScalarVolume fun v =>
    { v with DisplayNodeID := w.GetID volumeDisplayNode })
  -- Select as active volume
  if env.HasApplicationLogic ∧ env.HasSelectionNode then
    (w.emit (Event.SetReferenceActiveVolumeID (w.GetID volumeNode))).emit
      Event.PropagateVolumeSelection
  else w

/-- Outcome of the dose part: the world, the volume node object, and whether the volume was
read. -/
structure DoseResult where
  w : World
  volumeNode : Ptr
  readSucceeded : Bool

/-- The dose part of `LoadDicomRT` (the body of the `RTDOSE` branch): the volume is read from
the loadable files; a read failure raises an error and adds nothing to the scene. -/
def LoadRTDose (C : SlicerRtCommon) (env : ImportEnv) (rtReader : vtkSlicerDicomRtReader)
    (firstFileNameStr : String) (files : List String) (seriesName : String) (w : World) :
    DoseResult :=
  let (w, volumeNode) := w.New { data := NodeData.ScalarVolume {} }
  match env.ReadData firstFileNameStr files with
  | some loaded =>
    { w := importDoseVolume C env rtReader seriesName volumeNode loaded w
      volumeNode := volumeNode
      readSucceeded := true }
  | none =>
    { w := w.emit (Event.Error Message.FailedToLoadDoseVolume)
      volumeNode := volumeNode
      readSucceeded := false }

/-- Local variables of the plan part that live across the loop over the beams. -/
structure BeamLoopState where
  w : World
  isocenterHierarchyRootNode : Option Ptr := none

/-- One iteration of the loop over the beams, for DICOM beam index `dicomBeamIndex`: an
isocenter fiducial is added; on first use the isocenter hierarchy root and its display node
are created and the beam attributes are written on the fiducial just added; the fiducial is
put under the root. -/
def beamLoopBody (C : SlicerRtCommon) (env : ImportEnv) (rtReader : vtkSlicerDicomRtReader)
    (seriesName : String) (st : BeamLoopState) (dicomBeamIndex : Nat) : BeamLoopState :=
  let isoColor : Vec3 := (1, 1, 1)
  let (w, added) := AddRoiPoint st.w (rtReader.BeamIsocenterPositionRas dicomBeamIndex)
    (rtReader.BeamName dicomBeamIndex) isoColor
  let addedDisplayableNode : Option Ptr := some added
  match addedDisplayableNode with
  | none => { st with w := w }
  | some a =>
    let (w, root) :=
      match st.isocenterHierarchyRootNode with
      | some r => (w, r)
      | none =>
        let (w, r) := w.New { data := NodeData.AnnotationHierarchy {} }
        let hierarchyNodeName := GenerateUniqueName env w
          (seriesName ++ C.DICOMRTIMPORT_ISOCENTER_HIERARCHY_NODE_NAME_POSTFIX)
        let w := w.modify r fun n =>
          { n with
            Name := hierarchyNodeName
            HideFromEditors := false
            data := NodeData.mapHierarchy (fun h => { h with AllowMultipleChildren := true })
              n.data }
        let w := w.AddNode r
        let (w, modelDisplayNode) := w.New { data := NodeData.ModelDisplay {} }
        let w := w.modify modelDisplayNode fun n =>
          { n with
            Name := hierarchyNodeName ++ "Display"
            data := NodeData.mapModelDisplay (fun d => { d with Visibility := true }) n.data }
        let w := w.AddNode modelDisplayNode
        let w := w.modifyData r (NodeData.mapHierarchy fun h =>
          { h with DisplayNodeID := w.GetID modelDisplayNode })
        let jaw := rtReader.BeamLeafJawPositions dicomBeamIndex
        let w := w.modify a fun n =>
          ((((n.SetAttribute C.DICOMRTIMPORT_BEAM_SOURCE_AXIS_DISTANCE_ATTRIBUTE_NAME
              (env.StreamDouble (rtReader.BeamSourceAxisDistance dicomBeamIndex))).SetAttribute
            C.DICOMRTIMPORT_BEAM_GANTRY_ANGLE_ATTRIBUTE_NAME
              (env.StreamDouble (rtReader.BeamGantryAngle dicomBeamIndex))).SetAttribute
            C.DICOMRTIMPORT_BEAM_COUCH_ANGLE_ATTRIBUTE_NAME
              (env.StreamDouble (rtReader.BeamPatientSupportAngle dicomBeamIndex))).SetAttribute
            C.DICOMRTIMPORT_BEAM_COLLIMATOR_ANGLE_ATTRIBUTE_NAME
              (env.StreamDouble
                (rtReader.BeamBeamLimitingDeviceAngle dicomBeamIndex))).SetAttribute
            C.DICOMRTIMPORT_BEAM_JAW_POSITIONS_ATTRIBUTE_NAME
              (env.StreamDouble jaw.1.1 ++ "," ++ env.StreamDouble jaw.1.2 ++ "," ++
                env.StreamDouble jaw.2.1 ++ "," ++ env.StreamDouble jaw.2.2)
        (w, r)
    let (w, isocenterHierarchyNode) := w.New { data := NodeData.AnnotationHierarchy {} }
    let w := w.AddNode isocenterHierarchyNode
    let w := w.modifyData isocenterHierarchyNode (NodeData.mapHierarchy fun h =>
      { h with ParentNodeID := w.GetID root, DisplayableNodeID := w.GetID a })
    { w := w, isocenterHierarchyRootNode := some root }

/-- The plan part of `LoadDicomRT` (the body of the `RTPLAN` branch): the beam loop runs over
the DICOM beam indices `1, ..., numberOfBeams`. -/
def LoadRTPlan (C : SlicerRtCommon) (env : ImportEnv) (rtReader : vtkSlicerDicomRtReader)
    (seriesName : String) (w : World) : BeamLoopState :=
  let w := w.emit Event.StartState
  let st := forLoop rtReader.NumberOfBeams
    (fun st k => beamLoopBody C env rtReader seriesName st (k + 1)) { w := w }
  { st with w := st.w.emit Event.EndState }

/-- The method `LoadDicomRT` of a logic object whose `AutoContourOpacity` flag has the given
value. Returns the result of the call and the world after it. -/
def LoadDicomRT (C : SlicerRtCommon) (env : ImportEnv) (AutoContourOpacity : Bool)
    (loadInfo : Option vtkDICOMImportInfo) (w : World) : Bool × World :=
  let loadSuccessful := false
  match loadInfo.bind (fun info => info.GetLoadableFiles 0) with
  | none => (loadSuccessful, w.emit (Event.Error Message.InvalidLoadableInformation))
  | some [] => (loadSuccessful, w.emit (Event.Error Message.InvalidLoadableInformation))
  | some (firstFileNameStr :: moreFiles) =>
    let files := firstFileNameStr :: moreFiles
    let seriesName :=
      match loadInfo with
      | some info => info.GetLoadableName 0
      | none => ""
    let rtReader := env.Reader firstFileNameStr
    let w := w.emit (Event.ReaderUpdate firstFileNameStr)
    let loadingErrorsOccurred := false
    -- RTSTRUCT
    let (w, loadSuccessful) :=
      if rtReader.LoadRTStructureSetSuccessful then
        ((LoadRTStructureSet C env AutoContourOpacity rtReader seriesName w).final.w, true)
      else (w, loadSuccessful)
    -- RTDOSE
    let (w, loadSuccessful, loadingErrorsOccurred) :=
      if rtReader.LoadRTDoseSuccessful then
        let r := LoadRTDose C env rtReader firstFileNameStr files seriesName w
        if r.readSucceeded then (r.w, true, loadingErrorsOccurred)
        else (r.w, loadSuccessful, true)
      else (w, loadSuccessful, loadingErrorsOccurred)
    -- RTPLAN
    let (w, loadSuccessful) :=
      if rtReader.LoadRTPlanSuccessful then
        ((LoadRTPlan C env rtReader seriesName w).w, true)
      else (w, loadSuccessful)
    if loadingErrorsOccurred then (false, w) else (loadSuccessful, w)

/-! ## `Examine` -/

/-- The DICOM attributes `Examine` asks a data set for. -/
inductive DcmTagKey where
  | DCM_SOPClassUID
  | DCM_SeriesNumber
  | DCM_InstanceNumber
  | DCM_SeriesDescription
  | DCM_RTPlanLabel
  | DCM_RTPlanName
  | DCM_StructureSetLabel
deriving DecidableEq

/-- A parsed DICOM data set, as far as `Examine` reads it: the string value of each attribute,
`none` when `findAndGetOFString` does not succeed. Text values carry no NUL character, so that
passing them through `c_str()` leaves them as they are. -/
structure DcmDataset where
  findAndGetOFString : DcmTagKey → Option String

/-- SOP class UID of RT image storage (`UID_RTImageStorage`). -/
def UID_RTImageStorage : String := "1.2.840.10008.5.1.4.1.1.481.1"

/-- SOP class UID of RT dose storage (`UID_RTDoseStorage`). -/
def UID_RTDoseStorage : String := "1.2.840.10008.5.1.4.1.1.481.2"

/-- SOP class UID of RT structure set storage (`UID_RTStructureSetStorage`). -/
def UID_RTStructureSetStorage : String := "1.2.840.10008.5.1.4.1.1.481.3"

/-- SOP class UID of RT beams treatment record storage
(`UID_RTBeamsTreatmentRecordStorage`). -/
def UID_RTBeamsTreatmentRecordStorage : String := "1.2.840.10008.5.1.4.1.1.481.4"

/-- SOP class UID of RT plan storage (`UID_RTPlanStorage`). -/
def UID_RTPlanStorage : String := "1.2.840.10008.5.1.4.1.1.481.5"

/-- SOP class UID of RT brachy treatment record storage
(`UID_RTBrachyTreatmentRecordStorage`). -/
def UID_RTBrachyTreatmentRecordStorage : String := "1.2.840.10008.5.1.4.1.1.481.6"

/-- SOP class UID of RT treatment summary record storage
(`UID_RTTreatmentSummaryRecordStorage`). -/
def UID_RTTreatmentSummaryRecordStorage : String := "1.2.840.10008.5.1.4.1.1.481.7"

/-- SOP class UID of RT ion plan storage (`UID_RTIonPlanStorage`). -/
def UID_RTIonPlanStorage : String := "1.2.840.10008.5.1.4.1.1.481.8"

/-- SOP class UID of RT ion beams treatment record storage
(`UID_RTIonBeamsTreatmentRecordStorage`). -/
def UID_RTIonBeamsTreatmentRecordStorage : String := "1.2.840.10008.5.1.4.1.1.481.9"

/-- The body of the inner loop of `Examine` for the candidate file `fileName`: the file is
parsed (`loadFile` yields the data set, `none` when parsing fails); a file that does not
parse, has no or an empty SOP class, or is not an RT dose, plan or structure set is skipped;
otherwise a loadable with the display name built from its attributes is inserted. The test
`empty()` of a string is equality with the empty string. -/
def examineFile (loadFile : String → Option DcmDataset) (importInfo : vtkDICOMImportInfo)
    (fileName : String) : vtkDICOMImportInfo :=
  match loadFile fileName with
  | none => importInfo
  | some dataset =>
    match dataset.findAndGetOFString DcmTagKey.DCM_SOPClassUID with
    | none => importInfo
    | some sopClass =>
      if sopClass = "" then importInfo
      else
        -- DICOM parsing is successful, now check if the object is loadable
        let name := ""
        let tooltip := ""
        let warning := ""
        let selected := true
        let confidence : ℚ := 9 / 10
        let seriesNumber := (dataset.findAndGetOFString DcmTagKey.DCM_SeriesNumber).getD ""
        let name := if seriesNumber ≠ "" then name ++ (seriesNumber ++ ": ") else name
        let named : Option String :=
          if sopClass = UID_RTDoseStorage then
            let name := name ++ "RTDOSE"
            let instanceNumber :=
              (dataset.findAndGetOFString DcmTagKey.DCM_InstanceNumber).getD ""
            let seriesDescription :=
              (dataset.findAndGetOFString DcmTagKey.DCM_SeriesDescription).getD ""
            let name :=
              if seriesDescription ≠ "" then name ++ (": " ++ seriesDescription) else name
            let name :=
              if instanceNumber ≠ "" then name ++ (" [" ++ instanceNumber ++ "]") else name
            some name
          else if sopClass = UID_RTPlanStorage then
            let name := name ++ "RTPLAN"
            let planLabel := (dataset.findAndGetOFString DcmTagKey.DCM_RTPlanLabel).getD ""
            let planName := (dataset.findAndGetOFString DcmTagKey.DCM_RTPlanName).getD ""
            let name :=
              if planLabel ≠ "" ∧ planName ≠ "" then
                if planLabel ≠ planName then
                  -- plan label and name is different, display both
                  name ++ (": " ++ planLabel ++ " (" ++ planName ++ ")")
                else name ++ (": " ++ planLabel)
              else if planLabel ≠ "" ∧ planName = "" then name ++ (": " ++ planLabel)
              else if planLabel = "" ∧ planName ≠ "" then name ++ (": " ++ planName)
              else name
            some name
          else if sopClass = UID_RTStructureSetStorage then
            let name := name ++ "RTSTRUCT"
            let structLabel :=
              (dataset.findAndGetOFString DcmTagKey.DCM_StructureSetLabel).getD ""
            let name := if structLabel ≠ "" then name ++ (": " ++ structLabel) else name
            some name
          else none
        match named with
        | none => importInfo
        | some name =>
          -- The object is stored in a single file
          let loadableFileList := [fileName]
          importInfo.InsertNextLoadable (some loadableFileList) name tooltip warning selected
            confidence

/-- The method `Examine`: the loadables are emptied, then every file of every candidate file
list is examined, in list order and file order. Returns the import information after the
call. -/
def Examine (loadFile : String → Option DcmDataset) (importInfo : vtkDICOMImportInfo) :
    vtkDICOMImportInfo :=
  let importInfo := importInfo.RemoveAllLoadables
  forLoop importInfo.GetNumberOfFileLists
    (fun importInfo fileListIndex =>
      let fileList := importInfo.GetFileList fileListIndex
      forLoop fileList.length
        (fun importInfo fileIndex => examineFile loadFile importInfo (fileList.getD fileIndex ""))
        importInfo)
    importInfo

/-- A data set with the given SOP class and the listed values of other attributes. -/
def sampleDataset (sopClass : String) (values : List (DcmTagKey × String)) : DcmDataset where
  findAndGetOFString := fun tag =>
    if tag = DcmTagKey.DCM_SOPClassUID then some sopClass
    else (values.find? (fun kv => kv.1 = tag)).map Prod.snd

/-! ## `vtkSlicerIsodoseModuleLogic` -/

/-- Index of the table slot a scalar value maps to in the lookup table of a color table
node, after the linear mapping of `vtkLookupTable`: the value is shifted by the lower end of
the table range, scaled by the number of slots over the width of the range, clamped to the
table and truncated. -/
def vtkMRMLColorTableNode.GetIndex (t : vtkMRMLColorTableNode) (v : ℚ) : Nat :=
  let maxIndex : ℚ := (t.Colors.length : ℚ) - 1
  if t.TableRange.2 ≤ t.TableRange.1 then
    if v ≤ t.TableRange.1 then 0 else t.Colors.length - 1
  else
    let findx := (v - t.TableRange.1) * ((maxIndex + 1) / (t.TableRange.2 - t.TableRange.1))
    if findx < 0 then 0
    else if findx > maxIndex then t.Colors.length - 1
    else (Rat.floor findx).toNat

/-- The lookup table call `GetColor(v, rgb)`: the RGB of the slot the value maps to (black for
a slot that was never written). -/
def vtkMRMLColorTableNode.GetColor (t : vtkMRMLColorTableNode) (v : ℚ) : Vec3 :=
  match t.Colors.getD (t.GetIndex v) none with
  | some e => (e.r, e.g, e.b)
  | none => (0, 0, 0)

/-- The lookup table call `GetOpacity(v)`: the alpha of the slot the value maps to. -/
def vtkMRMLColorTableNode.GetOpacity (t : vtkMRMLColorTableNode) (v : ℚ) : ℚ :=
  match t.Colors.getD (t.GetIndex v) none with
  | some e => e.a
  | none => 0

/-- The parameter node `vtkMRMLIsodoseNode`: references to the dose volume and to the output
hierarchy node, and the requested dose levels in order. -/
structure vtkMRMLIsodoseNode where
  DoseVolumeNodeId : Option NodeID
  OutputHierarchyNodeId : Option NodeID
  IsodoseLevelVector : List ℚ

/-- Members of a `vtkSlicerIsodoseModuleLogic` object: whether a scene is attached, the
parameter node, and the cached color table identifier. -/
structure vtkSlicerIsodoseModuleLogic where
  HasMRMLScene : Bool
  IsodoseNode : Option vtkMRMLIsodoseNode := none
  colorTableID : Option NodeID := none

/-- The VTK filters `ComputeIsodose` runs, and the text a number is streamed as. -/
structure IsodoseEnv where
  MarchingCubes : Option vtkImageData → ℚ → vtkPolyData
  TriangleFilter : vtkPolyData → vtkPolyData
  DecimatePro : ℚ → Bool → vtkPolyData → vtkPolyData
  PolyDataNormals : ℚ → vtkPolyData → vtkPolyData
  StreamDouble : ℚ → String

/-- The filter `vtkImageChangeInformation` with an output origin and an output spacing set:
the samples are passed through, origin and spacing are replaced. -/
def vtkImageChangeInformation (input : Option vtkImageData) (origin spacing : Vec3) :
    Option vtkImageData :=
  input.map fun img => { img with Origin := origin, Spacing := spacing }

/-- The C library call `atof` on the text of the attribute: the number the text starts with, `0`
if it starts with none. -/
def atof (text : String) : ℚ := (parseDouble text).getD 0

/-- Local variables of `ComputeIsodose` that live across the loop over the dose levels. -/
structure IsodoseLoopState where
  w : World
  modelHierarchyRootNode : Option Ptr

/-- The block of `ComputeIsodose` that creates the entity of one dose level: a model display
node (visible, slice intersections visible, colored by the lookup table at the dose level,
opacity 0.2, back-face culling off) and a model node named by the dose level, holding the
surface `normals` and referring to that display node, are added to the scene. The opacity of
the lookup table is read and not used. Returns the model node. -/
def addIsodoseModel (env : IsodoseEnv) (lookupTable : vtkMRMLColorTableNode) (w : World)
    (doseLevel : ℚ) (normals : vtkPolyData) : World × Ptr :=
  let (w, displayNode) := w.New { data := NodeData.ModelDisplay {} }
  let w := w.AddNode displayNode
  let rgb := lookupTable.GetColor doseLevel
  let _opacity := lookupTable.GetOpacity doseLevel
  let w := w.modifyData displayNode (NodeData.mapModelDisplay fun d =>
    { d with
      SliceIntersectionVisibility := true
      Visibility := true
      Color := rgb
      Opacity := 2 / 10
      BackfaceCulling := false })
  let (w, modelNode) := w.New { data := NodeData.Model {} }
  let w := w.AddNode modelNode
  let w := w.modify modelNode fun n =>
    { n with
      Name := env.StreamDouble doseLevel
      HideFromEditors := false
      data := NodeData.mapModel (fun m =>
        { m with
          DisplayNodeID := w.GetID displayNode
          PolyData := some normals
          Selectable := true }) n.data }
  (w, modelNode)

/-- The block "Add new node to the hierarchy node" of `ComputeIsodose`: the root object is
created if there is none; then, each time, the root is named, added to the scene and given
a new display node, and a model hierarchy node under the root is added for the model. -/
def addToIsodoseHierarchy (modelNode : Ptr) (st : IsodoseLoopState) : IsodoseLoopState :=
  let (w, root) :=
    match st.modelHierarchyRootNode with
    | some r => (st.w, r)
    | none => st.w.New { data := NodeData.ModelHierarchy {} }
  let w := w.modify root fun n =>
    { n with
      Name := ""
      HideFromEditors := false
      data := NodeData.mapHierarchy (fun h => { h with AllowMultipleChildren := true })
        n.data }
  let w := w.AddNode root
  let (w, modelDisplayNode) := w.New { data := NodeData.ModelDisplay {} }
  let w := w.modify modelDisplayNode fun n =>
    { n with
      Name := "Display"
      data := NodeData.mapModelDisplay (fun d => { d with Visibility := true }) n.data }
  let w := w.AddNode modelDisplayNode
  let w := w.modifyData root (NodeData.mapHierarchy fun h =>
    { h with DisplayNodeID := w.GetID modelDisplayNode })
  let (w, modelHierarchyNode) := w.New { data := NodeData.ModelHierarchy {} }
  let w := w.AddNode modelHierarchyNode
  let w := w.modifyData modelHierarchyNode (NodeData.mapHierarchy fun h =>
    { h with ParentNodeID := w.GetID root, DisplayableNodeID := w.GetID modelNode })
  { w := w, modelHierarchyRootNode := some root }

/-- The surface handed to the model node for an extracted iso-surface: triangulated,
decimated with target reduction 0.9 preserving topology, with normals of feature angle 45. -/
def isodoseSurfacePipeline (env : IsodoseEnv) (isoPolyData : vtkPolyData) : vtkPolyData :=
  let triangles := env.TriangleFilter isoPolyData
  let decimated := env.DecimatePro (9 / 10) true triangles
  env.PolyDataNormals 45 decimated

/-- One iteration of the loop over the dose levels of `ComputeIsodose`. -/
def isodoseLoopBody (env : IsodoseEnv) (lookupTable : vtkMRMLColorTableNode)
    (changeInfoOutput : Option vtkImageData) (st : IsodoseLoopState) (doseLevel : ℚ) :
    IsodoseLoopState :=
  let w := st.w.emit (Event.MarchingCubesUpdate changeInfoOutput doseLevel)
  let isoPolyData := env.MarchingCubes changeInfoOutput doseLevel
  if isoPolyData.GetNumberOfPoints ≥ 1 then
    let normals := isodoseSurfacePipeline env isoPolyData
    let (w, modelNode) := addIsodoseModel env lookupTable w doseLevel normals
    -- Add new node to the hierarchy node
    let added : Option Ptr := some modelNode
    match added with
    | some m => addToIsodoseHierarchy m { st with w := w }
    | none => { st with w := w }
  else { st with w := w }

/-- The scalar volume node a pointer refers to, if it is one (a `SafeDownCast`). -/
def World.scalarVolume? (w : World) (p : Option Ptr) : Option (vtkMRMLNode × vtkMRMLScalarVolumeNode) :=
  match p.bind w.node? with
  | some n =>
    match n.data with
    | NodeData.ScalarVolume v => some (n, v)
    | _ => none
  | none => none

/-- The color table node that is the color node of the display node of a volume
(`GetDisplayNode()->GetColorNode()`), if both references resolve. -/
def World.volumeColorNode? (w : World) (v : vtkMRMLScalarVolumeNode) :
    Option vtkMRMLColorTableNode :=
  match (w.GetNodeByID v.DisplayNodeID).bind w.node? with
  | some d =>
    match d.data with
    | NodeData.ScalarVolumeDisplay dn =>
      match (w.GetNodeByID dn.ColorNodeID).bind w.node? with
      | some c =>
        match c.data with
        | NodeData.ColorTable t => some t
        | _ => none
      | none => none
    | _ => none
  | none => none

/-- The model hierarchy node a pointer refers to, if it is one (a `SafeDownCast`). -/
def World.modelHierarchy? (w : World) (p : Option Ptr) : Option Ptr :=
  match p with
  | some q =>
    match w.node? q with
    | some n =>
      match n.data with
      | NodeData.ModelHierarchy _ => some q
      | _ => none
    | none => none
  | none => none

/-- The method `ComputeIsodose`. The result is `none` when the call dereferences a null pointer
(the dose volume node, its display node or its color node is not found); otherwise it is
the returned integer and the world after the call. -/
def ComputeIsodose (C : SlicerRtCommon) (env : IsodoseEnv) (self : vtkSlicerIsodoseModuleLogic)
    (w : World) : Option (Int × World) :=
  -- Make sure inputs are initialized
  match self.HasMRMLScene, self.IsodoseNode with
  | false, _ => some (0, w)
  | true, none => some (0, w)
  | true, some isodoseNode =>
    match w.scalarVolume? (w.GetNodeByID isodoseNode.DoseVolumeNodeId) with
    | none => none
    | some (doseVolumeNode, doseVolume) =>
      -- Get dose grid scaling and dose units
      let doseGridScalingString :=
        doseVolumeNode.GetAttribute C.DICOMRTIMPORT_DOSE_UNIT_VALUE_ATTRIBUTE_NAME
      let (_doseGridScaling, w) : ℚ × World :=
        match doseGridScalingString with
        | some text => (atof text, w)
        | none => (1, w.emit (Event.Warning Message.DoseGridScalingNotSet))
      let _doseUnitName :=
        doseVolumeNode.GetAttribute C.DICOMRTIMPORT_DOSE_UNIT_NAME_ATTRIBUTE_NAME
      let modelHierarchyRootNode :=
        w.modelHierarchy? (w.GetNodeByID isodoseNode.OutputHierarchyNodeId)
      let w := w.emit Event.StartState
      match w.volumeColorNode? doseVolume with
      | none => none
      | some lookupTable =>
        let origin := doseVolume.Origin
        let spacing := doseVolume.Spacing
        let changeInfoOutput := vtkImageChangeInformation doseVolume.ImageData origin
          (-spacing.1, -spacing.2.1, spacing.2.2)
        let st := isodoseNode.IsodoseLevelVector.foldl
          (isodoseLoopBody env lookupTable changeInfoOutput)
          { w := w, modelHierarchyRootNode := modelHierarchyRootNode }
        some (0, st.w.emit Event.EndState)

/-- The scalar volume data of the node a pointer refers to. -/
def World.volume? (w : World) (p : Ptr) : Option vtkMRMLScalarVolumeNode :=
  (w.scalarVolume? (some p)).map Prod.snd

/-! ## Sample inputs -/

/-- Sample values for the string constants. -/
def sampleCommon : SlicerRtCommon where
  DICOMRTIMPORT_COLOR_TABLE_NODE_NAME_POSTFIX := "_ColorTable"
  DICOMRTIMPORT_CONTOUR_NODE_NAME_POSTFIX := "_Contour"
  DICOMRTIMPORT_ROOT_CONTOUR_HIERARCHY_NODE_NAME_POSTFIX := "_AllContours"
  DICOMRTIMPORT_ROOT_MODEL_HIERARCHY_NODE_NAME_POSTFIX := "_AllStructures"
  DICOMRTIMPORT_ISOCENTER_HIERARCHY_NODE_NAME_POSTFIX := "_Isocenters"
  CONTOUR_RIBBON_MODEL_NODE_NAME_POSTFIX := "_RibbonModel"
  DICOMRTIMPORT_SERIES_NAME_ATTRIBUTE_NAME := "SeriesName"
  DICOMRTIMPORT_DOSE_UNIT_NAME_ATTRIBUTE_NAME := "DoseUnitName"
  DICOMRTIMPORT_DOSE_UNIT_VALUE_ATTRIBUTE_NAME := "DoseUnitValue"
  DICOMRTIMPORT_BEAM_SOURCE_AXIS_DISTANCE_ATTRIBUTE_NAME := "SourceAxisDistance"
  DICOMRTIMPORT_BEAM_GANTRY_ANGLE_ATTRIBUTE_NAME := "GantryAngle"
  DICOMRTIMPORT_BEAM_COUCH_ANGLE_ATTRIBUTE_NAME := "CouchAngle"
  DICOMRTIMPORT_BEAM_COLLIMATOR_ANGLE_ATTRIBUTE_NAME := "CollimatorAngle"
  DICOMRTIMPORT_BEAM_JAW_POSITIONS_ATTRIBUTE_NAME := "JawPositions"

/-- A loaded dose volume with one sample of raw value 100 and spacing (1, 1, 5/2). -/
def sampleLoadedVolume : vtkMRMLScalarVolumeNode where
  Spacing := (1, 1, 5 / 2)
  ImageData := some { ScalarType := ScalarType.Other, scalars := [100] }

/-- A reader state with the given regions, reporting a structure set and a dose, with
pixel spacing (2, 3) and dose grid scaling text 0.01. -/
def sampleReader (rois : List RoiEntry) : vtkSlicerDicomRtReader where
  LoadRTStructureSetSuccessful := true
  LoadRTDoseSuccessful := true
  LoadRTPlanSuccessful := false
  RoiSequenceVector := rois
  PixelSpacing := (2, 3)
  DoseUnits := "GY"
  DoseGridScaling := "0.01"
  NumberOfBeams := 0
  BeamName := fun _ => ""
  BeamIsocenterPositionRas := fun _ => (0, 0, 0)
  BeamSourceAxisDistance := fun _ => 0
  BeamGantryAngle := fun _ => 0
  BeamPatientSupportAngle := fun _ => 0
  BeamBeamLimitingDeviceAngle := fun _ => 0
  BeamLeafJawPositions := fun _ => ((0, 0), (0, 0))

/-- An environment in which the volume read yields `sampleLoadedVolume`, the topological
hierarchy filter reports the given levels, and names are used as they are. -/
def sampleEnv (rois : List RoiEntry) (levels : List Int) : ImportEnv where
  Reader := fun _ => sampleReader rois
  ReadData := fun _ _ => some sampleLoadedVolume
  TopologicalHierarchyLevels := fun _ => levels
  BuildUniqueName := fun _ name => name
  StreamDouble := fun _ => ""
  HasApplicationLogic := false
  HasSelectionNode := false

/-- The empty world: no object, empty scene. -/
def emptyWorld : World := {}

/-- The classes of the nodes added to the scene after world `w0`, read in world `w1`. -/
def World.createdKinds (w0 w1 : World) : List NodeKind :=
  (w1.Nodes.drop w0.Nodes.length).filterMap w1.kind?

/-- The color table data of the node a pointer refers to, if it is a color table node. -/
def World.colorTable? (w : World) (p : Ptr) : Option vtkMRMLColorTableNode :=
  match w.node? p with
  | some n =>
    match n.data with
    | NodeData.ColorTable t => some t
    | _ => none
  | none => none

/-- The color table entry `AddColor` writes for a region: its label and display color, with
alpha 1. -/
def roiColorEntry (e : RoiEntry) : ColorEntry :=
  ⟨e.Name, e.DisplayColor.1, e.DisplayColor.2.1, e.DisplayColor.2.2, 1⟩

/-- State of the structure-set color table when the first `k` of the regions `rois` have been
handled: user type, `k + 2` colors added, one slot per region plus two, the two reserved
colors in front, and the colors of the first `k` regions behind them in order. -/
structure ColorTableAfter (rois : List RoiEntry) (k : Nat) (t : vtkMRMLColorTableNode) :
    Prop where
  type : t.ColorType = ColorTableType.User
  last : t.LastAddedColor = (k : Int) + 1
  length : t.Colors.length = rois.length + 2
  background : t.Colors[0]? = some (some ⟨"Background", 0, 0, 0, 0⟩)
  invalid : t.Colors[1]? = some (some ⟨"Invalid", 1 / 2, 1 / 2, 1 / 2, 1⟩)
  regions : ∀ i (h : i < rois.length), i < k →
    t.Colors[i + 2]? = some (some (roiColorEntry (rois.get ⟨i, h⟩)))

/-- The model display data of the node a pointer refers to, if it is a model display node. -/
def World.modelDisplay? (w : World) (p : Ptr) : Option vtkMRMLModelDisplayNode :=
  match w.node? p with
  | some n =>
    match n.data with
    | NodeData.ModelDisplay d => some d
    | _ => none
  | none => none

/-- A world with two model display nodes in the scene, both with opacity 1. -/
def sampleDisplayWorld : World where
  heap := [{ ID := some (NodeID.generated 0), data := NodeData.ModelDisplay {} },
    { ID := some (NodeID.generated 1), data := NodeData.ModelDisplay {} }]
  Nodes := [0, 1]
  UniqueIDIndex := 2

/-- Scene identifiers generated so far are below the counter of the scene: every node of the
scene with a generated identifier has one below `UniqueIDIndex`. -/
def World.IDsBelow (w : World) : Prop :=
  ∀ p ∈ w.Nodes, ∀ k, w.GetID p = some (NodeID.generated k) → k < w.UniqueIDIndex

/-- What is observed of a surface model in the scene: the name and poly data of the model
node, and the display properties of the display node its display node reference resolves
to. -/
structure SurfaceModel where
  Name : String
  PolyData : Option vtkPolyData
  Display : Option vtkMRMLModelDisplayNode
deriving DecidableEq

/-- The surface model a pointer refers to, if it refers to a model node. -/
def World.surface? (w : World) (p : Ptr) : Option SurfaceModel :=
  match w.node? p with
  | some n =>
    match n.data with
    | NodeData.Model m =>
      some
        { Name := n.Name
          PolyData := m.PolyData
          Display := (w.GetNodeByID m.DisplayNodeID).bind w.modelDisplay? }
    | _ => none
  | none => none

/-- The surface models among the nodes added to the scene after world `w0`, in scene order,
read in world `w1`. -/
def World.createdSurfaces (w0 w1 : World) : List SurfaceModel :=
  (w1.Nodes.drop w0.Nodes.length).filterMap w1.surface?

/-- The calls of the surface extraction filter recorded in a log, in call order: the image and
the contour value of each. -/
def extractionCalls (log : List Event) : List (Option vtkImageData × ℚ) :=
  log.filterMap fun e =>
    match e with
    | Event.MarchingCubesUpdate input value => some (input, value)
    | _ => none

/-- The surface model `ComputeIsodose` is expected to produce for a dose level whose
extracted surface is not empty. -/
def expectedIsodoseSurface (env : IsodoseEnv) (lookupTable : vtkMRMLColorTableNode)
    (changeInfoOutput : Option vtkImageData) (doseLevel : ℚ) : SurfaceModel where
  Name := env.StreamDouble doseLevel
  PolyData := some (isodoseSurfacePipeline env (env.MarchingCubes changeInfoOutput doseLevel))
  Display := some
    { Visibility := true
      SliceIntersectionVisibility := true
      Color := lookupTable.GetColor doseLevel
      Opacity := 2 / 10
      BackfaceCulling := false }

/-- The loop state has a usable root: the root pointer, if set, refers to a model hierarchy
node. -/
def IsodoseLoopState.RootOK (st : IsodoseLoopState) : Prop :=
  ∀ r, st.modelHierarchyRootNode = some r → st.w.kind? r = some NodeKind.ModelHierarchy

/-- World `w1` arises from `w0` by steps that only append to the scene, allocate objects,
generate fresh identifiers, keep the class of every object, and leave every object that is
not a model hierarchy node as it is. -/
structure World.Evolves (w0 w1 : World) : Prop where
  nodes : ∃ added, w1.Nodes = w0.Nodes ++ added
  heap : w0.heap.length ≤ w1.heap.length
  counter : w0.UniqueIDIndex ≤ w1.UniqueIDIndex
  frame : ∀ q, q < w0.heap.length → w0.kind? q ≠ some NodeKind.ModelHierarchy →
    w1.node? q = w0.node? q
  kinds : ∀ q, q < w0.heap.length → w1.kind? q = w0.kind? q
  ids : ∀ q k, k < w0.UniqueIDIndex → w1.GetID q = some (NodeID.generated k) →
    w0.GetID q = some (NodeID.generated k)
  below : w0.IDsBelow → w1.IDsBelow

/-- A surface model `s` sits at pointer `p`: the node at `p` is a model node with the name and
poly data of `s`; its display node reference is the generated identifier `k`, which resolves
to the model display node at `d` with the display properties of `s`. -/
structure World.SurfaceAt (w : World) (p : Ptr) (s : SurfaceModel) (d : Ptr) (k : Nat) :
    Prop where
  node : ∃ n m, w.node? p = some n ∧ n.data = NodeData.Model m ∧ n.Name = s.Name ∧
    m.PolyData = s.PolyData ∧ m.DisplayNodeID = some (NodeID.generated k)
  lookup : w.GetNodeByID (some (NodeID.generated k)) = some d
  display : ∃ dn, w.modelDisplay? d = some dn ∧ s.Display = some dn
  fresh : k < w.UniqueIDIndex


/-- A scene with a dose volume of two samples, 1/2 and 5/2 (node 0, carrying the dose grid
scaling attribute), its display node (node 1) and the color table node the display node
refers to (node 2), whose colors all have the given alpha. -/
def sampleIsodoseWorld (alpha : ℚ) : World where
  heap :=
    [{ ID := some (NodeID.generated 0)
       Name := "dose"
       Attributes := [("DoseUnitValue", "0.01")]
       data := NodeData.ScalarVolume
         { ImageData := some { ScalarType := ScalarType.Float, scalars := [1 / 2, 5 / 2] }
           DisplayNodeID := some (NodeID.generated 1) } },
     { ID := some (NodeID.generated 1)
       data := NodeData.ScalarVolumeDisplay { ColorNodeID := some (NodeID.generated 2) } },
     { ID := some (NodeID.generated 2)
       data := NodeData.ColorTable
         { ColorType := ColorTableType.User
           Colors := [some ⟨"low", 1, 1, 0, alpha⟩, some ⟨"high", 1, 0, 0, alpha⟩]
           LastAddedColor := 1
           TableRange := (0, 4) } }]
  Nodes := [0, 1, 2]
  UniqueIDIndex := 3

/-- Filters for the sample runs: the extraction yields one point when the contour value lies
between the smallest and the largest sample and nothing otherwise; the other filters pass
their input through; the levels 1 and 2 are streamed as "1" and "2". -/
def sampleIsodoseEnv : IsodoseEnv where
  MarchingCubes := fun input value =>
    match input with
    | some img =>
      if img.scalars.any (fun x => decide (x ≤ value)) ∧
          img.scalars.any (fun x => decide (value ≤ x)) then
        { points := [(value, 0, 0)] }
      else { points := [] }
    | none => { points := [] }
  TriangleFilter := fun p => p
  DecimatePro := fun _ _ p => p
  PolyDataNormals := fun _ p => p
  StreamDouble := fun x => if x = 1 then "1" else if x = 2 then "2" else "other"

/-- A logic object with a scene and a parameter node asking for the levels 1, 2, 3 on the
dose volume of the sample scene, with no output hierarchy node yet. -/
def sampleIsodoseLogic : vtkSlicerIsodoseModuleLogic where
  HasMRMLScene := true
  IsodoseNode := some
    { DoseVolumeNodeId := some (NodeID.generated 0)
      OutputHierarchyNodeId := none
      IsodoseLevelVector := [1, 2, 3] }


/-- The dose levels whose extracted surface has at least one point, in request order. -/
def producedLevels (env : IsodoseEnv) (img : Option vtkImageData) (levels : List ℚ) : List ℚ :=
  levels.filter fun lvl => decide (1 ≤ (env.MarchingCubes img lvl).GetNumberOfPoints)

/-- The image handed to the surface extraction for a dose volume: its image data with the
origin of the volume and its spacing, the two in-plane components negated. -/
def isodoseInputImage (v : vtkMRMLScalarVolumeNode) : Option vtkImageData :=
  vtkImageChangeInformation v.ImageData v.Origin (-v.Spacing.1, -v.Spacing.2.1, v.Spacing.2.2)

/-- A parser for the sample runs: `plan.dcm` is an RT plan of series 7 with label `A` and name
`B`, `dose.dcm` an RT dose with instance number 3 and nothing else, `image.dcm` an RT image;
any other file does not parse. -/
def sampleLoadFile : String → Option DcmDataset := fun f =>
  if f = "plan.dcm" then
    some (sampleDataset UID_RTPlanStorage
      [(DcmTagKey.DCM_SeriesNumber, "7"), (DcmTagKey.DCM_RTPlanLabel, "A"),
        (DcmTagKey.DCM_RTPlanName, "B")])
  else if f = "dose.dcm" then
    some (sampleDataset UID_RTDoseStorage [(DcmTagKey.DCM_InstanceNumber, "3")])
  else if f = "image.dcm" then some (sampleDataset UID_RTImageStorage [])
  else none

/-- Two candidate file lists for the sample runs. -/
def sampleImportInfo : vtkDICOMImportInfo where
  FileLists := [["plan.dcm", "image.dcm"], ["broken.dcm", "dose.dcm"]]

/-- The hierarchy data of the node a pointer refers to, if it is a hierarchy node of one of
the three kinds. -/
def World.hierarchy? (w : World) (p : Ptr) : Option vtkMRMLHierarchyNode :=
  match w.node? p with
  | some n =>
    match n.data with
    | NodeData.ModelHierarchy h => some h
    | NodeData.ContourHierarchy h => some h
    | NodeData.AnnotationHierarchy h => some h
    | _ => none
  | none => none

/-- The nodes of class `k` among the nodes added to the scene after world `w0`, in scene
order, read in world `w1`. -/
def World.createdOfKind (w0 w1 : World) (k : NodeKind) : List Ptr :=
  (w1.Nodes.drop w0.Nodes.length).filter fun p => w1.kind? p == some k

/-- World `w1` arises from `w0` by creating `n` objects and adding each to the scene, in the
order of creation: the objects are the pointers from the old heap size on, they are the
nodes appended to the scene, object number `j` carries the `j`-th identifier generated from
the old counter on, and the objects of `w0` keep their identifier and class and, unless they
are color table or model display nodes, all of their state. -/
structure World.Block (w0 w1 : World) (n : Nat) : Prop where
  heap : w1.heap.length = w0.heap.length + n
  nodes : w1.Nodes = w0.Nodes ++ List.range' w0.heap.length n
  counter : w1.UniqueIDIndex = w0.UniqueIDIndex + n
  ids : ∀ j, j < n →
    w1.GetID (w0.heap.length + j) = some (NodeID.generated (w0.UniqueIDIndex + j))
  getID : ∀ q, q < w0.heap.length → w1.GetID q = w0.GetID q
  kinds : ∀ q, q < w0.heap.length → w1.kind? q = w0.kind? q
  frame : ∀ q, q < w0.heap.length → w0.kind? q ≠ some NodeKind.ColorTable →
    w0.kind? q ≠ some NodeKind.ModelDisplay → w1.node? q = w0.node? q

/-- A lazily created hierarchy among the scene nodes `created`: the nodes of class `kind` are
the root, if it exists, followed by the child nodes `children`; there is a root exactly when
there is a child; the root has an identifier and no parent; child number `i` refers to the
root as its parent and to `members[i]` as the node it stands for. -/
structure World.HierarchyOf (w : World) (created : List Ptr) (kind : NodeKind)
    (root : Option Ptr) (children members : List Ptr) : Prop where
  nodes : created.filter (fun p => w.kind? p == some kind) = root.toList ++ children
  lazy : root = none ↔ children = []
  top : ∀ r, root = some r →
    ∃ h, w.hierarchy? r = some h ∧ h.ParentNodeID = none ∧ (w.GetID r).isSome
  child : List.Forall₂
    (fun c m => ∃ h, w.hierarchy? c = some h ∧ h.ParentNodeID = root.bind w.GetID ∧
      h.DisplayableNodeID = w.GetID m ∧ (w.GetID m).isSome)
    children members
  members_sub : ∀ m ∈ members, m ∈ created

/-- The fiducial node `AddRoiPoint` leaves behind for a position, a name and a color, with
the identifier the scene gave it. -/
def roiPointNode (roiPosition : Vec3) (baseName : String) (roiColor : Vec3)
    (id : Option NodeID) : vtkMRMLNode where
  ID := id
  Name := baseName
  data := NodeData.AnnotationFiducial
    { ControlPoints := [(roiPosition, false, true)]
      Locked := true
      PointDisplayCreated := true
      TextDisplayCreated := true
      GlyphSphere3D := true
      PointDisplayColor := some roiColor
      TextDisplayColor := some roiColor
      DisplayVisibility := false }

/-- A node after the five beam attributes of the beam with DICOM index `dicomBeamIndex` have
been set on it, in the order of the source. -/
def withBeamAttributes (C : SlicerRtCommon) (env : ImportEnv) (rtReader : vtkSlicerDicomRtReader)
    (dicomBeamIndex : Nat) (n : vtkMRMLNode) : vtkMRMLNode :=
  ((((n.SetAttribute C.DICOMRTIMPORT_BEAM_SOURCE_AXIS_DISTANCE_ATTRIBUTE_NAME
      (env.StreamDouble (rtReader.BeamSourceAxisDistance dicomBeamIndex))).SetAttribute
    C.DICOMRTIMPORT_BEAM_GANTRY_ANGLE_ATTRIBUTE_NAME
      (env.StreamDouble (rtReader.BeamGantryAngle dicomBeamIndex))).SetAttribute
    C.DICOMRTIMPORT_BEAM_COUCH_ANGLE_ATTRIBUTE_NAME
      (env.StreamDouble (rtReader.BeamPatientSupportAngle dicomBeamIndex))).SetAttribute
    C.DICOMRTIMPORT_BEAM_COLLIMATOR_ANGLE_ATTRIBUTE_NAME
      (env.StreamDouble (rtReader.BeamBeamLimitingDeviceAngle dicomBeamIndex))).SetAttribute
    C.DICOMRTIMPORT_BEAM_JAW_POSITIONS_ATTRIBUTE_NAME
      (env.StreamDouble (rtReader.BeamLeafJawPositions dicomBeamIndex).1.1 ++ "," ++
        env.StreamDouble (rtReader.BeamLeafJawPositions dicomBeamIndex).1.2 ++ "," ++
        env.StreamDouble (rtReader.BeamLeafJawPositions dicomBeamIndex).2.1 ++ "," ++
        env.StreamDouble (rtReader.BeamLeafJawPositions dicomBeamIndex).2.2)

/-- The isocenter fiducial node the plan part leaves behind for the beam with DICOM index
`dicomBeamIndex`: the node of `AddRoiPoint` at the isocenter of the beam, named for the beam
and colored white; the node of the first beam carries the beam attributes in addition. -/
def isocenterMarkerNode (C : SlicerRtCommon) (env : ImportEnv)
    (rtReader : vtkSlicerDicomRtReader) (dicomBeamIndex : Nat) (id : Option NodeID) :
    vtkMRMLNode :=
  if dicomBeamIndex = 1 then
    withBeamAttributes C env rtReader dicomBeamIndex
      (roiPointNode (rtReader.BeamIsocenterPositionRas dicomBeamIndex)
        (rtReader.BeamName dicomBeamIndex) (1, 1, 1) id)
  else
    roiPointNode (rtReader.BeamIsocenterPositionRas dicomBeamIndex)
      (rtReader.BeamName dicomBeamIndex) (1, 1, 1) id

/-- State of the beam loop after `k` beams, started in world `w0`: the nodes added are a
block; the objects of `w0` are untouched and nothing is logged; the isocenter root exists
exactly when a beam has been handled; the fiducials added are the markers of the beams
`1, ..., k` in order; the annotation hierarchy nodes added are the root and one child per
marker; every node added is a fiducial, an annotation hierarchy node or a model display
node. -/
structure BeamLoopInv (C : SlicerRtCommon) (env : ImportEnv) (rtReader : vtkSlicerDicomRtReader)
    (w0 : World) (k : Nat) (st : BeamLoopState) (markers children : List Ptr) : Prop where
  block : ∃ n, World.Block w0 st.w n
  frame : ∀ q, q < w0.heap.length → st.w.node? q = w0.node? q
  log : st.w.log = w0.log
  root_iff : st.isocenterHierarchyRootNode = none ↔ k = 0
  fiducials : World.createdOfKind w0 st.w NodeKind.AnnotationFiducial = markers
  markerNodes : List.Forall₂
    (fun m j => ∃ id, st.w.node? m = some (isocenterMarkerNode C env rtReader (j + 1) id))
    markers (List.range k)
  hierarchy : st.w.HierarchyOf (st.w.Nodes.drop w0.Nodes.length) NodeKind.AnnotationHierarchy
    st.isocenterHierarchyRootNode children markers
  classes : ∀ p ∈ st.w.Nodes.drop w0.Nodes.length,
    st.w.kind? p = some NodeKind.AnnotationFiducial ∨
    st.w.kind? p = some NodeKind.AnnotationHierarchy ∨
    st.w.kind? p = some NodeKind.ModelDisplay

/-- A reader state reporting a plan with two beams: beam 1 (`Beam1`) with isocenter (1, 2, 3),
source-axis distance 100, all angles 0 and jaw positions -5, 5, -5, 5; beam 2 (`Beam2`) with
isocenter (4, 5, 6). -/
def samplePlanReader : vtkSlicerDicomRtReader where
  LoadRTStructureSetSuccessful := false
  LoadRTDoseSuccessful := false
  LoadRTPlanSuccessful := true
  RoiSequenceVector := []
  PixelSpacing := (1, 1)
  DoseUnits := ""
  DoseGridScaling := ""
  NumberOfBeams := 2
  BeamName := fun k => if k = 1 then "Beam1" else "Beam2"
  BeamIsocenterPositionRas := fun k => if k = 1 then (1, 2, 3) else (4, 5, 6)
  BeamSourceAxisDistance := fun _ => 100
  BeamGantryAngle := fun _ => 0
  BeamPatientSupportAngle := fun _ => 0
  BeamBeamLimitingDeviceAngle := fun _ => 0
  BeamLeafJawPositions := fun _ => ((-5, 5), (-5, 5))

/-- An environment for the sample plan: the reader is `samplePlanReader`, nothing can be
read as a volume, and the numbers 100, 0, -5 and 5 are streamed as their decimal text. -/
def samplePlanEnv : ImportEnv where
  Reader := fun _ => samplePlanReader
  ReadData := fun _ _ => none
  TopologicalHierarchyLevels := fun _ => []
  BuildUniqueName := fun _ name => name
  StreamDouble := fun x =>
    if x = 100 then "100" else if x = 0 then "0" else if x = -5 then "-5"
    else if x = 5 then "5" else "?"
  HasApplicationLogic := false
  HasSelectionNode := false

/-- World `w1` arises from `w0` by creating one object of each class listed in `kinds`, in
this order, and adding each to the scene. -/
structure World.Adds (w0 w1 : World) (kinds : List NodeKind) : Prop where
  block : World.Block w0 w1 kinds.length
  kinds : (List.range' w0.heap.length kinds.length).map w1.kind? = kinds.map some

/-- Whether the poly data of region `i` of the reader has at least `n` points. -/
def vtkSlicerDicomRtReader.roiHasPoints (r : vtkSlicerDicomRtReader) (n : Nat) (i : Nat) :
    Bool :=
  match r.GetRoiPolyData i with
  | some roiPoly => decide (n ≤ roiPoly.GetNumberOfPoints)
  | none => false

/-- State of the region loop after `k` regions, started in world `w0`: the classes of the
nodes added are `kinds`; the model hierarchy nodes added are the structure root and one
child per entity in `entities`, the contour hierarchy nodes added are the contour root and
one child per contour node in `contours`; there are as many entities as model and fiducial
nodes added and as many contour nodes as model nodes; a model node was added for each region
so far with two or more points and a fiducial for each region with exactly one point; no
volume node and no volume display node was added. -/
structure RoiLoopInv (rtReader : vtkSlicerDicomRtReader) (w0 : World) (k : Nat)
    (st : RoiLoopState) (kinds : List NodeKind)
    (mchildren entities cchildren contours : List Ptr) : Prop where
  adds : World.Adds w0 st.w kinds
  modelHierarchy : st.w.HierarchyOf (st.w.Nodes.drop w0.Nodes.length) NodeKind.ModelHierarchy
    st.modelHierarchyRootNode mchildren entities
  contourHierarchy : st.w.HierarchyOf (st.w.Nodes.drop w0.Nodes.length)
    NodeKind.ContourHierarchy st.contourHierarchyRootNode cchildren contours
  entities_length : entities.length =
    kinds.count NodeKind.Model + kinds.count NodeKind.AnnotationFiducial
  contours_length : contours.length = kinds.count NodeKind.Model
  surfaces : kinds.count NodeKind.Model =
    ((List.range k).filter (rtReader.roiHasPoints 2)).length
  entitiesCreated : kinds.count NodeKind.Model + kinds.count NodeKind.AnnotationFiducial =
    ((List.range k).filter (rtReader.roiHasPoints 1)).length
  classes : NodeKind.ScalarVolume ∉ kinds ∧ NodeKind.ScalarVolumeDisplay ∉ kinds

/-- Three regions with three points each. -/
def sampleThreeSurfaces : List RoiEntry :=
  [{ Name := "A", DisplayColor := (1, 0, 0),
     PolyData := some { points := [(0, 0, 0), (1, 0, 0), (0, 1, 0)] } },
   { Name := "B", DisplayColor := (0, 1, 0),
     PolyData := some { points := [(5, 0, 0), (6, 0, 0), (5, 1, 0)] } },
   { Name := "C", DisplayColor := (0, 0, 1),
     PolyData := some { points := [(9, 0, 0), (10, 0, 0), (9, 1, 0)] } }]

/-- Two regions without mesh data: one without poly data, one with poly data without
points. -/
def sampleEmptyRegions : List RoiEntry :=
  [{ Name := "A", DisplayColor := (1, 0, 0), PolyData := none },
   { Name := "B", DisplayColor := (0, 1, 0), PolyData := some { points := [] } }]

/-- The `RTSTRUCT` block of `LoadDicomRT`: the world when the block is left; the
structure-set part runs when the reader reports a structure set. -/
def structureSetBlock (C : SlicerRtCommon) (env : ImportEnv) (AutoContourOpacity : Bool)
    (rtReader : vtkSlicerDicomRtReader) (seriesName : String) (w : World) : World :=
  if rtReader.LoadRTStructureSetSuccessful then
    (LoadRTStructureSet C env AutoContourOpacity rtReader seriesName w).final.w
  else w

/-- The `RTDOSE` block of `LoadDicomRT`: the world when the block is left; the dose part runs
when the reader reports a dose. -/
def doseBlock (C : SlicerRtCommon) (env : ImportEnv) (rtReader : vtkSlicerDicomRtReader)
    (firstFileNameStr : String) (files : List String) (seriesName : String) (w : World) :
    World :=
  if rtReader.LoadRTDoseSuccessful then
    (LoadRTDose C env rtReader firstFileNameStr files seriesName w).w
  else w

/-- The `RTPLAN` block of `LoadDicomRT`: the world when the block is left; the plan part runs
when the reader reports a plan. -/
def planBlock (C : SlicerRtCommon) (env : ImportEnv) (rtReader : vtkSlicerDicomRtReader)
    (seriesName : String) (w : World) : World :=
  if rtReader.LoadRTPlanSuccessful then (LoadRTPlan C env rtReader seriesName w).w else w

/-- A reader state reporting all three parts: the three regions of `sampleThreeSurfaces`, a
dose, and the two beams of `samplePlanReader`. -/
def sampleSeriesReader : vtkSlicerDicomRtReader :=
  { samplePlanReader with
    LoadRTStructureSetSuccessful := true
    LoadRTDoseSuccessful := true
    RoiSequenceVector := sampleThreeSurfaces }

/-- An environment in which the reader state is `sampleSeriesReader` and nothing can be read
as a volume. -/
def sampleSeriesEnv : ImportEnv :=
  { samplePlanEnv with Reader := fun _ => sampleSeriesReader }

/-- Loadable information with one loadable, named `RT`, of one file. -/
def sampleLoadInfo : vtkDICOMImportInfo where
  Loadables := [{ Files := some ["rt.dcm"], Name := "RT" }]

/-- An environment whose reader reports a structure set only, with the regions of
`sampleEmptyRegions`, none of which has a point. -/
def sampleStructureOnlyEnv : ImportEnv :=
  { sampleEnv sampleEmptyRegions [] with
    Reader := fun _ => { sampleReader sampleEmptyRegions with LoadRTDoseSuccessful := false } }

/-! ## The default isodose color node -/

/-- Text of the type of a color table (`GetTypeAsString`): `UserDefined` for the user type
and `File` for the file type; the other types are not told apart here. -/
def ColorTableType.GetTypeAsString : ColorTableType → String
  | ColorTableType.User => "UserDefined"
  | ColorTableType.File => "File"
  | ColorTableType.Other => "(unknown)"

/-- A logic object as the constructor leaves it: no scene, no parameter node, and a null
cached color table identifier. -/
def vtkSlicerIsodoseModuleLogic.fresh : vtkSlicerIsodoseModuleLogic where
  HasMRMLScene := false
  IsodoseNode := none
  colorTableID := none

/-- The method `CreateIsodoseColorNode`: a new color table node, not added to any scene; its
identifier at that moment is stored in the cache; the node is named `IsodoseColor`, made a
user table, given its category attribute, excluded from saving, tagged as singleton by its
type text, and filled with six colors of alpha 0.2. Returns the logic object, the world and
the node. -/
def CreateIsodoseColorNode (self : vtkSlicerIsodoseModuleLogic) (w : World) :
    vtkSlicerIsodoseModuleLogic × World × Ptr :=
  let (w, colorTableNode) := w.New { data := NodeData.ColorTable {} }
  let self := { self with colorTableID := w.GetID colorTableNode }
  let w := w.modify colorTableNode fun n => { n with Name := "IsodoseColor" }
  let w := w.modifyData colorTableNode (NodeData.mapColorTable fun t => t.SetTypeToUser)
  let w := w.modify colorTableNode fun n => n.SetAttribute "Category" "User Generated"
  let w := w.modifyData colorTableNode (NodeData.mapColorTable fun t =>
    { t with SaveWithScene := false })
  let w := w.modifyData colorTableNode (NodeData.mapColorTable fun t =>
    { t with SingletonTag := some t.ColorType.GetTypeAsString })
  let w := w.modifyData colorTableNode (NodeData.mapColorTable fun t =>
    ((((((t.SetNumberOfColors 6).SetColor 0 "1 Gy" 1 1 0 (2 / 10)).SetColor 1 "2 Gy" 1 0 1
      (2 / 10)).SetColor 2 "3 Gy" 0 1 1 (2 / 10)).SetColor 3 "4 Gy" 0 1 0 (2 / 10)).SetColor 4
      "5 Gy" 0 0 1 (2 / 10)).SetColor 5 "6 Gy" 1 0 0 (2 / 10))
  (self, w, colorTableNode)

/-- The method `AddDefaultIsodoseColorNode`: without a scene a warning is raised and nothing
else happens; with a scene the isodose color node is created, its identifier at that moment
is stored in the cache, and the node is added to the scene, inside a batch state. -/
def AddDefaultIsodoseColorNode (self : vtkSlicerIsodoseModuleLogic) (w : World) :
    vtkSlicerIsodoseModuleLogic × World :=
  if self.HasMRMLScene = false then
    (self, w.emit (Event.Warning Message.NoSceneForColorNodes))
  else
    let w := w.emit Event.StartState
    let (self, w, isodoseColorNode) := CreateIsodoseColorNode self w
    let self := { self with colorTableID := w.GetID isodoseColorNode }
    let w := w.AddNode isodoseColorNode
    let w := w.emit Event.EndState
    (self, w)

/-- The method `GetDefaultLabelMapColorNodeID`: when the cached identifier is null the
default isodose color node is added; then the cache is set to the fixed identifier, which is
returned. Returns the identifier, the logic object and the world. -/
def GetDefaultLabelMapColorNodeID (self : vtkSlicerIsodoseModuleLogic) (w : World) :
    String × vtkSlicerIsodoseModuleLogic × World :=
  let (self, w) :=
    if self.colorTableID = none then AddDefaultIsodoseColorNode self w else (self, w)
  let temp := "vtkMRMLColorTableNodeUserDefined"
  let self := { self with colorTableID := some (NodeID.named temp) }
  ("vtkMRMLColorTableNodeUserDefined", self, w)

/-- One call of `GetDefaultLabelMapColorNodeID` in a sequence of calls: the call is made with
the scene attached or not as `hasScene` says, and the identifier returned is recorded behind
those of the earlier calls. -/
def callGetDefaultLabelMapColorNodeID
    (acc : List String × vtkSlicerIsodoseModuleLogic × World) (hasScene : Bool) :
    List String × vtkSlicerIsodoseModuleLogic × World :=
  let r := GetDefaultLabelMapColorNodeID { acc.2.1 with HasMRMLScene := hasScene } acc.2.2
  (acc.1 ++ [r.1], r.2.1, r.2.2)

/-- A sequence of calls of `GetDefaultLabelMapColorNodeID` on one logic object, call number
`i` made with the scene attached or not as `scenes[i]` says. Returns the identifiers
returned, in call order, the logic object and the world after the last call. -/
def callsOfGetDefaultLabelMapColorNodeID (scenes : List Bool)
    (self : vtkSlicerIsodoseModuleLogic) (w : World) :
    List String × vtkSlicerIsodoseModuleLogic × World :=
  scenes.foldl callGetDefaultLabelMapColorNodeID ([], self, w)

/-! ## Registrations of the isodose hierarchy root -/

/-- Whether the node a pointer refers to is a model display node named `Display`: the
display node the hierarchy block of `ComputeIsodose` creates for the root. -/
def World.isRootDisplay (w : World) (p : Ptr) : Bool :=
  match w.node? p with
  | some n => n.data.kind == NodeKind.ModelDisplay && n.Name == "Display"
  | none => false

/-- What `k` produced dose levels leave among the nodes `added` to the scene by the loop of
`ComputeIsodose`, read in world `w`, with `root` the root variable of the loop: `k` model
nodes; `2 * k` entries that are model hierarchy nodes; `k` root display nodes; the root, if
set, is `k` times among the nodes added; and the root is set once a level is produced. -/
structure IsodoseRegistrations (w : World) (added : List Ptr) (root : Option Ptr) (k : Nat) :
    Prop where
  lt : ∀ p ∈ added, p < w.heap.length
  models : added.countP (fun p => w.kind? p == some NodeKind.Model) = k
  hierarchyNodes : added.countP (fun p => w.kind? p == some NodeKind.ModelHierarchy) = 2 * k
  rootDisplays : added.countP w.isRootDisplay = k
  rootEntries : ∀ r, root = some r → added.count r = k
  hasRoot : 1 ≤ k → root.isSome = true

/-! ## The entity of one region -/

/-- The world of an iteration of the region loop right after the color of the region is
saved into the color table. -/
def saveRoiColor (rtReader : vtkSlicerDicomRtReader) (structureSetColorTableNode : Ptr)
    (w : World) (internalROIIndex : Nat) : World :=
  w.modifyData structureSetColorTableNode (NodeData.mapColorTable fun t =>
    t.AddColor (rtReader.GetRoiName internalROIIndex)
      (rtReader.GetRoiDisplayColor internalROIIndex).1
      (rtReader.GetRoiDisplayColor internalROIIndex).2.1
      (rtReader.GetRoiDisplayColor internalROIIndex).2.2)

/-- The name the region loop builds for the contour node of a region and hands to
`AddRoiPoint` and `AddRoiContour`: the label of the region with the contour postfix, made
unique in the scene. -/
def roiContourNodeName (C : SlicerRtCommon) (env : ImportEnv)
    (rtReader : vtkSlicerDicomRtReader) (structureSetColorTableNode : Ptr) (w : World)
    (internalROIIndex : Nat) : String :=
  GenerateUniqueName env (saveRoiColor rtReader structureSetColorTableNode w internalROIIndex)
    (rtReader.GetRoiName internalROIIndex ++ C.DICOMRTIMPORT_CONTOUR_NODE_NAME_POSTFIX)

/-- The model display node `AddRoiContour` leaves behind for a color, with the identifier
the scene gave it: visible, slice intersections visible, of that color, back-face culling
off. -/
def roiModelDisplayNode (roiColor : Vec3) (id : Option NodeID) : vtkMRMLNode where
  ID := id
  data := NodeData.ModelDisplay
    { SliceIntersectionVisibility := true
      Visibility := true
      Color := roiColor
      BackfaceCulling := false }

/-- The world in `AddRoiContour` when the name of the model node is generated: the display
node is in the scene and set up. -/
def roiModelDisplayAdded (w : World) (roiColor : Vec3) : World :=
  ((w.alloc { data := NodeData.ModelDisplay {} }).AddNode w.heap.length).modifyData
    w.heap.length (NodeData.mapModelDisplay fun d =>
      { d with
        SliceIntersectionVisibility := true
        Visibility := true
        Color := roiColor
        BackfaceCulling := false })

/-- The model node `AddRoiContour` leaves behind for a poly data, a base name and a color,
in world `w`: named by the base name with the ribbon model postfix, made unique in the
scene; shown in editors, selectable, holding the poly data and referring to the display
node by `displayNodeID`. -/
def roiModelNode (C : SlicerRtCommon) (env : ImportEnv) (w : World) (roiPoly : vtkPolyData)
    (baseName : String) (roiColor : Vec3) (displayNodeID id : Option NodeID) : vtkMRMLNode where
  ID := id
  Name := GenerateUniqueName env (roiModelDisplayAdded w roiColor)
    (baseName ++ C.CONTOUR_RIBBON_MODEL_NODE_NAME_POSTFIX)
  HideFromEditors := false
  data := NodeData.Model
    { DisplayNodeID := displayNodeID
      PolyData := some roiPoly
      Selectable := true }

/-- A reader state with one region of one point, at (7, 8, 9). -/
def samplePointRegion : List RoiEntry :=
  [{ Name := "P", DisplayColor := (0, 1, 0), PolyData := some { points := [(7, 8, 9)] } }]

/-! ## Basic facts about the world operations -/

@[simp] theorem World.New_fst (w : World) (n : vtkMRMLNode) : (w.New n).1 = w.alloc n := rfl

@[simp] theorem World.New_snd (w : World) (n : vtkMRMLNode) : (w.New n).2 = w.heap.length := rfl

@[simp] theorem World.heap_length_alloc (w : World) (n : vtkMRMLNode) :
    (w.alloc n).heap.length = w.heap.length + 1 := by
  simp [World.alloc]

@[simp] theorem World.heap_length_modify (w : World) (p : Ptr) (f : vtkMRMLNode → vtkMRMLNode) :
    (w.modify p f).heap.length = w.heap.length := by
  simp [World.modify]

@[simp] theorem World.heap_length_modifyData (w : World) (p : Ptr) (f : NodeData → NodeData) :
    (w.modifyData p f).heap.length = w.heap.length := by
  simp [World.modifyData]

@[simp] theorem World.heap_length_AddNode (w : World) (p : Ptr) :
    (w.AddNode p).heap.length = w.heap.length := by
  simp [World.AddNode]

@[simp] theorem World.heap_length_emit (w : World) (e : Event) :
    (w.emit e).heap.length = w.heap.length := rfl

@[simp] theorem World.Nodes_alloc (w : World) (n : vtkMRMLNode) : (w.alloc n).Nodes = w.Nodes := rfl

@[simp] theorem World.Nodes_modify (w : World) (p : Ptr) (f : vtkMRMLNode → vtkMRMLNode) :
    (w.modify p f).Nodes = w.Nodes := rfl

@[simp] theorem World.Nodes_modifyData (w : World) (p : Ptr) (f : NodeData → NodeData) :
    (w.modifyData p f).Nodes = w.Nodes := rfl

@[simp] theorem World.Nodes_AddNode (w : World) (p : Ptr) : (w.AddNode p).Nodes = w.Nodes ++ [p] := rfl

@[simp] theorem World.Nodes_emit (w : World) (e : Event) : (w.emit e).Nodes = w.Nodes := rfl

@[simp] theorem World.UniqueIDIndex_alloc (w : World) (n : vtkMRMLNode) :
    (w.alloc n).UniqueIDIndex = w.UniqueIDIndex := rfl

@[simp] theorem World.UniqueIDIndex_modify (w : World) (p : Ptr) (f : vtkMRMLNode → vtkMRMLNode) :
    (w.modify p f).UniqueIDIndex = w.UniqueIDIndex := rfl

@[simp] theorem World.UniqueIDIndex_modifyData (w : World) (p : Ptr) (f : NodeData → NodeData) :
    (w.modifyData p f).UniqueIDIndex = w.UniqueIDIndex := rfl

@[simp] theorem World.UniqueIDIndex_AddNode (w : World) (p : Ptr) :
    (w.AddNode p).UniqueIDIndex = w.UniqueIDIndex + 1 := rfl

@[simp] theorem World.UniqueIDIndex_emit (w : World) (e : Event) :
    (w.emit e).UniqueIDIndex = w.UniqueIDIndex := rfl

@[simp] theorem World.log_alloc (w : World) (n : vtkMRMLNode) : (w.alloc n).log = w.log := rfl

@[simp] theorem World.log_modify (w : World) (p : Ptr) (f : vtkMRMLNode → vtkMRMLNode) :
    (w.modify p f).log = w.log := rfl

@[simp] theorem World.log_modifyData (w : World) (p : Ptr) (f : NodeData → NodeData) :
    (w.modifyData p f).log = w.log := rfl

@[simp] theorem World.log_AddNode (w : World) (p : Ptr) : (w.AddNode p).log = w.log := rfl

@[simp] theorem World.log_emit (w : World) (e : Event) : (w.emit e).log = w.log ++ [e] := rfl

@[simp] theorem World.node?_emit (w : World) (e : Event) (q : Ptr) :
    (w.emit e).node? q = w.node? q := rfl

theorem World.node?_alloc (w : World) (n : vtkMRMLNode) (q : Ptr) :
    (w.alloc n).node? q = if q = w.heap.length then some n else w.node? q := by
  unfold World.alloc World.node?
  by_cases h : q = w.heap.length
  · subst h; simp
  · rw [if_neg h]
    rcases Nat.lt_or_gt_of_ne h with h1 | h1
    · simp [List.getElem?_append_left h1]
    · have h2 : w.heap.length ≤ q := Nat.le_of_lt h1
      rw [List.getElem?_eq_none h2, List.getElem?_eq_none]
      simp; omega

theorem World.node?_modify (w : World) (p : Ptr) (f : vtkMRMLNode → vtkMRMLNode) (q : Ptr) :
    (w.modify p f).node? q = if q = p then (w.node? q).map f else w.node? q := by
  unfold World.modify World.node?
  by_cases h : q = p
  · subst h; simp
  · rw [if_neg h]; simp [List.getElem?_modify_ne _ _ (Ne.symm h)]

theorem World.node?_modifyData (w : World) (p : Ptr) (f : NodeData → NodeData) (q : Ptr) :
    (w.modifyData p f).node? q =
      if q = p then (w.node? q).map (fun n => { n with data := f n.data }) else w.node? q := by
  unfold World.modifyData; exact World.node?_modify _ _ _ _

theorem World.node?_AddNode (w : World) (p q : Ptr) :
    (w.AddNode p).node? q =
      if q = p then
        (w.node? q).map (fun n => { n with ID := some (NodeID.generated w.UniqueIDIndex) })
      else w.node? q := by
  have := World.node?_modify w p
    (fun n => { n with ID := some (NodeID.generated w.UniqueIDIndex) }) q
  simpa [World.modify, World.AddNode, World.node?] using this

@[simp] theorem vtkMRMLNode.data_SetAttribute (n : vtkMRMLNode) (a b : String) :
    (n.SetAttribute a b).data = n.data := by
  unfold vtkMRMLNode.SetAttribute; split <;> rfl

@[simp] theorem vtkMRMLNode.ID_SetAttribute (n : vtkMRMLNode) (a b : String) :
    (n.SetAttribute a b).ID = n.ID := by
  unfold vtkMRMLNode.SetAttribute; split <;> rfl


/-! ## Dose import -/

theorem applyDoseGridScaling_eq_map (xs : List ℚ) (g : ℚ) :
    applyDoseGridScaling xs g = xs.map (fun x => x * g) := by
  induction xs with
  | nil => rfl
  | cons x rest ih => simp [applyDoseGridScaling, ih]

/-- After a successful read, the volume node of the dose part holds what was loaded, with the
in-plane spacing of the reader, the scaled float image, and some display node reference. -/
theorem LoadRTDose_volume (C : SlicerRtCommon) (env : ImportEnv)
    (rtReader : vtkSlicerDicomRtReader) (firstFileNameStr : String) (files : List String)
    (seriesName : String) (w : World) (loaded : vtkMRMLScalarVolumeNode)
    (hread : env.ReadData firstFileNameStr files = some loaded) :
    ∃ id,
    (LoadRTDose C env rtReader firstFileNameStr files seriesName w).w.volume?
      (LoadRTDose C env rtReader firstFileNameStr files seriesName w).volumeNode =
      some { loaded with
        Spacing := (rtReader.PixelSpacing.1, rtReader.PixelSpacing.2, loaded.Spacing.2.2)
        ImageData := some (scaledDoseImage loaded rtReader.DoseGridScaling)
        DisplayNodeID := id } := by
  simp only [LoadRTDose, hread, importDoseVolume, World.New]
  split <;>
  simp [World.volume?, World.scalarVolume?, World.node?_alloc, World.node?_modify,
    World.node?_modifyData, World.node?_AddNode, NodeData.mapScalarVolume]

theorem parseDouble_sample : parseDouble "0.01" = some (1 / 100) := by
  have h : readDecimal "0.01".toList = some ⟨false, 1, -2⟩ := by decide
  simp only [parseDouble, h, Option.map, Decimal.value]
  norm_num

/-- C1. In the dose part of `LoadDicomRT`, when the volume read succeeds with image `raw` and
the dose grid scaling text of the reader reads as the number `g`, the volume node ends up with
a float image that has as many samples as `raw`, and whose sample `i` is sample `i` of `raw`
converted to floating point, times `g`. -/
theorem dose_import_scales_every_sample (C : SlicerRtCommon) (env : ImportEnv)
    (rtReader : vtkSlicerDicomRtReader) (firstFileNameStr : String) (files : List String)
    (seriesName : String) (w : World) (loaded : vtkMRMLScalarVolumeNode) (raw : vtkImageData)
    (g : ℚ)
    (hread : env.ReadData firstFileNameStr files = some loaded)
    (hraw : loaded.ImageData = some raw)
    (hg : parseDouble rtReader.DoseGridScaling = some g) :
    ∃ vol stored,
      (LoadRTDose C env rtReader firstFileNameStr files seriesName w).w.volume?
        (LoadRTDose C env rtReader firstFileNameStr files seriesName w).volumeNode = some vol ∧
      vol.ImageData = some stored ∧
      stored.ScalarType = ScalarType.Float ∧
      stored.GetNumberOfPoints = raw.GetNumberOfPoints ∧
      ∀ i : Nat, stored.scalars[i]? = ((vtkImageCast raw).scalars[i]?).map (fun x => x * g) := by
  obtain ⟨id, h⟩ := LoadRTDose_volume C env rtReader firstFileNameStr files seriesName w loaded hread
  refine ⟨_, _, h, rfl, ?_, ?_, ?_⟩
  · simp [scaledDoseImage, hraw, vtkImageCast]
  · simp [scaledDoseImage, hraw, vtkImageCast, vtkImageData.GetNumberOfPoints,
      applyDoseGridScaling_eq_map]
  · intro i
    simp [scaledDoseImage, hraw, vtkImageCast, applyDoseGridScaling_eq_map, doseGridScalingOf, hg]

/-- C1 at the sample input: raw value 100 with scaling text 0.01 is stored as 1. -/
theorem dose_import_scales_every_sample_witness :
    parseDouble (sampleReader []).DoseGridScaling = some (1 / 100) ∧
    ∃ vol stored,
      (LoadRTDose sampleCommon (sampleEnv [] []) (sampleReader []) "dose.dcm" ["dose.dcm"]
        "RTDOSE" emptyWorld).w.volume?
        (LoadRTDose sampleCommon (sampleEnv [] []) (sampleReader []) "dose.dcm" ["dose.dcm"]
          "RTDOSE" emptyWorld).volumeNode = some vol ∧
      vol.ImageData = some stored ∧ stored.scalars[0]? = some 1 := by
  refine ⟨parseDouble_sample, ?_⟩
  obtain ⟨vol, stored, h1, h2, _, _, h5⟩ :=
    dose_import_scales_every_sample sampleCommon (sampleEnv [] []) (sampleReader [])
      "dose.dcm" ["dose.dcm"] "RTDOSE" emptyWorld sampleLoadedVolume
      { ScalarType := ScalarType.Other, scalars := [100] } (1 / 100) rfl rfl parseDouble_sample
  refine ⟨vol, stored, h1, h2, ?_⟩
  rw [h5 0]
  simp [vtkImageCast]

/-- C2. In the dose part of `LoadDicomRT`, when the volume read succeeds with spacing
`(s0, s1, s2)` and the reader has pixel spacing `(p0, p1)`, the volume node ends up with
spacing `(p0, p1, s2)`. -/
theorem dose_import_spacing (C : SlicerRtCommon) (env : ImportEnv)
    (rtReader : vtkSlicerDicomRtReader) (firstFileNameStr : String) (files : List String)
    (seriesName : String) (w : World) (loaded : vtkMRMLScalarVolumeNode)
    (s0 s1 s2 p0 p1 : ℚ)
    (hread : env.ReadData firstFileNameStr files = some loaded)
    (hs : loaded.Spacing = (s0, s1, s2))
    (hp : rtReader.PixelSpacing = (p0, p1)) :
    ∃ vol,
      (LoadRTDose C env rtReader firstFileNameStr files seriesName w).w.volume?
        (LoadRTDose C env rtReader firstFileNameStr files seriesName w).volumeNode = some vol ∧
      vol.Spacing = (p0, p1, s2) := by
  obtain ⟨id, h⟩ := LoadRTDose_volume C env rtReader firstFileNameStr files seriesName w loaded hread
  refine ⟨_, h, ?_⟩
  simp [hs, hp]

/-- C2 at the sample input: loaded spacing (1, 1, 5/2) and pixel spacing (2, 3) give
(2, 3, 5/2). -/
theorem dose_import_spacing_witness :
    ∃ vol,
      (LoadRTDose sampleCommon (sampleEnv [] []) (sampleReader []) "dose.dcm" ["dose.dcm"]
        "RTDOSE" emptyWorld).w.volume?
        (LoadRTDose sampleCommon (sampleEnv [] []) (sampleReader []) "dose.dcm" ["dose.dcm"]
          "RTDOSE" emptyWorld).volumeNode = some vol ∧
      vol.Spacing = (2, 3, 5 / 2) :=
  dose_import_spacing sampleCommon (sampleEnv [] []) (sampleReader []) "dose.dcm" ["dose.dcm"]
    "RTDOSE" emptyWorld sampleLoadedVolume 1 1 (5 / 2) 2 3 rfl rfl rfl

theorem World.node?_of_le (w : World) (q : Ptr) (h : w.heap.length ≤ q) : w.node? q = none := by
  unfold World.node?; exact List.getElem?_eq_none h

@[simp] theorem NodeData.kind_ColorTable (n : vtkMRMLColorTableNode) :
    (NodeData.ColorTable n).kind = NodeKind.ColorTable := rfl

@[simp] theorem NodeData.kind_ModelDisplay (n : vtkMRMLModelDisplayNode) :
    (NodeData.ModelDisplay n).kind = NodeKind.ModelDisplay := rfl

@[simp] theorem NodeData.kind_Model (n : vtkMRMLModelNode) :
    (NodeData.Model n).kind = NodeKind.Model := rfl

@[simp] theorem NodeData.kind_ModelHierarchy (n : vtkMRMLHierarchyNode) :
    (NodeData.ModelHierarchy n).kind = NodeKind.ModelHierarchy := rfl

@[simp] theorem NodeData.kind_ContourHierarchy (n : vtkMRMLHierarchyNode) :
    (NodeData.ContourHierarchy n).kind = NodeKind.ContourHierarchy := rfl

@[simp] theorem NodeData.kind_AnnotationHierarchy (n : vtkMRMLHierarchyNode) :
    (NodeData.AnnotationHierarchy n).kind = NodeKind.AnnotationHierarchy := rfl

@[simp] theorem NodeData.kind_Contour (n : vtkMRMLContourNode) :
    (NodeData.Contour n).kind = NodeKind.Contour := rfl

@[simp] theorem NodeData.kind_AnnotationFiducial (n : vtkMRMLAnnotationFiducialNode) :
    (NodeData.AnnotationFiducial n).kind = NodeKind.AnnotationFiducial := rfl

@[simp] theorem NodeData.kind_ScalarVolume (n : vtkMRMLScalarVolumeNode) :
    (NodeData.ScalarVolume n).kind = NodeKind.ScalarVolume := rfl

@[simp] theorem NodeData.kind_ScalarVolumeDisplay (n : vtkMRMLScalarVolumeDisplayNode) :
    (NodeData.ScalarVolumeDisplay n).kind = NodeKind.ScalarVolumeDisplay := rfl

@[simp] theorem NodeData.kind_mapColorTable (f : vtkMRMLColorTableNode → vtkMRMLColorTableNode)
    (d : NodeData) : (NodeData.mapColorTable f d).kind = d.kind := by
  cases d <;> rfl

@[simp] theorem NodeData.kind_mapModelDisplay (f : vtkMRMLModelDisplayNode → vtkMRMLModelDisplayNode)
    (d : NodeData) : (NodeData.mapModelDisplay f d).kind = d.kind := by
  cases d <;> rfl

@[simp] theorem NodeData.kind_mapHierarchy (f : vtkMRMLHierarchyNode → vtkMRMLHierarchyNode)
    (d : NodeData) : (NodeData.mapHierarchy f d).kind = d.kind := by
  cases d <;> rfl

@[simp] theorem NodeData.kind_mapModel (f : vtkMRMLModelNode → vtkMRMLModelNode)
    (d : NodeData) : (NodeData.mapModel f d).kind = d.kind := by
  cases d <;> rfl

@[simp] theorem NodeData.kind_mapContour (f : vtkMRMLContourNode → vtkMRMLContourNode)
    (d : NodeData) : (NodeData.mapContour f d).kind = d.kind := by
  cases d <;> rfl

@[simp] theorem NodeData.kind_mapFiducial
    (f : vtkMRMLAnnotationFiducialNode → vtkMRMLAnnotationFiducialNode)
    (d : NodeData) : (NodeData.mapFiducial f d).kind = d.kind := by
  cases d <;> rfl

@[simp] theorem NodeData.kind_mapScalarVolume
    (f : vtkMRMLScalarVolumeNode → vtkMRMLScalarVolumeNode)
    (d : NodeData) : (NodeData.mapScalarVolume f d).kind = d.kind := by
  cases d <;> rfl

theorem World.kind?_alloc (w : World) (n : vtkMRMLNode) (q : Ptr) :
    (w.alloc n).kind? q = if q = w.heap.length then some n.data.kind else w.kind? q := by
  unfold World.kind?; rw [World.node?_alloc]; split <;> rfl

theorem World.map_kind_node? (w : World) (q : Nat) :
    (w.node? q).map (fun n => n.data.kind) = w.kind? q := rfl

theorem World.kind?_modify (w : World) (p : Ptr) (f : vtkMRMLNode → vtkMRMLNode) (q : Nat) :
    (w.modify p f).kind? q =
      if q = p then (w.node? q).map (fun n => (f n).data.kind) else w.kind? q := by
  unfold World.kind?; rw [World.node?_modify]
  split
  · cases w.node? q <;> rfl
  · rfl

theorem World.kind?_modifyData (w : World) (p : Ptr) (g : NodeData → NodeData) (q : Nat) :
    (w.modifyData p g).kind? q =
      if q = p then (w.node? q).map (fun n => (g n.data).kind) else w.kind? q :=
  World.kind?_modify w p _ q

@[simp] theorem World.kind?_AddNode (w : World) (p q : Ptr) : (w.AddNode p).kind? q = w.kind? q := by
  unfold World.kind?; rw [World.node?_AddNode]
  split
  · cases w.node? q <;> rfl
  · rfl

@[simp] theorem World.kind?_emit (w : World) (e : Event) (q : Ptr) :
    (w.emit e).kind? q = w.kind? q := rfl

theorem World.kind?_of_le (w : World) (q : Ptr) (h : w.heap.length ≤ q) : w.kind? q = none := by
  unfold World.kind?; rw [World.node?_of_le w q h]; rfl

/-! ### `AddRoiPoint` -/

@[simp] theorem AddRoiPoint_snd (w : World) (pos : Vec3) (name : String) (c : Vec3) :
    (AddRoiPoint w pos name c).2 = w.heap.length := rfl

@[simp] theorem AddRoiPoint_heap_length (w : World) (pos : Vec3) (name : String) (c : Vec3) :
    (AddRoiPoint w pos name c).1.heap.length = w.heap.length + 1 := by
  simp [AddRoiPoint, World.New]

@[simp] theorem AddRoiPoint_Nodes (w : World) (pos : Vec3) (name : String) (c : Vec3) :
    (AddRoiPoint w pos name c).1.Nodes = w.Nodes ++ [w.heap.length] := by
  simp [AddRoiPoint, World.New]

theorem AddRoiPoint_kind? (w : World) (pos : Vec3) (name : String) (c : Vec3) (q : Ptr) :
    (AddRoiPoint w pos name c).1.kind? q =
      if q = w.heap.length then some NodeKind.AnnotationFiducial else w.kind? q := by
  simp [AddRoiPoint, World.New, World.kind?_alloc, World.kind?_modify, World.kind?_modifyData,
    World.map_kind_node?]

theorem AddRoiPoint_node? (w : World) (pos : Vec3) (name : String) (c : Vec3) (q : Nat)
    (hq : q < w.heap.length) : (AddRoiPoint w pos name c).1.node? q = w.node? q := by
  have h0 : q ≠ w.heap.length := by omega
  simp [AddRoiPoint, World.New, World.node?_alloc, World.node?_modify, World.node?_modifyData,
    World.node?_AddNode, h0]

/-! ### `AddRoiContour` -/

@[simp] theorem AddRoiContour_snd (C : SlicerRtCommon) (env : ImportEnv) (w : World)
    (poly : vtkPolyData) (name : String) (c : Vec3) :
    (AddRoiContour C env w poly name c).2 = w.heap.length + 1 := by
  simp [AddRoiContour, World.New]

@[simp] theorem AddRoiContour_heap_length (C : SlicerRtCommon) (env : ImportEnv) (w : World)
    (poly : vtkPolyData) (name : String) (c : Vec3) :
    (AddRoiContour C env w poly name c).1.heap.length = w.heap.length + 2 := by
  simp [AddRoiContour, World.New]

@[simp] theorem AddRoiContour_Nodes (C : SlicerRtCommon) (env : ImportEnv) (w : World)
    (poly : vtkPolyData) (name : String) (c : Vec3) :
    (AddRoiContour C env w poly name c).1.Nodes = w.Nodes ++ [w.heap.length, w.heap.length + 1] := by
  simp [AddRoiContour, World.New]

theorem AddRoiContour_kind? (C : SlicerRtCommon) (env : ImportEnv) (w : World)
    (poly : vtkPolyData) (name : String) (c : Vec3) (q : Ptr) :
    (AddRoiContour C env w poly name c).1.kind? q =
      if q = w.heap.length + 1 then some NodeKind.Model
      else if q = w.heap.length then some NodeKind.ModelDisplay else w.kind? q := by
  simp [AddRoiContour, World.New, World.kind?_alloc, World.kind?_modify, World.kind?_modifyData,
    World.map_kind_node?]

theorem AddRoiContour_node? (C : SlicerRtCommon) (env : ImportEnv) (w : World)
    (poly : vtkPolyData) (name : String) (c : Vec3) (q : Nat)
    (hq : q < w.heap.length) : (AddRoiContour C env w poly name c).1.node? q = w.node? q := by
  have h0 : q ≠ w.heap.length := by omega
  have h1 : q ≠ w.heap.length + 1 := by omega
  simp [AddRoiContour, World.New, World.node?_alloc, World.node?_modify, World.node?_modifyData,
    World.node?_AddNode, h0, h1]

/-! ### `addToModelHierarchy` -/

theorem addToModelHierarchy_heap_length (C : SlicerRtCommon) (env : ImportEnv) (s : String)
    (a : Ptr) (st : RoiLoopState) :
    (addToModelHierarchy C env s a st).w.heap.length =
      st.w.heap.length + (if st.modelHierarchyRootNode.isSome then 1 else 3) := by
  cases h : st.modelHierarchyRootNode <;> simp [addToModelHierarchy, h, World.New]

theorem addToModelHierarchy_Nodes (C : SlicerRtCommon) (env : ImportEnv) (s : String)
    (a : Ptr) (st : RoiLoopState) :
    (addToModelHierarchy C env s a st).w.Nodes =
      st.w.Nodes ++ (if st.modelHierarchyRootNode.isSome then [st.w.heap.length]
        else [st.w.heap.length, st.w.heap.length + 1, st.w.heap.length + 2]) := by
  cases h : st.modelHierarchyRootNode <;> simp [addToModelHierarchy, h, World.New]

theorem addToModelHierarchy_kind? (C : SlicerRtCommon) (env : ImportEnv) (s : String)
    (a : Ptr) (st : RoiLoopState) (q : Nat) :
    (addToModelHierarchy C env s a st).w.kind? q =
      if st.modelHierarchyRootNode.isSome then
        (if q = st.w.heap.length then some NodeKind.ModelHierarchy else st.w.kind? q)
      else
        (if q = st.w.heap.length + 2 then some NodeKind.ModelHierarchy
         else if q = st.w.heap.length + 1 then some NodeKind.ModelDisplay
         else if q = st.w.heap.length then some NodeKind.ModelHierarchy else st.w.kind? q) := by
  cases h : st.modelHierarchyRootNode <;>
  simp [addToModelHierarchy, h, World.New, World.kind?_alloc, World.kind?_modify,
    World.kind?_modifyData, World.map_kind_node?]

theorem addToModelHierarchy_node? (C : SlicerRtCommon) (env : ImportEnv) (s : String)
    (a : Ptr) (st : RoiLoopState) (q : Nat) (hq : q < st.w.heap.length) :
    (addToModelHierarchy C env s a st).w.node? q = st.w.node? q := by
  have h0 : q ≠ st.w.heap.length := by omega
  have h1 : q ≠ st.w.heap.length + 1 := by omega
  have h2 : q ≠ st.w.heap.length + 2 := by omega
  cases h : st.modelHierarchyRootNode <;>
  simp [addToModelHierarchy, h, World.New, World.node?_alloc, World.node?_modify,
    World.node?_modifyData, World.node?_AddNode, h0, h1, h2]

@[simp] theorem addToModelHierarchy_roiCollection (C : SlicerRtCommon) (env : ImportEnv)
    (s : String) (a : Ptr) (st : RoiLoopState) :
    (addToModelHierarchy C env s a st).roiCollection = st.roiCollection := rfl

@[simp] theorem addToModelHierarchy_displayNodeCollection (C : SlicerRtCommon) (env : ImportEnv)
    (s : String) (a : Ptr) (st : RoiLoopState) :
    (addToModelHierarchy C env s a st).displayNodeCollection = st.displayNodeCollection := rfl

@[simp] theorem addToModelHierarchy_contourHierarchyRootNode (C : SlicerRtCommon)
    (env : ImportEnv) (s : String) (a : Ptr) (st : RoiLoopState) :
    (addToModelHierarchy C env s a st).contourHierarchyRootNode = st.contourHierarchyRootNode :=
  rfl

/-! ### `addContourNode` -/

theorem addContourNode_heap_length (C : SlicerRtCommon) (env : ImportEnv) (s l n : String)
    (a : Ptr) (st : RoiLoopState) :
    (addContourNode C env s l n a st).w.heap.length =
      st.w.heap.length + (if st.contourHierarchyRootNode.isSome then 2 else 3) := by
  cases h : st.contourHierarchyRootNode <;> simp [addContourNode, h, World.New]

theorem addContourNode_Nodes (C : SlicerRtCommon) (env : ImportEnv) (s l n : String)
    (a : Ptr) (st : RoiLoopState) :
    (addContourNode C env s l n a st).w.Nodes =
      st.w.Nodes ++ (if st.contourHierarchyRootNode.isSome then
          [st.w.heap.length, st.w.heap.length + 1]
        else [st.w.heap.length, st.w.heap.length + 1, st.w.heap.length + 2]) := by
  cases h : st.contourHierarchyRootNode <;> simp [addContourNode, h, World.New]

theorem addContourNode_kind? (C : SlicerRtCommon) (env : ImportEnv) (s l n : String)
    (a : Ptr) (st : RoiLoopState) (q : Nat) :
    (addContourNode C env s l n a st).w.kind? q =
      if st.contourHierarchyRootNode.isSome then
        (if q = st.w.heap.length + 1 then some NodeKind.ContourHierarchy
         else if q = st.w.heap.length then some NodeKind.Contour else st.w.kind? q)
      else
        (if q = st.w.heap.length + 2 then some NodeKind.ContourHierarchy
         else if q = st.w.heap.length + 1 then some NodeKind.Contour
         else if q = st.w.heap.length then some NodeKind.ContourHierarchy else st.w.kind? q) := by
  cases h : st.contourHierarchyRootNode <;>
  simp [addContourNode, h, World.New, World.kind?_alloc, World.kind?_modify,
    World.kind?_modifyData, World.map_kind_node?]

theorem addContourNode_node? (C : SlicerRtCommon) (env : ImportEnv) (s l n : String)
    (a : Ptr) (st : RoiLoopState) (q : Nat) (hq : q < st.w.heap.length) :
    (addContourNode C env s l n a st).w.node? q = st.w.node? q := by
  have h0 : q ≠ st.w.heap.length := by omega
  have h1 : q ≠ st.w.heap.length + 1 := by omega
  have h2 : q ≠ st.w.heap.length + 2 := by omega
  cases h : st.contourHierarchyRootNode <;>
  simp [addContourNode, h, World.New, World.node?_alloc, World.node?_modify,
    World.node?_modifyData, World.node?_AddNode, h0, h1, h2]

@[simp] theorem addContourNode_roiCollection (C : SlicerRtCommon) (env : ImportEnv)
    (s l n : String) (a : Ptr) (st : RoiLoopState) :
    (addContourNode C env s l n a st).roiCollection = st.roiCollection := rfl

@[simp] theorem addContourNode_modelHierarchyRootNode (C : SlicerRtCommon) (env : ImportEnv)
    (s l n : String) (a : Ptr) (st : RoiLoopState) :
    (addContourNode C env s l n a st).modelHierarchyRootNode = st.modelHierarchyRootNode := rfl

/-- The classes of the nodes one iteration of the region loop adds, from any loop state and
for any region index: with missing poly data or zero points no node is added to the scene;
with exactly one point the nodes added contain exactly one fiducial and no model node; with
two or more points they contain exactly one model node and no fiducial. -/
theorem roiLoopBody_createdKinds (C : SlicerRtCommon) (env : ImportEnv) (rtReader : vtkSlicerDicomRtReader)
    (seriesName : String) (ct : Ptr) (st : RoiLoopState) (i : Nat) :
    match rtReader.GetRoiPolyData i with
    | none => st.w.createdKinds (roiLoopBody C env rtReader seriesName ct st i).w = []
    | some roiPoly =>
      if roiPoly.GetNumberOfPoints = 0 then
        st.w.createdKinds (roiLoopBody C env rtReader seriesName ct st i).w = []
      else if roiPoly.GetNumberOfPoints = 1 then
        (st.w.createdKinds (roiLoopBody C env rtReader seriesName ct st i).w).count
            NodeKind.AnnotationFiducial = 1 ∧
        (st.w.createdKinds (roiLoopBody C env rtReader seriesName ct st i).w).count
            NodeKind.Model = 0
      else
        (st.w.createdKinds (roiLoopBody C env rtReader seriesName ct st i).w).count
            NodeKind.Model = 1 ∧
        (st.w.createdKinds (roiLoopBody C env rtReader seriesName ct st i).w).count
            NodeKind.AnnotationFiducial = 0 := by
  cases hpoly : rtReader.GetRoiPolyData i with
  | none =>
    simp [roiLoopBody, hpoly, World.createdKinds]
  | some roiPoly =>
    simp only []
    by_cases h0 : roiPoly.GetNumberOfPoints = 0
    · simp [roiLoopBody, hpoly, World.createdKinds, h0]
    · rw [if_neg h0]
      by_cases h1 : roiPoly.GetNumberOfPoints = 1
      · rw [if_pos h1]
        cases hroot : st.modelHierarchyRootNode <;>
        simp [roiLoopBody, hpoly, World.createdKinds, h1, addToModelHierarchy_Nodes, List.filterMap_cons, Nat.add_assoc,
          addToModelHierarchy_kind?, AddRoiPoint_kind?, hroot, World.kind?_modifyData,
          World.map_kind_node?, World.kind?_of_le]
      · rw [if_neg h1]
        cases hroot : st.modelHierarchyRootNode <;>
        cases hroot2 : st.contourHierarchyRootNode <;>
        simp [roiLoopBody, hpoly, World.createdKinds, h0, h1, addToModelHierarchy_Nodes, List.filterMap_cons, Nat.add_assoc,
          addToModelHierarchy_kind?, addContourNode_Nodes, addContourNode_kind?,
          addContourNode_heap_length,
          AddRoiContour_kind?, hroot, hroot2, World.kind?_modifyData,
          World.map_kind_node?, World.kind?_of_le]

theorem ColorTableAfter.step {rtReader : vtkSlicerDicomRtReader} {k : Nat}
    {t : vtkMRMLColorTableNode} (h : ColorTableAfter rtReader.RoiSequenceVector k t)
    (hk : k < rtReader.RoiSequenceVector.length) :
    ColorTableAfter rtReader.RoiSequenceVector (k + 1)
      (t.AddColor (rtReader.GetRoiName k) (rtReader.GetRoiDisplayColor k).1
        (rtReader.GetRoiDisplayColor k).2.1 (rtReader.GetRoiDisplayColor k).2.2) := by
  have hlen := h.length
  have hnot : ¬ ((k : Int) + 1 + 1 < 0 ∨ (t.Colors.length : Int) ≤ (k : Int) + 1 + 1) := by
    rw [hlen]; push_cast; omega
  have hidx : ((k : Int) + 1 + 1).toNat = k + 2 := by omega
  have hget : rtReader.RoiSequenceVector[k]? = some (rtReader.RoiSequenceVector.get ⟨k, hk⟩) := by
    simp [List.getElem?_eq_getElem hk]
  have hcolors : (t.AddColor (rtReader.GetRoiName k) (rtReader.GetRoiDisplayColor k).1
        (rtReader.GetRoiDisplayColor k).2.1 (rtReader.GetRoiDisplayColor k).2.2).Colors =
      t.Colors.set (k + 2) (some (roiColorEntry (rtReader.RoiSequenceVector.get ⟨k, hk⟩))) := by
    simp [vtkMRMLColorTableNode.AddColor, vtkMRMLColorTableNode.SetColor, h.type, h.last, hnot,
      hidx, vtkSlicerDicomRtReader.GetRoiName, vtkSlicerDicomRtReader.GetRoiDisplayColor, hget,
      roiColorEntry]
  refine ⟨?_, ?_, ?_, ?_, ?_, ?_⟩
  · simp [vtkMRMLColorTableNode.AddColor, vtkMRMLColorTableNode.SetColor, h.type, h.last, hnot]
  · simp [vtkMRMLColorTableNode.AddColor, vtkMRMLColorTableNode.SetColor, h.type, h.last, hnot]
  · rw [hcolors]; simpa using hlen
  · rw [hcolors, List.getElem?_set]; simpa using h.background
  · rw [hcolors, List.getElem?_set]; simpa using h.invalid
  · intro i hi hik
    rw [hcolors, List.getElem?_set]
    by_cases hik2 : i = k
    · subst hik2; simp [hlen, hi]
    · have : ¬ (k + 2 = i + 2) := by omega
      rw [if_neg this]
      exact h.regions i hi (by omega)

theorem roiLoopBody_heap_length_le (C : SlicerRtCommon) (env : ImportEnv)
    (rtReader : vtkSlicerDicomRtReader) (seriesName : String) (ct : Ptr) (st : RoiLoopState)
    (i : Nat) : st.w.heap.length ≤ (roiLoopBody C env rtReader seriesName ct st i).w.heap.length := by
  unfold roiLoopBody
  cases rtReader.GetRoiPolyData i with
  | none => simp
  | some roiPoly =>
    simp only []
    split
    · simp
    · split
      · simp [addToModelHierarchy_heap_length]; omega
      · simp [addToModelHierarchy_heap_length, addContourNode_heap_length]; omega

theorem roiLoopBody_node? (C : SlicerRtCommon) (env : ImportEnv)
    (rtReader : vtkSlicerDicomRtReader) (seriesName : String) (ct : Ptr) (st : RoiLoopState)
    (i : Nat) (q : Nat) (hq : q < st.w.heap.length) :
    (roiLoopBody C env rtReader seriesName ct st i).w.node? q =
      (st.w.modifyData ct (NodeData.mapColorTable fun t =>
        t.AddColor (rtReader.GetRoiName i) (rtReader.GetRoiDisplayColor i).1
          (rtReader.GetRoiDisplayColor i).2.1 (rtReader.GetRoiDisplayColor i).2.2)).node? q := by
  unfold roiLoopBody
  cases rtReader.GetRoiPolyData i with
  | none => simp
  | some roiPoly =>
    simp only []
    split
    · simp
    · split
      · rw [addToModelHierarchy_node? _ _ _ _ _ _ (by simp; omega),
          AddRoiPoint_node? _ _ _ _ _ (by simp; omega)]
      · rw [addToModelHierarchy_node? _ _ _ _ _ _
            (by simp [addContourNode_heap_length]; omega),
          addContourNode_node? _ _ _ _ _ _ _ _ (by simp; omega),
          AddRoiContour_node? _ _ _ _ _ _ _ (by simp; omega)]

/-! ### Loops -/

@[simp] theorem forLoop_zero {σ : Type} (body : σ → Nat → σ) (init : σ) :
    forLoop 0 body init = init := rfl

theorem forLoop_succ {σ : Type} (n : Nat) (body : σ → Nat → σ) (init : σ) :
    forLoop (n + 1) body init = body (forLoop n body init) n := by
  simp [forLoop, List.range_succ, List.foldl_append]

/-! ### The color table of the structure-set import -/

theorem World.colorTable?_congr {w w' : World} {q : Nat} (h : w'.node? q = w.node? q) :
    w'.colorTable? q = w.colorTable? q := by
  unfold World.colorTable?; rw [h]

theorem World.colorTable?_modifyData_mapColorTable (w : World) (p : Ptr)
    (f : vtkMRMLColorTableNode → vtkMRMLColorTableNode) :
    (w.modifyData p (NodeData.mapColorTable f)).colorTable? p = (w.colorTable? p).map f := by
  unfold World.colorTable?
  rw [World.node?_modifyData]
  simp only [if_true]
  cases w.node? p with
  | none => rfl
  | some n => cases hd : n.data <;> simp [NodeData.mapColorTable, hd]

theorem World.colorTable?_modifyData_mapModelDisplay (w : World) (p : Ptr)
    (f : vtkMRMLModelDisplayNode → vtkMRMLModelDisplayNode) (q : Nat) :
    (w.modifyData p (NodeData.mapModelDisplay f)).colorTable? q = w.colorTable? q := by
  unfold World.colorTable?
  rw [World.node?_modifyData]
  by_cases h : q = p
  · rw [if_pos h]
    cases w.node? q with
    | none => rfl
    | some n => cases hd : n.data <;> simp [NodeData.mapModelDisplay, hd]
  · rw [if_neg h]

theorem setContourOpacities_colorTable? (env : ImportEnv) (auto : Bool)
    (rois : List vtkPolyData) (disp : List (Option Ptr)) (w : World) (q : Nat) :
    (setContourOpacities env auto rois disp w).colorTable? q = w.colorTable? q := by
  unfold setContourOpacities
  split
  · split
    · simp only []
      generalize rois.length = n
      induction n with
      | zero => rfl
      | succ n ih =>
        rw [forLoop_succ]
        split
        · rw [World.colorTable?_modifyData_mapModelDisplay]; exact ih
        · exact ih
    · rfl
  · rfl

theorem vtkMRMLColorTableNode.AddColor_eq (t : vtkMRMLColorTableNode) (name : String)
    (r g b a : ℚ) (k : Nat) (h1 : t.ColorType = ColorTableType.User)
    (h2 : t.LastAddedColor + 1 = (k : Int)) (h3 : k < t.Colors.length) :
    t.AddColor name r g b a =
      { t with LastAddedColor := (k : Int), Colors := t.Colors.set k (some ⟨name, r, g, b, a⟩) } := by
  have h4 : ¬ t.Colors.length ≤ k := by omega
  simp [vtkMRMLColorTableNode.AddColor, vtkMRMLColorTableNode.SetColor, h1, h2, h4]

theorem structureSetColorTable_spec (C : SlicerRtCommon) (env : ImportEnv)
    (rtReader : vtkSlicerDicomRtReader) (seriesName : String) (w : World) :
    (structureSetColorTable C env rtReader seriesName w).2 = w.heap.length ∧
    (structureSetColorTable C env rtReader seriesName w).1.heap.length = w.heap.length + 1 ∧
    ∃ t, (structureSetColorTable C env rtReader seriesName w).1.colorTable? w.heap.length = some t ∧
      ColorTableAfter rtReader.RoiSequenceVector 0 t := by
  refine ⟨rfl, by simp [structureSetColorTable, World.New], ?_⟩
  simp only [structureSetColorTable, World.New]
  rw [World.colorTable?_modifyData_mapColorTable]
  simp only [World.colorTable?, World.node?_AddNode, World.node?_modify, World.node?_alloc,
    if_true, Option.map, NodeData.mapColorTable]
  refine ⟨_, rfl, ?_⟩
  rw [vtkMRMLColorTableNode.AddColor_eq _ "Background" 0 0 0 0 0 (by rfl) (by rfl)
    (by simp [vtkMRMLColorTableNode.SetNumberOfColors, vtkMRMLColorTableNode.SetTypeToUser])]
  rw [vtkMRMLColorTableNode.AddColor_eq _ "Invalid" (1 / 2) (1 / 2) (1 / 2) 1 1 (by rfl) (by rfl)
    (by simp [vtkMRMLColorTableNode.SetNumberOfColors, vtkMRMLColorTableNode.SetTypeToUser])]
  constructor <;>
  simp [vtkMRMLColorTableNode.SetNumberOfColors, vtkMRMLColorTableNode.SetTypeToUser,
    vtkSlicerDicomRtReader.GetNumberOfRois, List.replicate_succ]

theorem roiLoopBody_colorTable? (C : SlicerRtCommon) (env : ImportEnv)
    (rtReader : vtkSlicerDicomRtReader) (seriesName : String) (ct : Ptr) (st : RoiLoopState)
    (i : Nat) (hct : ct < st.w.heap.length) :
    (roiLoopBody C env rtReader seriesName ct st i).w.colorTable? ct =
      (st.w.colorTable? ct).map (fun t =>
        t.AddColor (rtReader.GetRoiName i) (rtReader.GetRoiDisplayColor i).1
          (rtReader.GetRoiDisplayColor i).2.1 (rtReader.GetRoiDisplayColor i).2.2) := by
  rw [World.colorTable?_congr (roiLoopBody_node? C env rtReader seriesName ct st i ct hct),
    World.colorTable?_modifyData_mapColorTable]

theorem roiLoop_colorTable (C : SlicerRtCommon) (env : ImportEnv)
    (rtReader : vtkSlicerDicomRtReader) (seriesName : String) (ct : Ptr) (st0 : RoiLoopState)
    (t0 : vtkMRMLColorTableNode) (hct : ct < st0.w.heap.length)
    (h0 : st0.w.colorTable? ct = some t0)
    (hI : ColorTableAfter rtReader.RoiSequenceVector 0 t0) (k : Nat)
    (hk : k ≤ rtReader.RoiSequenceVector.length) :
    ct < (forLoop k (roiLoopBody C env rtReader seriesName ct) st0).w.heap.length ∧
    ∃ t, (forLoop k (roiLoopBody C env rtReader seriesName ct) st0).w.colorTable? ct = some t ∧
      ColorTableAfter rtReader.RoiSequenceVector k t := by
  induction k with
  | zero => exact ⟨hct, t0, h0, hI⟩
  | succ k ih =>
    obtain ⟨hlt, t, ht, hinv⟩ := ih (by omega)
    rw [forLoop_succ]
    refine ⟨Nat.lt_of_lt_of_le hlt (roiLoopBody_heap_length_le _ _ _ _ _ _ _), ?_⟩
    rw [roiLoopBody_colorTable? _ _ _ _ _ _ _ hlt, ht]
    exact ⟨_, rfl, hinv.step (by omega)⟩

theorem LoadRTStructureSet_colorTable (C : SlicerRtCommon) (env : ImportEnv)
    (auto : Bool) (rtReader : vtkSlicerDicomRtReader) (seriesName : String) (w : World) :
    ∃ t,
      (LoadRTStructureSet C env auto rtReader seriesName w).final.w.colorTable?
        (LoadRTStructureSet C env auto rtReader seriesName w).structureSetColorTableNode =
        some t ∧
      ColorTableAfter rtReader.RoiSequenceVector rtReader.RoiSequenceVector.length t := by
  obtain ⟨hp, hlen, t0, ht0, hI⟩ :=
    structureSetColorTable_spec C env rtReader seriesName (w.emit Event.StartState)
  have hct : (structureSetColorTable C env rtReader seriesName (w.emit Event.StartState)).2 <
      (structureSetColorTable C env rtReader seriesName
        (w.emit Event.StartState)).1.heap.length := by
    rw [hlen]; exact Nat.lt_succ_of_le (Nat.le_of_eq hp)
  rw [← hp] at ht0
  obtain ⟨_, t, ht, hinv⟩ := roiLoop_colorTable C env rtReader seriesName _
    { w := (structureSetColorTable C env rtReader seriesName (w.emit Event.StartState)).1 }
    t0 hct ht0 hI rtReader.RoiSequenceVector.length (Nat.le_refl _)
  refine ⟨t, ?_, hinv⟩
  simp only [LoadRTStructureSet, vtkSlicerDicomRtReader.GetNumberOfRois]
  show (World.emit _ _).colorTable? _ = _
  unfold World.colorTable?
  rw [World.node?_emit]
  have := setContourOpacities_colorTable? env auto
    (forLoop rtReader.RoiSequenceVector.length
      (roiLoopBody C env rtReader seriesName
        (structureSetColorTable C env rtReader seriesName (w.emit Event.StartState)).2)
      { w := (structureSetColorTable C env rtReader seriesName (w.emit Event.StartState)).1 }).roiCollection
    (forLoop rtReader.RoiSequenceVector.length
      (roiLoopBody C env rtReader seriesName
        (structureSetColorTable C env rtReader seriesName (w.emit Event.StartState)).2)
      { w := (structureSetColorTable C env rtReader seriesName (w.emit Event.StartState)).1 }).displayNodeCollection
    (forLoop rtReader.RoiSequenceVector.length
      (roiLoopBody C env rtReader seriesName
        (structureSetColorTable C env rtReader seriesName (w.emit Event.StartState)).2)
      { w := (structureSetColorTable C env rtReader seriesName (w.emit Event.StartState)).1 }).w
    (structureSetColorTable C env rtReader seriesName (w.emit Event.StartState)).2
  unfold World.colorTable? at this ht
  rw [this]; exact ht

/-- C4. After the structure-set part of `LoadDicomRT`, for any reader state (any list of
regions, with or without poly data), the color table node has exactly two colors more than
the reader has regions. -/
theorem structure_set_color_table_size (C : SlicerRtCommon) (env : ImportEnv)
    (AutoContourOpacity : Bool) (rtReader : vtkSlicerDicomRtReader) (seriesName : String)
    (w : World) :
    ∃ t,
      (LoadRTStructureSet C env AutoContourOpacity rtReader seriesName w).final.w.colorTable?
        (LoadRTStructureSet C env AutoContourOpacity rtReader seriesName
          w).structureSetColorTableNode = some t ∧
      t.GetNumberOfColors = 2 + rtReader.GetNumberOfRois := by
  obtain ⟨t, ht, hinv⟩ := LoadRTStructureSet_colorTable C env AutoContourOpacity rtReader seriesName w
  refine ⟨t, ht, ?_⟩
  simp [vtkMRMLColorTableNode.GetNumberOfColors, vtkSlicerDicomRtReader.GetNumberOfRois,
    hinv.length, Nat.add_comm]

/-- C5. After the structure-set part of `LoadDicomRT`, the color table holds Background
(0, 0, 0, 0) at index 0, Invalid (0.5, 0.5, 0.5, 1) at index 1, and at index `i + 2` the label
and display color of region `i`, for every region of the reader, whatever its poly data. -/
theorem structure_set_color_table_entries (C : SlicerRtCommon) (env : ImportEnv)
    (AutoContourOpacity : Bool) (rtReader : vtkSlicerDicomRtReader) (seriesName : String)
    (w : World) :
    ∃ t,
      (LoadRTStructureSet C env AutoContourOpacity rtReader seriesName w).final.w.colorTable?
        (LoadRTStructureSet C env AutoContourOpacity rtReader seriesName
          w).structureSetColorTableNode = some t ∧
      t.Colors[0]? = some (some ⟨"Background", 0, 0, 0, 0⟩) ∧
      t.Colors[1]? = some (some ⟨"Invalid", 1 / 2, 1 / 2, 1 / 2, 1⟩) ∧
      ∀ i (h : i < rtReader.RoiSequenceVector.length),
        t.Colors[i + 2]? = some (some
          ⟨(rtReader.RoiSequenceVector.get ⟨i, h⟩).Name,
            (rtReader.RoiSequenceVector.get ⟨i, h⟩).DisplayColor.1,
            (rtReader.RoiSequenceVector.get ⟨i, h⟩).DisplayColor.2.1,
            (rtReader.RoiSequenceVector.get ⟨i, h⟩).DisplayColor.2.2, 1⟩) := by
  obtain ⟨t, ht, hinv⟩ := LoadRTStructureSet_colorTable C env AutoContourOpacity rtReader seriesName w
  exact ⟨t, ht, hinv.background, hinv.invalid, fun i h => hinv.regions i h h⟩

/-! ### Opacity from topology levels -/

theorem numberOfLevels_foldl_ge (levels : List Int) (acc : Int) :
    acc ≤ levels.foldl (fun acc v => if v > acc then v else acc) acc ∧
    ∀ x ∈ levels, x ≤ levels.foldl (fun acc v => if v > acc then v else acc) acc := by
  induction levels generalizing acc with
  | nil => simp
  | cons v rest ih =>
    simp only [List.foldl_cons, List.mem_cons, forall_eq_or_imp]
    obtain ⟨h1, h2⟩ := ih (if v > acc then v else acc)
    refine ⟨?_, ?_, h2⟩
    · refine le_trans ?_ h1; split <;> omega
    · refine le_trans ?_ h1; split <;> omega

theorem numberOfLevels_nonneg (levels : List Int) : 0 ≤ numberOfLevels levels :=
  (numberOfLevels_foldl_ge levels 0).1

theorem World.modelDisplay?_modifyData_mapModelDisplay (w : World) (p : Ptr)
    (f : vtkMRMLModelDisplayNode → vtkMRMLModelDisplayNode) (q : Nat) :
    (w.modifyData p (NodeData.mapModelDisplay f)).modelDisplay? q =
      if q = p then (w.modelDisplay? q).map f else w.modelDisplay? q := by
  unfold World.modelDisplay?
  rw [World.node?_modifyData]
  by_cases h : q = p
  · rw [if_pos h, if_pos h]
    cases w.node? q with
    | none => rfl
    | some n => cases hd : n.data <;> simp [NodeData.mapModelDisplay, hd]
  · rw [if_neg h, if_neg h]

/-- The opacity loop run for `n` iterations: a pointer that is collected at index `i` only has
its opacity set from level `i` once the loop has passed `i`, and is untouched before. -/
theorem opacityLoop_modelDisplay? (levels : List Int) (L : Int) (disp : List (Option Ptr))
    (w : World) (p : Ptr) (i : Nat) (hi : disp[i]? = some (some p))
    (huniq : ∀ j, j ≠ i → disp[j]? ≠ some (some p)) (n : Nat) :
    (forLoop n
      (fun w i =>
        match disp.getD i none with
        | some displayNode =>
          w.modifyData displayNode (NodeData.mapModelDisplay fun d =>
            { d with Opacity := contourOpacity (levels.getD i 0) L })
        | none => w) w).modelDisplay? p =
      if i < n then
        (w.modelDisplay? p).map fun d => { d with Opacity := contourOpacity (levels.getD i 0) L }
      else w.modelDisplay? p := by
  induction n with
  | zero => simp
  | succ n ih =>
    rw [forLoop_succ]
    by_cases hn : n = i
    · subst hn
      have hget : disp.getD n none = some p := by
        simp [List.getD_eq_getElem?_getD, hi]
      simp only [hget]
      rw [World.modelDisplay?_modifyData_mapModelDisplay, if_pos rfl, ih]
      simp
    · have hne : disp.getD n none ≠ some p := by
        intro h
        apply huniq n hn
        rw [List.getD_eq_getElem?_getD] at h
        cases hd : disp[n]? with
        | none => rw [hd] at h; simp at h
        | some x => rw [hd] at h; simp at h; rw [h]
      have hstep : ∀ w' : World,
          (match disp.getD n none with
            | some displayNode =>
              w'.modifyData displayNode (NodeData.mapModelDisplay fun d =>
                { d with Opacity := contourOpacity (levels.getD n 0) L })
            | none => w').modelDisplay? p = w'.modelDisplay? p := by
        intro w'
        cases hd : disp.getD n none with
        | none => rfl
        | some q =>
          simp only []
          rw [World.modelDisplay?_modifyData_mapModelDisplay, if_neg]
          intro hpq; apply hne; rw [hd, hpq]
      rw [hstep, ih]
      by_cases hlt : i < n
      · rw [if_pos hlt, if_pos (by omega)]
      · rw [if_neg hlt, if_neg (by omega)]

/-- C7. The opacity block of the structure-set import, for any collections: with auto
opacity on and equal counts, a collected model display node (collected at index `i` and at
no other index) ends up with the opacity computed from level `i` and is otherwise unchanged;
with auto opacity off or differing counts no node object is changed at all. -/
theorem contour_opacity_all_or_nothing (env : ImportEnv) (AutoContourOpacity : Bool)
    (roiCollection : List vtkPolyData) (displayNodeCollection : List (Option Ptr)) (w : World) :
    (AutoContourOpacity = true → roiCollection.length = displayNodeCollection.length →
      ∀ (i : Nat) (p : Ptr) (d : vtkMRMLModelDisplayNode),
        displayNodeCollection[i]? = some (some p) →
        (∀ j, j ≠ i → displayNodeCollection[j]? ≠ some (some p)) →
        w.modelDisplay? p = some d →
        (setContourOpacities env AutoContourOpacity roiCollection displayNodeCollection
          w).modelDisplay? p =
          some { d with
            Opacity := contourOpacity ((env.TopologicalHierarchyLevels roiCollection).getD i 0)
              (numberOfLevels (env.TopologicalHierarchyLevels roiCollection)) }) ∧
    (AutoContourOpacity = false ∨ roiCollection.length ≠ displayNodeCollection.length →
      (setContourOpacities env AutoContourOpacity roiCollection displayNodeCollection w).heap =
        w.heap) := by
  constructor
  · intro hauto hlen i p d hi huniq hd
    have hlt : i < roiCollection.length := by
      rw [hlen]
      by_contra hcon
      rw [List.getElem?_eq_none (by omega)] at hi
      exact absurd hi (by simp)
    simp only [setContourOpacities, hauto, hlen, if_true]
    rw [opacityLoop_modelDisplay? _ _ _ _ p i hi huniq, if_pos (hlen ▸ hlt), hd]
    rfl
  · intro h
    unfold setContourOpacities
    rcases h with h | h
    · simp [h]
    · cases AutoContourOpacity
      · simp
      · simp [h, World.emit]

/-- C7 at a sample input: with levels 0 and 1 and equal counts the second display node gets
opacity 1/2; with one poly data for two display nodes, or with auto opacity off, nothing
changes. -/
theorem contour_opacity_all_or_nothing_witness :
    (setContourOpacities (sampleEnv [] [0, 1]) true [⟨[]⟩, ⟨[]⟩] [some 0, some 1]
      sampleDisplayWorld).modelDisplay? 1 = some { Opacity := 1 / 2 } ∧
    (setContourOpacities (sampleEnv [] [0, 1]) true [⟨[]⟩] [some 0, some 1]
      sampleDisplayWorld).heap = sampleDisplayWorld.heap ∧
    (setContourOpacities (sampleEnv [] [0, 1]) false [⟨[]⟩, ⟨[]⟩] [some 0, some 1]
      sampleDisplayWorld).heap = sampleDisplayWorld.heap := by
  refine ⟨?_, ?_, ?_⟩
  · have h := (contour_opacity_all_or_nothing (sampleEnv [] [0, 1]) true [⟨[]⟩, ⟨[]⟩]
      [some 0, some 1] sampleDisplayWorld).1 rfl rfl 1 1 {} rfl
      (by intro j hj; match j with
        | 0 => simp
        | 1 => exact absurd rfl hj
        | k + 2 => simp) rfl
    rw [h]
    simp only [sampleEnv, List.getD_cons_succ, List.getD_cons_zero, numberOfLevels,
      List.foldl_cons, List.foldl_nil, contourOpacity]
    norm_num
  · exact (contour_opacity_all_or_nothing (sampleEnv [] [0, 1]) true [⟨[]⟩]
      [some 0, some 1] sampleDisplayWorld).2 (Or.inr (by decide))
  · exact (contour_opacity_all_or_nothing (sampleEnv [] [0, 1]) false [⟨[]⟩, ⟨[]⟩]
      [some 0, some 1] sampleDisplayWorld).2 (Or.inl rfl)

/-! ## Identifiers and lookups -/

theorem World.bind_ID_node? (w : World) (q : Nat) :
    (w.node? q).bind (fun n => n.ID) = w.GetID q := rfl

@[simp] theorem World.GetID_emit (w : World) (e : Event) (q : Nat) :
    (w.emit e).GetID q = w.GetID q := rfl

theorem World.GetID_alloc (w : World) (n : vtkMRMLNode) (q : Nat) :
    (w.alloc n).GetID q = if q = w.heap.length then n.ID else w.GetID q := by
  unfold World.GetID; rw [World.node?_alloc]; split <;> rfl

theorem World.GetID_modify (w : World) (p : Ptr) (f : vtkMRMLNode → vtkMRMLNode) (q : Nat) :
    (w.modify p f).GetID q =
      if q = p then (w.node? q).bind (fun n => (f n).ID) else w.GetID q := by
  unfold World.GetID; rw [World.node?_modify]
  split
  · cases w.node? q <;> rfl
  · rfl

theorem World.GetID_modifyData (w : World) (p : Ptr) (g : NodeData → NodeData) (q : Nat) :
    (w.modifyData p g).GetID q = w.GetID q := by
  unfold World.modifyData; rw [World.GetID_modify]
  split
  · rfl
  · rfl

theorem World.GetID_AddNode (w : World) (p q : Nat) :
    (w.AddNode p).GetID q =
      if q = p then (w.node? q).map (fun _ => NodeID.generated w.UniqueIDIndex)
      else w.GetID q := by
  unfold World.GetID; rw [World.node?_AddNode]
  split
  · cases w.node? q <;> rfl
  · rfl

theorem World.GetID_of_le (w : World) (q : Nat) (h : w.heap.length ≤ q) : w.GetID q = none := by
  unfold World.GetID; rw [World.node?_of_le w q h]; rfl

theorem World.lt_of_node? {w : World} {q : Nat} {n : vtkMRMLNode} (h : w.node? q = some n) :
    q < w.heap.length := by
  by_contra hc
  rw [World.node?_of_le w q (by omega)] at h
  exact absurd h (by simp)

theorem World.lt_of_kind? {w : World} {q : Nat} {k : NodeKind} (h : w.kind? q = some k) :
    q < w.heap.length := by
  by_contra hc
  rw [World.kind?_of_le w q (by omega)] at h
  exact absurd h (by simp)

theorem List.find?_stable {α : Type} (l : List α) (f g : α → Bool) (d : α)
    (h : l.find? f = some d) (hd : g d = true) (himp : ∀ p ∈ l, g p = true → f p = true) :
    l.find? g = some d := by
  induction l with
  | nil => simp at h
  | cons a l ih =>
    rw [List.find?_cons] at h ⊢
    cases hfa : f a with
    | true =>
      rw [hfa] at h
      simp only [Option.some.injEq] at h
      subst h
      rw [hd]
    | false =>
      rw [hfa] at h
      have hga : g a = false := by
        cases hga : g a with
        | false => rfl
        | true =>
          have := himp a (List.mem_cons_self _ _) hga
          rw [hfa] at this; exact absurd this (by simp)
      rw [hga]
      exact ih h (fun p hp => himp p (List.mem_cons_of_mem _ hp))

theorem World.Evolves.refl (w : World) : World.Evolves w w :=
  ⟨⟨[], by simp⟩, Nat.le_refl _, Nat.le_refl _, fun _ _ _ => rfl, fun _ _ => rfl,
    fun _ _ _ h => h, fun h => h⟩

theorem World.Evolves.trans {w0 w1 w2 : World} (h01 : World.Evolves w0 w1)
    (h12 : World.Evolves w1 w2) : World.Evolves w0 w2 := by
  obtain ⟨a1, ha1⟩ := h01.nodes
  obtain ⟨a2, ha2⟩ := h12.nodes
  refine ⟨⟨a1 ++ a2, by rw [ha2, ha1, List.append_assoc]⟩, le_trans h01.heap h12.heap,
    le_trans h01.counter h12.counter, ?_, ?_, ?_, fun h => h12.below (h01.below h)⟩
  · intro q hq hk
    rw [h12.frame q (lt_of_lt_of_le hq h01.heap) (by rw [h01.kinds q hq]; exact hk),
      h01.frame q hq hk]
  · intro q hq
    rw [h12.kinds q (lt_of_lt_of_le hq h01.heap), h01.kinds q hq]
  · intro q k hk h
    exact h01.ids q k hk (h12.ids q k (lt_of_lt_of_le hk h01.counter) h)

theorem World.Evolves.emit (w : World) (e : Event) : World.Evolves w (w.emit e) :=
  ⟨⟨[], by simp⟩, Nat.le_refl _, Nat.le_refl _, fun _ _ _ => rfl, fun _ _ => rfl,
    fun _ _ _ h => h, fun h => h⟩

theorem World.kind?_eq_some_of_node? {w : World} {q : Nat} {n : vtkMRMLNode}
    (h : w.node? q = some n) : w.kind? q = some n.data.kind := by
  unfold World.kind?; rw [h]; rfl

theorem World.modelDisplay?_kind {w : World} {q : Nat} {dn : vtkMRMLModelDisplayNode}
    (h : w.modelDisplay? q = some dn) : w.kind? q = some NodeKind.ModelDisplay := by
  unfold World.modelDisplay? at h
  unfold World.kind?
  cases hn : w.node? q with
  | none => rw [hn] at h; simp at h
  | some n =>
    rw [hn] at h
    cases hd : n.data <;> simp_all

/-- A surface model stays what it is while the world evolves. -/
theorem World.SurfaceAt.evolves {w w' : World} {p : Ptr} {s : SurfaceModel} {d : Ptr} {k : Nat}
    (h : w.SurfaceAt p s d k) (he : World.Evolves w w') : w'.SurfaceAt p s d k := by
  obtain ⟨n, m, hn, hm, hname, hpoly, hdisp⟩ := h.node
  obtain ⟨dn, hdn, hsd⟩ := h.display
  have hdk := World.modelDisplay?_kind hdn
  have hdlt := World.lt_of_kind? hdk
  have hdnode : w'.node? d = w.node? d := he.frame d hdlt (by rw [hdk]; simp)
  refine ⟨⟨n, m, ?_, hm, hname, hpoly, hdisp⟩, ?_, ⟨dn, ?_, hsd⟩, lt_of_lt_of_le h.fresh he.counter⟩
  · rw [he.frame p (World.lt_of_node? hn)
      (by rw [World.kind?_eq_some_of_node? hn, hm]; simp)]
    exact hn
  · obtain ⟨added, hadded⟩ := he.nodes
    have hl := h.lookup
    simp only [World.GetNodeByID] at hl ⊢
    rw [hadded, List.find?_append]
    have : w.Nodes.find? (fun p => w'.GetID p == some (NodeID.generated k)) = some d := by
      refine List.find?_stable _ _ _ d hl ?_ ?_
      · have hfd := List.find?_some hl
        simp only [World.GetID, hdnode] at hfd ⊢
        exact hfd
      · intro q _ hq
        simp only [beq_iff_eq] at hq ⊢
        exact he.ids q k h.fresh hq
    rw [this]; rfl
  · unfold World.modelDisplay? at hdn ⊢
    rw [hdnode]; exact hdn

theorem World.SurfaceAt.surface? {w : World} {p : Ptr} {s : SurfaceModel} {d : Ptr} {k : Nat}
    (h : w.SurfaceAt p s d k) : w.surface? p = some s := by
  obtain ⟨n, m, hn, hm, hname, hpoly, hdisp⟩ := h.node
  obtain ⟨dn, hdn, hsd⟩ := h.display
  unfold World.surface?
  rw [hn]
  simp only [hm, hdisp, h.lookup, Option.bind, hdn]
  cases s
  simp_all

theorem World.surface?_eq_none {w : World} {p : Nat}
    (h : w.kind? p ≠ some NodeKind.Model) : w.surface? p = none := by
  unfold World.surface?
  unfold World.kind? at h
  cases hn : w.node? p with
  | none => rfl
  | some n =>
    rw [hn] at h
    cases hd : n.data <;> simp_all

/-! ## The blocks of the isodose loop -/

theorem List.find?_eq_some_of_unique {α : Type} (l : List α) (f : α → Bool) (d : α)
    (hex : ∃ x ∈ l, f x = true) (huniq : ∀ p ∈ l, f p = true → p = d) :
    l.find? f = some d := by
  induction l with
  | nil => obtain ⟨x, hx, _⟩ := hex; simp at hx
  | cons a l ih =>
    rw [List.find?_cons]
    cases hfa : f a with
    | true => simp only []; rw [huniq a (List.mem_cons_self _ _) hfa]
    | false =>
      simp only []
      apply ih
      · obtain ⟨x, hx, hfx⟩ := hex
        rcases List.mem_cons.mp hx with h | h
        · subst h; rw [hfa] at hfx; exact absurd hfx (by simp)
        · exact ⟨x, h, hfx⟩
      · exact fun p hp => huniq p (List.mem_cons_of_mem _ hp)

/-- A way to establish `Evolves`: every identifier is either unchanged or fresh, and the nodes
added to the scene have fresh identifiers. -/
theorem World.Evolves.of_ids {w w' : World} (added : List Ptr)
    (hN : w'.Nodes = w.Nodes ++ added)
    (hH : w.heap.length ≤ w'.heap.length)
    (hU : w.UniqueIDIndex ≤ w'.UniqueIDIndex)
    (hframe : ∀ q, q < w.heap.length → w.kind? q ≠ some NodeKind.ModelHierarchy →
      w'.node? q = w.node? q)
    (hkinds : ∀ q, q < w.heap.length → w'.kind? q = w.kind? q)
    (hid : ∀ q, w'.GetID q = w.GetID q ∨
      ∃ k, w.UniqueIDIndex ≤ k ∧ k < w'.UniqueIDIndex ∧ w'.GetID q = some (NodeID.generated k))
    (hadded : ∀ p ∈ added,
      ∃ k, k < w'.UniqueIDIndex ∧ w'.GetID p = some (NodeID.generated k)) :
    World.Evolves w w' := by
  refine ⟨⟨added, hN⟩, hH, hU, hframe, hkinds, ?_, ?_⟩
  · intro q k hk h
    rcases hid q with h1 | ⟨k', hk1, _, hk3⟩
    · rw [← h1]; exact h
    · rw [hk3] at h
      simp only [Option.some.injEq, NodeID.generated.injEq] at h
      omega
  · intro hb p hp k hpk
    rw [hN] at hp
    rcases List.mem_append.mp hp with h | h
    · rcases hid p with h1 | ⟨k', _, hk2, hk3⟩
      · rw [h1] at hpk
        exact lt_of_lt_of_le (hb p h k hpk) hU
      · rw [hk3] at hpk
        simp only [Option.some.injEq, NodeID.generated.injEq] at hpk
        omega
    · obtain ⟨k', hk1, hk2⟩ := hadded p h
      rw [hk2] at hpk
      simp only [Option.some.injEq, NodeID.generated.injEq] at hpk
      omega

section AddIsodoseModel

variable (env : IsodoseEnv) (t : vtkMRMLColorTableNode) (w : World) (lvl : ℚ)
  (poly : vtkPolyData)

@[simp] theorem addIsodoseModel_snd :
    (addIsodoseModel env t w lvl poly).2 = w.heap.length + 1 := by
  simp [addIsodoseModel, World.New]

@[simp] theorem addIsodoseModel_heap_length :
    (addIsodoseModel env t w lvl poly).1.heap.length = w.heap.length + 2 := by
  simp [addIsodoseModel, World.New]

@[simp] theorem addIsodoseModel_Nodes :
    (addIsodoseModel env t w lvl poly).1.Nodes = w.Nodes ++ [w.heap.length, w.heap.length + 1] := by
  simp [addIsodoseModel, World.New]

@[simp] theorem addIsodoseModel_UniqueIDIndex :
    (addIsodoseModel env t w lvl poly).1.UniqueIDIndex = w.UniqueIDIndex + 2 := by
  simp [addIsodoseModel, World.New]

@[simp] theorem addIsodoseModel_log :
    (addIsodoseModel env t w lvl poly).1.log = w.log := by
  simp [addIsodoseModel, World.New]

theorem addIsodoseModel_node? (q : Nat) (hq : q < w.heap.length) :
    (addIsodoseModel env t w lvl poly).1.node? q = w.node? q := by
  have h0 : q ≠ w.heap.length := by omega
  have h1 : q ≠ w.heap.length + 1 := by omega
  simp [addIsodoseModel, World.New, World.node?_alloc, World.node?_modify,
    World.node?_modifyData, World.node?_AddNode, h0, h1]

theorem addIsodoseModel_kind? (q : Nat) :
    (addIsodoseModel env t w lvl poly).1.kind? q =
      if q = w.heap.length + 1 then some NodeKind.Model
      else if q = w.heap.length then some NodeKind.ModelDisplay else w.kind? q := by
  simp [addIsodoseModel, World.New, World.kind?_alloc, World.kind?_modify,
    World.kind?_modifyData, World.map_kind_node?]

theorem addIsodoseModel_GetID (q : Nat) :
    (addIsodoseModel env t w lvl poly).1.GetID q =
      if q = w.heap.length + 1 then some (NodeID.generated (w.UniqueIDIndex + 1))
      else if q = w.heap.length then some (NodeID.generated w.UniqueIDIndex)
      else w.GetID q := by
  simp only [addIsodoseModel, World.New, World.GetID_alloc, World.GetID_modify,
    World.GetID_modifyData, World.GetID_AddNode, World.node?_alloc, World.node?_modify,
    World.node?_modifyData, World.node?_AddNode, World.heap_length_alloc,
    World.heap_length_AddNode, World.heap_length_modifyData, World.UniqueIDIndex_alloc,
    World.UniqueIDIndex_AddNode, World.UniqueIDIndex_modifyData]
  by_cases h1 : q = w.heap.length + 1
  · subst h1; simp
  · by_cases h0 : q = w.heap.length
    · subst h0; simp
    · simp [h0, h1]

theorem addIsodoseModel_modelDisplay? :
    (addIsodoseModel env t w lvl poly).1.modelDisplay? w.heap.length =
      some
        { Visibility := true
          SliceIntersectionVisibility := true
          Color := t.GetColor lvl
          Opacity := 2 / 10
          BackfaceCulling := false } := by
  simp [addIsodoseModel, World.New, World.modelDisplay?, World.node?_alloc, World.node?_modify,
    World.node?_modifyData, World.node?_AddNode, NodeData.mapModelDisplay]

theorem addIsodoseModel_model :
    (addIsodoseModel env t w lvl poly).1.node? (w.heap.length + 1) =
      some
        { ID := some (NodeID.generated (w.UniqueIDIndex + 1))
          Name := env.StreamDouble lvl
          HideFromEditors := false
          Attributes := []
          data := NodeData.Model
            { DisplayNodeID := some (NodeID.generated w.UniqueIDIndex)
              PolyData := some poly
              Selectable := true } } := by
  simp [addIsodoseModel, World.New, World.node?_alloc, World.node?_modify,
    World.node?_modifyData, World.node?_AddNode, NodeData.mapModel, World.GetID_alloc,
    World.GetID_modify, World.GetID_modifyData, World.GetID_AddNode]

end AddIsodoseModel

theorem addIsodoseModel_evolves (env : IsodoseEnv) (t : vtkMRMLColorTableNode) (w : World)
    (lvl : ℚ) (poly : vtkPolyData) :
    World.Evolves w (addIsodoseModel env t w lvl poly).1 := by
  refine World.Evolves.of_ids [w.heap.length, w.heap.length + 1] (by simp) (by simp) (by simp)
    (fun q hq _ => addIsodoseModel_node? env t w lvl poly q hq) ?_ ?_ ?_
  · intro q hq
    rw [addIsodoseModel_kind?, if_neg (by omega), if_neg (by omega)]
  · intro q
    rw [addIsodoseModel_GetID]
    by_cases h1 : q = w.heap.length + 1
    · right; exact ⟨w.UniqueIDIndex + 1, by omega, by simp, by simp [h1]⟩
    · by_cases h0 : q = w.heap.length
      · right; exact ⟨w.UniqueIDIndex, by omega, by simp, by simp [h0]⟩
      · left; simp [h0, h1]
  · intro p hp
    rw [addIsodoseModel_GetID]
    simp only [List.mem_cons, List.mem_singleton, List.not_mem_nil, or_false] at hp
    rcases hp with h | h
    · exact ⟨w.UniqueIDIndex, by simp, by simp [h]⟩
    · exact ⟨w.UniqueIDIndex + 1, by simp, by simp [h]⟩

theorem addIsodoseModel_surfaceAt (env : IsodoseEnv) (t : vtkMRMLColorTableNode) (w : World)
    (lvl : ℚ) (img : Option vtkImageData) (hb : w.IDsBelow) :
    (addIsodoseModel env t w lvl
      (isodoseSurfacePipeline env (env.MarchingCubes img lvl))).1.SurfaceAt
      (w.heap.length + 1) (expectedIsodoseSurface env t img lvl) w.heap.length
      w.UniqueIDIndex := by
  refine ⟨⟨_, _, addIsodoseModel_model env t w lvl _, rfl, rfl, rfl, rfl⟩, ?_,
    ⟨_, addIsodoseModel_modelDisplay? env t w lvl _, rfl⟩, by simp⟩
  simp only [World.GetNodeByID]
  apply List.find?_eq_some_of_unique
  · refine ⟨w.heap.length, by simp, ?_⟩
    simp [addIsodoseModel_GetID]
  · intro p hp hpid
    simp only [beq_iff_eq, addIsodoseModel_GetID] at hpid
    by_cases h1 : p = w.heap.length + 1
    · simp [h1] at hpid
    · by_cases h0 : p = w.heap.length
      · exact h0
      · simp only [h0, h1, if_false] at hpid
        simp only [addIsodoseModel_Nodes, List.mem_append, List.mem_cons, List.mem_singleton,
          List.not_mem_nil, or_false] at hp
        rcases hp with hp | hp | hp
        · exact absurd (hb p hp _ hpid) (by omega)
        · exact absurd hp h0
        · exact absurd hp h1

section AddToIsodoseHierarchy

variable (m : Ptr) (st : IsodoseLoopState)

theorem addToIsodoseHierarchy_root_none (h : st.modelHierarchyRootNode = none) :
    (addToIsodoseHierarchy m st).modelHierarchyRootNode = some st.w.heap.length := by
  simp [addToIsodoseHierarchy, h, World.New]

theorem addToIsodoseHierarchy_root_some (r : Ptr) (h : st.modelHierarchyRootNode = some r) :
    (addToIsodoseHierarchy m st).modelHierarchyRootNode = some r := by
  simp [addToIsodoseHierarchy, h, World.New]

theorem addToIsodoseHierarchy_heap_length :
    (addToIsodoseHierarchy m st).w.heap.length =
      st.w.heap.length + (if st.modelHierarchyRootNode.isSome then 2 else 3) := by
  cases h : st.modelHierarchyRootNode <;> simp [addToIsodoseHierarchy, h, World.New]

theorem addToIsodoseHierarchy_Nodes :
    (addToIsodoseHierarchy m st).w.Nodes =
      st.w.Nodes ++
        (match st.modelHierarchyRootNode with
          | some r => [r, st.w.heap.length, st.w.heap.length + 1]
          | none => [st.w.heap.length, st.w.heap.length + 1, st.w.heap.length + 2]) := by
  cases h : st.modelHierarchyRootNode <;> simp [addToIsodoseHierarchy, h, World.New]

@[simp] theorem addToIsodoseHierarchy_UniqueIDIndex :
    (addToIsodoseHierarchy m st).w.UniqueIDIndex = st.w.UniqueIDIndex + 3 := by
  cases h : st.modelHierarchyRootNode <;> simp [addToIsodoseHierarchy, h, World.New]

@[simp] theorem addToIsodoseHierarchy_log :
    (addToIsodoseHierarchy m st).w.log = st.w.log := by
  cases h : st.modelHierarchyRootNode <;> simp [addToIsodoseHierarchy, h, World.New]

theorem addToIsodoseHierarchy_node? (q : Nat) (hq : q < st.w.heap.length)
    (hr : st.modelHierarchyRootNode ≠ some q) :
    (addToIsodoseHierarchy m st).w.node? q = st.w.node? q := by
  have h0 : q ≠ st.w.heap.length := by omega
  have h1 : q ≠ st.w.heap.length + 1 := by omega
  have h2 : q ≠ st.w.heap.length + 2 := by omega
  cases h : st.modelHierarchyRootNode with
  | none =>
    simp [addToIsodoseHierarchy, h, World.New, World.node?_alloc, World.node?_modify,
      World.node?_modifyData, World.node?_AddNode, h0, h1, h2]
  | some r =>
    have h3 : q ≠ r := by
      intro hqr; apply hr; rw [h, hqr]
    simp [addToIsodoseHierarchy, h, World.New, World.node?_alloc, World.node?_modify,
      World.node?_modifyData, World.node?_AddNode, h0, h1, h2, h3]

theorem addToIsodoseHierarchy_kind? (q : Nat) :
    (addToIsodoseHierarchy m st).w.kind? q =
      match st.modelHierarchyRootNode with
      | some _ =>
        if q = st.w.heap.length + 1 then some NodeKind.ModelHierarchy
        else if q = st.w.heap.length then some NodeKind.ModelDisplay else st.w.kind? q
      | none =>
        if q = st.w.heap.length + 2 then some NodeKind.ModelHierarchy
        else if q = st.w.heap.length + 1 then some NodeKind.ModelDisplay
        else if q = st.w.heap.length then some NodeKind.ModelHierarchy else st.w.kind? q := by
  cases h : st.modelHierarchyRootNode <;>
  simp [addToIsodoseHierarchy, h, World.New, World.kind?_alloc, World.kind?_modify,
    World.kind?_modifyData, World.map_kind_node?]

theorem addToIsodoseHierarchy_GetID_none (h : st.modelHierarchyRootNode = none) (q : Nat) :
    (addToIsodoseHierarchy m st).w.GetID q =
      if q = st.w.heap.length + 2 then some (NodeID.generated (st.w.UniqueIDIndex + 2))
      else if q = st.w.heap.length + 1 then some (NodeID.generated (st.w.UniqueIDIndex + 1))
      else if q = st.w.heap.length then some (NodeID.generated st.w.UniqueIDIndex)
      else st.w.GetID q := by
  simp only [addToIsodoseHierarchy, h, World.New, World.GetID_alloc, World.GetID_modify,
    World.GetID_modifyData, World.GetID_AddNode, World.node?_alloc, World.node?_modify,
    World.node?_modifyData, World.node?_AddNode, World.heap_length_alloc,
    World.heap_length_AddNode, World.heap_length_modifyData, World.heap_length_modify,
    World.UniqueIDIndex_alloc, World.UniqueIDIndex_modify,
    World.UniqueIDIndex_AddNode, World.UniqueIDIndex_modifyData]
  by_cases h2 : q = st.w.heap.length + 2
  · subst h2; simp [Nat.add_assoc]
  · by_cases h1 : q = st.w.heap.length + 1
    · subst h1; simp [Nat.add_assoc]
    · by_cases h0 : q = st.w.heap.length
      · subst h0; simp [Nat.add_assoc]
      · simp [h0, h1, h2, Nat.add_assoc]

theorem addToIsodoseHierarchy_GetID_some (r : Nat) (h : st.modelHierarchyRootNode = some r)
    (hr : r < st.w.heap.length) (q : Nat) :
    (addToIsodoseHierarchy m st).w.GetID q =
      if q = st.w.heap.length + 1 then some (NodeID.generated (st.w.UniqueIDIndex + 2))
      else if q = st.w.heap.length then some (NodeID.generated (st.w.UniqueIDIndex + 1))
      else if q = r then some (NodeID.generated st.w.UniqueIDIndex)
      else st.w.GetID q := by
  obtain ⟨n, hn⟩ : ∃ n, st.w.node? r = some n := by
    cases hn : st.w.node? r with
    | none =>
      unfold World.node? at hn
      rw [List.getElem?_eq_none_iff] at hn; omega
    | some n => exact ⟨n, rfl⟩
  have hr0 : r ≠ st.w.heap.length := by omega
  have hr1 : r ≠ st.w.heap.length + 1 := by omega
  simp only [addToIsodoseHierarchy, h, World.New, World.GetID_alloc, World.GetID_modify,
    World.GetID_modifyData, World.GetID_AddNode, World.node?_alloc, World.node?_modify,
    World.node?_modifyData, World.node?_AddNode, World.heap_length_alloc,
    World.heap_length_AddNode, World.heap_length_modifyData, World.heap_length_modify,
    World.UniqueIDIndex_alloc, World.UniqueIDIndex_modify,
    World.UniqueIDIndex_AddNode, World.UniqueIDIndex_modifyData]
  by_cases h1 : q = st.w.heap.length + 1
  · subst h1; simp [Nat.add_assoc]
  · by_cases h0 : q = st.w.heap.length
    · subst h0; simp [Nat.add_assoc]
    · by_cases h2 : q = r
      · subst h2; simp [h0, h1, hn, Nat.add_assoc]
      · simp [h0, h1, h2, Nat.add_assoc]

end AddToIsodoseHierarchy

theorem addToIsodoseHierarchy_RootOK (m : Ptr) (st : IsodoseLoopState) (hroot : st.RootOK) :
    (addToIsodoseHierarchy m st).RootOK := by
  intro r' hr'
  rw [addToIsodoseHierarchy_kind?]
  cases h : st.modelHierarchyRootNode with
  | none =>
    rw [addToIsodoseHierarchy_root_none m st h] at hr'
    simp only [Option.some.injEq] at hr'
    subst hr'
    simp
  | some r =>
    rw [addToIsodoseHierarchy_root_some m st r h] at hr'
    simp only [Option.some.injEq] at hr'
    subst hr'
    have hk := hroot r h
    have hlt : r < st.w.heap.length := World.lt_of_kind? hk
    have h0 : r ≠ st.w.heap.length := Nat.ne_of_lt hlt
    have h1 : r ≠ st.w.heap.length + 1 := Nat.ne_of_lt (Nat.lt_succ_of_lt hlt)
    simp [h0, h1, hk]

theorem addToIsodoseHierarchy_evolves (m : Ptr) (st : IsodoseLoopState) (hroot : st.RootOK) :
    World.Evolves st.w (addToIsodoseHierarchy m st).w := by
  refine World.Evolves.of_ids _ (addToIsodoseHierarchy_Nodes m st)
    (by rw [addToIsodoseHierarchy_heap_length]; omega) (by simp) ?_ ?_ ?_ ?_
  · intro q hq hk
    apply addToIsodoseHierarchy_node? m st q hq
    intro hr
    exact hk (hroot q hr)
  · intro q hq
    have h0 : q ≠ st.w.heap.length := by omega
    have h1 : q ≠ st.w.heap.length + 1 := by omega
    have h2 : q ≠ st.w.heap.length + 2 := by omega
    rw [addToIsodoseHierarchy_kind?]
    cases st.modelHierarchyRootNode <;> simp [h0, h1, h2]
  · intro q
    cases h : st.modelHierarchyRootNode with
    | none =>
      rw [addToIsodoseHierarchy_GetID_none m st h]
      by_cases h2 : q = st.w.heap.length + 2
      · right; exact ⟨st.w.UniqueIDIndex + 2, by omega, by simp, by simp [h2]⟩
      · by_cases h1 : q = st.w.heap.length + 1
        · right; exact ⟨st.w.UniqueIDIndex + 1, by omega, by simp, by simp [h1]⟩
        · by_cases h0 : q = st.w.heap.length
          · right; exact ⟨st.w.UniqueIDIndex, by omega, by simp, by simp [h0]⟩
          · left; simp [h0, h1, h2]
    | some r =>
      have hlt : r < st.w.heap.length := World.lt_of_kind? (hroot r h)
      have hr0 : r ≠ st.w.heap.length := Nat.ne_of_lt hlt
      have hr1 : r ≠ st.w.heap.length + 1 := Nat.ne_of_lt (Nat.lt_succ_of_lt hlt)
      rw [addToIsodoseHierarchy_GetID_some m st r h hlt]
      by_cases h1 : q = st.w.heap.length + 1
      · right; exact ⟨st.w.UniqueIDIndex + 2, by omega, by simp, by simp [h1]⟩
      · by_cases h0 : q = st.w.heap.length
        · right; exact ⟨st.w.UniqueIDIndex + 1, by omega, by simp, by simp [h0]⟩
        · by_cases h2 : q = r
          · right; exact ⟨st.w.UniqueIDIndex, by omega, by simp, by simp [h2, hr0, hr1]⟩
          · left; simp [h0, h1, h2]
  · intro p hp
    cases h : st.modelHierarchyRootNode with
    | none =>
      rw [addToIsodoseHierarchy_GetID_none m st h]
      simp only [h, List.mem_cons, List.mem_singleton, List.not_mem_nil, or_false] at hp
      rcases hp with hp | hp | hp
      · exact ⟨st.w.UniqueIDIndex, by simp, by simp [hp]⟩
      · exact ⟨st.w.UniqueIDIndex + 1, by simp, by simp [hp]⟩
      · exact ⟨st.w.UniqueIDIndex + 2, by simp, by simp [hp]⟩
    | some r =>
      have hlt : r < st.w.heap.length := World.lt_of_kind? (hroot r h)
      have hr0 : r ≠ st.w.heap.length := Nat.ne_of_lt hlt
      have hr1 : r ≠ st.w.heap.length + 1 := Nat.ne_of_lt (Nat.lt_succ_of_lt hlt)
      rw [addToIsodoseHierarchy_GetID_some m st r h hlt]
      simp only [h, List.mem_cons, List.mem_singleton, List.not_mem_nil, or_false] at hp
      rcases hp with hp | hp | hp
      · exact ⟨st.w.UniqueIDIndex, by simp, by simp [hp, hr0, hr1]⟩
      · exact ⟨st.w.UniqueIDIndex + 1, by simp, by simp [hp]⟩
      · exact ⟨st.w.UniqueIDIndex + 2, by simp, by simp [hp]⟩

/-- The nodes the hierarchy block adds to the scene are no model nodes. -/
theorem addToIsodoseHierarchy_added_kinds (m : Ptr) (st : IsodoseLoopState)
    (hroot : st.RootOK) :
    ∀ p ∈ (match st.modelHierarchyRootNode with
          | some r => [r, st.w.heap.length, st.w.heap.length + 1]
          | none => [st.w.heap.length, st.w.heap.length + 1, st.w.heap.length + 2]),
      p < (addToIsodoseHierarchy m st).w.heap.length ∧
      (addToIsodoseHierarchy m st).w.kind? p ≠ some NodeKind.Model := by
  intro p hp
  rw [addToIsodoseHierarchy_kind?, addToIsodoseHierarchy_heap_length]
  cases h : st.modelHierarchyRootNode with
  | none =>
    simp only [h, List.mem_cons, List.mem_singleton, List.not_mem_nil, or_false] at hp
    rcases hp with hp | hp | hp <;> subst hp <;> simp
  | some r =>
    have hk := hroot r h
    have hlt : r < st.w.heap.length := World.lt_of_kind? hk
    have hr0 : r ≠ st.w.heap.length := Nat.ne_of_lt hlt
    have hr1 : r ≠ st.w.heap.length + 1 := Nat.ne_of_lt (Nat.lt_succ_of_lt hlt)
    simp only [h, List.mem_cons, List.mem_singleton, List.not_mem_nil, or_false] at hp
    rcases hp with hp | hp | hp
    · subst hp; simp [hr0, hr1, hk]; exact Nat.lt_add_right _ hlt
    · subst hp; simp
    · subst hp; simp

theorem List.filterMap_eq_nil_of_forall {α β : Type} (l : List α) (f : α → Option β)
    (h : ∀ p ∈ l, f p = none) : l.filterMap f = [] := by
  induction l with
  | nil => rfl
  | cons a l ih =>
    rw [List.filterMap_cons, h a (List.mem_cons_self _ _)]
    exact ih (fun p hp => h p (List.mem_cons_of_mem _ hp))

/-- One iteration of the isodose loop: the world evolves, the root stays usable, the
extraction call is logged, and the nodes added to the scene hold exactly the expected surface
model when the extracted surface has a point, and no surface model otherwise; this stays
so in every later world. -/
theorem isodoseLoopBody_spec (env : IsodoseEnv) (t : vtkMRMLColorTableNode)
    (img : Option vtkImageData) (st : IsodoseLoopState) (lvl : ℚ) (hroot : st.RootOK)
    (hb : st.w.IDsBelow) :
    World.Evolves st.w (isodoseLoopBody env t img st lvl).w ∧
    (isodoseLoopBody env t img st lvl).RootOK ∧
    (isodoseLoopBody env t img st lvl).w.log =
      st.w.log ++ [Event.MarchingCubesUpdate img lvl] ∧
    ∃ added, (isodoseLoopBody env t img st lvl).w.Nodes = st.w.Nodes ++ added ∧
      added.length = (if 1 ≤ (env.MarchingCubes img lvl).GetNumberOfPoints then 5 else 0) ∧
      ∀ w', World.Evolves (isodoseLoopBody env t img st lvl).w w' →
        added.filterMap w'.surface? =
          if 1 ≤ (env.MarchingCubes img lvl).GetNumberOfPoints then
            [expectedIsodoseSurface env t img lvl]
          else [] := by
  by_cases hne : 1 ≤ (env.MarchingCubes img lvl).GetNumberOfPoints
  · -- a surface is produced
    have hbody : isodoseLoopBody env t img st lvl =
        addToIsodoseHierarchy ((st.w.emit (Event.MarchingCubesUpdate img lvl)).heap.length + 1)
          { st with
            w := (addIsodoseModel env t (st.w.emit (Event.MarchingCubesUpdate img lvl)) lvl
              (isodoseSurfacePipeline env (env.MarchingCubes img lvl))).1 } := by
      simp [isodoseLoopBody, hne]
    rw [hbody]
    generalize hw0 : st.w.emit (Event.MarchingCubesUpdate img lvl) = w0
    have hlen0 : w0.heap.length = st.w.heap.length := by rw [← hw0]; rfl
    have hb0 : w0.IDsBelow := by rw [← hw0]; exact hb
    have he0 : World.Evolves st.w w0 := by rw [← hw0]; exact World.Evolves.emit _ _
    generalize hw1 : (addIsodoseModel env t w0 lvl
      (isodoseSurfacePipeline env (env.MarchingCubes img lvl))) = r1
    have he1 : World.Evolves w0 r1.1 := by rw [← hw1]; exact addIsodoseModel_evolves _ _ _ _ _
    have hsurf : r1.1.SurfaceAt (w0.heap.length + 1) (expectedIsodoseSurface env t img lvl)
        w0.heap.length w0.UniqueIDIndex := by
      rw [← hw1]; exact addIsodoseModel_surfaceAt env t w0 lvl img hb0
    have hroot1 : IsodoseLoopState.RootOK { st with w := r1.1 } := by
      intro r hr
      have hk := hroot r hr
      have hlt := World.lt_of_kind? hk
      show r1.1.kind? r = _
      rw [he1.kinds r (hlen0 ▸ hlt), ← hw0]
      exact hk
    have he2 := addToIsodoseHierarchy_evolves (w0.heap.length + 1) { st with w := r1.1 } hroot1
    refine ⟨he0.trans (he1.trans he2), addToIsodoseHierarchy_RootOK _ _ hroot1, ?_, ?_⟩
    · rw [addToIsodoseHierarchy_log]
      show r1.1.log = _
      rw [← hw1, addIsodoseModel_log, ← hw0]; rfl
    · refine ⟨[w0.heap.length, w0.heap.length + 1] ++
          (match st.modelHierarchyRootNode with
            | some r => [r, r1.1.heap.length, r1.1.heap.length + 1]
            | none => [r1.1.heap.length, r1.1.heap.length + 1, r1.1.heap.length + 2]), ?_, ?_, ?_⟩
      · rw [addToIsodoseHierarchy_Nodes]
        show r1.1.Nodes ++ _ = _
        rw [← hw1, addIsodoseModel_Nodes, ← hw0, List.append_assoc]
        rfl
      · rw [if_pos hne]; cases st.modelHierarchyRootNode <;> rfl
      · intro w' hw'
        rw [if_pos hne, List.filterMap_append]
        have hk0 : r1.1.kind? w0.heap.length = some NodeKind.ModelDisplay := by
          rw [← hw1, addIsodoseModel_kind?]; simp
        have hlen1 : r1.1.heap.length = w0.heap.length + 2 := by
          rw [← hw1]; simp
        have h0 : w'.surface? w0.heap.length = none := by
          apply World.surface?_eq_none
          rw [hw'.kinds _ (lt_of_lt_of_le (by rw [hlen1]; omega) he2.heap),
            he2.kinds _ (by rw [hlen1]; omega), hk0]
          simp
        have h1 : w'.surface? (w0.heap.length + 1) =
            some (expectedIsodoseSurface env t img lvl) :=
          ((hsurf.evolves he2).evolves hw').surface?
        have h2 := List.filterMap_eq_nil_of_forall _ w'.surface?
          (fun p hp => by
            obtain ⟨hlt, hk⟩ := addToIsodoseHierarchy_added_kinds (w0.heap.length + 1)
              { st with w := r1.1 } hroot1 p hp
            apply World.surface?_eq_none
            rw [hw'.kinds _ hlt]
            exact hk)
        rw [h2]
        simp [List.filterMap_cons, h0, h1]
  · -- the level is skipped
    have hbody : isodoseLoopBody env t img st lvl =
        { st with w := st.w.emit (Event.MarchingCubesUpdate img lvl) } := by
      simp [isodoseLoopBody, hne]
    rw [hbody]
    refine ⟨World.Evolves.emit _ _, hroot, rfl, [], by simp, by rw [if_neg hne]; rfl, ?_⟩
    intro w' _
    rw [if_neg hne]; rfl

/-- The loop over the dose levels, from any state with a usable root in a scene whose
generated identifiers are below its counter. -/
theorem isodoseLoop_spec (env : IsodoseEnv) (t : vtkMRMLColorTableNode)
    (img : Option vtkImageData) (levels : List ℚ) :
    ∀ st : IsodoseLoopState, st.RootOK → st.w.IDsBelow →
      World.Evolves st.w (levels.foldl (isodoseLoopBody env t img) st).w ∧
      (levels.foldl (isodoseLoopBody env t img) st).RootOK ∧
      (levels.foldl (isodoseLoopBody env t img) st).w.log =
        st.w.log ++ levels.map (Event.MarchingCubesUpdate img) ∧
      ∃ added, (levels.foldl (isodoseLoopBody env t img) st).w.Nodes = st.w.Nodes ++ added ∧
        added.length = 5 * (levels.filter fun lvl =>
          decide (1 ≤ (env.MarchingCubes img lvl).GetNumberOfPoints)).length ∧
        ∀ w', World.Evolves (levels.foldl (isodoseLoopBody env t img) st).w w' →
          added.filterMap w'.surface? =
            (levels.filter fun lvl =>
              decide (1 ≤ (env.MarchingCubes img lvl).GetNumberOfPoints)).map
              (expectedIsodoseSurface env t img) := by
  induction levels with
  | nil =>
    intro st hroot _
    exact ⟨World.Evolves.refl _, hroot, by simp, [], by simp, by simp, fun _ _ => rfl⟩
  | cons lvl rest ih =>
    intro st hroot hb
    obtain ⟨he0, hroot1, hlog0, a0, hn0, hl0, hs0⟩ := isodoseLoopBody_spec env t img st lvl hroot hb
    obtain ⟨he1, hrootf, hlog1, a1, hn1, hl1, hs1⟩ :=
      ih (isodoseLoopBody env t img st lvl) hroot1 (he0.below hb)
    simp only [List.foldl_cons]
    refine ⟨he0.trans he1, hrootf, ?_, a0 ++ a1, ?_, ?_, ?_⟩
    · rw [hlog1, hlog0]; simp
    · rw [hn1, hn0, List.append_assoc]
    · rw [List.length_append, hl0, hl1, List.filter_cons]
      by_cases hne : 1 ≤ (env.MarchingCubes img lvl).GetNumberOfPoints
      · simp [hne]; omega
      · simp [hne]
    · intro w' hw'
      rw [List.filterMap_append, hs0 w' (he1.trans hw'), hs1 w' hw', List.filter_cons]
      by_cases hne : 1 ≤ (env.MarchingCubes img lvl).GetNumberOfPoints
      · simp [hne]
      · simp [hne]

theorem World.modelHierarchy?_kind {w : World} {p : Option Ptr} {r : Ptr}
    (h : w.modelHierarchy? p = some r) : w.kind? r = some NodeKind.ModelHierarchy := by
  unfold World.modelHierarchy? at h
  cases p with
  | none => simp at h
  | some q =>
    simp only [] at h
    cases hn : w.node? q with
    | none => rw [hn] at h; simp at h
    | some n =>
      rw [hn] at h
      have hk := World.kind?_eq_some_of_node? hn
      cases hd : n.data <;> simp [hd] at h
      subst h
      rw [hk, hd]; rfl

theorem isodoseRun_spec (env : IsodoseEnv) (t : vtkMRMLColorTableNode)
    (img : Option vtkImageData) (levels : List ℚ) (w0 : World) (root : Option Ptr)
    (hroot : ∀ r, root = some r → w0.kind? r = some NodeKind.ModelHierarchy)
    (hb : w0.IDsBelow) :
    w0.createdSurfaces
        ((levels.foldl (isodoseLoopBody env t img)
          { w := w0, modelHierarchyRootNode := root }).w.emit Event.EndState) =
      (producedLevels env img levels).map (expectedIsodoseSurface env t img) ∧
    ((levels.foldl (isodoseLoopBody env t img)
        { w := w0, modelHierarchyRootNode := root }).w.emit Event.EndState).Nodes.length =
      w0.Nodes.length + 5 * (producedLevels env img levels).length ∧
    ((levels.foldl (isodoseLoopBody env t img)
        { w := w0, modelHierarchyRootNode := root }).w.emit Event.EndState).log =
      w0.log ++ levels.map (Event.MarchingCubesUpdate img) ++ [Event.EndState] := by
  obtain ⟨_, _, hlog, added, hn, hl, hs⟩ :=
    isodoseLoop_spec env t img levels { w := w0, modelHierarchyRootNode := root } hroot hb
  refine ⟨?_, ?_, ?_⟩
  · unfold World.createdSurfaces
    rw [World.Nodes_emit, hn, List.drop_left]
    exact hs _ (World.Evolves.emit _ _)
  · rw [World.Nodes_emit, hn, List.length_append, hl]; rfl
  · rw [World.log_emit, hlog]

/-- A run of `ComputeIsodose` with initialized inputs in a scene whose generated identifiers
are below its counter: the call returns 0; the surface models it adds to the scene are the
expected ones for the produced levels, in request order, five scene nodes per produced
level; the log gains the start of the batch, one extraction call per requested level, and
the end of the batch, after a warning when the dose grid scaling attribute is absent. -/
theorem ComputeIsodose_spec (C : SlicerRtCommon) (env : IsodoseEnv)
    (self : vtkSlicerIsodoseModuleLogic) (w : World) (node : vtkMRMLIsodoseNode)
    (n : vtkMRMLNode) (v : vtkMRMLScalarVolumeNode) (t : vtkMRMLColorTableNode)
    (hscene : self.HasMRMLScene = true) (hnode : self.IsodoseNode = some node)
    (hvol : w.scalarVolume? (w.GetNodeByID node.DoseVolumeNodeId) = some (n, v))
    (hcolor : w.volumeColorNode? v = some t) (hb : w.IDsBelow) :
    ∃ w', ComputeIsodose C env self w = some (0, w') ∧
      w.createdSurfaces w' =
        (producedLevels env (isodoseInputImage v) node.IsodoseLevelVector).map
          (expectedIsodoseSurface env t (isodoseInputImage v)) ∧
      w'.Nodes.length = w.Nodes.length +
        5 * (producedLevels env (isodoseInputImage v) node.IsodoseLevelVector).length ∧
      w'.log = w.log ++
        (match n.GetAttribute C.DICOMRTIMPORT_DOSE_UNIT_VALUE_ATTRIBUTE_NAME with
          | some _ => []
          | none => [Event.Warning Message.DoseGridScalingNotSet]) ++
        [Event.StartState] ++
        node.IsodoseLevelVector.map (Event.MarchingCubesUpdate (isodoseInputImage v)) ++
        [Event.EndState] := by
  cases hattr : n.GetAttribute C.DICOMRTIMPORT_DOSE_UNIT_VALUE_ATTRIBUTE_NAME with
  | none =>
    simp only [ComputeIsodose, hscene, hnode, hvol, hattr]
    rw [show ((w.emit (Event.Warning Message.DoseGridScalingNotSet)).emit
        Event.StartState).volumeColorNode? v = w.volumeColorNode? v from rfl, hcolor]
    refine ⟨_, rfl, ?_⟩
    exact isodoseRun_spec env t (isodoseInputImage v) node.IsodoseLevelVector
      ((w.emit (Event.Warning Message.DoseGridScalingNotSet)).emit Event.StartState) _
      (fun r hr => World.modelHierarchy?_kind hr) hb
  | some text =>
    simp only [ComputeIsodose, hscene, hnode, hvol, hattr]
    rw [show (w.emit Event.StartState).volumeColorNode? v = w.volumeColorNode? v from rfl,
      hcolor]
    refine ⟨_, rfl, ?_⟩
    have := isodoseRun_spec env t (isodoseInputImage v) node.IsodoseLevelVector
      (w.emit Event.StartState) (w.modelHierarchy? (w.GetNodeByID node.OutputHierarchyNodeId))
      (fun r hr => World.modelHierarchy?_kind (w := w) hr) hb
    simpa using this

/-! ## Sample runs -/

theorem sampleIsodoseWorld_IDsBelow (alpha : ℚ) : (sampleIsodoseWorld alpha).IDsBelow := by
  intro p hp k hk
  simp only [sampleIsodoseWorld, List.mem_cons, List.mem_singleton, List.not_mem_nil,
    or_false] at hp
  show k < 3
  rcases hp with h | h | h <;> subst h <;>
    simp [sampleIsodoseWorld, World.GetID, World.node?] at hk <;> omega

theorem sampleIsodoseWorld_volume (alpha : ℚ) :
    (sampleIsodoseWorld alpha).scalarVolume?
      ((sampleIsodoseWorld alpha).GetNodeByID (some (NodeID.generated 0))) =
      some
        ({ ID := some (NodeID.generated 0)
           Name := "dose"
           Attributes := [("DoseUnitValue", "0.01")]
           data := NodeData.ScalarVolume
             { ImageData := some { ScalarType := ScalarType.Float, scalars := [1 / 2, 5 / 2] }
               DisplayNodeID := some (NodeID.generated 1) } },
         { ImageData := some { ScalarType := ScalarType.Float, scalars := [1 / 2, 5 / 2] }
           DisplayNodeID := some (NodeID.generated 1) }) := by
  simp [sampleIsodoseWorld, World.scalarVolume?, World.GetNodeByID, World.GetID, World.node?]

theorem sampleIsodoseWorld_colorNode (alpha : ℚ) :
    (sampleIsodoseWorld alpha).volumeColorNode?
      { ImageData := some { ScalarType := ScalarType.Float, scalars := [1 / 2, 5 / 2] }
        DisplayNodeID := some (NodeID.generated 1) } =
      some
        { ColorType := ColorTableType.User
          Colors := [some ⟨"low", 1, 1, 0, alpha⟩, some ⟨"high", 1, 0, 0, alpha⟩]
          LastAddedColor := 1
          TableRange := (0, 4) } := by
  simp [sampleIsodoseWorld, World.volumeColorNode?, World.GetNodeByID, World.GetID,
    World.node?]

theorem sample_producedLevels :
    producedLevels sampleIsodoseEnv
      (isodoseInputImage
        { ImageData := some { ScalarType := ScalarType.Float, scalars := [1 / 2, 5 / 2] }
          DisplayNodeID := some (NodeID.generated 1) }) [1, 2, 3] = [1, 2] := by
  simp [producedLevels, isodoseInputImage, vtkImageChangeInformation, sampleIsodoseEnv,
    vtkPolyData.GetNumberOfPoints, List.filter_cons]
  norm_num

/-! ## Changing the attributes of a node -/

section Attributes

variable (w : World) (p : Ptr) (attrs : List (String × String))

theorem World.node?_setAttributes (q : Nat) :
    (w.modify p fun nd => { nd with Attributes := attrs }).node? q =
      if q = p then (w.node? q).map (fun nd => { nd with Attributes := attrs })
      else w.node? q :=
  World.node?_modify _ _ _ _

theorem World.data_setAttributes (q : Nat) :
    ((w.modify p fun nd => { nd with Attributes := attrs }).node? q).map (fun nd => nd.data) =
      (w.node? q).map (fun nd => nd.data) := by
  rw [World.node?_setAttributes]
  split
  · cases w.node? q <;> rfl
  · rfl

theorem World.GetID_setAttributes (q : Nat) :
    (w.modify p fun nd => { nd with Attributes := attrs }).GetID q = w.GetID q := by
  rw [World.GetID_modify]
  split
  · rfl
  · rfl

theorem World.GetNodeByID_setAttributes (id : Option NodeID) :
    (w.modify p fun nd => { nd with Attributes := attrs }).GetNodeByID id =
      w.GetNodeByID id := by
  cases id with
  | none => rfl
  | some i =>
    simp only [World.GetNodeByID, World.Nodes_modify]
    congr 1
    funext q
    rw [World.GetID_setAttributes]

theorem World.IDsBelow_setAttributes (hb : w.IDsBelow) :
    (w.modify p fun nd => { nd with Attributes := attrs }).IDsBelow := by
  intro q hq k hk
  rw [World.GetID_setAttributes] at hk
  exact hb q hq k hk

theorem World.volumeColorNode?_setAttributes (v : vtkMRMLScalarVolumeNode) :
    (w.modify p fun nd => { nd with Attributes := attrs }).volumeColorNode? v =
      w.volumeColorNode? v := by
  have hdata := World.data_setAttributes w p attrs
  simp only [World.volumeColorNode?, World.GetNodeByID_setAttributes]
  cases hd : w.GetNodeByID v.DisplayNodeID with
  | none => rfl
  | some d =>
    have h1 := hdata d
    simp only [Option.bind]
    cases hn : w.node? d with
    | none =>
      rw [hn] at h1
      cases hn2 : (w.modify p fun nd => { nd with Attributes := attrs }).node? d with
      | none => rfl
      | some x => rw [hn2] at h1; simp at h1
    | some nd =>
      rw [hn] at h1
      cases hn2 : (w.modify p fun nd => { nd with Attributes := attrs }).node? d with
      | none => rw [hn2] at h1; simp at h1
      | some nd2 =>
        rw [hn2] at h1
        simp only [Option.map, Option.some.injEq] at h1
        simp only [h1]
        cases hdd : nd.data with
        | ScalarVolumeDisplay dn =>
          simp only []
          cases hc : w.GetNodeByID dn.ColorNodeID with
          | none => rfl
          | some c =>
            have h2 := hdata c
            simp only []
            cases hm : w.node? c with
            | none =>
              rw [hm] at h2
              cases hm2 : (w.modify p fun nd => { nd with Attributes := attrs }).node? c with
              | none => rfl
              | some x => rw [hm2] at h2; simp at h2
            | some cn =>
              rw [hm] at h2
              cases hm2 : (w.modify p fun nd => { nd with Attributes := attrs }).node? c with
              | none => rw [hm2] at h2; simp at h2
              | some cn2 =>
                rw [hm2] at h2
                simp only [Option.map, Option.some.injEq] at h2
                simp only [h2]
        | _ => rfl

theorem World.scalarVolume?_setAttributes (n : vtkMRMLNode) (v : vtkMRMLScalarVolumeNode)
    (h : w.scalarVolume? (some p) = some (n, v)) :
    (w.modify p fun nd => { nd with Attributes := attrs }).scalarVolume? (some p) =
      some ({ n with Attributes := attrs }, v) := by
  simp only [World.scalarVolume?, Option.bind] at h ⊢
  rw [World.node?_setAttributes, if_pos rfl]
  cases hn : w.node? p with
  | none => rw [hn] at h; simp at h
  | some nd =>
    rw [hn] at h
    simp only [Option.map]
    cases hd : nd.data <;> simp [hd] at h
    obtain ⟨h1, h2⟩ := h
    subst h1 h2
    simp [hd]

end Attributes

/-! ## Claims about `ComputeIsodose` -/

theorem extractionCalls_append (l1 l2 : List Event) :
    extractionCalls (l1 ++ l2) = extractionCalls l1 ++ extractionCalls l2 := by
  simp [extractionCalls, List.filterMap_append]

theorem extractionCalls_map (img : Option vtkImageData) (levels : List ℚ) :
    extractionCalls (levels.map (Event.MarchingCubesUpdate img)) =
      levels.map (fun lvl => (img, lvl)) := by
  induction levels with
  | nil => rfl
  | cons a l ih =>
    simp only [List.map_cons]
    rw [← ih]
    rfl

/-- C8. A run of `ComputeIsodose` with initialized inputs returns, and the surface models it
adds to the scene are named, in scene order, by the requested dose levels whose extracted
surface has at least one point, in request order: one model for each such level. These levels
form a sub-sequence of the request. A level whose surface has no point adds nothing: the
scene grows by five nodes per produced level, and the call logs no error. -/
theorem isodose_models_follow_requested_levels (C : SlicerRtCommon) (env : IsodoseEnv)
    (self : vtkSlicerIsodoseModuleLogic) (w : World) (node : vtkMRMLIsodoseNode)
    (n : vtkMRMLNode) (v : vtkMRMLScalarVolumeNode) (t : vtkMRMLColorTableNode)
    (hscene : self.HasMRMLScene = true) (hnode : self.IsodoseNode = some node)
    (hvol : w.scalarVolume? (w.GetNodeByID node.DoseVolumeNodeId) = some (n, v))
    (hcolor : w.volumeColorNode? v = some t) (hb : w.IDsBelow) :
    ∃ w', ComputeIsodose C env self w = some (0, w') ∧
      (w.createdSurfaces w').map (fun s => s.Name) =
        (node.IsodoseLevelVector.filter fun lvl =>
          decide (1 ≤ (env.MarchingCubes (isodoseInputImage v) lvl).GetNumberOfPoints)).map
          env.StreamDouble ∧
      (node.IsodoseLevelVector.filter fun lvl =>
          decide (1 ≤ (env.MarchingCubes (isodoseInputImage v) lvl).GetNumberOfPoints)).Sublist
        node.IsodoseLevelVector ∧
      w'.Nodes.length = w.Nodes.length + 5 *
        (node.IsodoseLevelVector.filter fun lvl =>
          decide (1 ≤ (env.MarchingCubes (isodoseInputImage v) lvl).GetNumberOfPoints)).length ∧
      ∀ m, Event.Error m ∉ w'.log.drop w.log.length := by
  obtain ⟨w', hrun, hsurf, hlen, hlog⟩ :=
    ComputeIsodose_spec C env self w node n v t hscene hnode hvol hcolor hb
  refine ⟨w', hrun, ?_, List.filter_sublist _, hlen, ?_⟩
  · rw [hsurf, List.map_map]; rfl
  · intro m hm
    rw [hlog] at hm
    simp only [List.append_assoc, List.drop_left] at hm
    cases hattr : n.GetAttribute C.DICOMRTIMPORT_DOSE_UNIT_VALUE_ATTRIBUTE_NAME <;>
      simp [hattr] at hm

/-- C8 at the sample scene: of the requested levels 1, 2, 3 on a volume with values from 1/2 to
5/2, two models are produced, named "1" and "2" in this order, and the scene grows from 3 to
13 nodes. -/
theorem isodose_models_follow_requested_levels_witness :
    ∃ w', ComputeIsodose sampleCommon sampleIsodoseEnv sampleIsodoseLogic
        (sampleIsodoseWorld (1 / 5)) = some (0, w') ∧
      ((sampleIsodoseWorld (1 / 5)).createdSurfaces w').map (fun s => s.Name) = ["1", "2"] ∧
      w'.Nodes.length = 13 := by
  obtain ⟨w', hrun, hnames, _, hlen, _⟩ :=
    isodose_models_follow_requested_levels sampleCommon sampleIsodoseEnv sampleIsodoseLogic
      (sampleIsodoseWorld (1 / 5)) _ _ _ _ rfl rfl (sampleIsodoseWorld_volume (1 / 5))
      (sampleIsodoseWorld_colorNode (1 / 5)) (sampleIsodoseWorld_IDsBelow (1 / 5))
  have hp := sample_producedLevels
  unfold producedLevels at hp
  refine ⟨w', hrun, ?_, ?_⟩
  · rw [hnames, hp]
    simp [sampleIsodoseEnv]
  · rw [hlen, hp]; rfl

theorem vtkMRMLColorTableNode.GetColor_eq (t : vtkMRMLColorTableNode) (x : ℚ) :
    t.GetColor x =
      (((t.Colors.map (Option.map fun e => (e.r, e.g, e.b))).getD (t.GetIndex x) none).getD
        (0, 0, 0)) := by
  unfold vtkMRMLColorTableNode.GetColor
  simp only [List.getD_eq_getElem?_getD, List.getElem?_map]
  cases t.Colors[t.GetIndex x]? with
  | none => rfl
  | some o => cases o <;> rfl

/-- Two color tables with the same table range and the same RGB values give the same colors,
whatever their alpha values. -/
theorem vtkMRMLColorTableNode.GetColor_congr (t1 t2 : vtkMRMLColorTableNode)
    (hrange : t1.TableRange = t2.TableRange)
    (hrgb : t1.Colors.map (Option.map fun e => (e.r, e.g, e.b)) =
      t2.Colors.map (Option.map fun e => (e.r, e.g, e.b))) (x : ℚ) :
    t1.GetColor x = t2.GetColor x := by
  have hlen : t1.Colors.length = t2.Colors.length := by
    have := congrArg List.length hrgb
    simpa using this
  have hidx : t1.GetIndex x = t2.GetIndex x := by
    unfold vtkMRMLColorTableNode.GetIndex
    rw [hrange, hlen]
  rw [vtkMRMLColorTableNode.GetColor_eq, vtkMRMLColorTableNode.GetColor_eq, hrgb, hidx]

/-- C9. In a run of `ComputeIsodose` with initialized inputs, the display properties of the
surface models added to the scene are, in order of the produced levels: visible, slice
intersections visible, the color of the lookup table at the dose level, opacity 0.2,
back-face culling off. A second run, in any scene whose dose volume gives the same input image
and whose lookup table gives the same colors, whatever its opacities, adds the same
surface models. -/
theorem isodose_display_color_and_fixed_opacity (C : SlicerRtCommon) (env : IsodoseEnv)
    (self : vtkSlicerIsodoseModuleLogic) (node : vtkMRMLIsodoseNode)
    (w : World) (n : vtkMRMLNode) (v : vtkMRMLScalarVolumeNode) (t : vtkMRMLColorTableNode)
    (w2 : World) (n2 : vtkMRMLNode) (v2 : vtkMRMLScalarVolumeNode)
    (t2 : vtkMRMLColorTableNode)
    (hscene : self.HasMRMLScene = true) (hnode : self.IsodoseNode = some node)
    (hvol : w.scalarVolume? (w.GetNodeByID node.DoseVolumeNodeId) = some (n, v))
    (hcolor : w.volumeColorNode? v = some t) (hb : w.IDsBelow)
    (hvol2 : w2.scalarVolume? (w2.GetNodeByID node.DoseVolumeNodeId) = some (n2, v2))
    (hcolor2 : w2.volumeColorNode? v2 = some t2) (hb2 : w2.IDsBelow)
    (himg : isodoseInputImage v2 = isodoseInputImage v)
    (hsame : ∀ x, t2.GetColor x = t.GetColor x) :
    ∃ w' w2', ComputeIsodose C env self w = some (0, w') ∧
      ComputeIsodose C env self w2 = some (0, w2') ∧
      (w.createdSurfaces w').map (fun s => s.Display) =
        (node.IsodoseLevelVector.filter fun lvl =>
          decide (1 ≤ (env.MarchingCubes (isodoseInputImage v) lvl).GetNumberOfPoints)).map
          (fun lvl => some
            { Visibility := true
              SliceIntersectionVisibility := true
              Color := t.GetColor lvl
              Opacity := 1 / 5
              BackfaceCulling := false }) ∧
      w2.createdSurfaces w2' = w.createdSurfaces w' := by
  obtain ⟨w', hrun, hsurf, _, _⟩ :=
    ComputeIsodose_spec C env self w node n v t hscene hnode hvol hcolor hb
  obtain ⟨w2', hrun2, hsurf2, _, _⟩ :=
    ComputeIsodose_spec C env self w2 node n2 v2 t2 hscene hnode hvol2 hcolor2 hb2
  refine ⟨w', w2', hrun, hrun2, ?_, ?_⟩
  · rw [hsurf, List.map_map]
    unfold producedLevels
    apply List.map_congr_left
    intro lvl _
    simp only [Function.comp, expectedIsodoseSurface]
    norm_num
  · rw [hsurf, hsurf2, himg]
    apply List.map_congr_left
    intro lvl _
    simp only [expectedIsodoseSurface, hsame]

/-- C9 at the sample scene, run once with a lookup table of alpha 1/5 and once with alpha 1:
both runs add the same surface models, with opacity 1/5 for the levels 1 and 2. -/
theorem isodose_display_color_and_fixed_opacity_witness :
    ∃ w' w2', ComputeIsodose sampleCommon sampleIsodoseEnv sampleIsodoseLogic
        (sampleIsodoseWorld (1 / 5)) = some (0, w') ∧
      ComputeIsodose sampleCommon sampleIsodoseEnv sampleIsodoseLogic
        (sampleIsodoseWorld 1) = some (0, w2') ∧
      ((sampleIsodoseWorld (1 / 5)).createdSurfaces w').map
          (fun s => s.Display.map fun d => d.Opacity) = [some (1 / 5), some (1 / 5)] ∧
      (sampleIsodoseWorld 1).createdSurfaces w2' =
        (sampleIsodoseWorld (1 / 5)).createdSurfaces w' := by
  obtain ⟨w', w2', hrun, hrun2, hdisp, hsame⟩ :=
    isodose_display_color_and_fixed_opacity sampleCommon sampleIsodoseEnv sampleIsodoseLogic
      _ (sampleIsodoseWorld (1 / 5)) _ _ _ (sampleIsodoseWorld 1) _ _ _ rfl rfl
      (sampleIsodoseWorld_volume (1 / 5)) (sampleIsodoseWorld_colorNode (1 / 5))
      (sampleIsodoseWorld_IDsBelow (1 / 5)) (sampleIsodoseWorld_volume 1)
      (sampleIsodoseWorld_colorNode 1) (sampleIsodoseWorld_IDsBelow 1) rfl
      (vtkMRMLColorTableNode.GetColor_congr _ _ rfl rfl)
  refine ⟨w', w2', hrun, hrun2, ?_, hsame⟩
  have hp := sample_producedLevels
  unfold producedLevels at hp
  have := congrArg (List.map (Option.map fun d : vtkMRMLModelDisplayNode => d.Opacity)) hdisp
  rw [List.map_map, hp] at this
  rw [show (fun s : SurfaceModel => s.Display.map fun d => d.Opacity) =
    (Option.map fun d : vtkMRMLModelDisplayNode => d.Opacity) ∘ fun s => s.Display from rfl,
    this]
  rfl

/-- C10. A run of `ComputeIsodose` with initialized inputs, and the run in the scene that
differs from it only in the attributes of the dose volume node (any attribute list, with or
without a dose grid scaling value): both return; both hand the same image and contour values
to the surface extraction, one call per requested level with the volume image, whose
samples are those of the volume; both add the same surface models. -/
theorem isodose_ignores_dose_grid_scaling (C : SlicerRtCommon) (env : IsodoseEnv)
    (self : vtkSlicerIsodoseModuleLogic) (w : World) (node : vtkMRMLIsodoseNode)
    (n : vtkMRMLNode) (v : vtkMRMLScalarVolumeNode) (t : vtkMRMLColorTableNode) (p : Ptr)
    (attrs : List (String × String))
    (hscene : self.HasMRMLScene = true) (hnode : self.IsodoseNode = some node)
    (hp : w.GetNodeByID node.DoseVolumeNodeId = some p)
    (hvol : w.scalarVolume? (some p) = some (n, v))
    (hcolor : w.volumeColorNode? v = some t) (hb : w.IDsBelow) :
    ∃ w' w2', ComputeIsodose C env self w = some (0, w') ∧
      ComputeIsodose C env self (w.modify p fun nd => { nd with Attributes := attrs }) =
        some (0, w2') ∧
      extractionCalls w'.log = extractionCalls w.log ++
        node.IsodoseLevelVector.map (fun lvl => (isodoseInputImage v, lvl)) ∧
      extractionCalls w2'.log = extractionCalls w'.log ∧
      (w.modify p fun nd => { nd with Attributes := attrs }).createdSurfaces w2' =
        w.createdSurfaces w' ∧
      ∀ img, v.ImageData = some img →
        ∃ input, isodoseInputImage v = some input ∧ input.scalars = img.scalars := by
  obtain ⟨w', hrun, hsurf, _, hlog⟩ :=
    ComputeIsodose_spec C env self w node n v t hscene hnode (by rw [hp]; exact hvol) hcolor hb
  obtain ⟨w2', hrun2, hsurf2, _, hlog2⟩ :=
    ComputeIsodose_spec C env self (w.modify p fun nd => { nd with Attributes := attrs }) node
      { n with Attributes := attrs } v t hscene hnode
      (by rw [World.GetNodeByID_setAttributes, hp]
          exact World.scalarVolume?_setAttributes w p attrs n v hvol)
      (by rw [World.volumeColorNode?_setAttributes]; exact hcolor)
      (World.IDsBelow_setAttributes w p attrs hb)
  have hcalls : ∀ (l : List Event) (o : Option String),
      extractionCalls (l ++
        (match o with
          | some _ => []
          | none => [Event.Warning Message.DoseGridScalingNotSet]) ++
        [Event.StartState] ++
        node.IsodoseLevelVector.map (Event.MarchingCubesUpdate (isodoseInputImage v)) ++
        [Event.EndState]) =
      extractionCalls l ++ node.IsodoseLevelVector.map (fun lvl => (isodoseInputImage v, lvl)) := by
    intro l o
    simp only [extractionCalls_append, extractionCalls_map]
    cases o <;> simp [extractionCalls]
  refine ⟨w', w2', hrun, hrun2, ?_, ?_, ?_, ?_⟩
  · rw [hlog, hcalls]
  · rw [hlog2, hlog, hcalls, hcalls]; rfl
  · rw [hsurf, hsurf2]
  · intro img himg
    exact ⟨{ img with
        Origin := v.Origin
        Spacing := (-v.Spacing.1, -v.Spacing.2.1, v.Spacing.2.2) },
      by simp [isodoseInputImage, vtkImageChangeInformation, himg], rfl⟩

/-- C10 at the sample scene: removing every attribute of the dose volume node (among them
the dose grid scaling value 0.01) changes neither the extraction calls nor the surface
models. -/
theorem isodose_ignores_dose_grid_scaling_witness :
    ∃ w' w2', ComputeIsodose sampleCommon sampleIsodoseEnv sampleIsodoseLogic
        (sampleIsodoseWorld (1 / 5)) = some (0, w') ∧
      ComputeIsodose sampleCommon sampleIsodoseEnv sampleIsodoseLogic
        ((sampleIsodoseWorld (1 / 5)).modify 0 fun nd => { nd with Attributes := [] }) =
        some (0, w2') ∧
      extractionCalls w2'.log = extractionCalls w'.log ∧
      ((sampleIsodoseWorld (1 / 5)).modify 0 fun nd =>
        { nd with Attributes := [] }).createdSurfaces w2' =
        (sampleIsodoseWorld (1 / 5)).createdSurfaces w' := by
  obtain ⟨w', w2', h1, h2, _, h4, h5, _⟩ :=
    isodose_ignores_dose_grid_scaling sampleCommon sampleIsodoseEnv sampleIsodoseLogic
      (sampleIsodoseWorld (1 / 5)) _ _ _ _ 0 [] rfl rfl
      (by simp [sampleIsodoseWorld, sampleIsodoseLogic, World.GetNodeByID, World.GetID,
            World.node?])
      (by simpa [sampleIsodoseWorld, World.GetNodeByID, World.GetID, World.node?] using
            sampleIsodoseWorld_volume (1 / 5))
      (sampleIsodoseWorld_colorNode (1 / 5)) (sampleIsodoseWorld_IDsBelow (1 / 5))
  exact ⟨w', w2', h1, h2, h4, h5⟩

/-! ## `Examine` -/

theorem forLoop_getD_eq_foldl {σ α : Type} (l : List α) (d : α) (g : σ → α → σ) (init : σ) :
    forLoop l.length (fun s i => g s (l.getD i d)) init = l.foldl g init := by
  have h : ∀ n, n ≤ l.length →
      forLoop n (fun s i => g s (l.getD i d)) init = (l.take n).foldl g init := by
    intro n
    induction n with
    | zero => intro _; simp
    | succ n ih =>
      intro hn
      have hlt : n < l.length := hn
      rw [forLoop_succ, ih (Nat.le_of_lt hlt), List.take_succ, List.foldl_append]
      simp [List.getD, List.getElem?_eq_getElem hlt]
  have := h l.length (Nat.le_refl _)
  rwa [List.take_length] at this

theorem examineFile_FileLists (loadFile : String → Option DcmDataset)
    (info : vtkDICOMImportInfo) (f : String) :
    (examineFile loadFile info f).FileLists = info.FileLists := by
  unfold examineFile
  repeat' split
  all_goals rfl

theorem examineFile_Loadables (loadFile : String → Option DcmDataset)
    (info : vtkDICOMImportInfo) (f : String) :
    (examineFile loadFile info f).Loadables =
      info.Loadables ++ (examineFile loadFile {} f).Loadables := by
  unfold examineFile
  repeat' split
  all_goals simp_all [vtkDICOMImportInfo.InsertNextLoadable]

theorem examineFiles_foldl (loadFile : String → Option DcmDataset) (files : List String)
    (info : vtkDICOMImportInfo) :
    (files.foldl (examineFile loadFile) info).FileLists = info.FileLists ∧
    (files.foldl (examineFile loadFile) info).Loadables =
      info.Loadables ++ files.flatMap (fun f => (examineFile loadFile {} f).Loadables) := by
  induction files generalizing info with
  | nil => simp
  | cons f rest ih =>
    rw [List.foldl_cons]
    obtain ⟨h1, h2⟩ := ih (examineFile loadFile info f)
    refine ⟨by rw [h1, examineFile_FileLists], ?_⟩
    rw [h2, examineFile_Loadables loadFile info f]
    simp [List.flatMap_cons]

/-- The loadables after `Examine` are those the loop body inserts for each candidate file,
over all file lists in list order and file order. -/
theorem Examine_Loadables (loadFile : String → Option DcmDataset) (info : vtkDICOMImportInfo) :
    (Examine loadFile info).Loadables =
      info.FileLists.flatten.flatMap (fun f => (examineFile loadFile {} f).Loadables) := by
  have h : ∀ (lists : List (List String)) (acc : vtkDICOMImportInfo),
      (lists.foldl (fun a l => l.foldl (examineFile loadFile) a) acc).Loadables =
        acc.Loadables ++
          lists.flatten.flatMap (fun f => (examineFile loadFile {} f).Loadables) := by
    intro lists
    induction lists with
    | nil => intro acc; simp
    | cons l rest ih =>
      intro acc
      rw [List.foldl_cons, ih, (examineFiles_foldl loadFile l acc).2]
      simp [List.flatMap_append]
  have hk : ∀ k, k ≤ info.FileLists.length →
      forLoop k
        (fun importInfo fileListIndex =>
          forLoop (importInfo.GetFileList fileListIndex).length
            (fun importInfo2 fileIndex =>
              examineFile loadFile importInfo2
                ((importInfo.GetFileList fileListIndex).getD fileIndex ""))
            importInfo)
        info.RemoveAllLoadables =
      (info.FileLists.take k).foldl (fun a l => l.foldl (examineFile loadFile) a)
        info.RemoveAllLoadables ∧
      (forLoop k
        (fun importInfo fileListIndex =>
          forLoop (importInfo.GetFileList fileListIndex).length
            (fun importInfo2 fileIndex =>
              examineFile loadFile importInfo2
                ((importInfo.GetFileList fileListIndex).getD fileIndex ""))
            importInfo)
        info.RemoveAllLoadables).FileLists = info.FileLists := by
    intro k
    induction k with
    | zero => intro _; simp [vtkDICOMImportInfo.RemoveAllLoadables]
    | succ k ih =>
      intro hk
      have hlt : k < info.FileLists.length := hk
      obtain ⟨h1, h2⟩ := ih (Nat.le_of_lt hlt)
      rw [forLoop_succ]
      have hget : vtkDICOMImportInfo.GetFileList
          (forLoop k
            (fun importInfo fileListIndex =>
              forLoop (importInfo.GetFileList fileListIndex).length
                (fun importInfo2 fileIndex =>
                  examineFile loadFile importInfo2
                    ((importInfo.GetFileList fileListIndex).getD fileIndex ""))
                importInfo)
            info.RemoveAllLoadables) k = info.FileLists[k] := by
        show List.getD _ k [] = _
        rw [h2]
        simp [List.getD, List.getElem?_eq_getElem hlt]
      simp only [hget]
      rw [forLoop_getD_eq_foldl, h1]
      refine ⟨?_, ?_⟩
      · rw [List.take_succ, List.foldl_append]
        simp [List.getElem?_eq_getElem hlt]
      · rw [(examineFiles_foldl loadFile _ _).1, ← h1, h2]
  have h3 := (hk info.FileLists.length (Nat.le_refl _)).1
  rw [List.take_length] at h3
  unfold Examine
  simp only [vtkDICOMImportInfo.GetNumberOfFileLists]
  have hfl : info.RemoveAllLoadables.FileLists = info.FileLists := rfl
  rw [hfl, h3, h]
  simp [vtkDICOMImportInfo.RemoveAllLoadables]

theorem examineFile_new_mem (loadFile : String → Option DcmDataset) (f : String)
    (x : DICOMLoadable) (hx : x ∈ (examineFile loadFile {} f).Loadables) :
    x.Files = some [f] ∧ x.Tooltip = "" ∧ x.Warning = "" ∧ x.Selected = true ∧
      x.Confidence = 9 / 10 ∧ ∃ ds, loadFile f = some ds := by
  unfold examineFile at hx
  cases hds : loadFile f with
  | none => simp [hds] at hx
  | some ds =>
    rw [hds] at hx
    simp only [] at hx
    cases hc : ds.findAndGetOFString DcmTagKey.DCM_SOPClassUID with
    | none => simp [hc] at hx
    | some c =>
      rw [hc] at hx
      simp only [] at hx
      split at hx
      · simp at hx
      · split at hx
        · simp at hx
        · simp only [vtkDICOMImportInfo.InsertNextLoadable, List.nil_append,
            List.mem_singleton] at hx
          subst hx
          exact ⟨rfl, rfl, rfl, rfl, rfl, ds, rfl⟩

theorem examineFile_new_plan (loadFile : String → Option DcmDataset) (f : String)
    (ds : DcmDataset) (s l n : String) (hload : loadFile f = some ds)
    (hclass : ds.findAndGetOFString DcmTagKey.DCM_SOPClassUID = some UID_RTPlanStorage)
    (hs : (ds.findAndGetOFString DcmTagKey.DCM_SeriesNumber).getD "" = s)
    (hl : (ds.findAndGetOFString DcmTagKey.DCM_RTPlanLabel).getD "" = l)
    (hn : (ds.findAndGetOFString DcmTagKey.DCM_RTPlanName).getD "" = n) :
    (examineFile loadFile {} f).Loadables =
      [{ Files := some [f]
         Name := (if s = "" then "" else s ++ ": ") ++ "RTPLAN" ++
           (if l ≠ "" ∧ n ≠ "" then (if l ≠ n then ": " ++ l ++ " (" ++ n ++ ")" else ": " ++ l)
            else if l ≠ "" then ": " ++ l
            else if n ≠ "" then ": " ++ n
            else "")
         Tooltip := ""
         Warning := ""
         Selected := true
         Confidence := 9 / 10 }] := by
  have h1 : UID_RTPlanStorage ≠ "" := by decide
  have h2 : UID_RTPlanStorage ≠ UID_RTDoseStorage := by decide
  unfold examineFile
  simp only [hload, hclass, hs, hl, hn, h1, h2, if_false, vtkDICOMImportInfo.InsertNextLoadable]
  by_cases hs0 : s = "" <;> by_cases hl0 : l = "" <;> by_cases hn0 : n = "" <;>
    by_cases hln : l = n <;>
    simp [hs0, hl0, hn0, hln, String.append_assoc]

theorem examineFile_new_dose (loadFile : String → Option DcmDataset) (f : String)
    (ds : DcmDataset) (s d k : String) (hload : loadFile f = some ds)
    (hclass : ds.findAndGetOFString DcmTagKey.DCM_SOPClassUID = some UID_RTDoseStorage)
    (hs : (ds.findAndGetOFString DcmTagKey.DCM_SeriesNumber).getD "" = s)
    (hd : (ds.findAndGetOFString DcmTagKey.DCM_SeriesDescription).getD "" = d)
    (hk : (ds.findAndGetOFString DcmTagKey.DCM_InstanceNumber).getD "" = k) :
    (examineFile loadFile {} f).Loadables =
      [{ Files := some [f]
         Name := (if s = "" then "" else s ++ ": ") ++ "RTDOSE" ++
           (if d = "" then "" else ": " ++ d) ++ (if k = "" then "" else " [" ++ k ++ "]")
         Tooltip := ""
         Warning := ""
         Selected := true
         Confidence := 9 / 10 }] := by
  have h1 : UID_RTDoseStorage ≠ "" := by decide
  unfold examineFile
  simp only [hload, hclass, hs, hd, hk, h1, if_false, if_true,
    vtkDICOMImportInfo.InsertNextLoadable]
  by_cases hs0 : s = "" <;> by_cases hd0 : d = "" <;> by_cases hk0 : k = "" <;>
    simp [hs0, hd0, hk0, String.append_assoc]

theorem examineFile_new_Files (loadFile : String → Option DcmDataset) (f : String) :
    (examineFile loadFile {} f).Loadables.map (fun l => l.Files) =
      if (match loadFile f with
          | some ds =>
            match ds.findAndGetOFString DcmTagKey.DCM_SOPClassUID with
            | some c =>
              decide (c ≠ "" ∧
                (c = UID_RTDoseStorage ∨ c = UID_RTPlanStorage ∨ c = UID_RTStructureSetStorage))
            | none => false
          | none => false) = true
      then [some [f]] else [] := by
  cases hds : loadFile f with
  | none => simp [examineFile, hds]
  | some ds =>
    cases hc : ds.findAndGetOFString DcmTagKey.DCM_SOPClassUID with
    | none => simp [examineFile, hds, hc]
    | some c =>
      by_cases h0 : c = ""
      · simp [examineFile, hds, hc, h0]
      · by_cases h1 : c = UID_RTDoseStorage
        · subst h1
          simp [examineFile, hds, hc, h0, vtkDICOMImportInfo.InsertNextLoadable]
        · by_cases h2 : c = UID_RTPlanStorage
          · subst h2
            simp [examineFile, hds, hc, h0, h1, vtkDICOMImportInfo.InsertNextLoadable]
          · by_cases h3 : c = UID_RTStructureSetStorage
            · subst h3
              simp [examineFile, hds, hc, h0, h1, h2, vtkDICOMImportInfo.InsertNextLoadable]
            · simp [examineFile, hds, hc, h0, h1, h2, h3]

theorem List.flatMap_ite_singleton {α β : Type} (l : List α) (p : α → Bool) (g : α → β) :
    l.flatMap (fun a => if p a = true then [g a] else []) = (l.filter p).map g := by
  induction l with
  | nil => rfl
  | cons a l ih =>
    rw [List.flatMap_cons, ih, List.filter_cons]
    cases p a <;> simp

/-- C14. For every RT plan candidate `f` among the candidate files, with series number `s`,
plan label `l` and plan name `n` (an absent attribute reads as the empty text), `Examine`
yields a loadable for `f`, and every loadable it yields for `f` is named
`P ++ "RTPLAN" ++ S`: `P` is `s ++ ": "` for non-empty `s` and empty otherwise; `S` is
`": l (n)"` when both are non-empty and differ, `": l"` when both are non-empty and equal,
`": "` followed by the non-empty one when exactly one is, and empty when neither is. -/
theorem examine_plan_display_name (loadFile : String → Option DcmDataset)
    (info : vtkDICOMImportInfo) (f : String) (ds : DcmDataset) (s l n : String)
    (hf : f ∈ info.FileLists.flatten) (hload : loadFile f = some ds)
    (hclass : ds.findAndGetOFString DcmTagKey.DCM_SOPClassUID = some UID_RTPlanStorage)
    (hs : (ds.findAndGetOFString DcmTagKey.DCM_SeriesNumber).getD "" = s)
    (hl : (ds.findAndGetOFString DcmTagKey.DCM_RTPlanLabel).getD "" = l)
    (hn : (ds.findAndGetOFString DcmTagKey.DCM_RTPlanName).getD "" = n) :
    (∃ x ∈ (Examine loadFile info).Loadables, x.Files = some [f]) ∧
    ∀ x ∈ (Examine loadFile info).Loadables, x.Files = some [f] →
      x.Name = (if s = "" then "" else s ++ ": ") ++ "RTPLAN" ++
        (if l ≠ "" ∧ n ≠ "" then (if l ≠ n then ": " ++ l ++ " (" ++ n ++ ")" else ": " ++ l)
         else if l ≠ "" then ": " ++ l
         else if n ≠ "" then ": " ++ n
         else "") := by
  have hnew := examineFile_new_plan loadFile f ds s l n hload hclass hs hl hn
  rw [Examine_Loadables]
  refine ⟨⟨_, List.mem_flatMap.2 ⟨f, hf, by rw [hnew]; exact List.mem_singleton.2 rfl⟩, rfl⟩,
    ?_⟩
  intro x hx hfiles
  obtain ⟨g, _, hxg⟩ := List.mem_flatMap.1 hx
  have hg := (examineFile_new_mem loadFile g x hxg).1
  rw [hfiles] at hg
  have hgf : g = f := by simpa using hg.symm
  subst hgf
  rw [hnew] at hxg
  rw [List.mem_singleton.1 hxg]

/-- C15. For every RT dose candidate `f` among the candidate files, with series number `s`,
series description `d` and instance number `k` (an absent attribute reads as the empty
text), `Examine` yields a loadable for `f`, and every loadable it yields for `f` is named
`P ++ "RTDOSE" ++ D ++ K`: `P` is `s ++ ": "`, `D` is `": " ++ d`, `K` is `" [" ++ k ++ "]"`,
each for a non-empty `s`, `d`, `k` and empty otherwise. With `s` and `d` empty the name is
`"RTDOSE [k]"`: no colon follows the tag. -/
theorem examine_dose_display_name (loadFile : String → Option DcmDataset)
    (info : vtkDICOMImportInfo) (f : String) (ds : DcmDataset) (s d k : String)
    (hf : f ∈ info.FileLists.flatten) (hload : loadFile f = some ds)
    (hclass : ds.findAndGetOFString DcmTagKey.DCM_SOPClassUID = some UID_RTDoseStorage)
    (hs : (ds.findAndGetOFString DcmTagKey.DCM_SeriesNumber).getD "" = s)
    (hd : (ds.findAndGetOFString DcmTagKey.DCM_SeriesDescription).getD "" = d)
    (hk : (ds.findAndGetOFString DcmTagKey.DCM_InstanceNumber).getD "" = k) :
    (∃ x ∈ (Examine loadFile info).Loadables, x.Files = some [f]) ∧
    (∀ x ∈ (Examine loadFile info).Loadables, x.Files = some [f] →
      x.Name = (if s = "" then "" else s ++ ": ") ++ "RTDOSE" ++
        (if d = "" then "" else ": " ++ d) ++ (if k = "" then "" else " [" ++ k ++ "]")) ∧
    (s = "" → d = "" → k ≠ "" →
      ∀ x ∈ (Examine loadFile info).Loadables, x.Files = some [f] →
        x.Name = "RTDOSE [" ++ k ++ "]") := by
  have hnew := examineFile_new_dose loadFile f ds s d k hload hclass hs hd hk
  have hall : ∀ x ∈ (Examine loadFile info).Loadables, x.Files = some [f] →
      x.Name = (if s = "" then "" else s ++ ": ") ++ "RTDOSE" ++
        (if d = "" then "" else ": " ++ d) ++ (if k = "" then "" else " [" ++ k ++ "]") := by
    rw [Examine_Loadables]
    intro x hx hfiles
    obtain ⟨g, _, hxg⟩ := List.mem_flatMap.1 hx
    have hg := (examineFile_new_mem loadFile g x hxg).1
    rw [hfiles] at hg
    have hgf : g = f := by simpa using hg.symm
    subst hgf
    rw [hnew] at hxg
    rw [List.mem_singleton.1 hxg]
  refine ⟨?_, hall, ?_⟩
  · rw [Examine_Loadables]
    exact ⟨_, List.mem_flatMap.2 ⟨f, hf, by rw [hnew]; exact List.mem_singleton.2 rfl⟩, rfl⟩
  · intro hs0 hd0 hk0 x hx hfiles
    rw [hall x hx hfiles]
    have hlit : "RTDOSE" ++ " [" = "RTDOSE [" := by decide
    simp only [hs0, hd0, hk0, if_true, if_false, String.empty_append, String.append_empty,
      ← hlit, String.append_assoc]

/-- C16. The loadables `Examine` yields correspond one to one, in order, to the candidate
files (all file lists, in list order then file order) that parse, have a non-empty SOP class,
and whose class is RT dose, RT plan or RT structure set: the file lists of the loadables are
the one-file lists of exactly these candidates. A file of another class, among them RT
image, RT ion plan and the treatment record classes, leaves the loadables as they are, as
does a file that does not parse. -/
theorem examine_loadables_follow_supported_candidates (loadFile : String → Option DcmDataset)
    (info : vtkDICOMImportInfo) :
    (Examine loadFile info).Loadables.map (fun l => l.Files) =
      (info.FileLists.flatten.filter (fun f =>
        match loadFile f with
        | some ds =>
          match ds.findAndGetOFString DcmTagKey.DCM_SOPClassUID with
          | some c =>
            decide (c ≠ "" ∧
              (c = UID_RTDoseStorage ∨ c = UID_RTPlanStorage ∨ c = UID_RTStructureSetStorage))
          | none => false
        | none => false)).map (fun f => some [f]) ∧
    (∀ c ∈ [UID_RTImageStorage, UID_RTIonPlanStorage, UID_RTTreatmentSummaryRecordStorage,
        UID_RTIonBeamsTreatmentRecordStorage, UID_RTBeamsTreatmentRecordStorage,
        UID_RTBrachyTreatmentRecordStorage],
      ∀ (f : String) (ds : DcmDataset) (acc : vtkDICOMImportInfo), loadFile f = some ds →
        ds.findAndGetOFString DcmTagKey.DCM_SOPClassUID = some c →
        examineFile loadFile acc f = acc) ∧
    (∀ (f : String) (acc : vtkDICOMImportInfo), loadFile f = none →
      examineFile loadFile acc f = acc) := by
  refine ⟨?_, ?_, ?_⟩
  · rw [Examine_Loadables, List.map_flatMap]
    simp only [examineFile_new_Files]
    exact List.flatMap_ite_singleton _ _ _
  · intro c hc f ds acc hload hclass
    have hne : c ≠ "" ∧ c ≠ UID_RTDoseStorage ∧ c ≠ UID_RTPlanStorage ∧
        c ≠ UID_RTStructureSetStorage := by
      simp only [List.mem_cons, List.mem_singleton, List.not_mem_nil, or_false] at hc
      rcases hc with h | h | h | h | h | h <;> subst h <;> decide
    unfold examineFile
    simp [hload, hclass, hne.1, hne.2.1, hne.2.2.1, hne.2.2.2]
  · intro f acc hload
    unfold examineFile
    simp [hload]

/-- C17. Every loadable `Examine` yields, for every input, has confidence 9/10, is
selected, has empty tooltip and warning texts, and refers to exactly one file, a candidate
file that parsed and that the loop body turns into this very loadable. -/
theorem examine_loadable_defaults (loadFile : String → Option DcmDataset)
    (info : vtkDICOMImportInfo) :
    ∀ x ∈ (Examine loadFile info).Loadables,
      x.Confidence = 9 / 10 ∧ x.Selected = true ∧ x.Tooltip = "" ∧ x.Warning = "" ∧
      ∃ f ∈ info.FileLists.flatten, x.Files = some [f] ∧ (∃ ds, loadFile f = some ds) ∧
        (examineFile loadFile {} f).Loadables = [x] := by
  intro x hx
  rw [Examine_Loadables] at hx
  obtain ⟨g, hg, hxg⟩ := List.mem_flatMap.1 hx
  obtain ⟨h1, h2, h3, h4, h5, h6⟩ := examineFile_new_mem loadFile g x hxg
  refine ⟨h5, h4, h2, h3, g, hg, h1, h6, ?_⟩
  have hlen : (examineFile loadFile {} g).Loadables.length ≤ 1 := by
    have := congrArg List.length (examineFile_new_Files loadFile g)
    rw [List.length_map] at this
    rw [this]; split <;> simp
  cases hl : (examineFile loadFile {} g).Loadables with
  | nil => rw [hl] at hxg; simp at hxg
  | cons a rest =>
    rw [hl] at hxg hlen
    cases rest with
    | nil => simp at hxg; rw [hxg]
    | cons b r => simp at hlen

/-- C14 at the sample input: the plan of series 7 with label `A` and name `B` is listed as
`7: RTPLAN: A (B)`. -/
theorem examine_plan_display_name_witness :
    (∃ x ∈ (Examine sampleLoadFile sampleImportInfo).Loadables, x.Files = some ["plan.dcm"]) ∧
    ∀ x ∈ (Examine sampleLoadFile sampleImportInfo).Loadables, x.Files = some ["plan.dcm"] →
      x.Name = "7: RTPLAN: A (B)" := by
  have h := examine_plan_display_name sampleLoadFile sampleImportInfo "plan.dcm"
    (sampleDataset UID_RTPlanStorage
      [(DcmTagKey.DCM_SeriesNumber, "7"), (DcmTagKey.DCM_RTPlanLabel, "A"),
        (DcmTagKey.DCM_RTPlanName, "B")]) "7" "A" "B"
    (by simp [sampleImportInfo]) (by simp [sampleLoadFile]) (by simp [sampleDataset])
    (by simp [sampleDataset]) (by simp [sampleDataset]) (by simp [sampleDataset])
  simpa using h

/-- C15 at the sample input: the dose with instance number 3 and neither series number nor
series description is listed as `RTDOSE [3]`. -/
theorem examine_dose_display_name_witness :
    (∃ x ∈ (Examine sampleLoadFile sampleImportInfo).Loadables, x.Files = some ["dose.dcm"]) ∧
    ∀ x ∈ (Examine sampleLoadFile sampleImportInfo).Loadables, x.Files = some ["dose.dcm"] →
      x.Name = "RTDOSE [3]" := by
  have h := examine_dose_display_name sampleLoadFile sampleImportInfo "dose.dcm"
    (sampleDataset UID_RTDoseStorage [(DcmTagKey.DCM_InstanceNumber, "3")]) "" "" "3"
    (by simp [sampleImportInfo]) (by simp [sampleLoadFile]) (by simp [sampleDataset])
    (by simp [sampleDataset]) (by simp [sampleDataset]) (by simp [sampleDataset])
  exact ⟨h.1, fun x hx hf => by simpa using h.2.2 rfl rfl (by decide) x hx hf⟩

/-- C11. `LoadDicomRT` with invalid loadable information (a null load info, no file list
for loadable 0, or a file list with fewer than one file) returns false and leaves the scene
as it is: the node collection, the objects and the identifier counter are unchanged, and the
only call logged is the error report, so that no batch state is started and the reader is not
run. -/
theorem load_invalid_info_fails_without_effect (C : SlicerRtCommon) (env : ImportEnv)
    (AutoContourOpacity : Bool) (loadInfo : Option vtkDICOMImportInfo) (w : World)
    (h : loadInfo = none ∨ ∃ info, loadInfo = some info ∧
      (info.GetLoadableFiles 0 = none ∨
        ∃ files, info.GetLoadableFiles 0 = some files ∧ files.length < 1)) :
    (LoadDicomRT C env AutoContourOpacity loadInfo w).1 = false ∧
    (LoadDicomRT C env AutoContourOpacity loadInfo w).2.Nodes = w.Nodes ∧
    (LoadDicomRT C env AutoContourOpacity loadInfo w).2.heap = w.heap ∧
    (LoadDicomRT C env AutoContourOpacity loadInfo w).2.UniqueIDIndex = w.UniqueIDIndex ∧
    (LoadDicomRT C env AutoContourOpacity loadInfo w).2.log =
      w.log ++ [Event.Error Message.InvalidLoadableInformation] ∧
    Event.StartState ∉
      (LoadDicomRT C env AutoContourOpacity loadInfo w).2.log.drop w.log.length ∧
    ∀ f, Event.ReaderUpdate f ∉
      (LoadDicomRT C env AutoContourOpacity loadInfo w).2.log.drop w.log.length := by
  have hrun : LoadDicomRT C env AutoContourOpacity loadInfo w =
      (false, w.emit (Event.Error Message.InvalidLoadableInformation)) := by
    rcases h with h | ⟨info, h, h2 | ⟨files, h2, h3⟩⟩
    · subst h; rfl
    · subst h; simp [LoadDicomRT, h2]
    · subst h
      have : files = [] := List.eq_nil_of_length_eq_zero (by omega)
      subst this
      simp [LoadDicomRT, h2]
  rw [hrun]
  refine ⟨rfl, rfl, rfl, rfl, rfl, ?_, ?_⟩ <;> simp [World.emit]

/-- C11 at the sample input: a null load info on the empty world. -/
theorem load_invalid_info_fails_without_effect_witness :
    (LoadDicomRT sampleCommon (sampleEnv [] []) true none emptyWorld).1 = false ∧
    (LoadDicomRT sampleCommon (sampleEnv [] []) true none emptyWorld).2.Nodes = [] ∧
    (LoadDicomRT sampleCommon (sampleEnv [] []) true none emptyWorld).2.log =
      [Event.Error Message.InvalidLoadableInformation] := by
  have h := load_invalid_info_fails_without_effect sampleCommon (sampleEnv [] []) true none
    emptyWorld (Or.inl rfl)
  exact ⟨h.1, h.2.1, h.2.2.2.2.1⟩

theorem sampleExamine_plan_mem :
    ({ Files := some ["plan.dcm"], Name := "7: RTPLAN: A (B)", Tooltip := "", Warning := "",
       Selected := true, Confidence := 9 / 10 } : DICOMLoadable) ∈
      (Examine sampleLoadFile sampleImportInfo).Loadables := by
  rw [Examine_Loadables]
  refine List.mem_flatMap.2 ⟨"plan.dcm", by simp [sampleImportInfo], ?_⟩
  rw [examineFile_new_plan sampleLoadFile "plan.dcm"
    (sampleDataset UID_RTPlanStorage
      [(DcmTagKey.DCM_SeriesNumber, "7"), (DcmTagKey.DCM_RTPlanLabel, "A"),
        (DcmTagKey.DCM_RTPlanName, "B")]) "7" "A" "B"
    (by simp [sampleLoadFile]) (by simp [sampleDataset])
    (by simp [sampleDataset]) (by simp [sampleDataset]) (by simp [sampleDataset])]
  simp

/-- C17 at the sample input: the loadable of the sample plan file. -/
theorem examine_loadable_defaults_witness :
    ∃ x ∈ (Examine sampleLoadFile sampleImportInfo).Loadables,
      x.Files = some ["plan.dcm"] ∧ x.Confidence = 9 / 10 ∧ x.Selected = true ∧
        x.Tooltip = "" ∧ x.Warning = "" :=
  ⟨_, sampleExamine_plan_mem, rfl,
    (examine_loadable_defaults sampleLoadFile sampleImportInfo _ sampleExamine_plan_mem).1,
    (examine_loadable_defaults sampleLoadFile sampleImportInfo _ sampleExamine_plan_mem).2.1,
    (examine_loadable_defaults sampleLoadFile sampleImportInfo _ sampleExamine_plan_mem).2.2.1,
    (examine_loadable_defaults sampleLoadFile sampleImportInfo _
      sampleExamine_plan_mem).2.2.2.1⟩

/-! ## Blocks of created nodes -/

theorem World.Block.block_refl (w : World) : World.Block w w 0 :=
  ⟨rfl, by simp, rfl, fun _ h => absurd h (Nat.not_lt_zero _), fun _ _ => rfl, fun _ _ => rfl,
    fun _ _ _ _ => rfl⟩

theorem World.Block.block_emit (w : World) (e : Event) : World.Block w (w.emit e) 0 :=
  ⟨rfl, by simp, rfl, fun _ h => absurd h (Nat.not_lt_zero _), fun _ _ => rfl, fun _ _ => rfl,
    fun _ _ _ _ => rfl⟩

theorem World.Block.block_trans {w0 w1 w2 : World} {n m : Nat} (h01 : World.Block w0 w1 n)
    (h12 : World.Block w1 w2 m) : World.Block w0 w2 (n + m) := by
  refine ⟨?_, ?_, ?_, ?_, ?_, ?_, ?_⟩
  · rw [h12.heap, h01.heap, Nat.add_assoc]
  · rw [h12.nodes, h01.nodes, h01.heap, List.append_assoc, List.range'_append_1, Nat.add_comm m n]
  · rw [h12.counter, h01.counter, Nat.add_assoc]
  · intro j hj
    by_cases hjn : j < n
    · rw [h12.getID _ (by rw [h01.heap]; omega)]
      exact h01.ids j hjn
    · have := h12.ids (j - n) (by omega)
      rw [h01.heap, h01.counter] at this
      have e1 : w0.heap.length + n + (j - n) = w0.heap.length + j := by omega
      have e2 : w0.UniqueIDIndex + n + (j - n) = w0.UniqueIDIndex + j := by omega
      rw [e1, e2] at this
      exact this
  · intro q hq
    rw [h12.getID q (by rw [h01.heap]; omega), h01.getID q hq]
  · intro q hq
    rw [h12.kinds q (by rw [h01.heap]; omega), h01.kinds q hq]
  · intro q hq h1 h2
    rw [h12.frame q (by rw [h01.heap]; omega) (by rw [h01.kinds q hq]; exact h1)
      (by rw [h01.kinds q hq]; exact h2), h01.frame q hq h1 h2]

theorem World.Block.created {w0 w1 : World} {n : Nat} (h : World.Block w0 w1 n) :
    w1.Nodes.drop w0.Nodes.length = List.range' w0.heap.length n := by
  rw [h.nodes, List.drop_left]

theorem World.Block.getID_created {w0 w1 : World} {n : Nat} (h : World.Block w0 w1 n)
    (q : Nat) (h0 : w0.heap.length ≤ q) (h1 : q < w1.heap.length) :
    w1.GetID q = some (NodeID.generated (w0.UniqueIDIndex + (q - w0.heap.length))) := by
  have := h.ids (q - w0.heap.length) (by rw [h.heap] at h1; omega)
  have e : w0.heap.length + (q - w0.heap.length) = q := by omega
  rw [e] at this
  exact this

/-- The identifier of an object of a block resolves to that object, in a scene whose earlier
identifiers are below the counter. -/
theorem World.Block.lookup {w0 w1 : World} {n : Nat} (h : World.Block w0 w1 n)
    (hb : w0.IDsBelow) (q : Nat) (h0 : w0.heap.length ≤ q) (h1 : q < w1.heap.length) :
    w1.GetNodeByID (w1.GetID q) = some q := by
  rw [h.getID_created q h0 h1]
  unfold World.GetNodeByID
  simp only []
  refine List.find?_eq_some_of_unique _ _ q ⟨q, ?_, ?_⟩ ?_
  · rw [h.nodes]
    refine List.mem_append_right _ (List.mem_range'_1.2 ⟨h0, ?_⟩)
    rw [h.heap] at h1; exact h1
  · rw [h.getID_created q h0 h1]; simp
  · intro p hp hid
    simp only [beq_iff_eq] at hid
    by_cases hpl : p < w0.heap.length
    · exfalso
      rw [h.getID p hpl] at hid
      rw [h.nodes] at hp
      rcases List.mem_append.1 hp with hp | hp
      · have := hb p hp _ hid
        omega
      · have := (List.mem_range'_1.1 hp).1
        omega
    · have hp1 : p < w1.heap.length := by
        by_contra hc
        rw [World.GetID_of_le w1 p (by omega)] at hid
        exact absurd hid (by simp)
      rw [h.getID_created p (by omega) hp1] at hid
      simp only [Option.some.injEq, NodeID.generated.injEq] at hid
      omega

/-! ## Lazily created hierarchies -/

theorem forall₂_imp_of_mem {α β : Type} {R S : α → β → Prop} {l₁ : List α} {l₂ : List β}
    (h : List.Forall₂ R l₁ l₂) (himp : ∀ a b, a ∈ l₁ → b ∈ l₂ → R a b → S a b) :
    List.Forall₂ S l₁ l₂ := by
  induction h with
  | nil => exact List.Forall₂.nil
  | cons hab _ ih =>
    refine List.Forall₂.cons (himp _ _ (List.mem_cons_self _ _) (List.mem_cons_self _ _) hab)
      (ih fun a b ha hb hr => himp a b (List.mem_cons_of_mem _ ha) (List.mem_cons_of_mem _ hb) hr)

theorem World.HierarchyOf.root_mem {w : World} {created : List Ptr} {kind : NodeKind}
    {root : Option Ptr} {children members : List Ptr}
    (h : w.HierarchyOf created kind root children members) (r : Ptr) (hr : root = some r) :
    r ∈ created := by
  have : r ∈ created.filter (fun p => w.kind? p == some kind) := by
    rw [h.nodes, hr]; simp
  exact (List.mem_filter.1 this).1

theorem World.HierarchyOf.child_mem {w : World} {created : List Ptr} {kind : NodeKind}
    {root : Option Ptr} {children members : List Ptr}
    (h : w.HierarchyOf created kind root children members) (c : Ptr) (hc : c ∈ children) :
    c ∈ created := by
  have : c ∈ created.filter (fun p => w.kind? p == some kind) := by
    rw [h.nodes]; exact List.mem_append_right _ hc
  exact (List.mem_filter.1 this).1

/-- A hierarchy stays what it is in a world that agrees on the class, the hierarchy data and
the identifier of every created node. -/
theorem World.HierarchyOf.congr {w w' : World} {created : List Ptr} {kind : NodeKind}
    {root : Option Ptr} {children members : List Ptr}
    (h : w.HierarchyOf created kind root children members)
    (hk : ∀ p ∈ created, w'.kind? p = w.kind? p)
    (hh : ∀ p ∈ created, w'.hierarchy? p = w.hierarchy? p)
    (hid : ∀ p ∈ created, w'.GetID p = w.GetID p) :
    w'.HierarchyOf created kind root children members := by
  have hroot : root.bind w'.GetID = root.bind w.GetID := by
    cases hr : root with
    | none => rfl
    | some r => exact hid r (h.root_mem r hr)
  refine ⟨?_, h.lazy, ?_, ?_, h.members_sub⟩
  · rw [← h.nodes]
    exact List.filter_congr fun p hp => by rw [hk p hp]
  · intro r hr
    obtain ⟨hn, h1, h2, h3⟩ := h.top r hr
    exact ⟨hn, by rw [hh r (h.root_mem r hr)]; exact h1, h2,
      by rw [hid r (h.root_mem r hr)]; exact h3⟩
  · refine forall₂_imp_of_mem h.child ?_
    rintro c m hc hm ⟨hn, h1, h2, h3, h4⟩
    refine ⟨hn, ?_, ?_, ?_, ?_⟩
    · rw [hh c (h.child_mem c hc)]; exact h1
    · rw [hroot]; exact h2
    · rw [hid m (h.members_sub m hm)]; exact h3
    · rw [hid m (h.members_sub m hm)]; exact h4

/-- Nodes of other classes are added to the scene. -/
theorem World.HierarchyOf.append_other {w : World} {created : List Ptr} {kind : NodeKind}
    {root : Option Ptr} {children members : List Ptr}
    (h : w.HierarchyOf created kind root children members) (added : List Ptr)
    (hadded : added.filter (fun p => w.kind? p == some kind) = []) :
    w.HierarchyOf (created ++ added) kind root children members :=
  ⟨by rw [List.filter_append, hadded, List.append_nil, h.nodes], h.lazy, h.top, h.child,
    fun m hm => List.mem_append_left _ (h.members_sub m hm)⟩

/-- A child for the member `m` is added under the existing root. -/
theorem World.HierarchyOf.append_child {w : World} {created : List Ptr} {kind : NodeKind}
    {r : Ptr} {children members : List Ptr}
    (h : w.HierarchyOf created kind (some r) children members) (added : List Ptr) (c m : Ptr)
    (hadded : added.filter (fun p => w.kind? p == some kind) = [c])
    (hm : m ∈ created ++ added)
    (hc : ∃ hn, w.hierarchy? c = some hn ∧ hn.ParentNodeID = w.GetID r ∧
      hn.DisplayableNodeID = w.GetID m ∧ (w.GetID m).isSome) :
    w.HierarchyOf (created ++ added) kind (some r) (children ++ [c]) (members ++ [m]) := by
  refine ⟨?_, by simp, h.top, ?_, ?_⟩
  · rw [List.filter_append, hadded, h.nodes, List.append_assoc]
  · exact List.rel_append h.child (List.Forall₂.cons hc List.Forall₂.nil)
  · intro x hx
    rcases List.mem_append.1 hx with hx | hx
    · exact List.mem_append_left _ (h.members_sub x hx)
    · rw [List.mem_singleton.1 hx]; exact hm

/-- The root is created, and a first child for the member `m` under it. -/
theorem World.HierarchyOf.append_root {w : World} {created : List Ptr} {kind : NodeKind}
    {children members : List Ptr}
    (h : w.HierarchyOf created kind none children members) (added : List Ptr) (r c m : Ptr)
    (hadded : added.filter (fun p => w.kind? p == some kind) = [r, c])
    (hm : m ∈ created ++ added)
    (hr : ∃ hn, w.hierarchy? r = some hn ∧ hn.ParentNodeID = none ∧ (w.GetID r).isSome)
    (hc : ∃ hn, w.hierarchy? c = some hn ∧ hn.ParentNodeID = w.GetID r ∧
      hn.DisplayableNodeID = w.GetID m ∧ (w.GetID m).isSome) :
    w.HierarchyOf (created ++ added) kind (some r) [c] [m] := by
  have hnil : children = [] := h.lazy.1 rfl
  subst hnil
  have hmem : members = [] := by
    have := h.child
    exact List.forall₂_nil_left_iff.1 this
  refine ⟨?_, by simp, ?_, ?_, ?_⟩
  · have := h.nodes
    simp only [Option.toList, List.append_nil] at this
    rw [List.filter_append, hadded, this]; rfl
  · intro r' hr'
    cases hr'
    exact hr
  · exact List.Forall₂.cons hc List.Forall₂.nil
  · intro x hx
    rw [List.mem_singleton.1 hx]; exact hm

theorem World.HierarchyOf.empty (w : World) (kind : NodeKind) :
    w.HierarchyOf [] kind none [] [] :=
  ⟨rfl, by simp, fun _ h => absurd h (by simp), List.Forall₂.nil, fun _ h => absurd h (by simp)⟩

theorem World.HierarchyOf.length_eq {w : World} {created : List Ptr} {kind : NodeKind}
    {root : Option Ptr} {children members : List Ptr}
    (h : w.HierarchyOf created kind root children members) :
    children.length = members.length := h.child.length_eq

/-! ## The beam loop -/

@[simp] theorem AddRoiPoint_UniqueIDIndex (w : World) (pos : Vec3) (name : String) (c : Vec3) :
    (AddRoiPoint w pos name c).1.UniqueIDIndex = w.UniqueIDIndex + 1 := by
  simp [AddRoiPoint, World.New]

@[simp] theorem AddRoiPoint_log (w : World) (pos : Vec3) (name : String) (c : Vec3) :
    (AddRoiPoint w pos name c).1.log = w.log := by
  simp [AddRoiPoint, World.New]

theorem AddRoiPoint_new (w : World) (pos : Vec3) (name : String) (c : Vec3) :
    (AddRoiPoint w pos name c).1.node? w.heap.length =
      some (roiPointNode pos name c (some (NodeID.generated w.UniqueIDIndex))) := by
  simp [AddRoiPoint, World.New, World.node?_alloc, World.node?_modify, World.node?_modifyData,
    World.node?_AddNode, roiPointNode, NodeData.mapFiducial]

theorem beamLoopBody_first (C : SlicerRtCommon) (env : ImportEnv)
    (rtReader : vtkSlicerDicomRtReader) (seriesName : String) (st : BeamLoopState) (k : Nat)
    (hroot : st.isocenterHierarchyRootNode = none) :
    (beamLoopBody C env rtReader seriesName st k).isocenterHierarchyRootNode =
      some (st.w.heap.length + 1) ∧
    (beamLoopBody C env rtReader seriesName st k).w.heap.length = st.w.heap.length + 4 ∧
    (beamLoopBody C env rtReader seriesName st k).w.Nodes =
      st.w.Nodes ++ [st.w.heap.length, st.w.heap.length + 1, st.w.heap.length + 2,
        st.w.heap.length + 3] ∧
    (beamLoopBody C env rtReader seriesName st k).w.UniqueIDIndex = st.w.UniqueIDIndex + 4 ∧
    (beamLoopBody C env rtReader seriesName st k).w.log = st.w.log ∧
    (∀ q, q < st.w.heap.length →
      (beamLoopBody C env rtReader seriesName st k).w.node? q = st.w.node? q) ∧
    (beamLoopBody C env rtReader seriesName st k).w.node? st.w.heap.length =
      some (withBeamAttributes C env rtReader k
        (roiPointNode (rtReader.BeamIsocenterPositionRas k) (rtReader.BeamName k) (1, 1, 1)
          (some (NodeID.generated st.w.UniqueIDIndex)))) ∧
    (∃ n h, (beamLoopBody C env rtReader seriesName st k).w.node? (st.w.heap.length + 1) =
        some n ∧ n.ID = some (NodeID.generated (st.w.UniqueIDIndex + 1)) ∧
      n.data = NodeData.AnnotationHierarchy h ∧ h.ParentNodeID = none) ∧
    (∃ n d, (beamLoopBody C env rtReader seriesName st k).w.node? (st.w.heap.length + 2) =
        some n ∧ n.ID = some (NodeID.generated (st.w.UniqueIDIndex + 2)) ∧
      n.data = NodeData.ModelDisplay d) ∧
    (∃ n h, (beamLoopBody C env rtReader seriesName st k).w.node? (st.w.heap.length + 3) =
        some n ∧ n.ID = some (NodeID.generated (st.w.UniqueIDIndex + 3)) ∧
      n.data = NodeData.AnnotationHierarchy h ∧
      h.ParentNodeID = some (NodeID.generated (st.w.UniqueIDIndex + 1)) ∧
      h.DisplayableNodeID = some (NodeID.generated st.w.UniqueIDIndex)) := by
  refine ⟨?_, ?_, ?_, ?_, ?_, ?_, ?_, ?_, ?_, ?_⟩
  · simp [beamLoopBody, hroot, World.New]
  · simp [beamLoopBody, hroot, World.New]
  · simp [beamLoopBody, hroot, World.New, Nat.add_assoc]
  · simp [beamLoopBody, hroot, World.New, Nat.add_assoc]
  · simp [beamLoopBody, hroot, World.New]
  · intro q hq
    have h0 : q ≠ st.w.heap.length := by omega
    have h1 : q ≠ st.w.heap.length + 1 := by omega
    have h2 : q ≠ st.w.heap.length + 1 + 1 := by omega
    have h3 : q ≠ st.w.heap.length + 1 + 1 + 1 := by omega
    simp [beamLoopBody, hroot, World.New, World.node?_alloc, World.node?_modify,
      World.node?_modifyData, World.node?_AddNode, h0, h1, h2, h3,
      AddRoiPoint_node? _ _ _ _ _ hq]
  · simp [beamLoopBody, hroot, World.New, World.node?_alloc, World.node?_modify,
      World.node?_modifyData, World.node?_AddNode, AddRoiPoint_new, withBeamAttributes, Nat.add_assoc]
  · simp [beamLoopBody, hroot, World.New, World.node?_alloc, World.node?_modify,
      World.node?_modifyData, World.node?_AddNode, NodeData.mapHierarchy, Nat.add_assoc]
  · simp [beamLoopBody, hroot, World.New, World.node?_alloc, World.node?_modify,
      World.node?_modifyData, World.node?_AddNode, NodeData.mapModelDisplay, Nat.add_assoc]
  · simp [beamLoopBody, hroot, World.New, World.node?_alloc, World.node?_modify,
      World.node?_modifyData, World.node?_AddNode, NodeData.mapHierarchy, Nat.add_assoc,
      World.GetID_alloc, World.GetID_modify, World.GetID_modifyData, World.GetID_AddNode,
      AddRoiPoint_new, roiPointNode]

theorem beamLoopBody_next (C : SlicerRtCommon) (env : ImportEnv)
    (rtReader : vtkSlicerDicomRtReader) (seriesName : String) (st : BeamLoopState) (k : Nat)
    (r : Ptr) (hroot : st.isocenterHierarchyRootNode = some r) (hr : r < st.w.heap.length) :
    (beamLoopBody C env rtReader seriesName st k).isocenterHierarchyRootNode = some r ∧
    (beamLoopBody C env rtReader seriesName st k).w.heap.length = st.w.heap.length + 2 ∧
    (beamLoopBody C env rtReader seriesName st k).w.Nodes =
      st.w.Nodes ++ [st.w.heap.length, st.w.heap.length + 1] ∧
    (beamLoopBody C env rtReader seriesName st k).w.UniqueIDIndex = st.w.UniqueIDIndex + 2 ∧
    (beamLoopBody C env rtReader seriesName st k).w.log = st.w.log ∧
    (∀ q, q < st.w.heap.length →
      (beamLoopBody C env rtReader seriesName st k).w.node? q = st.w.node? q) ∧
    (beamLoopBody C env rtReader seriesName st k).w.node? st.w.heap.length =
      some (roiPointNode (rtReader.BeamIsocenterPositionRas k) (rtReader.BeamName k) (1, 1, 1)
          (some (NodeID.generated st.w.UniqueIDIndex))) ∧
    (∃ n h, (beamLoopBody C env rtReader seriesName st k).w.node? (st.w.heap.length + 1) =
        some n ∧ n.ID = some (NodeID.generated (st.w.UniqueIDIndex + 1)) ∧
      n.data = NodeData.AnnotationHierarchy h ∧
      h.ParentNodeID = st.w.GetID r ∧
      h.DisplayableNodeID = some (NodeID.generated st.w.UniqueIDIndex)) := by
  have hr0 : r ≠ st.w.heap.length := Nat.ne_of_lt hr
  have hr1 : r ≠ st.w.heap.length + 1 := Nat.ne_of_lt (Nat.lt_succ_of_lt hr)
  refine ⟨?_, ?_, ?_, ?_, ?_, ?_, ?_, ?_⟩
  · simp [beamLoopBody, hroot, World.New]
  · simp [beamLoopBody, hroot, World.New]
  · simp [beamLoopBody, hroot, World.New, Nat.add_assoc]
  · simp [beamLoopBody, hroot, World.New, Nat.add_assoc]
  · simp [beamLoopBody, hroot, World.New]
  · intro q hq
    have h0 : q ≠ st.w.heap.length := by omega
    have h1 : q ≠ st.w.heap.length + 1 := by omega
    simp [beamLoopBody, hroot, World.New, World.node?_alloc, World.node?_modify,
      World.node?_modifyData, World.node?_AddNode, h0, h1,
      AddRoiPoint_node? _ _ _ _ _ hq]
  · simp [beamLoopBody, hroot, World.New, World.node?_alloc, World.node?_modify,
      World.node?_modifyData, World.node?_AddNode, AddRoiPoint_new, Nat.add_assoc]
  · simp [beamLoopBody, hroot, World.New, World.node?_alloc, World.node?_modify,
      World.node?_modifyData, World.node?_AddNode, NodeData.mapHierarchy, Nat.add_assoc,
      World.GetID_alloc, World.GetID_modify, World.GetID_modifyData, World.GetID_AddNode,
      AddRoiPoint_new, roiPointNode, hr0, hr1]
    refine ⟨?_, ?_⟩
    · unfold World.GetID
      rw [AddRoiPoint_node? _ _ _ _ _ hr]
    · unfold World.GetID
      rw [AddRoiPoint_new]
      rfl

/-! ## Reading a node -/

theorem World.GetID_of_node? {w : World} {p : Nat} {n : vtkMRMLNode} (h : w.node? p = some n) :
    w.GetID p = n.ID := by
  unfold World.GetID; rw [h]; rfl

theorem World.hierarchy?_of_node? {w : World} {p : Nat} {n : vtkMRMLNode}
    {hn : vtkMRMLHierarchyNode} (h : w.node? p = some n)
    (hd : n.data = NodeData.ModelHierarchy hn ∨ n.data = NodeData.ContourHierarchy hn ∨
      n.data = NodeData.AnnotationHierarchy hn) :
    w.hierarchy? p = some hn := by
  unfold World.hierarchy?
  rw [h]
  rcases hd with hd | hd | hd <;> simp [hd]

theorem World.kind?_congr {w w' : World} {p : Nat} (h : w'.node? p = w.node? p) :
    w'.kind? p = w.kind? p := by
  unfold World.kind?; rw [h]

theorem World.hierarchy?_congr {w w' : World} {p : Nat} (h : w'.node? p = w.node? p) :
    w'.hierarchy? p = w.hierarchy? p := by
  unfold World.hierarchy?; rw [h]

theorem World.GetID_congr {w w' : World} {p : Nat} (h : w'.node? p = w.node? p) :
    w'.GetID p = w.GetID p := by
  unfold World.GetID; rw [h]

/-- A block from its description: `n` objects created and added in order, the objects before
them untouched. -/
theorem World.Block.of_frame {w0 w1 : World} {n : Nat}
    (hheap : w1.heap.length = w0.heap.length + n)
    (hnodes : w1.Nodes = w0.Nodes ++ List.range' w0.heap.length n)
    (hcounter : w1.UniqueIDIndex = w0.UniqueIDIndex + n)
    (hids : ∀ j, j < n →
      w1.GetID (w0.heap.length + j) = some (NodeID.generated (w0.UniqueIDIndex + j)))
    (hframe : ∀ q, q < w0.heap.length → w1.node? q = w0.node? q) : World.Block w0 w1 n :=
  ⟨hheap, hnodes, hcounter, hids, fun q hq => World.GetID_congr (hframe q hq),
    fun q hq => World.kind?_congr (hframe q hq), fun q hq _ _ => hframe q hq⟩

theorem World.Block.mem_created_lt {w0 w1 : World} {n : Nat} (h : World.Block w0 w1 n)
    (p : Ptr) (hp : p ∈ w1.Nodes.drop w0.Nodes.length) :
    w0.heap.length ≤ p ∧ p < w1.heap.length := by
  rw [h.created] at hp
  have := List.mem_range'_1.1 hp
  rw [h.heap]
  exact this

theorem World.HierarchyOf.congr_of_node? {w w' : World} {created : List Ptr} {kind : NodeKind}
    {root : Option Ptr} {children members : List Ptr}
    (h : w.HierarchyOf created kind root children members)
    (hn : ∀ p ∈ created, w'.node? p = w.node? p) :
    w'.HierarchyOf created kind root children members :=
  h.congr (fun p hp => World.kind?_congr (hn p hp)) (fun p hp => World.hierarchy?_congr (hn p hp))
    (fun p hp => World.GetID_congr (hn p hp))

theorem BeamLoopInv.init (C : SlicerRtCommon) (env : ImportEnv)
    (rtReader : vtkSlicerDicomRtReader) (w0 : World) :
    BeamLoopInv C env rtReader w0 0 { w := w0 } [] [] := by
  refine ⟨⟨0, World.Block.block_refl w0⟩, fun _ _ => rfl, rfl, by simp, ?_, ?_, ?_, ?_⟩
  · simp [World.createdOfKind]
  · simp
  · simp only [List.drop_length]
    exact World.HierarchyOf.empty w0 _
  · simp

theorem BeamLoopInv.beam_step {C : SlicerRtCommon} {env : ImportEnv}
    {rtReader : vtkSlicerDicomRtReader} (seriesName : String) {w0 : World} {k : Nat}
    {st : BeamLoopState} {markers children : List Ptr}
    (h : BeamLoopInv C env rtReader w0 k st markers children) :
    ∃ c, BeamLoopInv C env rtReader w0 (k + 1)
      (beamLoopBody C env rtReader seriesName st (k + 1))
      (markers ++ [st.w.heap.length]) (children ++ [c]) := by
  obtain ⟨n, hb⟩ := h.block
  have hlt : ∀ p ∈ st.w.Nodes.drop w0.Nodes.length, p < st.w.heap.length :=
    fun p hp => (hb.mem_created_lt p hp).2
  have hlen : w0.Nodes.length ≤ st.w.Nodes.length := by rw [hb.nodes]; simp
  cases hroot : st.isocenterHierarchyRootNode with
  | none =>
    have hk : k = 0 := h.root_iff.1 hroot
    subst hk
    obtain ⟨f1, f2, f3, f4, f5, f6, f7, ⟨n1, h1, f8, i1, d1, p1⟩, ⟨n2, d2, f9, i2, e2⟩,
      ⟨n3, h3, f10, i3, d3, p3, q3⟩⟩ :=
      beamLoopBody_first C env rtReader seriesName st (0 + 1) hroot
    have hcr : (beamLoopBody C env rtReader seriesName st (0 + 1)).w.Nodes.drop w0.Nodes.length =
        st.w.Nodes.drop w0.Nodes.length ++ [st.w.heap.length, st.w.heap.length + 1,
          st.w.heap.length + 2, st.w.heap.length + 3] := by
      rw [f3, List.drop_append_of_le_length hlen]
    have hold : ∀ p ∈ st.w.Nodes.drop w0.Nodes.length,
        (beamLoopBody C env rtReader seriesName st (0 + 1)).w.node? p = st.w.node? p :=
      fun p hp => f6 p (hlt p hp)
    have k0 := World.kind?_eq_some_of_node? f7
    have k1 := World.kind?_eq_some_of_node? f8
    have k2 := World.kind?_eq_some_of_node? f9
    have k3 := World.kind?_eq_some_of_node? f10
    simp only [withBeamAttributes, vtkMRMLNode.data_SetAttribute, roiPointNode,
      NodeData.kind_AnnotationFiducial] at k0
    rw [d1, NodeData.kind_AnnotationHierarchy] at k1
    rw [e2, NodeData.kind_ModelDisplay] at k2
    rw [d3, NodeData.kind_AnnotationHierarchy] at k3
    have g0 : (beamLoopBody C env rtReader seriesName st (0 + 1)).w.GetID st.w.heap.length =
        some (NodeID.generated st.w.UniqueIDIndex) := by
      rw [World.GetID_of_node? f7]
      simp [withBeamAttributes, roiPointNode]
    have g1 := World.GetID_of_node? f8
    have g2 := World.GetID_of_node? f9
    have g3 := World.GetID_of_node? f10
    rw [i1] at g1
    rw [i2] at g2
    rw [i3] at g3
    have hblock : World.Block st.w (beamLoopBody C env rtReader seriesName st (0 + 1)).w 4 := by
      refine World.Block.of_frame f2 (by rw [f3]; rfl) f4 ?_ f6
      intro j hj
      interval_cases j
      · exact g0
      · exact g1
      · exact g2
      · exact g3
    refine ⟨st.w.heap.length + 3, ⟨_, hb.block_trans hblock⟩, ?_, ?_, ?_, ?_, ?_, ?_, ?_⟩
    · intro q hq
      rw [f6 q (by rw [hb.heap]; omega), h.frame q hq]
    · rw [f5, h.log]
    · rw [f1]; simp
    · unfold World.createdOfKind
      rw [hcr, List.filter_append]
      have : (st.w.Nodes.drop w0.Nodes.length).filter
          (fun p => (beamLoopBody C env rtReader seriesName st (0 + 1)).w.kind? p ==
            some NodeKind.AnnotationFiducial) = markers := by
        rw [← h.fiducials]
        exact List.filter_congr fun p hp => by rw [World.kind?_congr (hold p hp)]
      rw [this]
      simp [List.filter_cons, k0, k1, k2, k3]
    · rw [List.range_succ]
      refine List.rel_append (forall₂_imp_of_mem h.markerNodes ?_)
        (List.Forall₂.cons ⟨some (NodeID.generated st.w.UniqueIDIndex),
          by rw [f7]; simp [isocenterMarkerNode]⟩ List.Forall₂.nil)
      rintro m j hm _ ⟨id, hid⟩
      have hm' : m ∈ st.w.Nodes.drop w0.Nodes.length := by
        have := h.fiducials
        unfold World.createdOfKind at this
        rw [← this] at hm
        exact (List.mem_filter.1 hm).1
      exact ⟨id, by rw [hold m hm']; exact hid⟩
    · rw [hcr, f1]
      have h0 := h.hierarchy
      rw [hroot] at h0
      have hch : children = [] := h0.lazy.1 rfl
      subst hch
      have hmk : markers = [] := List.forall₂_nil_left_iff.1 h0.child
      subst hmk
      simp only [List.nil_append]
      refine (h0.congr_of_node? hold).append_root _ (st.w.heap.length + 1)
        (st.w.heap.length + 3) st.w.heap.length ?_ ?_ ?_ ?_
      · simp [List.filter_cons, k0, k1, k2, k3]
      · simp
      · exact ⟨h1, World.hierarchy?_of_node? f8 (Or.inr (Or.inr d1)), p1, by rw [g1]; rfl⟩
      · exact ⟨h3, World.hierarchy?_of_node? f10 (Or.inr (Or.inr d3)), by rw [p3, g1],
          by rw [q3, g0], by rw [g0]; rfl⟩
    · intro p hp
      rw [hcr] at hp
      rcases List.mem_append.1 hp with hp | hp
      · rw [World.kind?_congr (hold p hp)]
        exact h.classes p hp
      · simp only [List.mem_cons, List.mem_singleton, List.not_mem_nil, or_false] at hp
        rcases hp with hp | hp | hp | hp <;> subst hp <;> simp [k0, k1, k2, k3]
  | some r =>
    have hk : k ≠ 0 := fun hk => by
      have := h.root_iff.2 hk
      rw [hroot] at this
      exact absurd this (by simp)
    have hr : r < st.w.heap.length := by
      have h0 := h.hierarchy
      exact hlt r (h0.root_mem r hroot)
    obtain ⟨f1, f2, f3, f4, f5, f6, f7, ⟨n3, h3, f10, i3, d3, p3, q3⟩⟩ :=
      beamLoopBody_next C env rtReader seriesName st (k + 1) r hroot hr
    have hcr : (beamLoopBody C env rtReader seriesName st (k + 1)).w.Nodes.drop w0.Nodes.length =
        st.w.Nodes.drop w0.Nodes.length ++ [st.w.heap.length, st.w.heap.length + 1] := by
      rw [f3, List.drop_append_of_le_length hlen]
    have hold : ∀ p ∈ st.w.Nodes.drop w0.Nodes.length,
        (beamLoopBody C env rtReader seriesName st (k + 1)).w.node? p = st.w.node? p :=
      fun p hp => f6 p (hlt p hp)
    have k0 := World.kind?_eq_some_of_node? f7
    have k3 := World.kind?_eq_some_of_node? f10
    simp only [roiPointNode, NodeData.kind_AnnotationFiducial] at k0
    rw [d3, NodeData.kind_AnnotationHierarchy] at k3
    have g0 : (beamLoopBody C env rtReader seriesName st (k + 1)).w.GetID st.w.heap.length =
        some (NodeID.generated st.w.UniqueIDIndex) := by
      rw [World.GetID_of_node? f7]
      simp [roiPointNode]
    have g3 := World.GetID_of_node? f10
    rw [i3] at g3
    have hblock : World.Block st.w (beamLoopBody C env rtReader seriesName st (k + 1)).w 2 := by
      refine World.Block.of_frame f2 (by rw [f3]; rfl) f4 ?_ f6
      intro j hj
      interval_cases j
      · exact g0
      · exact g3
    refine ⟨st.w.heap.length + 1, ⟨_, hb.block_trans hblock⟩, ?_, ?_, ?_, ?_, ?_, ?_, ?_⟩
    · intro q hq
      rw [f6 q (by rw [hb.heap]; omega), h.frame q hq]
    · rw [f5, h.log]
    · rw [f1]; simp
    · unfold World.createdOfKind
      rw [hcr, List.filter_append]
      have : (st.w.Nodes.drop w0.Nodes.length).filter
          (fun p => (beamLoopBody C env rtReader seriesName st (k + 1)).w.kind? p ==
            some NodeKind.AnnotationFiducial) = markers := by
        rw [← h.fiducials]
        exact List.filter_congr fun p hp => by rw [World.kind?_congr (hold p hp)]
      rw [this]
      simp [List.filter_cons, k0, k3]
    · rw [List.range_succ]
      refine List.rel_append (forall₂_imp_of_mem h.markerNodes ?_)
        (List.Forall₂.cons ⟨some (NodeID.generated st.w.UniqueIDIndex),
          by rw [f7]; simp [isocenterMarkerNode, hk]⟩ List.Forall₂.nil)
      rintro m j hm _ ⟨id, hid⟩
      have hm' : m ∈ st.w.Nodes.drop w0.Nodes.length := by
        have := h.fiducials
        unfold World.createdOfKind at this
        rw [← this] at hm
        exact (List.mem_filter.1 hm).1
      exact ⟨id, by rw [hold m hm']; exact hid⟩
    · rw [hcr, f1]
      have h0 := h.hierarchy
      rw [hroot] at h0
      refine (h0.congr_of_node? hold).append_child _ (st.w.heap.length + 1)
        st.w.heap.length ?_ ?_ ?_
      · simp [List.filter_cons, k0, k3]
      · simp
      · exact ⟨h3, World.hierarchy?_of_node? f10 (Or.inr (Or.inr d3)),
          by rw [p3, World.GetID_congr (f6 r hr)], by rw [q3, g0], by rw [g0]; rfl⟩
    · intro p hp
      rw [hcr] at hp
      rcases List.mem_append.1 hp with hp | hp
      · rw [World.kind?_congr (hold p hp)]
        exact h.classes p hp
      · simp only [List.mem_cons, List.mem_singleton, List.not_mem_nil, or_false] at hp
        rcases hp with hp | hp <;> subst hp <;> simp [k0, k3]

theorem beamLoop_inv (C : SlicerRtCommon) (env : ImportEnv) (rtReader : vtkSlicerDicomRtReader)
    (seriesName : String) (w0 : World) (k : Nat) :
    ∃ markers children, BeamLoopInv C env rtReader w0 k
      (forLoop k (fun st j => beamLoopBody C env rtReader seriesName st (j + 1)) { w := w0 })
      markers children := by
  induction k with
  | zero => exact ⟨[], [], BeamLoopInv.init C env rtReader w0⟩
  | succ k ih =>
    obtain ⟨markers, children, h⟩ := ih
    obtain ⟨c, hc⟩ := h.beam_step seriesName
    rw [forLoop_succ]
    exact ⟨_, _, hc⟩

/-- The loop of the plan part, between the two batch state calls. -/
theorem LoadRTPlan_eq (C : SlicerRtCommon) (env : ImportEnv) (rtReader : vtkSlicerDicomRtReader)
    (seriesName : String) (w : World) :
    LoadRTPlan C env rtReader seriesName w =
      { w := (forLoop rtReader.NumberOfBeams
            (fun st j => beamLoopBody C env rtReader seriesName st (j + 1))
            { w := w.emit Event.StartState }).w.emit Event.EndState
        isocenterHierarchyRootNode := (forLoop rtReader.NumberOfBeams
            (fun st j => beamLoopBody C env rtReader seriesName st (j + 1))
            { w := w.emit Event.StartState }).isocenterHierarchyRootNode } := rfl

@[simp] theorem World.hierarchy?_emit (w : World) (e : Event) (p : Ptr) :
    (w.emit e).hierarchy? p = w.hierarchy? p := rfl

@[simp] theorem World.GetNodeByID_emit (w : World) (e : Event) (id : Option NodeID) :
    (w.emit e).GetNodeByID id = w.GetNodeByID id := rfl

@[simp] theorem World.createdOfKind_emit_left (w0 w1 : World) (e : Event) (k : NodeKind) :
    World.createdOfKind (w0.emit e) w1 k = World.createdOfKind w0 w1 k := rfl

@[simp] theorem World.createdOfKind_emit_right (w0 w1 : World) (e : Event) (k : NodeKind) :
    World.createdOfKind w0 (w1.emit e) k = World.createdOfKind w0 w1 k := rfl

theorem LoadRTPlan_log (C : SlicerRtCommon) (env : ImportEnv) (rtReader : vtkSlicerDicomRtReader)
    (seriesName : String) (w : World) :
    (LoadRTPlan C env rtReader seriesName w).w.log =
      w.log ++ [Event.StartState, Event.EndState] := by
  obtain ⟨markers, children, h⟩ :=
    beamLoop_inv C env rtReader seriesName (w.emit Event.StartState) rtReader.NumberOfBeams
  rw [LoadRTPlan_eq]
  simp only [World.log_emit, h.log]
  simp

@[simp] theorem vtkMRMLNode.Name_SetAttribute (n : vtkMRMLNode) (a b : String) :
    (n.SetAttribute a b).Name = n.Name := by
  unfold vtkMRMLNode.SetAttribute; split <;> rfl

theorem isocenterMarkerNode_data (C : SlicerRtCommon) (env : ImportEnv)
    (rtReader : vtkSlicerDicomRtReader) (k : Nat) (id : Option NodeID) :
    (isocenterMarkerNode C env rtReader k id).Name = rtReader.BeamName k ∧
    (isocenterMarkerNode C env rtReader k id).ID = id ∧
    (isocenterMarkerNode C env rtReader k id).data =
      (roiPointNode (rtReader.BeamIsocenterPositionRas k) (rtReader.BeamName k) (1, 1, 1)
        id).data := by
  unfold isocenterMarkerNode
  split <;> simp [withBeamAttributes, roiPointNode]

/-- C18. For every plan, with `N` beams, the plan part of `LoadDicomRT` adds exactly `N`
fiducials to the scene, the markers; marker number `k` (counting from 0) is named for the beam
with DICOM index `k + 1` and has one control point, at the isocenter of that beam. The
annotation hierarchy nodes added are the isocenter root, if there is one, followed by `N`
child nodes; there is a root unless `N = 0`; the root has no parent, and child number `k`
refers to the root as its parent and to marker number `k` as its node, both references
resolving in the scene. -/
theorem plan_import_one_marker_per_beam (C : SlicerRtCommon) (env : ImportEnv)
    (rtReader : vtkSlicerDicomRtReader) (seriesName : String) (w : World) (hb : w.IDsBelow) :
    ∃ markers children : List Ptr,
      markers.length = rtReader.NumberOfBeams ∧ children.length = rtReader.NumberOfBeams ∧
      World.createdOfKind w (LoadRTPlan C env rtReader seriesName w).w
        NodeKind.AnnotationFiducial = markers ∧
      (∀ k (hk : k < markers.length), ∃ n f,
        (LoadRTPlan C env rtReader seriesName w).w.node? (markers.get ⟨k, hk⟩) = some n ∧
        n.data = NodeData.AnnotationFiducial f ∧ n.Name = rtReader.BeamName (k + 1) ∧
        f.ControlPoints = [(rtReader.BeamIsocenterPositionRas (k + 1), false, true)]) ∧
      World.createdOfKind w (LoadRTPlan C env rtReader seriesName w).w
          NodeKind.AnnotationHierarchy =
        (LoadRTPlan C env rtReader seriesName w).isocenterHierarchyRootNode.toList ++ children ∧
      ((LoadRTPlan C env rtReader seriesName w).isocenterHierarchyRootNode = none ↔
        rtReader.NumberOfBeams = 0) ∧
      ∀ root, (LoadRTPlan C env rtReader seriesName w).isocenterHierarchyRootNode = some root →
        (∃ h, (LoadRTPlan C env rtReader seriesName w).w.hierarchy? root = some h ∧
          h.ParentNodeID = none) ∧
        ∀ k (hk : k < children.length) (hm : k < markers.length), ∃ h,
          (LoadRTPlan C env rtReader seriesName w).w.hierarchy? (children.get ⟨k, hk⟩) =
            some h ∧
          (LoadRTPlan C env rtReader seriesName w).w.GetNodeByID h.ParentNodeID = some root ∧
          (LoadRTPlan C env rtReader seriesName w).w.GetNodeByID h.DisplayableNodeID =
            some (markers.get ⟨k, hm⟩) := by
  obtain ⟨markers, children, h⟩ :=
    beamLoop_inv C env rtReader seriesName (w.emit Event.StartState) rtReader.NumberOfBeams
  obtain ⟨n, hblock⟩ := h.block
  have hlen : markers.length = rtReader.NumberOfBeams := by
    rw [h.markerNodes.length_eq, List.length_range]
  rw [LoadRTPlan_eq]
  simp only [World.createdOfKind_emit_right, World.node?_emit, World.hierarchy?_emit,
    World.GetNodeByID_emit]
  refine ⟨markers, children, hlen, by rw [h.hierarchy.length_eq, hlen], h.fiducials, ?_,
    h.hierarchy.nodes, h.root_iff, ?_⟩
  · intro k hk
    have hk2 : k < (List.range rtReader.NumberOfBeams).length := by
      rw [List.length_range, ← hlen]; exact hk
    obtain ⟨id, hid⟩ := h.markerNodes.get hk hk2
    have hget : (List.range rtReader.NumberOfBeams).get ⟨k, hk2⟩ = k := by simp
    rw [hget] at hid
    obtain ⟨h1, _, h3⟩ := isocenterMarkerNode_data C env rtReader (k + 1) id
    exact ⟨_, _, hid, h3, h1, rfl⟩
  · intro root hroot
    have hrm := h.hierarchy.root_mem root hroot
    have hrb := hblock.mem_created_lt root hrm
    obtain ⟨hn, h1, h2, _⟩ := h.hierarchy.top root hroot
    refine ⟨⟨hn, h1, h2⟩, ?_⟩
    intro k hk hm
    obtain ⟨hc, c1, c2, c3, _⟩ := h.hierarchy.child.get hk hm
    refine ⟨hc, c1, ?_, ?_⟩
    · rw [c2, hroot]
      exact hblock.lookup hb root hrb.1 hrb.2
    · rw [c3]
      have hmm := hblock.mem_created_lt _
        (h.hierarchy.members_sub _ (List.get_mem markers k hm))
      exact hblock.lookup hb _ hmm.1 hmm.2

theorem emptyWorld_IDsBelow : emptyWorld.IDsBelow := by
  intro p hp
  simp [emptyWorld] at hp

/-- C18 at the sample plan: two beams give two markers and two children. -/
theorem plan_import_one_marker_per_beam_witness :
    ∃ markers children : List Ptr,
      markers.length = 2 ∧ children.length = 2 ∧
      World.createdOfKind emptyWorld
        (LoadRTPlan sampleCommon samplePlanEnv samplePlanReader "Plan" emptyWorld).w
        NodeKind.AnnotationFiducial = markers := by
  obtain ⟨markers, children, h1, h2, h3, _⟩ :=
    plan_import_one_marker_per_beam sampleCommon samplePlanEnv samplePlanReader "Plan"
      emptyWorld emptyWorld_IDsBelow
  exact ⟨markers, children, h1, h2, h3⟩

/-- C19. For every plan with at least one beam, when the five attribute names are pairwise
different, the marker of the first beam carries exactly the five beam attributes, with the
values of the beam with DICOM index 1: source-axis distance, gantry angle, couch angle,
collimator angle, and the jaw positions, which are the four jaw values `[0][0]`, `[0][1]`,
`[1][0]`, `[1][1]` in this order, joined by single commas. The markers of the other beams
carry no attribute. -/
theorem plan_import_beam_attributes_on_first_marker (C : SlicerRtCommon) (env : ImportEnv)
    (rtReader : vtkSlicerDicomRtReader) (seriesName : String) (w : World)
    (hN : 1 ≤ rtReader.NumberOfBeams)
    (hnames : [C.DICOMRTIMPORT_BEAM_SOURCE_AXIS_DISTANCE_ATTRIBUTE_NAME,
      C.DICOMRTIMPORT_BEAM_GANTRY_ANGLE_ATTRIBUTE_NAME,
      C.DICOMRTIMPORT_BEAM_COUCH_ANGLE_ATTRIBUTE_NAME,
      C.DICOMRTIMPORT_BEAM_COLLIMATOR_ANGLE_ATTRIBUTE_NAME,
      C.DICOMRTIMPORT_BEAM_JAW_POSITIONS_ATTRIBUTE_NAME].Nodup) :
    ∃ markers : List Ptr,
      World.createdOfKind w (LoadRTPlan C env rtReader seriesName w).w
        NodeKind.AnnotationFiducial = markers ∧
      markers.length = rtReader.NumberOfBeams ∧ 0 < markers.length ∧
      ∀ k (hk : k < markers.length), ∃ n,
        (LoadRTPlan C env rtReader seriesName w).w.node? (markers.get ⟨k, hk⟩) = some n ∧
        n.Name = rtReader.BeamName (k + 1) ∧
        n.Attributes =
          if k = 0 then
            [(C.DICOMRTIMPORT_BEAM_SOURCE_AXIS_DISTANCE_ATTRIBUTE_NAME,
                env.StreamDouble (rtReader.BeamSourceAxisDistance 1)),
              (C.DICOMRTIMPORT_BEAM_GANTRY_ANGLE_ATTRIBUTE_NAME,
                env.StreamDouble (rtReader.BeamGantryAngle 1)),
              (C.DICOMRTIMPORT_BEAM_COUCH_ANGLE_ATTRIBUTE_NAME,
                env.StreamDouble (rtReader.BeamPatientSupportAngle 1)),
              (C.DICOMRTIMPORT_BEAM_COLLIMATOR_ANGLE_ATTRIBUTE_NAME,
                env.StreamDouble (rtReader.BeamBeamLimitingDeviceAngle 1)),
              (C.DICOMRTIMPORT_BEAM_JAW_POSITIONS_ATTRIBUTE_NAME,
                env.StreamDouble (rtReader.BeamLeafJawPositions 1).1.1 ++ "," ++
                  env.StreamDouble (rtReader.BeamLeafJawPositions 1).1.2 ++ "," ++
                  env.StreamDouble (rtReader.BeamLeafJawPositions 1).2.1 ++ "," ++
                  env.StreamDouble (rtReader.BeamLeafJawPositions 1).2.2)]
          else [] := by
  obtain ⟨markers, children, h⟩ :=
    beamLoop_inv C env rtReader seriesName (w.emit Event.StartState) rtReader.NumberOfBeams
  have hlen : markers.length = rtReader.NumberOfBeams := by
    rw [h.markerNodes.length_eq, List.length_range]
  rw [LoadRTPlan_eq]
  simp only [World.createdOfKind_emit_right, World.node?_emit]
  refine ⟨markers, h.fiducials, hlen, by rw [hlen]; exact hN, ?_⟩
  intro k hk
  have hk2 : k < (List.range rtReader.NumberOfBeams).length := by
    rw [List.length_range, ← hlen]; exact hk
  obtain ⟨id, hid⟩ := h.markerNodes.get hk hk2
  have hget : (List.range rtReader.NumberOfBeams).get ⟨k, hk2⟩ = k := by simp
  rw [hget] at hid
  refine ⟨_, hid, (isocenterMarkerNode_data C env rtReader (k + 1) id).1, ?_⟩
  simp only [List.nodup_cons, List.mem_cons, List.mem_singleton, List.not_mem_nil, not_or,
    or_false] at hnames
  obtain ⟨⟨a1, a2, a3, a4⟩, ⟨b1, b2, b3⟩, ⟨c1, c2⟩, d1, _⟩ := hnames
  by_cases hk0 : k = 0
  · subst hk0
    simp [isocenterMarkerNode, withBeamAttributes, roiPointNode, vtkMRMLNode.SetAttribute,
      a1, a2, a3, a4, b1, b2, b3, c1, c2, d1]
  · simp [isocenterMarkerNode, roiPointNode, hk0]

/-- C19 at the sample plan: the first of the two markers carries the attributes of beam 1,
with jaw positions `-5,5,-5,5`; the second carries none. -/
theorem plan_import_beam_attributes_on_first_marker_witness :
    ∃ m0 m1 n0 n1,
      World.createdOfKind emptyWorld
        (LoadRTPlan sampleCommon samplePlanEnv samplePlanReader "Plan" emptyWorld).w
        NodeKind.AnnotationFiducial = [m0, m1] ∧
      (LoadRTPlan sampleCommon samplePlanEnv samplePlanReader "Plan" emptyWorld).w.node? m0 =
        some n0 ∧
      n0.Attributes = [("SourceAxisDistance", "100"), ("GantryAngle", "0"), ("CouchAngle", "0"),
        ("CollimatorAngle", "0"), ("JawPositions", "-5,5,-5,5")] ∧
      (LoadRTPlan sampleCommon samplePlanEnv samplePlanReader "Plan" emptyWorld).w.node? m1 =
        some n1 ∧
      n1.Attributes = [] := by
  obtain ⟨markers, h1, h2, _, h4⟩ :=
    plan_import_beam_attributes_on_first_marker sampleCommon samplePlanEnv samplePlanReader
      "Plan" emptyWorld (by decide) (by decide)
  obtain ⟨m0, m1, rfl⟩ : ∃ m0 m1, markers = [m0, m1] := by
    match markers, h2 with
    | [a, b], _ => exact ⟨a, b, rfl⟩
  obtain ⟨n0, e0, _, a0⟩ := h4 0 (by simp)
  obtain ⟨n1, e1, _, a1⟩ := h4 1 (by simp)
  refine ⟨m0, m1, n0, n1, h1, e0, ?_, e1, ?_⟩
  · rw [a0]
    simp [sampleCommon, samplePlanEnv, samplePlanReader]
    norm_num
    decide
  · rw [a1]
    simp

/-! ## Steps that add nodes of known classes -/

theorem World.hierarchy?_eq_none_of_kind {w : World} {q : Nat}
    (h : w.kind? q = some NodeKind.ColorTable ∨ w.kind? q = some NodeKind.ModelDisplay) :
    w.hierarchy? q = none := by
  unfold World.kind? at h
  unfold World.hierarchy?
  cases hn : w.node? q with
  | none => rfl
  | some n =>
    rw [hn] at h
    cases hd : n.data <;> simp_all

theorem World.Block.hierarchy?_eq {w0 w1 : World} {n : Nat} (h : World.Block w0 w1 n) (q : Nat)
    (hq : q < w0.heap.length) : w1.hierarchy? q = w0.hierarchy? q := by
  by_cases h1 : w0.kind? q = some NodeKind.ColorTable
  · rw [World.hierarchy?_eq_none_of_kind (Or.inl h1),
      World.hierarchy?_eq_none_of_kind (Or.inl (by rw [h.kinds q hq]; exact h1))]
  · by_cases h2 : w0.kind? q = some NodeKind.ModelDisplay
    · rw [World.hierarchy?_eq_none_of_kind (Or.inr h2),
        World.hierarchy?_eq_none_of_kind (Or.inr (by rw [h.kinds q hq]; exact h2))]
    · exact World.hierarchy?_congr (h.frame q hq h1 h2)

theorem World.Adds.adds_refl (w : World) : World.Adds w w [] :=
  ⟨World.Block.block_refl w, rfl⟩

theorem World.Adds.adds_trans {w0 w1 w2 : World} {ks1 ks2 : List NodeKind}
    (h01 : World.Adds w0 w1 ks1) (h12 : World.Adds w1 w2 ks2) :
    World.Adds w0 w2 (ks1 ++ ks2) := by
  refine ⟨by rw [List.length_append]; exact h01.block.block_trans h12.block, ?_⟩
  rw [List.length_append, Nat.add_comm, ← List.range'_append_1, List.map_append,
    List.map_append]
  congr 1
  · rw [← h01.kinds]
    refine List.map_congr_left fun p hp => ?_
    exact h12.block.kinds p (by rw [h01.block.heap]; exact (List.mem_range'_1.1 hp).2)
  · have := h12.kinds
    rw [h01.block.heap] at this
    exact this

theorem World.Adds.adds_created {w0 w1 : World} {ks : List NodeKind} (h : World.Adds w0 w1 ks) :
    w1.Nodes.drop w0.Nodes.length = List.range' w0.heap.length ks.length := h.block.created

theorem World.Adds.createdOfKind_length {w0 w1 : World} {ks : List NodeKind}
    (h : World.Adds w0 w1 ks) (k : NodeKind) :
    (World.createdOfKind w0 w1 k).length = ks.count k := by
  unfold World.createdOfKind
  rw [h.adds_created, ← List.countP_eq_length_filter]
  have : List.countP (fun p => w1.kind? p == some k) (List.range' w0.heap.length ks.length) =
      ((List.range' w0.heap.length ks.length).map w1.kind?).count (some k) := by
    rw [List.count, List.countP_map]
    rfl
  rw [this, h.kinds]
  generalize ks = l
  induction l with
  | nil => rfl
  | cons a l ih => simp [List.count_cons, ih]

/-- An `Adds` step from the description of a block and the classes of its objects. -/
theorem World.Adds.of_block {w0 w1 : World} {ks : List NodeKind}
    (hb : World.Block w0 w1 ks.length)
    (hk : ∀ j (hj : j < ks.length), w1.kind? (w0.heap.length + j) = some (ks.get ⟨j, hj⟩)) :
    World.Adds w0 w1 ks := by
  refine ⟨hb, ?_⟩
  apply List.ext_getElem
  · simp
  · intro j h1 h2
    simp only [List.length_map, List.length_range'] at h1
    simp only [List.getElem_map, List.getElem_range', Nat.one_mul]
    rw [hk j h1]
    rfl

/-- A hierarchy is not affected by a step that adds no node of its class. -/
theorem World.HierarchyOf.adds_other {w0 w w' : World} {n : Nat} {ks : List NodeKind}
    {kind : NodeKind} {root : Option Ptr} {children members : List Ptr}
    (hb : World.Block w0 w n) (ha : World.Adds w w' ks) (hk : kind ∉ ks)
    (h : w.HierarchyOf (w.Nodes.drop w0.Nodes.length) kind root children members) :
    w'.HierarchyOf (w'.Nodes.drop w0.Nodes.length) kind root children members := by
  have hlt : ∀ p ∈ w.Nodes.drop w0.Nodes.length, p < w.heap.length :=
    fun p hp => (hb.mem_created_lt p hp).2
  have hcr : w'.Nodes.drop w0.Nodes.length =
      w.Nodes.drop w0.Nodes.length ++ List.range' w.heap.length ks.length := by
    rw [ha.block.nodes, List.drop_append_of_le_length (by rw [hb.nodes]; simp)]
  rw [hcr]
  refine (h.congr (fun p hp => ha.block.kinds p (hlt p hp))
    (fun p hp => ha.block.hierarchy?_eq p (hlt p hp))
    (fun p hp => ha.block.getID p (hlt p hp))).append_other _ ?_
  rw [List.filter_eq_nil_iff]
  intro p hp hkp
  have hmem : w'.kind? p ∈ (List.range' w.heap.length ks.length).map w'.kind? :=
    List.mem_map_of_mem _ hp
  rw [ha.kinds] at hmem
  simp only [beq_iff_eq] at hkp
  rw [hkp] at hmem
  obtain ⟨x, hx, hxe⟩ := List.mem_map.1 hmem
  cases hxe
  exact hk hx

/-! ## The blocks of the region loop as steps -/

theorem NodeData.mapColorTable_of_kind_ne (f : vtkMRMLColorTableNode → vtkMRMLColorTableNode)
    (d : NodeData) (h : d.kind ≠ NodeKind.ColorTable) : NodeData.mapColorTable f d = d := by
  cases d <;> simp_all [NodeData.mapColorTable]

theorem NodeData.mapModelDisplay_of_kind_ne
    (f : vtkMRMLModelDisplayNode → vtkMRMLModelDisplayNode)
    (d : NodeData) (h : d.kind ≠ NodeKind.ModelDisplay) : NodeData.mapModelDisplay f d = d := by
  cases d <;> simp_all [NodeData.mapModelDisplay]

theorem World.Adds.modifyData_mapColorTable (w : World) (p : Ptr)
    (f : vtkMRMLColorTableNode → vtkMRMLColorTableNode) :
    World.Adds w (w.modifyData p (NodeData.mapColorTable f)) [] := by
  refine ⟨⟨by simp, by simp, by simp, fun _ h => absurd h (Nat.not_lt_zero _), ?_, ?_, ?_⟩, rfl⟩
  · intro q _
    exact World.GetID_modifyData w p _ q
  · intro q _
    rw [World.kind?_modifyData]
    split
    · simp only [NodeData.kind_mapColorTable]; rfl
    · rfl
  · intro q _ h1 _
    rw [World.node?_modifyData]
    split
    · cases hn : w.node? q with
      | none => rfl
      | some n =>
        have : n.data.kind ≠ NodeKind.ColorTable := by
          intro hc
          apply h1
          rw [World.kind?_eq_some_of_node? hn, hc]
        simp [NodeData.mapColorTable_of_kind_ne f n.data this]
    · rfl

theorem World.Adds.modifyData_mapModelDisplay (w : World) (p : Ptr)
    (f : vtkMRMLModelDisplayNode → vtkMRMLModelDisplayNode) :
    World.Adds w (w.modifyData p (NodeData.mapModelDisplay f)) [] := by
  refine ⟨⟨by simp, by simp, by simp, fun _ h => absurd h (Nat.not_lt_zero _), ?_, ?_, ?_⟩, rfl⟩
  · intro q _
    exact World.GetID_modifyData w p _ q
  · intro q _
    rw [World.kind?_modifyData]
    split
    · simp only [NodeData.kind_mapModelDisplay]; rfl
    · rfl
  · intro q _ _ h2
    rw [World.node?_modifyData]
    split
    · cases hn : w.node? q with
      | none => rfl
      | some n =>
        have : n.data.kind ≠ NodeKind.ModelDisplay := by
          intro hc
          apply h2
          rw [World.kind?_eq_some_of_node? hn, hc]
        simp [NodeData.mapModelDisplay_of_kind_ne f n.data this]
    · rfl

theorem World.Adds.adds_emit (w : World) (e : Event) : World.Adds w (w.emit e) [] :=
  ⟨World.Block.block_emit w e, rfl⟩

theorem setContourOpacities_adds (env : ImportEnv) (auto : Bool) (rois : List vtkPolyData)
    (disp : List (Option Ptr)) (w : World) :
    World.Adds w (setContourOpacities env auto rois disp w) [] := by
  unfold setContourOpacities
  split
  · split
    · simp only []
      generalize rois.length = n
      induction n with
      | zero => exact World.Adds.adds_refl w
      | succ n ih =>
        rw [forLoop_succ]
        split
        · exact ih.adds_trans (World.Adds.modifyData_mapModelDisplay _ _ _)
        · exact ih
    · exact World.Adds.adds_emit w _
  · exact World.Adds.adds_refl w

/-- A step from its description: the objects created carry the next identifiers and have the
listed classes, and the objects before them are untouched. -/
theorem World.Adds.of_nodes {w0 w1 : World} {ks : List NodeKind}
    (hheap : w1.heap.length = w0.heap.length + ks.length)
    (hnodes : w1.Nodes = w0.Nodes ++ List.range' w0.heap.length ks.length)
    (hcounter : w1.UniqueIDIndex = w0.UniqueIDIndex + ks.length)
    (hframe : ∀ q, q < w0.heap.length → w1.node? q = w0.node? q)
    (hnew : ∀ j (hj : j < ks.length), ∃ n, w1.node? (w0.heap.length + j) = some n ∧
      n.ID = some (NodeID.generated (w0.UniqueIDIndex + j)) ∧ n.data.kind = ks.get ⟨j, hj⟩) :
    World.Adds w0 w1 ks := by
  refine World.Adds.of_block (World.Block.of_frame hheap hnodes hcounter ?_ hframe) ?_
  · intro j hj
    obtain ⟨n, h1, h2, _⟩ := hnew j hj
    rw [World.GetID_of_node? h1, h2]
  · intro j hj
    obtain ⟨n, h1, _, h3⟩ := hnew j hj
    rw [World.kind?_eq_some_of_node? h1, h3]

theorem AddRoiPoint_adds (w : World) (pos : Vec3) (name : String) (c : Vec3) :
    World.Adds w (AddRoiPoint w pos name c).1 [NodeKind.AnnotationFiducial] := by
  refine World.Adds.of_nodes (by simp) (by simp) (by simp)
    (fun q hq => AddRoiPoint_node? w pos name c q hq) ?_
  intro j hj
  have hj0 : j = 0 := by simpa using hj
  subst hj0
  exact ⟨_, AddRoiPoint_new w pos name c, rfl, rfl⟩

@[simp] theorem AddRoiContour_UniqueIDIndex (C : SlicerRtCommon) (env : ImportEnv) (w : World)
    (poly : vtkPolyData) (name : String) (c : Vec3) :
    (AddRoiContour C env w poly name c).1.UniqueIDIndex = w.UniqueIDIndex + 2 := by
  simp [AddRoiContour, World.New]

theorem AddRoiContour_new (C : SlicerRtCommon) (env : ImportEnv) (w : World)
    (poly : vtkPolyData) (name : String) (c : Vec3) :
    (∃ n d, (AddRoiContour C env w poly name c).1.node? w.heap.length = some n ∧
      n.ID = some (NodeID.generated w.UniqueIDIndex) ∧ n.data = NodeData.ModelDisplay d) ∧
    (∃ n m, (AddRoiContour C env w poly name c).1.node? (w.heap.length + 1) = some n ∧
      n.ID = some (NodeID.generated (w.UniqueIDIndex + 1)) ∧ n.data = NodeData.Model m) := by
  refine ⟨?_, ?_⟩
  · simp [AddRoiContour, World.New, World.node?_alloc, World.node?_modify,
      World.node?_modifyData, World.node?_AddNode, NodeData.mapModelDisplay]
  · simp [AddRoiContour, World.New, World.node?_alloc, World.node?_modify,
      World.node?_modifyData, World.node?_AddNode, NodeData.mapModel]

theorem AddRoiContour_adds (C : SlicerRtCommon) (env : ImportEnv) (w : World)
    (poly : vtkPolyData) (name : String) (c : Vec3) :
    World.Adds w (AddRoiContour C env w poly name c).1 [NodeKind.ModelDisplay, NodeKind.Model] := by
  obtain ⟨⟨n0, d0, e0, i0, k0⟩, ⟨n1, m1, e1, i1, k1⟩⟩ := AddRoiContour_new C env w poly name c
  refine World.Adds.of_nodes (by simp) (by simp; rfl) (by simp)
    (fun q hq => AddRoiContour_node? C env w poly name c q hq) ?_
  intro j hj
  have hj2 : j < 2 := by simpa using hj
  interval_cases j
  · exact ⟨n0, e0, i0, by rw [k0]; rfl⟩
  · exact ⟨n1, e1, i1, by rw [k1]; rfl⟩

theorem addToModelHierarchy_first (C : SlicerRtCommon) (env : ImportEnv) (s : String)
    (a : Ptr) (st : RoiLoopState) (hroot : st.modelHierarchyRootNode = none)
    (ha : a < st.w.heap.length) :
    (addToModelHierarchy C env s a st).modelHierarchyRootNode = some st.w.heap.length ∧
    (addToModelHierarchy C env s a st).w.heap.length = st.w.heap.length + 3 ∧
    (addToModelHierarchy C env s a st).w.Nodes =
      st.w.Nodes ++ [st.w.heap.length, st.w.heap.length + 1, st.w.heap.length + 2] ∧
    (addToModelHierarchy C env s a st).w.UniqueIDIndex = st.w.UniqueIDIndex + 3 ∧
    (∃ n h, (addToModelHierarchy C env s a st).w.node? st.w.heap.length = some n ∧
      n.ID = some (NodeID.generated st.w.UniqueIDIndex) ∧
      n.data = NodeData.ModelHierarchy h ∧ h.ParentNodeID = none) ∧
    (∃ n d, (addToModelHierarchy C env s a st).w.node? (st.w.heap.length + 1) = some n ∧
      n.ID = some (NodeID.generated (st.w.UniqueIDIndex + 1)) ∧
      n.data = NodeData.ModelDisplay d) ∧
    (∃ n h, (addToModelHierarchy C env s a st).w.node? (st.w.heap.length + 2) = some n ∧
      n.ID = some (NodeID.generated (st.w.UniqueIDIndex + 2)) ∧
      n.data = NodeData.ModelHierarchy h ∧
      h.ParentNodeID = some (NodeID.generated st.w.UniqueIDIndex) ∧
      h.DisplayableNodeID = st.w.GetID a) := by
  have ha0 : a ≠ st.w.heap.length := Nat.ne_of_lt ha
  have ha1 : a ≠ st.w.heap.length + 1 := Nat.ne_of_lt (Nat.lt_succ_of_lt ha)
  have ha2 : a ≠ st.w.heap.length + (1 + 1) :=
    Nat.ne_of_lt (Nat.lt_succ_of_lt (Nat.lt_succ_of_lt ha))
  refine ⟨?_, ?_, ?_, ?_, ?_, ?_, ?_⟩
  · simp [addToModelHierarchy, hroot, World.New]
  · simp [addToModelHierarchy, hroot, World.New]
  · simp [addToModelHierarchy, hroot, World.New, Nat.add_assoc]
  · simp [addToModelHierarchy, hroot, World.New, Nat.add_assoc]
  · simp [addToModelHierarchy, hroot, World.New, World.node?_alloc, World.node?_modify,
      World.node?_modifyData, World.node?_AddNode, NodeData.mapHierarchy, Nat.add_assoc]
  · simp [addToModelHierarchy, hroot, World.New, World.node?_alloc, World.node?_modify,
      World.node?_modifyData, World.node?_AddNode, NodeData.mapModelDisplay, Nat.add_assoc]
  · simp [addToModelHierarchy, hroot, World.New, World.node?_alloc, World.node?_modify,
      World.node?_modifyData, World.node?_AddNode, NodeData.mapHierarchy, Nat.add_assoc,
      World.GetID_alloc, World.GetID_modify, World.GetID_modifyData, World.GetID_AddNode,
      ha0, ha1, ha2]

theorem addToModelHierarchy_next (C : SlicerRtCommon) (env : ImportEnv) (s : String)
    (a : Ptr) (st : RoiLoopState) (r : Ptr) (hroot : st.modelHierarchyRootNode = some r)
    (hr : r < st.w.heap.length) (ha : a < st.w.heap.length) :
    (addToModelHierarchy C env s a st).modelHierarchyRootNode = some r ∧
    (addToModelHierarchy C env s a st).w.heap.length = st.w.heap.length + 1 ∧
    (addToModelHierarchy C env s a st).w.Nodes = st.w.Nodes ++ [st.w.heap.length] ∧
    (addToModelHierarchy C env s a st).w.UniqueIDIndex = st.w.UniqueIDIndex + 1 ∧
    (∃ n h, (addToModelHierarchy C env s a st).w.node? st.w.heap.length = some n ∧
      n.ID = some (NodeID.generated st.w.UniqueIDIndex) ∧
      n.data = NodeData.ModelHierarchy h ∧
      h.ParentNodeID = st.w.GetID r ∧ h.DisplayableNodeID = st.w.GetID a) := by
  have ha0 : a ≠ st.w.heap.length := Nat.ne_of_lt ha
  have hr0 : r ≠ st.w.heap.length := Nat.ne_of_lt hr
  refine ⟨?_, ?_, ?_, ?_, ?_⟩
  · simp [addToModelHierarchy, hroot, World.New]
  · simp [addToModelHierarchy, hroot, World.New]
  · simp [addToModelHierarchy, hroot, World.New]
  · simp [addToModelHierarchy, hroot, World.New]
  · simp [addToModelHierarchy, hroot, World.New, World.node?_alloc, World.node?_modify,
      World.node?_modifyData, World.node?_AddNode, NodeData.mapHierarchy,
      World.GetID_alloc, World.GetID_modify, World.GetID_modifyData, World.GetID_AddNode,
      ha0, hr0]

theorem addContourNode_first (C : SlicerRtCommon) (env : ImportEnv) (s l n : String)
    (a : Ptr) (st : RoiLoopState) (hroot : st.contourHierarchyRootNode = none) :
    (addContourNode C env s l n a st).contourHierarchyRootNode = some st.w.heap.length ∧
    (addContourNode C env s l n a st).w.heap.length = st.w.heap.length + 3 ∧
    (addContourNode C env s l n a st).w.Nodes =
      st.w.Nodes ++ [st.w.heap.length, st.w.heap.length + 1, st.w.heap.length + 2] ∧
    (addContourNode C env s l n a st).w.UniqueIDIndex = st.w.UniqueIDIndex + 3 ∧
    (∃ x h, (addContourNode C env s l n a st).w.node? st.w.heap.length = some x ∧
      x.ID = some (NodeID.generated st.w.UniqueIDIndex) ∧
      x.data = NodeData.ContourHierarchy h ∧ h.ParentNodeID = none) ∧
    (∃ x c, (addContourNode C env s l n a st).w.node? (st.w.heap.length + 1) = some x ∧
      x.ID = some (NodeID.generated (st.w.UniqueIDIndex + 1)) ∧
      x.data = NodeData.Contour c) ∧
    (∃ x h, (addContourNode C env s l n a st).w.node? (st.w.heap.length + 2) = some x ∧
      x.ID = some (NodeID.generated (st.w.UniqueIDIndex + 2)) ∧
      x.data = NodeData.ContourHierarchy h ∧
      h.ParentNodeID = some (NodeID.generated st.w.UniqueIDIndex) ∧
      h.DisplayableNodeID = some (NodeID.generated (st.w.UniqueIDIndex + 1))) := by
  refine ⟨?_, ?_, ?_, ?_, ?_, ?_, ?_⟩
  · simp [addContourNode, hroot, World.New]
  · simp [addContourNode, hroot, World.New]
  · simp [addContourNode, hroot, World.New, Nat.add_assoc]
  · simp [addContourNode, hroot, World.New, Nat.add_assoc]
  · simp [addContourNode, hroot, World.New, World.node?_alloc, World.node?_modify,
      World.node?_modifyData, World.node?_AddNode, NodeData.mapHierarchy, Nat.add_assoc]
  · simp [addContourNode, hroot, World.New, World.node?_alloc, World.node?_modify,
      World.node?_modifyData, World.node?_AddNode, NodeData.mapContour, Nat.add_assoc]
  · simp [addContourNode, hroot, World.New, World.node?_alloc, World.node?_modify,
      World.node?_modifyData, World.node?_AddNode, NodeData.mapHierarchy, Nat.add_assoc,
      World.GetID_alloc, World.GetID_modify, World.GetID_modifyData, World.GetID_AddNode]

theorem addContourNode_next (C : SlicerRtCommon) (env : ImportEnv) (s l n : String)
    (a : Ptr) (st : RoiLoopState) (r : Ptr) (hroot : st.contourHierarchyRootNode = some r)
    (hr : r < st.w.heap.length) :
    (addContourNode C env s l n a st).contourHierarchyRootNode = some r ∧
    (addContourNode C env s l n a st).w.heap.length = st.w.heap.length + 2 ∧
    (addContourNode C env s l n a st).w.Nodes =
      st.w.Nodes ++ [st.w.heap.length, st.w.heap.length + 1] ∧
    (addContourNode C env s l n a st).w.UniqueIDIndex = st.w.UniqueIDIndex + 2 ∧
    (∃ x c, (addContourNode C env s l n a st).w.node? st.w.heap.length = some x ∧
      x.ID = some (NodeID.generated st.w.UniqueIDIndex) ∧
      x.data = NodeData.Contour c) ∧
    (∃ x h, (addContourNode C env s l n a st).w.node? (st.w.heap.length + 1) = some x ∧
      x.ID = some (NodeID.generated (st.w.UniqueIDIndex + 1)) ∧
      x.data = NodeData.ContourHierarchy h ∧
      h.ParentNodeID = st.w.GetID r ∧
      h.DisplayableNodeID = some (NodeID.generated st.w.UniqueIDIndex)) := by
  have hr0 : r ≠ st.w.heap.length := Nat.ne_of_lt hr
  have hr1 : r ≠ st.w.heap.length + 1 := Nat.ne_of_lt (Nat.lt_succ_of_lt hr)
  refine ⟨?_, ?_, ?_, ?_, ?_, ?_⟩
  · simp [addContourNode, hroot, World.New]
  · simp [addContourNode, hroot, World.New]
  · simp [addContourNode, hroot, World.New, Nat.add_assoc]
  · simp [addContourNode, hroot, World.New, Nat.add_assoc]
  · simp [addContourNode, hroot, World.New, World.node?_alloc, World.node?_modify,
      World.node?_modifyData, World.node?_AddNode, NodeData.mapContour, Nat.add_assoc]
  · simp [addContourNode, hroot, World.New, World.node?_alloc, World.node?_modify,
      World.node?_modifyData, World.node?_AddNode, NodeData.mapHierarchy, Nat.add_assoc,
      World.GetID_alloc, World.GetID_modify, World.GetID_modifyData, World.GetID_AddNode,
      hr0, hr1]

theorem World.Block.drop_nodes {w0 w w' : World} {n m : Nat} (hb : World.Block w0 w n)
    (ha : World.Block w w' m) :
    w'.Nodes.drop w0.Nodes.length =
      w.Nodes.drop w0.Nodes.length ++ List.range' w.heap.length m := by
  rw [ha.nodes, List.drop_append_of_le_length (by rw [hb.nodes]; simp)]

/-- A step creates the root of a hierarchy and its first child. -/
theorem World.HierarchyOf.grow_first {w0 w w' : World} {n : Nat} {ks : List NodeKind}
    {kind : NodeKind} {children members : List Ptr}
    (hb : World.Block w0 w n) (ha : World.Adds w w' ks)
    (h : w.HierarchyOf (w.Nodes.drop w0.Nodes.length) kind none children members)
    (r c m : Ptr)
    (hfilter : (List.range' w.heap.length ks.length).filter
      (fun p => w'.kind? p == some kind) = [r, c])
    (hm : m ∈ w'.Nodes.drop w0.Nodes.length)
    (hr : ∃ hn, w'.hierarchy? r = some hn ∧ hn.ParentNodeID = none ∧ (w'.GetID r).isSome)
    (hc : ∃ hn, w'.hierarchy? c = some hn ∧ hn.ParentNodeID = w'.GetID r ∧
      hn.DisplayableNodeID = w'.GetID m ∧ (w'.GetID m).isSome) :
    w'.HierarchyOf (w'.Nodes.drop w0.Nodes.length) kind (some r) [c] [m] := by
  have hlt : ∀ p ∈ w.Nodes.drop w0.Nodes.length, p < w.heap.length :=
    fun p hp => (hb.mem_created_lt p hp).2
  have hcr := hb.drop_nodes ha.block
  rw [hcr] at hm ⊢
  exact (h.congr (fun p hp => ha.block.kinds p (hlt p hp))
    (fun p hp => ha.block.hierarchy?_eq p (hlt p hp))
    (fun p hp => ha.block.getID p (hlt p hp))).append_root _ r c m hfilter hm hr hc

/-- A step creates one more child under the root of a hierarchy. -/
theorem World.HierarchyOf.grow_next {w0 w w' : World} {n : Nat} {ks : List NodeKind}
    {kind : NodeKind} {r : Ptr} {children members : List Ptr}
    (hb : World.Block w0 w n) (ha : World.Adds w w' ks)
    (h : w.HierarchyOf (w.Nodes.drop w0.Nodes.length) kind (some r) children members)
    (c m : Ptr)
    (hfilter : (List.range' w.heap.length ks.length).filter
      (fun p => w'.kind? p == some kind) = [c])
    (hm : m ∈ w'.Nodes.drop w0.Nodes.length)
    (hc : ∃ hn, w'.hierarchy? c = some hn ∧ hn.ParentNodeID = w'.GetID r ∧
      hn.DisplayableNodeID = w'.GetID m ∧ (w'.GetID m).isSome) :
    w'.HierarchyOf (w'.Nodes.drop w0.Nodes.length) kind (some r) (children ++ [c])
      (members ++ [m]) := by
  have hlt : ∀ p ∈ w.Nodes.drop w0.Nodes.length, p < w.heap.length :=
    fun p hp => (hb.mem_created_lt p hp).2
  have hcr := hb.drop_nodes ha.block
  rw [hcr] at hm ⊢
  exact (h.congr (fun p hp => ha.block.kinds p (hlt p hp))
    (fun p hp => ha.block.hierarchy?_eq p (hlt p hp))
    (fun p hp => ha.block.getID p (hlt p hp))).append_child _ c m hfilter hm hc

/-- The block that puts a new entity `a` into the model hierarchy, as a step: the classes of
the nodes it adds, and the model hierarchy after it. -/
theorem addToModelHierarchy_step (C : SlicerRtCommon) (env : ImportEnv) (s : String)
    (a : Ptr) (st : RoiLoopState) {w0 : World} {n : Nat} {mchildren entities : List Ptr}
    (hb : World.Block w0 st.w n)
    (hm : st.w.HierarchyOf (st.w.Nodes.drop w0.Nodes.length) NodeKind.ModelHierarchy
      st.modelHierarchyRootNode mchildren entities)
    (ha : a ∈ st.w.Nodes.drop w0.Nodes.length) :
    ∃ ks c, World.Adds st.w (addToModelHierarchy C env s a st).w ks ∧
      ks.count NodeKind.Model = 0 ∧ ks.count NodeKind.AnnotationFiducial = 0 ∧
      NodeKind.ContourHierarchy ∉ ks ∧ NodeKind.ScalarVolume ∉ ks ∧
      NodeKind.ScalarVolumeDisplay ∉ ks ∧
      (addToModelHierarchy C env s a st).w.HierarchyOf
        ((addToModelHierarchy C env s a st).w.Nodes.drop w0.Nodes.length)
        NodeKind.ModelHierarchy (addToModelHierarchy C env s a st).modelHierarchyRootNode
        (mchildren ++ [c]) (entities ++ [a]) := by
  have hab := hb.mem_created_lt a ha
  have hida : (st.w.GetID a).isSome := by
    rw [hb.getID_created a hab.1 hab.2]; rfl
  cases hroot : st.modelHierarchyRootNode with
  | none =>
    obtain ⟨f1, f2, f3, f4, ⟨n0, h0, e0, i0, d0, p0⟩, ⟨n1, m1, e1, i1, d1⟩,
      ⟨n2, h2, e2, i2, d2, p2, q2⟩⟩ := addToModelHierarchy_first C env s a st hroot hab.2
    have hadds : World.Adds st.w (addToModelHierarchy C env s a st).w
        [NodeKind.ModelHierarchy, NodeKind.ModelDisplay, NodeKind.ModelHierarchy] := by
      refine World.Adds.of_nodes f2 (by rw [f3]; rfl) f4
        (fun q hq => addToModelHierarchy_node? C env s a st q hq) ?_
      intro j hj
      have hj3 : j < 3 := by simpa using hj
      interval_cases j
      · exact ⟨n0, e0, i0, by rw [d0]; rfl⟩
      · exact ⟨n1, e1, i1, by rw [d1]; rfl⟩
      · exact ⟨n2, e2, i2, by rw [d2]; rfl⟩
    have k0 := World.kind?_eq_some_of_node? e0
    have k1 := World.kind?_eq_some_of_node? e1
    have k2 := World.kind?_eq_some_of_node? e2
    rw [d0, NodeData.kind_ModelHierarchy] at k0
    rw [d1, NodeData.kind_ModelDisplay] at k1
    rw [d2, NodeData.kind_ModelHierarchy] at k2
    have g0 := World.GetID_of_node? e0
    rw [i0] at g0
    have ga : (addToModelHierarchy C env s a st).w.GetID a = st.w.GetID a :=
      hadds.block.getID a hab.2
    refine ⟨_, st.w.heap.length + 2, hadds, by decide, by decide, by decide, by decide,
      by decide, ?_⟩
    rw [hroot] at hm
    have hch : mchildren = [] := hm.lazy.1 rfl
    subst hch
    have hen : entities = [] := List.forall₂_nil_left_iff.1 hm.child
    subst hen
    rw [f1]
    simp only [List.nil_append]
    refine hm.grow_first hb hadds st.w.heap.length (st.w.heap.length + 2) a ?_ ?_ ?_ ?_
    · simp [List.range', List.filter_cons, k0, k1, k2]
    · rw [hb.drop_nodes hadds.block]
      exact List.mem_append_left _ ha
    · exact ⟨h0, World.hierarchy?_of_node? e0 (Or.inl d0), p0, by rw [g0]; rfl⟩
    · exact ⟨h2, World.hierarchy?_of_node? e2 (Or.inl d2), by rw [p2, g0], by rw [q2, ga],
        by rw [ga]; exact hida⟩
  | some r =>
    have hr : r < st.w.heap.length := by
      rw [hroot] at hm
      exact (hb.mem_created_lt r (hm.root_mem r rfl)).2
    obtain ⟨f1, f2, f3, f4, ⟨n0, h0, e0, i0, d0, p0, q0⟩⟩ :=
      addToModelHierarchy_next C env s a st r hroot hr hab.2
    have hadds : World.Adds st.w (addToModelHierarchy C env s a st).w
        [NodeKind.ModelHierarchy] := by
      refine World.Adds.of_nodes f2 (by rw [f3]; rfl) f4
        (fun q hq => addToModelHierarchy_node? C env s a st q hq) ?_
      intro j hj
      have hj1 : j = 0 := by simpa using hj
      subst hj1
      exact ⟨n0, e0, i0, by rw [d0]; rfl⟩
    have k0 := World.kind?_eq_some_of_node? e0
    rw [d0, NodeData.kind_ModelHierarchy] at k0
    have ga : (addToModelHierarchy C env s a st).w.GetID a = st.w.GetID a :=
      hadds.block.getID a hab.2
    have gr : (addToModelHierarchy C env s a st).w.GetID r = st.w.GetID r :=
      hadds.block.getID r hr
    refine ⟨_, st.w.heap.length, hadds, by decide, by decide, by decide, by decide,
      by decide, ?_⟩
    rw [hroot] at hm
    rw [f1]
    refine hm.grow_next hb hadds st.w.heap.length a ?_ ?_ ?_
    · simp [List.range', List.filter_cons, k0]
    · rw [hb.drop_nodes hadds.block]
      exact List.mem_append_left _ ha
    · exact ⟨h0, World.hierarchy?_of_node? e0 (Or.inl d0), by rw [p0, gr], by rw [q0, ga],
        by rw [ga]; exact hida⟩

/-- The block that creates the contour node of a new surface, as a step: the classes of the
nodes it adds, and the contour hierarchy after it. -/
theorem addContourNode_step (C : SlicerRtCommon) (env : ImportEnv) (s l nm : String)
    (a : Ptr) (st : RoiLoopState) {w0 : World} {n : Nat} {cchildren contours : List Ptr}
    (hb : World.Block w0 st.w n)
    (hc : st.w.HierarchyOf (st.w.Nodes.drop w0.Nodes.length) NodeKind.ContourHierarchy
      st.contourHierarchyRootNode cchildren contours) :
    ∃ ks c m, World.Adds st.w (addContourNode C env s l nm a st).w ks ∧
      ks.count NodeKind.Model = 0 ∧ ks.count NodeKind.AnnotationFiducial = 0 ∧
      NodeKind.ModelHierarchy ∉ ks ∧ NodeKind.ScalarVolume ∉ ks ∧
      NodeKind.ScalarVolumeDisplay ∉ ks ∧
      (addContourNode C env s l nm a st).w.HierarchyOf
        ((addContourNode C env s l nm a st).w.Nodes.drop w0.Nodes.length)
        NodeKind.ContourHierarchy (addContourNode C env s l nm a st).contourHierarchyRootNode
        (cchildren ++ [c]) (contours ++ [m]) := by
  cases hroot : st.contourHierarchyRootNode with
  | none =>
    obtain ⟨f1, f2, f3, f4, ⟨n0, h0, e0, i0, d0, p0⟩, ⟨n1, m1, e1, i1, d1⟩,
      ⟨n2, h2, e2, i2, d2, p2, q2⟩⟩ := addContourNode_first C env s l nm a st hroot
    have hadds : World.Adds st.w (addContourNode C env s l nm a st).w
        [NodeKind.ContourHierarchy, NodeKind.Contour, NodeKind.ContourHierarchy] := by
      refine World.Adds.of_nodes f2 (by rw [f3]; rfl) f4
        (fun q hq => addContourNode_node? C env s l nm a st q hq) ?_
      intro j hj
      have hj3 : j < 3 := by simpa using hj
      interval_cases j
      · exact ⟨n0, e0, i0, by rw [d0]; rfl⟩
      · exact ⟨n1, e1, i1, by rw [d1]; rfl⟩
      · exact ⟨n2, e2, i2, by rw [d2]; rfl⟩
    have k0 := World.kind?_eq_some_of_node? e0
    have k1 := World.kind?_eq_some_of_node? e1
    have k2 := World.kind?_eq_some_of_node? e2
    rw [d0, NodeData.kind_ContourHierarchy] at k0
    rw [d1, NodeData.kind_Contour] at k1
    rw [d2, NodeData.kind_ContourHierarchy] at k2
    have g0 := World.GetID_of_node? e0
    rw [i0] at g0
    have g1 := World.GetID_of_node? e1
    rw [i1] at g1
    refine ⟨_, st.w.heap.length + 2, st.w.heap.length + 1, hadds, by decide, by decide,
      by decide, by decide, by decide, ?_⟩
    rw [hroot] at hc
    have hch : cchildren = [] := hc.lazy.1 rfl
    subst hch
    have hen : contours = [] := List.forall₂_nil_left_iff.1 hc.child
    subst hen
    rw [f1]
    simp only [List.nil_append]
    refine hc.grow_first hb hadds st.w.heap.length (st.w.heap.length + 2)
      (st.w.heap.length + 1) ?_ ?_ ?_ ?_
    · simp [List.range', List.filter_cons, k0, k1, k2]
    · rw [hb.drop_nodes hadds.block]
      exact List.mem_append_right _ (by simp [List.range'])
    · exact ⟨h0, World.hierarchy?_of_node? e0 (Or.inr (Or.inl d0)), p0, by rw [g0]; rfl⟩
    · exact ⟨h2, World.hierarchy?_of_node? e2 (Or.inr (Or.inl d2)), by rw [p2, g0],
        by rw [q2, g1], by rw [g1]; rfl⟩
  | some r =>
    have hr : r < st.w.heap.length := by
      rw [hroot] at hc
      exact (hb.mem_created_lt r (hc.root_mem r rfl)).2
    obtain ⟨f1, f2, f3, f4, ⟨n0, c0, e0, i0, d0⟩, ⟨n1, h1, e1, i1, d1, p1, q1⟩⟩ :=
      addContourNode_next C env s l nm a st r hroot hr
    have hadds : World.Adds st.w (addContourNode C env s l nm a st).w
        [NodeKind.Contour, NodeKind.ContourHierarchy] := by
      refine World.Adds.of_nodes f2 (by rw [f3]; rfl) f4
        (fun q hq => addContourNode_node? C env s l nm a st q hq) ?_
      intro j hj
      have hj2 : j < 2 := by simpa using hj
      interval_cases j
      · exact ⟨n0, e0, i0, by rw [d0]; rfl⟩
      · exact ⟨n1, e1, i1, by rw [d1]; rfl⟩
    have k0 := World.kind?_eq_some_of_node? e0
    have k1 := World.kind?_eq_some_of_node? e1
    rw [d0, NodeData.kind_Contour] at k0
    rw [d1, NodeData.kind_ContourHierarchy] at k1
    have g0 := World.GetID_of_node? e0
    rw [i0] at g0
    have gr : (addContourNode C env s l nm a st).w.GetID r = st.w.GetID r :=
      hadds.block.getID r hr
    refine ⟨_, st.w.heap.length + 1, st.w.heap.length, hadds, by decide, by decide,
      by decide, by decide, by decide, ?_⟩
    rw [hroot] at hc
    rw [f1]
    refine hc.grow_next hb hadds (st.w.heap.length + 1) st.w.heap.length ?_ ?_ ?_
    · simp [List.range', List.filter_cons, k0, k1]
    · rw [hb.drop_nodes hadds.block]
      exact List.mem_append_right _ (by simp [List.range'])
    · exact ⟨h1, World.hierarchy?_of_node? e1 (Or.inr (Or.inl d1)), by rw [p1, gr],
        by rw [q1, g0], by rw [g0]; rfl⟩

theorem filter_range_succ_length (p : Nat → Bool) (k : Nat) :
    ((List.range (k + 1)).filter p).length =
      ((List.range k).filter p).length + (if p k = true then 1 else 0) := by
  rw [List.range_succ, List.filter_append, List.length_append]
  cases h : p k <;> simp [List.filter_cons, h]

/-! ## The region loop -/

theorem roiLoopBody_skip (C : SlicerRtCommon) (env : ImportEnv)
    (rtReader : vtkSlicerDicomRtReader) (seriesName : String) (ct : Ptr) (st : RoiLoopState)
    (i : Nat) (h : rtReader.roiHasPoints 1 i = false) :
    ∃ e, roiLoopBody C env rtReader seriesName ct st i =
      { st with w := (st.w.modifyData ct (NodeData.mapColorTable fun t =>
          t.AddColor (rtReader.GetRoiName i) (rtReader.GetRoiDisplayColor i).1
            (rtReader.GetRoiDisplayColor i).2.1 (rtReader.GetRoiDisplayColor i).2.2)).emit e } := by
  unfold vtkSlicerDicomRtReader.roiHasPoints at h
  unfold roiLoopBody
  cases hpoly : rtReader.GetRoiPolyData i with
  | none => exact ⟨_, rfl⟩
  | some roiPoly =>
    rw [hpoly] at h
    have h0 : roiPoly.GetNumberOfPoints < 1 := by simpa using h
    simp only [h0, if_true]
    exact ⟨_, rfl⟩

theorem roiLoopBody_point (C : SlicerRtCommon) (env : ImportEnv)
    (rtReader : vtkSlicerDicomRtReader) (seriesName : String) (ct : Ptr) (st : RoiLoopState)
    (i : Nat) (h1 : rtReader.roiHasPoints 1 i = true) (h2 : rtReader.roiHasPoints 2 i = false) :
    ∃ pos name,
      roiLoopBody C env rtReader seriesName ct st i =
        addToModelHierarchy C env seriesName
          (st.w.modifyData ct (NodeData.mapColorTable fun t =>
            t.AddColor (rtReader.GetRoiName i) (rtReader.GetRoiDisplayColor i).1
              (rtReader.GetRoiDisplayColor i).2.1
              (rtReader.GetRoiDisplayColor i).2.2)).heap.length
          { st with w := (AddRoiPoint
              (st.w.modifyData ct (NodeData.mapColorTable fun t =>
                t.AddColor (rtReader.GetRoiName i) (rtReader.GetRoiDisplayColor i).1
                  (rtReader.GetRoiDisplayColor i).2.1 (rtReader.GetRoiDisplayColor i).2.2))
              pos name (rtReader.GetRoiDisplayColor i)).1 } := by
  unfold vtkSlicerDicomRtReader.roiHasPoints at h1 h2
  unfold roiLoopBody
  cases hpoly : rtReader.GetRoiPolyData i with
  | none => rw [hpoly] at h1; simp at h1
  | some roiPoly =>
    rw [hpoly] at h1 h2
    have g1 : ¬ roiPoly.GetNumberOfPoints < 1 := by
      have : 1 ≤ roiPoly.GetNumberOfPoints := by simpa using h1
      omega
    have g2 : roiPoly.GetNumberOfPoints = 1 := by
      have : roiPoly.GetNumberOfPoints < 2 := by simpa using h2
      omega
    simp only [g1, g2, if_true, if_false]
    exact ⟨_, _, rfl⟩

theorem roiLoopBody_contour (C : SlicerRtCommon) (env : ImportEnv)
    (rtReader : vtkSlicerDicomRtReader) (seriesName : String) (ct : Ptr) (st : RoiLoopState)
    (i : Nat) (h2 : rtReader.roiHasPoints 2 i = true) :
    ∃ roiPoly name label,
      roiLoopBody C env rtReader seriesName ct st i =
        addToModelHierarchy C env seriesName
          (AddRoiContour C env
            (st.w.modifyData ct (NodeData.mapColorTable fun t =>
              t.AddColor (rtReader.GetRoiName i) (rtReader.GetRoiDisplayColor i).1
                (rtReader.GetRoiDisplayColor i).2.1 (rtReader.GetRoiDisplayColor i).2.2))
            roiPoly name (rtReader.GetRoiDisplayColor i)).2
          (addContourNode C env seriesName label name
            (AddRoiContour C env
              (st.w.modifyData ct (NodeData.mapColorTable fun t =>
                t.AddColor (rtReader.GetRoiName i) (rtReader.GetRoiDisplayColor i).1
                  (rtReader.GetRoiDisplayColor i).2.1 (rtReader.GetRoiDisplayColor i).2.2))
              roiPoly name (rtReader.GetRoiDisplayColor i)).2
            { st with
              w := (AddRoiContour C env
                (st.w.modifyData ct (NodeData.mapColorTable fun t =>
                  t.AddColor (rtReader.GetRoiName i) (rtReader.GetRoiDisplayColor i).1
                    (rtReader.GetRoiDisplayColor i).2.1 (rtReader.GetRoiDisplayColor i).2.2))
                roiPoly name (rtReader.GetRoiDisplayColor i)).1
              roiCollection := st.roiCollection ++ [roiPoly] }) := by
  unfold vtkSlicerDicomRtReader.roiHasPoints at h2
  unfold roiLoopBody
  cases hpoly : rtReader.GetRoiPolyData i with
  | none => rw [hpoly] at h2; simp at h2
  | some roiPoly =>
    rw [hpoly] at h2
    have g2 : 2 ≤ roiPoly.GetNumberOfPoints := by simpa using h2
    have g1 : ¬ roiPoly.GetNumberOfPoints < 1 := by omega
    have g3 : ¬ roiPoly.GetNumberOfPoints = 1 := by omega
    simp only [g1, g3, if_false]
    exact ⟨_, _, _, rfl⟩

theorem vtkSlicerDicomRtReader.roiHasPoints_mono (r : vtkSlicerDicomRtReader) (i : Nat)
    (h : r.roiHasPoints 2 i = true) : r.roiHasPoints 1 i = true := by
  unfold vtkSlicerDicomRtReader.roiHasPoints at h ⊢
  cases hp : r.GetRoiPolyData i with
  | none => rw [hp] at h; simp at h
  | some p =>
    rw [hp] at h
    have : 2 ≤ p.GetNumberOfPoints := by simpa using h
    simp
    omega

theorem RoiLoopInv.roi_step {rtReader : vtkSlicerDicomRtReader} {w0 : World} {k : Nat}
    {st : RoiLoopState} {ks : List NodeKind} {mch ent cch con : List Ptr}
    (C : SlicerRtCommon) (env : ImportEnv) (seriesName : String) (ct : Ptr)
    (h : RoiLoopInv rtReader w0 k st ks mch ent cch con) :
    ∃ ks2 mch2 ent2 cch2 con2, RoiLoopInv rtReader w0 (k + 1)
      (roiLoopBody C env rtReader seriesName ct st k) ks2 mch2 ent2 cch2 con2 := by
  have hA := World.Adds.modifyData_mapColorTable st.w ct (fun t =>
    t.AddColor (rtReader.GetRoiName k) (rtReader.GetRoiDisplayColor k).1
      (rtReader.GetRoiDisplayColor k).2.1 (rtReader.GetRoiDisplayColor k).2.2)
  by_cases c1 : rtReader.roiHasPoints 1 k = true
  · by_cases c2 : rtReader.roiHasPoints 2 k = true
    · -- a region with two or more points
      obtain ⟨roiPoly, name, label, heq⟩ :=
        roiLoopBody_contour C env rtReader seriesName ct st k c2
      rw [heq]
      generalize st.w.modifyData ct (NodeData.mapColorTable fun t =>
        t.AddColor (rtReader.GetRoiName k) (rtReader.GetRoiDisplayColor k).1
          (rtReader.GetRoiDisplayColor k).2.1 (rtReader.GetRoiDisplayColor k).2.2) = wa
        at hA ⊢
      have hB := AddRoiContour_adds C env wa roiPoly name (rtReader.GetRoiDisplayColor k)
      have hAB : World.Adds st.w
          (AddRoiContour C env wa roiPoly name (rtReader.GetRoiDisplayColor k)).1
          [NodeKind.ModelDisplay, NodeKind.Model] := by
        have := hA.adds_trans hB
        rwa [List.nil_append] at this
      rw [AddRoiContour_snd]
      have hheap : wa.heap.length = st.w.heap.length := by
        have := hA.block.heap
        simpa using this
      have hcB := h.contourHierarchy.adds_other h.adds.block hAB (by decide)
      obtain ⟨ksc, c, m, hC, c1', c2', c3', c4', c5', hc2⟩ :=
        addContourNode_step C env seriesName label name (wa.heap.length + 1)
          { st with
            w := (AddRoiContour C env wa roiPoly name (rtReader.GetRoiDisplayColor k)).1
            roiCollection := st.roiCollection ++ [roiPoly] }
          (h.adds.adds_trans hAB).block hcB
      have hmC := h.modelHierarchy.adds_other h.adds.block (hAB.adds_trans hC)
        (by simp [c3'])
      have haC : wa.heap.length + 1 ∈
          (addContourNode C env seriesName label name (wa.heap.length + 1)
            { st with
              w := (AddRoiContour C env wa roiPoly name (rtReader.GetRoiDisplayColor k)).1
              roiCollection := st.roiCollection ++ [roiPoly] }).w.Nodes.drop
            w0.Nodes.length := by
        rw [h.adds.block.drop_nodes (hAB.adds_trans hC).block]
        refine List.mem_append_right _ (List.mem_range'_1.2 ⟨by omega, ?_⟩)
        simp
        omega
      obtain ⟨ksm, c', hM, m1, m2, m3, m4, m5, hm2⟩ :=
        addToModelHierarchy_step C env seriesName (wa.heap.length + 1)
          (addContourNode C env seriesName label name (wa.heap.length + 1)
            { st with
              w := (AddRoiContour C env wa roiPoly name (rtReader.GetRoiDisplayColor k)).1
              roiCollection := st.roiCollection ++ [roiPoly] })
          (h.adds.adds_trans (hAB.adds_trans hC)).block hmC haC
      have hcM := hc2.adds_other (h.adds.adds_trans (hAB.adds_trans hC)).block hM m3
      refine ⟨_, _, _, _, _, h.adds.adds_trans ((hAB.adds_trans hC).adds_trans hM), hm2, hcM, ?_, ?_, ?_, ?_,
        ?_⟩
      · simp [List.count_append, c1', c2', m1, m2, h.entities_length]
        omega
      · simp [List.count_append, c1', m1, h.contours_length]
      · rw [filter_range_succ_length, ← h.surfaces]
        simp [List.count_append, c1', m1, c2]
      · rw [filter_range_succ_length, ← h.entitiesCreated]
        simp [List.count_append, c1', c2', m1, m2, c1]
        omega
      · simp [h.classes.1, h.classes.2, c4', c5', m4, m5]
    · -- a region with exactly one point
      obtain ⟨pos, name, heq⟩ :=
        roiLoopBody_point C env rtReader seriesName ct st k c1 (by simpa using c2)
      rw [heq]
      generalize st.w.modifyData ct (NodeData.mapColorTable fun t =>
        t.AddColor (rtReader.GetRoiName k) (rtReader.GetRoiDisplayColor k).1
          (rtReader.GetRoiDisplayColor k).2.1 (rtReader.GetRoiDisplayColor k).2.2) = wa
        at hA ⊢
      have hB := AddRoiPoint_adds wa pos name (rtReader.GetRoiDisplayColor k)
      have hAB : World.Adds st.w (AddRoiPoint wa pos name (rtReader.GetRoiDisplayColor k)).1
          [NodeKind.AnnotationFiducial] := by
        have := hA.adds_trans hB
        rwa [List.nil_append] at this
      have hheap : wa.heap.length = st.w.heap.length := by
        have := hA.block.heap
        simpa using this
      have hmB := h.modelHierarchy.adds_other h.adds.block hAB (by decide)
      have haB : wa.heap.length ∈
          (AddRoiPoint wa pos name (rtReader.GetRoiDisplayColor k)).1.Nodes.drop
            w0.Nodes.length := by
        rw [h.adds.block.drop_nodes hAB.block]
        refine List.mem_append_right _ (List.mem_range'_1.2 ⟨by omega, ?_⟩)
        simp
        omega
      obtain ⟨ksm, c', hM, m1, m2, m3, m4, m5, hm2⟩ :=
        addToModelHierarchy_step C env seriesName wa.heap.length
          { st with w := (AddRoiPoint wa pos name (rtReader.GetRoiDisplayColor k)).1 }
          (h.adds.adds_trans hAB).block hmB haB
      have hcM := h.contourHierarchy.adds_other h.adds.block (hAB.adds_trans hM) (by simp [m3])
      refine ⟨_, _, _, _, _, h.adds.adds_trans (hAB.adds_trans hM), hm2, hcM, ?_, ?_, ?_, ?_, ?_⟩
      · simp [List.count_append, m1, m2, h.entities_length]
        omega
      · simp [List.count_append, m1, h.contours_length]
      · rw [filter_range_succ_length, ← h.surfaces]
        simp [List.count_append, m1, c2]
      · rw [filter_range_succ_length, ← h.entitiesCreated]
        simp [List.count_append, m1, m2, c1]
        omega
      · simp [h.classes.1, h.classes.2, m4, m5]
  · -- a region without points
    have c2 : ¬ rtReader.roiHasPoints 2 k = true :=
      fun hc => c1 (rtReader.roiHasPoints_mono k hc)
    obtain ⟨e, heq⟩ := roiLoopBody_skip C env rtReader seriesName ct st k (by simpa using c1)
    rw [heq]
    have hstep : World.Adds st.w ((st.w.modifyData ct (NodeData.mapColorTable fun t =>
        t.AddColor (rtReader.GetRoiName k) (rtReader.GetRoiDisplayColor k).1
          (rtReader.GetRoiDisplayColor k).2.1 (rtReader.GetRoiDisplayColor k).2.2)).emit e)
        [] := by
      have := hA.adds_trans (World.Adds.adds_emit _ e)
      rwa [List.nil_append] at this
    have hall := h.adds.adds_trans hstep
    rw [List.append_nil] at hall
    refine ⟨ks, mch, ent, cch, con, hall,
      h.modelHierarchy.adds_other h.adds.block hstep (by simp),
      h.contourHierarchy.adds_other h.adds.block hstep (by simp),
      h.entities_length, h.contours_length, ?_, ?_, h.classes⟩
    · rw [filter_range_succ_length, ← h.surfaces]
      simp [c2]
    · rw [filter_range_succ_length, ← h.entitiesCreated]
      simp [c1]

theorem structureSetColorTable_adds (C : SlicerRtCommon) (env : ImportEnv)
    (rtReader : vtkSlicerDicomRtReader) (seriesName : String) (w : World) :
    World.Adds w (structureSetColorTable C env rtReader seriesName w).1 [NodeKind.ColorTable] := by
  refine World.Adds.of_nodes ?_ ?_ ?_ ?_ ?_
  · simp [structureSetColorTable, World.New]
  · simp [structureSetColorTable, World.New]
  · simp [structureSetColorTable, World.New]
  · intro q hq
    have h0 : q ≠ w.heap.length := Nat.ne_of_lt hq
    simp [structureSetColorTable, World.New, World.node?_alloc, World.node?_modify,
      World.node?_modifyData, World.node?_AddNode, h0]
  · intro j hj
    have hj0 : j = 0 := by simpa using hj
    subst hj0
    simp [structureSetColorTable, World.New, World.node?_alloc, World.node?_modify,
      World.node?_modifyData, World.node?_AddNode]

theorem RoiLoopInv.roi_init (rtReader : vtkSlicerDicomRtReader) (w0 w1 : World)
    (h : World.Adds w0 w1 [NodeKind.ColorTable]) :
    RoiLoopInv rtReader w0 0 { w := w1 } [NodeKind.ColorTable] [] [] [] [] := by
  have hempty : ∀ kind, w0.HierarchyOf (w0.Nodes.drop w0.Nodes.length) kind none [] [] := by
    intro kind
    rw [List.drop_length]
    exact World.HierarchyOf.empty w0 kind
  exact ⟨h, (hempty _).adds_other (World.Block.block_refl w0) h (by decide),
    (hempty _).adds_other (World.Block.block_refl w0) h (by decide), by decide, by decide, by simp,
    by simp, by decide⟩

theorem roiLoop_inv (C : SlicerRtCommon) (env : ImportEnv) (rtReader : vtkSlicerDicomRtReader)
    (seriesName : String) (ct : Ptr) (w0 w1 : World)
    (h : World.Adds w0 w1 [NodeKind.ColorTable]) (k : Nat) :
    ∃ ks mch ent cch con, RoiLoopInv rtReader w0 k
      (forLoop k (roiLoopBody C env rtReader seriesName ct) { w := w1 }) ks mch ent cch con := by
  induction k with
  | zero => exact ⟨_, _, _, _, _, RoiLoopInv.roi_init rtReader w0 w1 h⟩
  | succ k ih =>
    obtain ⟨ks, mch, ent, cch, con, hk⟩ := ih
    rw [forLoop_succ]
    exact hk.roi_step C env seriesName ct

/-- The structure-set part as a whole: the state of the region loop after all regions holds
for the final state, after the opacities have been set and the batch state has ended. -/
theorem LoadRTStructureSet_inv (C : SlicerRtCommon) (env : ImportEnv) (auto : Bool)
    (rtReader : vtkSlicerDicomRtReader) (seriesName : String) (w : World) :
    ∃ ks mch ent cch con, RoiLoopInv rtReader w rtReader.GetNumberOfRois
      (LoadRTStructureSet C env auto rtReader seriesName w).final ks mch ent cch con := by
  have h0 : World.Adds w (structureSetColorTable C env rtReader seriesName
      (w.emit Event.StartState)).1 [NodeKind.ColorTable] := by
    have := (World.Adds.adds_emit w Event.StartState).adds_trans
      (structureSetColorTable_adds C env rtReader seriesName (w.emit Event.StartState))
    rwa [List.nil_append] at this
  obtain ⟨ks, mch, ent, cch, con, h⟩ := roiLoop_inv C env rtReader seriesName
    (structureSetColorTable C env rtReader seriesName (w.emit Event.StartState)).2 w _ h0
    rtReader.GetNumberOfRois
  have key : ∀ st : RoiLoopState, World.Adds st.w
      ((setContourOpacities env auto st.roiCollection st.displayNodeCollection st.w).emit
        Event.EndState) [] := by
    intro st
    have := (setContourOpacities_adds env auto st.roiCollection st.displayNodeCollection
      st.w).adds_trans (World.Adds.adds_emit _ Event.EndState)
    rwa [List.nil_append] at this
  have hstep : World.Adds
      (forLoop rtReader.GetNumberOfRois
        (roiLoopBody C env rtReader seriesName
          (structureSetColorTable C env rtReader seriesName (w.emit Event.StartState)).2)
        { w := (structureSetColorTable C env rtReader seriesName
            (w.emit Event.StartState)).1 }).w
      (LoadRTStructureSet C env auto rtReader seriesName w).final.w [] := by
    exact key _
  have hall := h.adds.adds_trans hstep
  rw [List.append_nil] at hall
  exact ⟨ks, mch, ent, cch, con, hall,
    h.modelHierarchy.adds_other h.adds.block hstep (by simp),
    h.contourHierarchy.adds_other h.adds.block hstep (by simp),
    h.entities_length, h.contours_length, h.surfaces, h.entitiesCreated, h.classes⟩

theorem forall₂_exists_of_mem {α β : Type} {R : α → β → Prop} {l₁ : List α} {l₂ : List β}
    (h : List.Forall₂ R l₁ l₂) : ∀ a ∈ l₁, ∃ b ∈ l₂, R a b := by
  induction h with
  | nil => intro a ha; simp at ha
  | cons hab _ ih =>
    intro a ha
    rcases List.mem_cons.1 ha with ha | ha
    · subst ha
      exact ⟨_, List.mem_cons_self _ _, hab⟩
    · obtain ⟨b, hb, hr⟩ := ih a ha
      exact ⟨b, List.mem_cons_of_mem _ hb, hr⟩

/-- In a scene whose earlier identifiers are below the counter, the parent reference of
every child of a hierarchy resolves to the root. -/
theorem World.HierarchyOf.parent_resolves {w0 w : World} {n : Nat} {kind : NodeKind}
    {root : Ptr} {children members : List Ptr} (hb : World.Block w0 w n) (hid : w0.IDsBelow)
    (h : w.HierarchyOf (w.Nodes.drop w0.Nodes.length) kind (some root) children members) :
    ∀ c ∈ children, ∃ hn, w.hierarchy? c = some hn ∧
      w.GetNodeByID hn.ParentNodeID = some root := by
  intro c hc
  obtain ⟨m, _, hn, h1, h2, _⟩ := forall₂_exists_of_mem h.child c hc
  have hr := hb.mem_created_lt root (h.root_mem root rfl)
  refine ⟨hn, h1, ?_⟩
  rw [h2]
  exact hb.lookup hid root hr.1 hr.2

/-- C20. In one structure-set import the two hierarchy roots are created lazily and once.
The model hierarchy nodes added to the scene are the structure root, if there is one,
followed by one child per entity (surface model or point marker) added; the contour
hierarchy nodes added are the contour root, if there is one, followed by one child per
surface model added. There is no structure root exactly when no entity was added, and no
contour root exactly when no surface model was added. A surface model is added for each
region with two or more points, and an entity for each region with at least one point. Each
root has no parent, and the parent reference of every child resolves to the root of its
hierarchy. -/
theorem structure_set_hierarchy_roots_lazy (C : SlicerRtCommon) (env : ImportEnv)
    (AutoContourOpacity : Bool) (rtReader : vtkSlicerDicomRtReader) (seriesName : String)
    (w : World) (hb : w.IDsBelow) :
    ∃ mchildren cchildren : List Ptr,
      World.createdOfKind w
          (LoadRTStructureSet C env AutoContourOpacity rtReader seriesName w).final.w
          NodeKind.ModelHierarchy =
        (LoadRTStructureSet C env AutoContourOpacity rtReader seriesName
          w).final.modelHierarchyRootNode.toList ++ mchildren ∧
      mchildren.length =
        (World.createdOfKind w
          (LoadRTStructureSet C env AutoContourOpacity rtReader seriesName w).final.w
          NodeKind.Model).length +
        (World.createdOfKind w
          (LoadRTStructureSet C env AutoContourOpacity rtReader seriesName w).final.w
          NodeKind.AnnotationFiducial).length ∧
      ((LoadRTStructureSet C env AutoContourOpacity rtReader seriesName
          w).final.modelHierarchyRootNode = none ↔ mchildren = []) ∧
      World.createdOfKind w
          (LoadRTStructureSet C env AutoContourOpacity rtReader seriesName w).final.w
          NodeKind.ContourHierarchy =
        (LoadRTStructureSet C env AutoContourOpacity rtReader seriesName
          w).final.contourHierarchyRootNode.toList ++ cchildren ∧
      cchildren.length =
        (World.createdOfKind w
          (LoadRTStructureSet C env AutoContourOpacity rtReader seriesName w).final.w
          NodeKind.Model).length ∧
      ((LoadRTStructureSet C env AutoContourOpacity rtReader seriesName
          w).final.contourHierarchyRootNode = none ↔ cchildren = []) ∧
      (World.createdOfKind w
          (LoadRTStructureSet C env AutoContourOpacity rtReader seriesName w).final.w
          NodeKind.Model).length =
        ((List.range rtReader.GetNumberOfRois).filter (rtReader.roiHasPoints 2)).length ∧
      (World.createdOfKind w
          (LoadRTStructureSet C env AutoContourOpacity rtReader seriesName w).final.w
          NodeKind.Model).length +
        (World.createdOfKind w
          (LoadRTStructureSet C env AutoContourOpacity rtReader seriesName w).final.w
          NodeKind.AnnotationFiducial).length =
        ((List.range rtReader.GetNumberOfRois).filter (rtReader.roiHasPoints 1)).length ∧
      (∀ root,
        (LoadRTStructureSet C env AutoContourOpacity rtReader seriesName
          w).final.modelHierarchyRootNode = some root →
        (∃ h, (LoadRTStructureSet C env AutoContourOpacity rtReader seriesName
            w).final.w.hierarchy? root = some h ∧ h.ParentNodeID = none) ∧
        ∀ c ∈ mchildren, ∃ h,
          (LoadRTStructureSet C env AutoContourOpacity rtReader seriesName
            w).final.w.hierarchy? c = some h ∧
          (LoadRTStructureSet C env AutoContourOpacity rtReader seriesName
            w).final.w.GetNodeByID h.ParentNodeID = some root) ∧
      (∀ root,
        (LoadRTStructureSet C env AutoContourOpacity rtReader seriesName
          w).final.contourHierarchyRootNode = some root →
        (∃ h, (LoadRTStructureSet C env AutoContourOpacity rtReader seriesName
            w).final.w.hierarchy? root = some h ∧ h.ParentNodeID = none) ∧
        ∀ c ∈ cchildren, ∃ h,
          (LoadRTStructureSet C env AutoContourOpacity rtReader seriesName
            w).final.w.hierarchy? c = some h ∧
          (LoadRTStructureSet C env AutoContourOpacity rtReader seriesName
            w).final.w.GetNodeByID h.ParentNodeID = some root) := by
  obtain ⟨ks, mch, ent, cch, con, h⟩ :=
    LoadRTStructureSet_inv C env AutoContourOpacity rtReader seriesName w
  have hM := h.adds.createdOfKind_length NodeKind.Model
  have hF := h.adds.createdOfKind_length NodeKind.AnnotationFiducial
  refine ⟨mch, cch, h.modelHierarchy.nodes, ?_, h.modelHierarchy.lazy, h.contourHierarchy.nodes,
    ?_, h.contourHierarchy.lazy, ?_, ?_, ?_, ?_⟩
  · rw [h.modelHierarchy.length_eq, h.entities_length, hM, hF]
  · rw [h.contourHierarchy.length_eq, h.contours_length, hM]
  · rw [hM, h.surfaces]
  · rw [hM, hF, h.entitiesCreated]
  · intro root hroot
    obtain ⟨hn, h1, h2, _⟩ := h.modelHierarchy.top root hroot
    have hm := h.modelHierarchy
    rw [hroot] at hm
    exact ⟨⟨hn, h1, h2⟩, hm.parent_resolves h.adds.block hb⟩
  · intro root hroot
    obtain ⟨hn, h1, h2, _⟩ := h.contourHierarchy.top root hroot
    have hm := h.contourHierarchy
    rw [hroot] at hm
    exact ⟨⟨hn, h1, h2⟩, hm.parent_resolves h.adds.block hb⟩

theorem sampleThreeSurfaces_counts :
    ((List.range (sampleReader sampleThreeSurfaces).GetNumberOfRois).filter
      ((sampleReader sampleThreeSurfaces).roiHasPoints 2)).length = 3 ∧
    ((List.range (sampleReader sampleThreeSurfaces).GetNumberOfRois).filter
      ((sampleReader sampleThreeSurfaces).roiHasPoints 1)).length = 3 := by
  constructor <;> decide

theorem sampleEmptyRegions_counts :
    ((List.range (sampleReader sampleEmptyRegions).GetNumberOfRois).filter
      ((sampleReader sampleEmptyRegions).roiHasPoints 2)).length = 0 ∧
    ((List.range (sampleReader sampleEmptyRegions).GetNumberOfRois).filter
      ((sampleReader sampleEmptyRegions).roiHasPoints 1)).length = 0 := by
  constructor <;> decide

/-- C20 at two sample inputs: three regions with three points each give three surface
models, the structure root with three children and the contour root with three children; two
regions without mesh data give no hierarchy node and no root. -/
theorem structure_set_hierarchy_roots_lazy_witness :
    (∃ mroot croot m1 m2 m3 c1 c2 c3,
      (World.createdOfKind emptyWorld
        (LoadRTStructureSet sampleCommon (sampleEnv sampleThreeSurfaces [0, 0, 0]) true
          (sampleReader sampleThreeSurfaces) "RS" emptyWorld).final.w
        NodeKind.Model).length = 3 ∧
      (LoadRTStructureSet sampleCommon (sampleEnv sampleThreeSurfaces [0, 0, 0]) true
        (sampleReader sampleThreeSurfaces) "RS" emptyWorld).final.modelHierarchyRootNode =
        some mroot ∧
      World.createdOfKind emptyWorld
        (LoadRTStructureSet sampleCommon (sampleEnv sampleThreeSurfaces [0, 0, 0]) true
          (sampleReader sampleThreeSurfaces) "RS" emptyWorld).final.w
        NodeKind.ModelHierarchy = [mroot, m1, m2, m3] ∧
      (LoadRTStructureSet sampleCommon (sampleEnv sampleThreeSurfaces [0, 0, 0]) true
        (sampleReader sampleThreeSurfaces) "RS" emptyWorld).final.contourHierarchyRootNode =
        some croot ∧
      World.createdOfKind emptyWorld
        (LoadRTStructureSet sampleCommon (sampleEnv sampleThreeSurfaces [0, 0, 0]) true
          (sampleReader sampleThreeSurfaces) "RS" emptyWorld).final.w
        NodeKind.ContourHierarchy = [croot, c1, c2, c3]) ∧
    (LoadRTStructureSet sampleCommon (sampleEnv sampleEmptyRegions []) true
      (sampleReader sampleEmptyRegions) "RS" emptyWorld).final.modelHierarchyRootNode = none ∧
    (LoadRTStructureSet sampleCommon (sampleEnv sampleEmptyRegions []) true
      (sampleReader sampleEmptyRegions) "RS" emptyWorld).final.contourHierarchyRootNode = none ∧
    World.createdOfKind emptyWorld
      (LoadRTStructureSet sampleCommon (sampleEnv sampleEmptyRegions []) true
        (sampleReader sampleEmptyRegions) "RS" emptyWorld).final.w
      NodeKind.ModelHierarchy = [] ∧
    World.createdOfKind emptyWorld
      (LoadRTStructureSet sampleCommon (sampleEnv sampleEmptyRegions []) true
        (sampleReader sampleEmptyRegions) "RS" emptyWorld).final.w
      NodeKind.ContourHierarchy = [] := by
  constructor
  · obtain ⟨mch, cch, a1, a2, a3, a4, a5, a6, a7, a8, _⟩ :=
      structure_set_hierarchy_roots_lazy sampleCommon (sampleEnv sampleThreeSurfaces [0, 0, 0])
        true (sampleReader sampleThreeSurfaces) "RS" emptyWorld emptyWorld_IDsBelow
    rw [sampleThreeSurfaces_counts.1] at a7
    rw [a7, sampleThreeSurfaces_counts.2] at a8
    rw [a7] at a2 a5
    have hm : mch.length = 3 := by omega
    obtain ⟨m1, m2, m3, rfl⟩ : ∃ m1 m2 m3, mch = [m1, m2, m3] := by
      match mch, hm with
      | [x, y, z], _ => exact ⟨x, y, z, rfl⟩
    obtain ⟨c1, c2, c3, rfl⟩ : ∃ c1 c2 c3, cch = [c1, c2, c3] := by
      match cch, a5 with
      | [x, y, z], _ => exact ⟨x, y, z, rfl⟩
    cases hmr : (LoadRTStructureSet sampleCommon (sampleEnv sampleThreeSurfaces [0, 0, 0]) true
        (sampleReader sampleThreeSurfaces) "RS" emptyWorld).final.modelHierarchyRootNode with
    | none => exact absurd (a3.1 hmr) (by simp)
    | some mroot =>
      cases hcr : (LoadRTStructureSet sampleCommon (sampleEnv sampleThreeSurfaces [0, 0, 0])
          true (sampleReader sampleThreeSurfaces) "RS"
          emptyWorld).final.contourHierarchyRootNode with
      | none => exact absurd (a6.1 hcr) (by simp)
      | some croot =>
        rw [hmr] at a1
        rw [hcr] at a4
        exact ⟨mroot, croot, m1, m2, m3, c1, c2, c3, a7, rfl, a1, rfl, a4⟩
  · obtain ⟨mch, cch, a1, a2, a3, a4, a5, a6, a7, a8, _⟩ :=
      structure_set_hierarchy_roots_lazy sampleCommon (sampleEnv sampleEmptyRegions [])
        true (sampleReader sampleEmptyRegions) "RS" emptyWorld emptyWorld_IDsBelow
    rw [sampleEmptyRegions_counts.1] at a7
    rw [a7, sampleEmptyRegions_counts.2] at a8
    rw [a7] at a2 a5
    have hm : mch = [] := List.eq_nil_of_length_eq_zero (by omega)
    have hc : cch = [] := List.eq_nil_of_length_eq_zero a5
    subst hm hc
    have hmr := a3.2 rfl
    have hcr := a6.2 rfl
    rw [hmr] at a1
    rw [hcr] at a4
    exact ⟨hmr, hcr, a1, a4⟩

/-- The result of `LoadDicomRT` for valid loadable information: false when the reader reports
a dose and the volume read fails; otherwise whether the reader reports any part. -/
theorem LoadDicomRT_fst (C : SlicerRtCommon) (env : ImportEnv) (AutoContourOpacity : Bool)
    (info : vtkDICOMImportInfo) (f : String) (fs : List String) (w : World)
    (hfiles : info.GetLoadableFiles 0 = some (f :: fs)) :
    (LoadDicomRT C env AutoContourOpacity (some info) w).1 =
      if (env.Reader f).LoadRTDoseSuccessful = true ∧ env.ReadData f (f :: fs) = none then false
      else ((env.Reader f).LoadRTStructureSetSuccessful || (env.Reader f).LoadRTDoseSuccessful ||
        (env.Reader f).LoadRTPlanSuccessful) := by
  cases hs : (env.Reader f).LoadRTStructureSetSuccessful <;>
  cases hd : (env.Reader f).LoadRTDoseSuccessful <;>
  cases hp : (env.Reader f).LoadRTPlanSuccessful <;>
  cases hr : env.ReadData f (f :: fs) <;>
  simp [LoadDicomRT, hfiles, hs, hd, hp, hr, LoadRTDose]

/-- The world `LoadDicomRT` leaves behind for valid loadable information: the reader is run,
then the three blocks in the order structure set, dose, plan. -/
theorem LoadDicomRT_snd (C : SlicerRtCommon) (env : ImportEnv) (AutoContourOpacity : Bool)
    (info : vtkDICOMImportInfo) (f : String) (fs : List String) (w : World)
    (hfiles : info.GetLoadableFiles 0 = some (f :: fs)) :
    (LoadDicomRT C env AutoContourOpacity (some info) w).2 =
      planBlock C env (env.Reader f) (info.GetLoadableName 0)
        (doseBlock C env (env.Reader f) f (f :: fs) (info.GetLoadableName 0)
          (structureSetBlock C env AutoContourOpacity (env.Reader f) (info.GetLoadableName 0)
            (w.emit (Event.ReaderUpdate f)))) := by
  cases hs : (env.Reader f).LoadRTStructureSetSuccessful <;>
  cases hd : (env.Reader f).LoadRTDoseSuccessful <;>
  cases hp : (env.Reader f).LoadRTPlanSuccessful <;>
  cases hr : env.ReadData f (f :: fs) <;>
  simp [LoadDicomRT, hfiles, hs, hd, hp, hr, LoadRTDose, planBlock, doseBlock,
    structureSetBlock]

theorem World.createdOfKind_self (w : World) (k : NodeKind) : World.createdOfKind w w k = [] := by
  simp [World.createdOfKind]

/-- The nodes of a class added over two stages are those of the first stage followed by those
of the second, when the second stage keeps the classes of the nodes of the first. -/
theorem World.createdOfKind_append {w0 w1 w2 : World} (mid extra : List Ptr)
    (h1 : w1.Nodes = w0.Nodes ++ mid) (h2 : w2.Nodes = w1.Nodes ++ extra)
    (hk : ∀ p ∈ mid, w2.kind? p = w1.kind? p) (k : NodeKind) :
    World.createdOfKind w0 w2 k = World.createdOfKind w0 w1 k ++ World.createdOfKind w1 w2 k := by
  unfold World.createdOfKind
  have e1 : w2.Nodes.drop w0.Nodes.length = mid ++ extra := by
    rw [h2, h1, List.append_assoc, List.drop_left]
  have e2 : w1.Nodes.drop w0.Nodes.length = mid := by rw [h1, List.drop_left]
  have e3 : w2.Nodes.drop w1.Nodes.length = extra := by rw [h2, List.drop_left]
  rw [e1, e2, e3, List.filter_append]
  congr 1
  refine List.filter_congr fun p hp => ?_
  rw [hk p hp]

/-- The structure-set block adds nodes none of which is a volume or a volume display node;
when the reader reports a structure set, one surface model per region with two or more points
and one entity per region with one or more points. -/
theorem structureSetBlock_adds (C : SlicerRtCommon) (env : ImportEnv) (auto : Bool)
    (rtReader : vtkSlicerDicomRtReader) (seriesName : String) (w : World) :
    ∃ ks, World.Adds w (structureSetBlock C env auto rtReader seriesName w) ks ∧
      NodeKind.ScalarVolume ∉ ks ∧ NodeKind.ScalarVolumeDisplay ∉ ks ∧
      (rtReader.LoadRTStructureSetSuccessful = true →
        ks.count NodeKind.Model =
          ((List.range rtReader.GetNumberOfRois).filter (rtReader.roiHasPoints 2)).length ∧
        ks.count NodeKind.Model + ks.count NodeKind.AnnotationFiducial =
          ((List.range rtReader.GetNumberOfRois).filter (rtReader.roiHasPoints 1)).length) := by
  unfold structureSetBlock
  cases hs : rtReader.LoadRTStructureSetSuccessful with
  | false => exact ⟨[], World.Adds.adds_refl w, by simp, by simp, by simp⟩
  | true =>
    obtain ⟨ks, mch, ent, cch, con, h⟩ := LoadRTStructureSet_inv C env auto rtReader seriesName w
    exact ⟨ks, h.adds, h.classes.1, h.classes.2, fun _ => ⟨h.surfaces, h.entitiesCreated⟩⟩

/-- The dose part when the volume read fails: the volume node object is created, nothing is
added to the scene, and the error is raised. -/
theorem LoadRTDose_read_failed (C : SlicerRtCommon) (env : ImportEnv)
    (rtReader : vtkSlicerDicomRtReader) (f : String) (files : List String) (seriesName : String)
    (w : World) (hread : env.ReadData f files = none) :
    (LoadRTDose C env rtReader f files seriesName w).w =
      (w.alloc { data := NodeData.ScalarVolume {} }).emit
        (Event.Error Message.FailedToLoadDoseVolume) := by
  simp [LoadRTDose, hread]

/-- The plan block adds a block of nodes, each a fiducial, an annotation hierarchy node or a
model display node, and leaves the objects that exist before it untouched. -/
theorem planBlock_spec (C : SlicerRtCommon) (env : ImportEnv) (rtReader : vtkSlicerDicomRtReader)
    (seriesName : String) (w : World) :
    ∃ n, World.Block w (planBlock C env rtReader seriesName w) n ∧
      (∀ q, q < w.heap.length → (planBlock C env rtReader seriesName w).node? q = w.node? q) ∧
      ∀ p ∈ (planBlock C env rtReader seriesName w).Nodes.drop w.Nodes.length,
        (planBlock C env rtReader seriesName w).kind? p = some NodeKind.AnnotationFiducial ∨
        (planBlock C env rtReader seriesName w).kind? p = some NodeKind.AnnotationHierarchy ∨
        (planBlock C env rtReader seriesName w).kind? p = some NodeKind.ModelDisplay := by
  unfold planBlock
  cases hp : rtReader.LoadRTPlanSuccessful with
  | false =>
    refine ⟨0, World.Block.block_refl w, fun _ _ => rfl, ?_⟩
    intro p hp
    simp at hp
  | true =>
    obtain ⟨markers, children, h⟩ :=
      beamLoop_inv C env rtReader seriesName (w.emit Event.StartState) rtReader.NumberOfBeams
    obtain ⟨n, hblock⟩ := h.block
    rw [LoadRTPlan_eq]
    refine ⟨n, ?_, ?_, ?_⟩
    · have := ((World.Block.block_emit w Event.StartState).block_trans hblock).block_trans
        (World.Block.block_emit _ Event.EndState)
      simpa using this
    · intro q hq
      exact h.frame q hq
    · intro p hp
      exact h.classes p hp

/-- The fiducials the plan part adds are the isocenter markers of the beams, one per beam in
the order of the beams. -/
theorem LoadRTPlan_markers (C : SlicerRtCommon) (env : ImportEnv)
    (rtReader : vtkSlicerDicomRtReader) (seriesName : String) (w : World) :
    List.Forall₂
      (fun m j => ∃ id, (LoadRTPlan C env rtReader seriesName w).w.node? m =
        some (isocenterMarkerNode C env rtReader (j + 1) id))
      (World.createdOfKind w (LoadRTPlan C env rtReader seriesName w).w
        NodeKind.AnnotationFiducial)
      (List.range rtReader.NumberOfBeams) := by
  obtain ⟨markers, children, h⟩ :=
    beamLoop_inv C env rtReader seriesName (w.emit Event.StartState) rtReader.NumberOfBeams
  rw [LoadRTPlan_eq]
  simp only [World.createdOfKind_emit_right, World.node?_emit]
  have := h.fiducials
  simp only [World.createdOfKind_emit_left] at this
  rw [this]
  exact h.markerNodes

theorem planBlock_log (C : SlicerRtCommon) (env : ImportEnv) (rtReader : vtkSlicerDicomRtReader)
    (seriesName : String) (w : World) :
    ∃ rest, (planBlock C env rtReader seriesName w).log = w.log ++ rest := by
  unfold planBlock
  cases rtReader.LoadRTPlanSuccessful with
  | false => exact ⟨[], by simp⟩
  | true => exact ⟨_, LoadRTPlan_log C env rtReader seriesName w⟩

/-- The world `LoadDicomRT` leaves behind when the reader reports a dose and the volume read
fails: the plan block runs on the world of the structure-set block, to which the dose part
added an object outside the scene and the error report. -/
theorem LoadDicomRT_snd_read_failed (C : SlicerRtCommon) (env : ImportEnv)
    (AutoContourOpacity : Bool) (info : vtkDICOMImportInfo) (f : String) (fs : List String)
    (w : World) (hfiles : info.GetLoadableFiles 0 = some (f :: fs))
    (hdose : (env.Reader f).LoadRTDoseSuccessful = true)
    (hread : env.ReadData f (f :: fs) = none) :
    (LoadDicomRT C env AutoContourOpacity (some info) w).2 =
      planBlock C env (env.Reader f) (info.GetLoadableName 0)
        (((structureSetBlock C env AutoContourOpacity (env.Reader f) (info.GetLoadableName 0)
            (w.emit (Event.ReaderUpdate f))).alloc { data := NodeData.ScalarVolume {} }).emit
          (Event.Error Message.FailedToLoadDoseVolume)) := by
  rw [LoadDicomRT_snd C env AutoContourOpacity info f fs w hfiles]
  unfold doseBlock
  rw [if_pos hdose, LoadRTDose_read_failed C env _ f (f :: fs) _ _ hread]

/-- What the plan block, run after a failed dose read on the world `wS` of the structure-set
block, leaves of the scene: no volume and no volume display node among the nodes added since
`w`; the nodes of each class added since `w` are those of the structure-set block followed by
those added after it; the objects of `wS` are untouched. -/
theorem planBlock_after_read_failed (C : SlicerRtCommon) (env : ImportEnv)
    (rtReader : vtkSlicerDicomRtReader) (seriesName : String) (w wS : World)
    (ks : List NodeKind) (hadds : World.Adds w wS ks)
    (hsv : NodeKind.ScalarVolume ∉ ks) (hsvd : NodeKind.ScalarVolumeDisplay ∉ ks) (e : Event)
    (n0 : vtkMRMLNode) :
    World.createdOfKind w (planBlock C env rtReader seriesName ((wS.alloc n0).emit e))
      NodeKind.ScalarVolume = [] ∧
    World.createdOfKind w (planBlock C env rtReader seriesName ((wS.alloc n0).emit e))
      NodeKind.ScalarVolumeDisplay = [] ∧
    (∀ k, World.createdOfKind w (planBlock C env rtReader seriesName ((wS.alloc n0).emit e)) k =
      World.createdOfKind w wS k ++
        World.createdOfKind wS (planBlock C env rtReader seriesName ((wS.alloc n0).emit e)) k) ∧
    (∀ q, q < wS.heap.length →
      (planBlock C env rtReader seriesName ((wS.alloc n0).emit e)).node? q = wS.node? q) ∧
    ∀ k, k ≠ NodeKind.AnnotationFiducial → k ≠ NodeKind.AnnotationHierarchy →
      k ≠ NodeKind.ModelDisplay →
      World.createdOfKind wS (planBlock C env rtReader seriesName ((wS.alloc n0).emit e)) k =
        [] := by
  obtain ⟨n, hblock, hframe, hclasses⟩ :=
    planBlock_spec C env rtReader seriesName ((wS.alloc n0).emit e)
  generalize planBlock C env rtReader seriesName ((wS.alloc n0).emit e) = wf at *
  have hnodes : wf.Nodes = wS.Nodes ++ List.range' ((wS.alloc n0).emit e).heap.length n := by
    rw [hblock.nodes]; rfl
  have hsplit : ∀ k, World.createdOfKind w wf k =
      World.createdOfKind w wS k ++ World.createdOfKind wS wf k := by
    intro k
    refine World.createdOfKind_append _ _ hadds.block.nodes hnodes ?_ k
    intro p hp
    have hlt : p < wS.heap.length := by
      rw [hadds.block.heap]; exact (List.mem_range'_1.1 hp).2
    rw [hblock.kinds p (by simp; exact Nat.lt_succ_of_lt hlt)]
    simp only [World.kind?_emit]
    rw [World.kind?_alloc, if_neg (Nat.ne_of_lt hlt)]
  have hplan : ∀ k, k ≠ NodeKind.AnnotationFiducial →
      k ≠ NodeKind.AnnotationHierarchy → k ≠ NodeKind.ModelDisplay →
      World.createdOfKind wS wf k = [] := by
    intro k h1 h2 h3
    unfold World.createdOfKind
    rw [List.filter_eq_nil_iff]
    intro p hp
    have := hclasses p hp
    rcases this with h | h | h <;> rw [h] <;> simp
    · exact fun hh => h1 hh.symm
    · exact fun hh => h2 hh.symm
    · exact fun hh => h3 hh.symm
  have hnone : ∀ k, k ∉ ks → k ≠ NodeKind.AnnotationFiducial →
      k ≠ NodeKind.AnnotationHierarchy → k ≠ NodeKind.ModelDisplay →
      World.createdOfKind w wf k = [] := by
    intro k hk h1 h2 h3
    rw [hsplit k]
    have ha : World.createdOfKind w wS k = [] := by
      apply List.eq_nil_of_length_eq_zero
      rw [hadds.createdOfKind_length k]
      exact List.count_eq_zero_of_not_mem hk
    rw [ha, hplan k h1 h2 h3]; rfl
  refine ⟨hnone _ hsv (by decide) (by decide) (by decide),
    hnone _ hsvd (by decide) (by decide) (by decide), hsplit, ?_, hplan⟩
  intro q hq
  rw [hframe q (by simp; exact Nat.lt_succ_of_lt hq)]
  simp only [World.node?_emit]
  rw [World.node?_alloc, if_neg (Nat.ne_of_lt hq)]

/-- The entities the structure-set block creates when the reader reports a structure set: one
surface model per region with two or more points, and one surface model or fiducial per
region with one or more points. -/
theorem structureSetBlock_counts (C : SlicerRtCommon) (env : ImportEnv) (auto : Bool)
    (rtReader : vtkSlicerDicomRtReader) (seriesName : String) (w : World)
    (hs : rtReader.LoadRTStructureSetSuccessful = true) :
    (World.createdOfKind w (structureSetBlock C env auto rtReader seriesName w)
        NodeKind.Model).length =
      ((List.range rtReader.GetNumberOfRois).filter (rtReader.roiHasPoints 2)).length ∧
    (World.createdOfKind w (structureSetBlock C env auto rtReader seriesName w)
        NodeKind.Model).length +
      (World.createdOfKind w (structureSetBlock C env auto rtReader seriesName w)
        NodeKind.AnnotationFiducial).length =
      ((List.range rtReader.GetNumberOfRois).filter (rtReader.roiHasPoints 1)).length := by
  obtain ⟨ks, hadds, _, _, hc⟩ := structureSetBlock_adds C env auto rtReader seriesName w
  rw [hadds.createdOfKind_length, hadds.createdOfKind_length]
  exact hc hs

theorem sampleSeriesReader_counts :
    ((List.range sampleSeriesReader.GetNumberOfRois).filter
      (sampleSeriesReader.roiHasPoints 2)).length = 3 ∧
    ((List.range sampleSeriesReader.GetNumberOfRois).filter
      (sampleSeriesReader.roiHasPoints 1)).length = 3 := by
  constructor <;> decide

/-- C12. When the reader reports a dose and the volume read fails, `LoadDicomRT` returns
false and reports the failed dose read right after the structure-set block, and among the
nodes added to the scene there is no volume node and no volume display node. The sibling
imports are not blocked: with `wS` the world the structure-set block leaves and `wf` the final
world, the nodes of each class added to the scene are those of the structure-set block, in
place, followed by those added after it, and every object of `wS` has in `wf` the state it has
in `wS`; a reported structure set has its one surface model per region with two or more
points, and one entity per region with one or more points; a reported plan still runs after
the failed read and adds exactly one fiducial per beam, marker number `k` named for the beam
with DICOM index `k + 1` and placed at its isocenter, and nothing but fiducials, annotation
hierarchy nodes and model display nodes. -/
theorem dose_read_failure_leaves_sibling_imports (C : SlicerRtCommon) (env : ImportEnv)
    (AutoContourOpacity : Bool) (info : vtkDICOMImportInfo) (f : String) (fs : List String)
    (w : World) (hfiles : info.GetLoadableFiles 0 = some (f :: fs))
    (hdose : (env.Reader f).LoadRTDoseSuccessful = true)
    (hread : env.ReadData f (f :: fs) = none) (wS wf : World)
    (hS : wS = structureSetBlock C env AutoContourOpacity (env.Reader f)
      (info.GetLoadableName 0) (w.emit (Event.ReaderUpdate f)))
    (hf : wf = (LoadDicomRT C env AutoContourOpacity (some info) w).2) :
    (LoadDicomRT C env AutoContourOpacity (some info) w).1 = false ∧
    (∃ rest, wf.log = wS.log ++ Event.Error Message.FailedToLoadDoseVolume :: rest) ∧
    World.createdOfKind w wf NodeKind.ScalarVolume = [] ∧
    World.createdOfKind w wf NodeKind.ScalarVolumeDisplay = [] ∧
    (∀ k, World.createdOfKind w wf k =
      World.createdOfKind w wS k ++ World.createdOfKind wS wf k) ∧
    (∀ q, q < wS.heap.length → wf.node? q = wS.node? q) ∧
    ((env.Reader f).LoadRTStructureSetSuccessful = true →
      (World.createdOfKind w wS NodeKind.Model).length =
        ((List.range (env.Reader f).GetNumberOfRois).filter
          ((env.Reader f).roiHasPoints 2)).length ∧
      (World.createdOfKind w wS NodeKind.Model).length +
          (World.createdOfKind w wS NodeKind.AnnotationFiducial).length =
        ((List.range (env.Reader f).GetNumberOfRois).filter
          ((env.Reader f).roiHasPoints 1)).length) ∧
    (∀ k, k ≠ NodeKind.AnnotationFiducial → k ≠ NodeKind.AnnotationHierarchy →
      k ≠ NodeKind.ModelDisplay → World.createdOfKind wS wf k = []) ∧
    ((env.Reader f).LoadRTPlanSuccessful = true →
      (World.createdOfKind wS wf NodeKind.AnnotationFiducial).length =
        (env.Reader f).NumberOfBeams ∧
      ∀ k (hk : k < (World.createdOfKind wS wf NodeKind.AnnotationFiducial).length), ∃ n fid,
        wf.node? ((World.createdOfKind wS wf NodeKind.AnnotationFiducial).get ⟨k, hk⟩) =
          some n ∧
        n.data = NodeData.AnnotationFiducial fid ∧
        n.Name = (env.Reader f).BeamName (k + 1) ∧
        fid.ControlPoints = [((env.Reader f).BeamIsocenterPositionRas (k + 1), false, true)]) := by
  have hrun := LoadDicomRT_snd_read_failed C env AutoContourOpacity info f fs w hfiles hdose hread
  rw [← hS] at hrun
  rw [hrun] at hf
  obtain ⟨ks, hadds, hsv, hsvd, _⟩ := structureSetBlock_adds C env AutoContourOpacity
    (env.Reader f) (info.GetLoadableName 0) (w.emit (Event.ReaderUpdate f))
  rw [← hS] at hadds
  have hadds2 : World.Adds w wS ks := by
    have := (World.Adds.adds_emit w (Event.ReaderUpdate f)).adds_trans hadds
    rwa [List.nil_append] at this
  obtain ⟨h1, h2, h3, h4, h5⟩ := planBlock_after_read_failed C env (env.Reader f)
    (info.GetLoadableName 0) w wS ks hadds2 hsv hsvd
    (Event.Error Message.FailedToLoadDoseVolume) { data := NodeData.ScalarVolume {} }
  rw [← hf] at h1 h2 h3 h4 h5
  refine ⟨?_, ?_, h1, h2, h3, h4, ?_, h5, ?_⟩
  · rw [LoadDicomRT_fst C env AutoContourOpacity info f fs w hfiles, if_pos ⟨hdose, hread⟩]
  · obtain ⟨rest, hrest⟩ := planBlock_log C env (env.Reader f) (info.GetLoadableName 0)
      ((wS.alloc { data := NodeData.ScalarVolume {} }).emit
        (Event.Error Message.FailedToLoadDoseVolume))
    rw [← hf] at hrest
    refine ⟨rest, ?_⟩
    rw [hrest]
    simp
  · intro hs
    have := structureSetBlock_counts C env AutoContourOpacity (env.Reader f)
      (info.GetLoadableName 0) (w.emit (Event.ReaderUpdate f)) hs
    rw [← hS] at this
    simpa only [World.createdOfKind_emit_left] using this
  · intro hp
    have hm := LoadRTPlan_markers C env (env.Reader f) (info.GetLoadableName 0)
      ((wS.alloc { data := NodeData.ScalarVolume {} }).emit
        (Event.Error Message.FailedToLoadDoseVolume))
    have hwf : wf = (LoadRTPlan C env (env.Reader f) (info.GetLoadableName 0)
        ((wS.alloc { data := NodeData.ScalarVolume {} }).emit
          (Event.Error Message.FailedToLoadDoseVolume))).w := by
      rw [hf]; unfold planBlock; rw [if_pos hp]
    rw [← hwf] at hm
    have hm2 : List.Forall₂
        (fun m j => ∃ id, wf.node? m = some (isocenterMarkerNode C env (env.Reader f) (j + 1) id))
        (World.createdOfKind wS wf NodeKind.AnnotationFiducial)
        (List.range (env.Reader f).NumberOfBeams) := hm
    have hlen : (World.createdOfKind wS wf NodeKind.AnnotationFiducial).length =
        (env.Reader f).NumberOfBeams := by
      rw [hm2.length_eq, List.length_range]
    refine ⟨hlen, ?_⟩
    intro k hk
    have hk2 : k < (List.range (env.Reader f).NumberOfBeams).length := by
      rw [List.length_range, ← hlen]; exact hk
    obtain ⟨id, hid⟩ := hm2.get hk hk2
    have hget : (List.range (env.Reader f).NumberOfBeams).get ⟨k, hk2⟩ = k := by simp
    rw [hget] at hid
    obtain ⟨e1, _, e3⟩ := isocenterMarkerNode_data C env (env.Reader f) (k + 1) id
    exact ⟨_, _, hid, e3, e1, rfl⟩

/-- C12 at the sample input: a series with three regions of three points each, a dose whose
volume cannot be read and two beams. The call returns false; no volume node and no volume
display node is added; the three surface models of the structure set are in the scene and
the plan adds two fiducials. -/
theorem dose_read_failure_leaves_sibling_imports_witness :
    (LoadDicomRT sampleCommon sampleSeriesEnv true (some sampleLoadInfo) emptyWorld).1 = false ∧
    World.createdOfKind emptyWorld
      (LoadDicomRT sampleCommon sampleSeriesEnv true (some sampleLoadInfo) emptyWorld).2
      NodeKind.ScalarVolume = [] ∧
    World.createdOfKind emptyWorld
      (LoadDicomRT sampleCommon sampleSeriesEnv true (some sampleLoadInfo) emptyWorld).2
      NodeKind.ScalarVolumeDisplay = [] ∧
    (World.createdOfKind emptyWorld
      (structureSetBlock sampleCommon sampleSeriesEnv true sampleSeriesReader "RT"
        (emptyWorld.emit (Event.ReaderUpdate "rt.dcm")))
      NodeKind.Model).length = 3 ∧
    (World.createdOfKind emptyWorld
      (LoadDicomRT sampleCommon sampleSeriesEnv true (some sampleLoadInfo) emptyWorld).2
      NodeKind.Model).length = 3 ∧
    (World.createdOfKind emptyWorld
      (LoadDicomRT sampleCommon sampleSeriesEnv true (some sampleLoadInfo) emptyWorld).2
      NodeKind.AnnotationFiducial).length = 2 := by
  obtain ⟨h1, _, h3, h4, h5, _, h7, h8, h9⟩ :=
    dose_read_failure_leaves_sibling_imports sampleCommon sampleSeriesEnv true sampleLoadInfo
      "rt.dcm" [] emptyWorld rfl rfl rfl
      (structureSetBlock sampleCommon sampleSeriesEnv true sampleSeriesReader "RT"
        (emptyWorld.emit (Event.ReaderUpdate "rt.dcm")))
      (LoadDicomRT sampleCommon sampleSeriesEnv true (some sampleLoadInfo) emptyWorld).2
      rfl rfl
  have h7 := h7 rfl
  have h9 := (h9 rfl).1
  have c := sampleSeriesReader_counts
  have e1 : (sampleSeriesEnv.Reader "rt.dcm") = sampleSeriesReader := rfl
  rw [e1] at h7 h9
  rw [c.1, c.2] at h7
  have e2 : sampleSeriesReader.NumberOfBeams = 2 := rfl
  rw [e2] at h9
  refine ⟨h1, h3, h4, h7.1, ?_, ?_⟩
  · rw [h5, List.length_append, h7.1, h8 _ (by decide) (by decide) (by decide)]
    rfl
  · rw [h5, List.length_append, h9]
    omega

/-- C13 fails at the sample series. The reader reports a structure set with three regions of
three points each and a dose whose volume cannot be read: the structure-set import creates
three surface models, which are in the scene when `LoadDicomRT` returns, and `LoadDicomRT`
returns false. -/
theorem load_with_entities_fails_when_dose_read_fails :
    sampleLoadInfo.GetLoadableFiles 0 = some ["rt.dcm"] ∧
    (sampleSeriesEnv.Reader "rt.dcm").LoadRTStructureSetSuccessful = true ∧
    (World.createdOfKind (emptyWorld.emit (Event.ReaderUpdate "rt.dcm"))
      (structureSetBlock sampleCommon sampleSeriesEnv true (sampleSeriesEnv.Reader "rt.dcm")
        (sampleLoadInfo.GetLoadableName 0) (emptyWorld.emit (Event.ReaderUpdate "rt.dcm")))
      NodeKind.Model).length = 3 ∧
    (World.createdOfKind emptyWorld
      (LoadDicomRT sampleCommon sampleSeriesEnv true (some sampleLoadInfo) emptyWorld).2
      NodeKind.Model).length = 3 ∧
    (LoadDicomRT sampleCommon sampleSeriesEnv true (some sampleLoadInfo) emptyWorld).1 =
      false := by
  have hc := (structureSetBlock_counts sampleCommon sampleSeriesEnv true
    (sampleSeriesEnv.Reader "rt.dcm") (sampleLoadInfo.GetLoadableName 0)
    (emptyWorld.emit (Event.ReaderUpdate "rt.dcm")) rfl).1
  have e1 : (sampleSeriesEnv.Reader "rt.dcm") = sampleSeriesReader := rfl
  rw [e1, sampleSeriesReader_counts.1] at hc
  have hrun := LoadDicomRT_snd_read_failed sampleCommon sampleSeriesEnv true sampleLoadInfo
    "rt.dcm" [] emptyWorld rfl rfl rfl
  obtain ⟨ks, hadds, hsv, hsvd, _⟩ := structureSetBlock_adds sampleCommon sampleSeriesEnv true
    (sampleSeriesEnv.Reader "rt.dcm") (sampleLoadInfo.GetLoadableName 0)
    (emptyWorld.emit (Event.ReaderUpdate "rt.dcm"))
  have hadds2 := (World.Adds.adds_emit emptyWorld (Event.ReaderUpdate "rt.dcm")).adds_trans hadds
  rw [List.nil_append] at hadds2
  obtain ⟨_, _, h3, _, h5⟩ := planBlock_after_read_failed sampleCommon sampleSeriesEnv
    (sampleSeriesEnv.Reader "rt.dcm") (sampleLoadInfo.GetLoadableName 0) emptyWorld _ ks hadds2
    hsv hsvd (Event.Error Message.FailedToLoadDoseVolume) { data := NodeData.ScalarVolume {} }
  rw [← hrun] at h3 h5
  refine ⟨rfl, rfl, hc, ?_, ?_⟩
  · rw [h3, List.length_append, h5 _ (by decide) (by decide) (by decide)]
    simp only [World.createdOfKind_emit_left] at hc
    rw [e1, hc]
    rfl
  · rw [LoadDicomRT_fst sampleCommon sampleSeriesEnv true sampleLoadInfo "rt.dcm" [] emptyWorld
      rfl, if_pos ⟨rfl, rfl⟩]

/-- C13, amended. For valid loadable information, when the structure-set block of
`LoadDicomRT` creates at least one entity (a surface model or a fiducial) and no dose volume
read fails in the call (the reader reports no dose, or the volume is read), `LoadDicomRT`
returns true. -/
theorem load_with_entities_succeeds_unless_dose_read_fails (C : SlicerRtCommon)
    (env : ImportEnv) (AutoContourOpacity : Bool) (info : vtkDICOMImportInfo) (f : String)
    (fs : List String) (w : World) (hfiles : info.GetLoadableFiles 0 = some (f :: fs))
    (hent : 0 <
      (World.createdOfKind (w.emit (Event.ReaderUpdate f))
        (structureSetBlock C env AutoContourOpacity (env.Reader f) (info.GetLoadableName 0)
          (w.emit (Event.ReaderUpdate f))) NodeKind.Model).length +
      (World.createdOfKind (w.emit (Event.ReaderUpdate f))
        (structureSetBlock C env AutoContourOpacity (env.Reader f) (info.GetLoadableName 0)
          (w.emit (Event.ReaderUpdate f))) NodeKind.AnnotationFiducial).length)
    (hdose : (env.Reader f).LoadRTDoseSuccessful = true → env.ReadData f (f :: fs) ≠ none) :
    (LoadDicomRT C env AutoContourOpacity (some info) w).1 = true := by
  have hs : (env.Reader f).LoadRTStructureSetSuccessful = true := by
    cases h : (env.Reader f).LoadRTStructureSetSuccessful with
    | true => rfl
    | false =>
      exfalso
      unfold structureSetBlock at hent
      rw [h] at hent
      simp [World.createdOfKind_self] at hent
  rw [LoadDicomRT_fst C env AutoContourOpacity info f fs w hfiles, if_neg, hs]
  · rfl
  · rintro ⟨h1, h2⟩
    exact hdose h1 h2

/-- C13, amended, at a sample input: three regions of three points each and a dose whose
volume is read; three surface models are created and `LoadDicomRT` returns true. -/
theorem load_with_entities_succeeds_unless_dose_read_fails_witness :
    (World.createdOfKind (emptyWorld.emit (Event.ReaderUpdate "rt.dcm"))
      (structureSetBlock sampleCommon (sampleEnv sampleThreeSurfaces [0, 0, 0]) true
        (sampleReader sampleThreeSurfaces) "RT"
        (emptyWorld.emit (Event.ReaderUpdate "rt.dcm"))) NodeKind.Model).length = 3 ∧
    (LoadDicomRT sampleCommon (sampleEnv sampleThreeSurfaces [0, 0, 0]) true
      (some sampleLoadInfo) emptyWorld).1 = true := by
  have hc := (structureSetBlock_counts sampleCommon (sampleEnv sampleThreeSurfaces [0, 0, 0])
    true (sampleReader sampleThreeSurfaces) "RT"
    (emptyWorld.emit (Event.ReaderUpdate "rt.dcm")) rfl).1
  rw [sampleThreeSurfaces_counts.1] at hc
  refine ⟨hc, load_with_entities_succeeds_unless_dose_read_fails sampleCommon
    (sampleEnv sampleThreeSurfaces [0, 0, 0]) true sampleLoadInfo "rt.dcm" [] emptyWorld rfl ?_
    (fun _ h => by simp [sampleEnv] at h)⟩
  have e1 : ((sampleEnv sampleThreeSurfaces [0, 0, 0]).Reader "rt.dcm") =
      sampleReader sampleThreeSurfaces := rfl
  have e2 : sampleLoadInfo.GetLoadableName 0 = "RT" := rfl
  rw [e1, e2, hc]
  omega

/-- C22. For valid loadable information the result of `LoadDicomRT` is decided by which
parts the reader reports and by the dose volume read alone: it is true exactly when no dose
volume read failed (the reader reports no dose, or the volume is read) and the reader reports
a structure set, or a dose whose volume is read, or a plan. In particular a reported
structure set none of whose regions has a point creates no surface model and no fiducial, and
`LoadDicomRT` then returns true unless a dose read fails; and when the reader reports a dose
whose volume read fails the result is false, whatever else was reported or created. -/
theorem load_result_depends_on_reported_parts_only (C : SlicerRtCommon) (env : ImportEnv)
    (AutoContourOpacity : Bool) (info : vtkDICOMImportInfo) (f : String) (fs : List String)
    (w : World) (hfiles : info.GetLoadableFiles 0 = some (f :: fs)) :
    ((LoadDicomRT C env AutoContourOpacity (some info) w).1 = true ↔
      ¬ ((env.Reader f).LoadRTDoseSuccessful = true ∧ env.ReadData f (f :: fs) = none) ∧
      ((env.Reader f).LoadRTStructureSetSuccessful = true ∨
        ((env.Reader f).LoadRTDoseSuccessful = true ∧ env.ReadData f (f :: fs) ≠ none) ∨
        (env.Reader f).LoadRTPlanSuccessful = true)) ∧
    ((env.Reader f).LoadRTStructureSetSuccessful = true →
      (∀ i, i < (env.Reader f).GetNumberOfRois → (env.Reader f).roiHasPoints 1 i = false) →
      World.createdOfKind w
        (structureSetBlock C env AutoContourOpacity (env.Reader f) (info.GetLoadableName 0)
          (w.emit (Event.ReaderUpdate f))) NodeKind.Model = [] ∧
      World.createdOfKind w
        (structureSetBlock C env AutoContourOpacity (env.Reader f) (info.GetLoadableName 0)
          (w.emit (Event.ReaderUpdate f))) NodeKind.AnnotationFiducial = [] ∧
      (¬ ((env.Reader f).LoadRTDoseSuccessful = true ∧ env.ReadData f (f :: fs) = none) →
        (LoadDicomRT C env AutoContourOpacity (some info) w).1 = true)) ∧
    ((env.Reader f).LoadRTDoseSuccessful = true → env.ReadData f (f :: fs) = none →
      (LoadDicomRT C env AutoContourOpacity (some info) w).1 = false) := by
  have hfst := LoadDicomRT_fst C env AutoContourOpacity info f fs w hfiles
  refine ⟨?_, ?_, ?_⟩
  · rw [hfst]
    by_cases hfail : (env.Reader f).LoadRTDoseSuccessful = true ∧ env.ReadData f (f :: fs) = none
    · simp [hfail]
    · rw [if_neg hfail]
      simp only [Bool.or_eq_true, hfail, not_false_eq_true, true_and]
      constructor
      · rintro ((h | h) | h)
        · exact Or.inl h
        · exact Or.inr (Or.inl ⟨h, fun hr => hfail ⟨h, hr⟩⟩)
        · exact Or.inr (Or.inr h)
      · rintro (h | h | h)
        · exact Or.inl (Or.inl h)
        · exact Or.inl (Or.inr h.1)
        · exact Or.inr h
  · intro hs hempty
    have hc := structureSetBlock_counts C env AutoContourOpacity (env.Reader f)
      (info.GetLoadableName 0) (w.emit (Event.ReaderUpdate f)) hs
    simp only [World.createdOfKind_emit_left] at hc
    have hzero : ((List.range (env.Reader f).GetNumberOfRois).filter
        ((env.Reader f).roiHasPoints 1)).length = 0 := by
      rw [List.length_eq_zero, List.filter_eq_nil_iff]
      intro i hi
      rw [hempty i (List.mem_range.1 hi)]
      simp
    rw [hzero] at hc
    refine ⟨List.eq_nil_of_length_eq_zero (by omega), List.eq_nil_of_length_eq_zero (by omega),
      ?_⟩
    intro hfail
    rw [hfst, if_neg hfail, hs]
    rfl
  · intro hd hr
    rw [hfst, if_pos ⟨hd, hr⟩]

/-- C22 at two sample inputs. A structure set of two regions without points and nothing else
reported: no surface model and no fiducial is created and `LoadDicomRT` returns true. A
series with three regions of three points each, a dose whose volume cannot be read and two
beams: three surface models and two fiducials are in the scene and `LoadDicomRT` returns
false. -/
theorem load_result_depends_on_reported_parts_only_witness :
    (World.createdOfKind emptyWorld
        (LoadDicomRT sampleCommon sampleStructureOnlyEnv true (some sampleLoadInfo)
          emptyWorld).2 NodeKind.Model = [] ∧
      World.createdOfKind emptyWorld
        (LoadDicomRT sampleCommon sampleStructureOnlyEnv true (some sampleLoadInfo)
          emptyWorld).2 NodeKind.AnnotationFiducial = [] ∧
      (LoadDicomRT sampleCommon sampleStructureOnlyEnv true (some sampleLoadInfo)
        emptyWorld).1 = true) ∧
    ((World.createdOfKind emptyWorld
        (LoadDicomRT sampleCommon sampleSeriesEnv true (some sampleLoadInfo) emptyWorld).2
        NodeKind.Model).length = 3 ∧
      (World.createdOfKind emptyWorld
        (LoadDicomRT sampleCommon sampleSeriesEnv true (some sampleLoadInfo) emptyWorld).2
        NodeKind.AnnotationFiducial).length = 2 ∧
      (LoadDicomRT sampleCommon sampleSeriesEnv true (some sampleLoadInfo) emptyWorld).1 =
        false) := by
  constructor
  · obtain ⟨_, h2, _⟩ := load_result_depends_on_reported_parts_only sampleCommon
      sampleStructureOnlyEnv true sampleLoadInfo "rt.dcm" [] emptyWorld rfl
    obtain ⟨a, b, c⟩ := h2 rfl (by decide)
    have hrun := LoadDicomRT_snd sampleCommon sampleStructureOnlyEnv true sampleLoadInfo
      "rt.dcm" [] emptyWorld rfl
    have hw : (LoadDicomRT sampleCommon sampleStructureOnlyEnv true (some sampleLoadInfo)
        emptyWorld).2 = structureSetBlock sampleCommon sampleStructureOnlyEnv true
          (sampleStructureOnlyEnv.Reader "rt.dcm") (sampleLoadInfo.GetLoadableName 0)
          (emptyWorld.emit (Event.ReaderUpdate "rt.dcm")) := by
      rw [hrun]; rfl
    rw [hw]
    exact ⟨a, b, c (by simp [sampleStructureOnlyEnv])⟩
  · obtain ⟨_, _, h3⟩ := load_result_depends_on_reported_parts_only sampleCommon
      sampleSeriesEnv true sampleLoadInfo "rt.dcm" [] emptyWorld rfl
    have hrun := LoadDicomRT_snd_read_failed sampleCommon sampleSeriesEnv true sampleLoadInfo
      "rt.dcm" [] emptyWorld rfl rfl rfl
    obtain ⟨ks, hadds, hsv, hsvd, _⟩ := structureSetBlock_adds sampleCommon sampleSeriesEnv true
      (sampleSeriesEnv.Reader "rt.dcm") (sampleLoadInfo.GetLoadableName 0)
      (emptyWorld.emit (Event.ReaderUpdate "rt.dcm"))
    have hadds2 := (World.Adds.adds_emit emptyWorld (Event.ReaderUpdate "rt.dcm")).adds_trans hadds
    rw [List.nil_append] at hadds2
    obtain ⟨_, _, h5, _, h8⟩ := planBlock_after_read_failed sampleCommon sampleSeriesEnv
      (sampleSeriesEnv.Reader "rt.dcm") (sampleLoadInfo.GetLoadableName 0) emptyWorld _ ks
      hadds2 hsv hsvd (Event.Error Message.FailedToLoadDoseVolume)
      { data := NodeData.ScalarVolume {} }
    rw [← hrun] at h5 h8
    have hc := structureSetBlock_counts sampleCommon sampleSeriesEnv true
      (sampleSeriesEnv.Reader "rt.dcm") (sampleLoadInfo.GetLoadableName 0)
      (emptyWorld.emit (Event.ReaderUpdate "rt.dcm")) rfl
    simp only [World.createdOfKind_emit_left] at hc
    have e1 : (sampleSeriesEnv.Reader "rt.dcm") = sampleSeriesReader := rfl
    rw [e1, sampleSeriesReader_counts.1, sampleSeriesReader_counts.2] at hc
    have hm := LoadRTPlan_markers sampleCommon sampleSeriesEnv sampleSeriesReader
      (sampleLoadInfo.GetLoadableName 0)
      (((structureSetBlock sampleCommon sampleSeriesEnv true sampleSeriesReader
          (sampleLoadInfo.GetLoadableName 0)
          (emptyWorld.emit (Event.ReaderUpdate "rt.dcm"))).alloc
        { data := NodeData.ScalarVolume {} }).emit (Event.Error Message.FailedToLoadDoseVolume))
    have hmlen := hm.length_eq
    rw [List.length_range] at hmlen
    refine ⟨?_, ?_, h3 rfl rfl⟩
    · rw [h5, List.length_append, h8 _ (by decide) (by decide) (by decide), e1, hc.1]
      rfl
    · rw [h5, List.length_append, e1]
      have hfid : (World.createdOfKind
          (structureSetBlock sampleCommon sampleSeriesEnv true sampleSeriesReader
            (sampleLoadInfo.GetLoadableName 0) (emptyWorld.emit (Event.ReaderUpdate "rt.dcm")))
          (LoadDicomRT sampleCommon sampleSeriesEnv true (some sampleLoadInfo) emptyWorld).2
          NodeKind.AnnotationFiducial).length = 2 := by
        rw [hrun]
        exact hmlen
      rw [hfid]
      omega

/-! ## Repeated calls of `GetDefaultLabelMapColorNodeID` -/

/-- A call with a non-null cache adds nothing and changes nothing but the cache, which is set
to the fixed identifier. -/
theorem GetDefaultLabelMapColorNodeID_cached (self : vtkSlicerIsodoseModuleLogic) (w : World)
    (h : self.colorTableID ≠ none) :
    GetDefaultLabelMapColorNodeID self w =
      ("vtkMRMLColorTableNodeUserDefined",
        { self with colorTableID := some (NodeID.named "vtkMRMLColorTableNodeUserDefined") },
        w) := by
  simp [GetDefaultLabelMapColorNodeID, h]

theorem GetDefaultLabelMapColorNodeID_fst (self : vtkSlicerIsodoseModuleLogic) (w : World) :
    (GetDefaultLabelMapColorNodeID self w).1 = "vtkMRMLColorTableNodeUserDefined" := rfl

theorem GetDefaultLabelMapColorNodeID_colorTableID (self : vtkSlicerIsodoseModuleLogic)
    (w : World) :
    (GetDefaultLabelMapColorNodeID self w).2.1.colorTableID =
      some (NodeID.named "vtkMRMLColorTableNodeUserDefined") := rfl

/-- Calls made with a non-null cache: each returns the fixed identifier, and the world stays
as it is. -/
theorem callsOfGetDefaultLabelMapColorNodeID_cached (scenes : List Bool) :
    ∀ (ids : List String) (self : vtkSlicerIsodoseModuleLogic) (w : World),
      self.colorTableID = some (NodeID.named "vtkMRMLColorTableNodeUserDefined") →
      (scenes.foldl callGetDefaultLabelMapColorNodeID (ids, self, w)).1 =
        ids ++ List.replicate scenes.length "vtkMRMLColorTableNodeUserDefined" ∧
      (scenes.foldl callGetDefaultLabelMapColorNodeID (ids, self, w)).2.1.colorTableID =
        some (NodeID.named "vtkMRMLColorTableNodeUserDefined") ∧
      (scenes.foldl callGetDefaultLabelMapColorNodeID (ids, self, w)).2.2 = w := by
  induction scenes with
  | nil => intro ids self w h; simp [h]
  | cons b rest ih =>
    intro ids self w h
    have hstep : callGetDefaultLabelMapColorNodeID (ids, self, w) b =
        (ids ++ ["vtkMRMLColorTableNodeUserDefined"],
          { self with
            HasMRMLScene := b
            colorTableID := some (NodeID.named "vtkMRMLColorTableNodeUserDefined") }, w) := by
      unfold callGetDefaultLabelMapColorNodeID
      rw [GetDefaultLabelMapColorNodeID_cached _ _ (by simp [h])]
    rw [List.foldl_cons, hstep]
    obtain ⟨h1, h2, h3⟩ := ih (ids ++ ["vtkMRMLColorTableNodeUserDefined"])
      { self with
        HasMRMLScene := b
        colorTableID := some (NodeID.named "vtkMRMLColorTableNodeUserDefined") } w rfl
    refine ⟨?_, h2, h3⟩
    rw [h1, List.append_assoc]
    rfl

/-- The first call on a fresh logic object with a scene: the node collection gains one
node, a new color table node named `IsodoseColor`. -/
theorem GetDefaultLabelMapColorNodeID_fresh_scene (w : World) :
    (GetDefaultLabelMapColorNodeID
      { vtkSlicerIsodoseModuleLogic.fresh with HasMRMLScene := true } w).2.2.Nodes =
      w.Nodes ++ [w.heap.length] ∧
    (GetDefaultLabelMapColorNodeID
      { vtkSlicerIsodoseModuleLogic.fresh with HasMRMLScene := true } w).2.2.heap.length =
      w.heap.length + 1 ∧
    ∃ n t, (GetDefaultLabelMapColorNodeID
        { vtkSlicerIsodoseModuleLogic.fresh with HasMRMLScene := true } w).2.2.node?
          w.heap.length = some n ∧
      n.Name = "IsodoseColor" ∧ n.data = NodeData.ColorTable t := by
  refine ⟨?_, ?_, ?_⟩
  · simp [GetDefaultLabelMapColorNodeID, AddDefaultIsodoseColorNode, CreateIsodoseColorNode,
      vtkSlicerIsodoseModuleLogic.fresh, World.New]
  · simp [GetDefaultLabelMapColorNodeID, AddDefaultIsodoseColorNode, CreateIsodoseColorNode,
      vtkSlicerIsodoseModuleLogic.fresh, World.New]
  · simp [GetDefaultLabelMapColorNodeID, AddDefaultIsodoseColorNode, CreateIsodoseColorNode,
      vtkSlicerIsodoseModuleLogic.fresh, World.New, World.node?_alloc, World.node?_modify,
      World.node?_modifyData, World.node?_AddNode, NodeData.mapColorTable]

/-- The first call on a fresh logic object without a scene: a warning is raised and the
scene and the objects stay as they are. -/
theorem GetDefaultLabelMapColorNodeID_fresh_no_scene (w : World) :
    (GetDefaultLabelMapColorNodeID
      { vtkSlicerIsodoseModuleLogic.fresh with HasMRMLScene := false } w).2.2 =
      w.emit (Event.Warning Message.NoSceneForColorNodes) := by
  simp [GetDefaultLabelMapColorNodeID, AddDefaultIsodoseColorNode,
    vtkSlicerIsodoseModuleLogic.fresh]

/-- C23. For every sequence of one or more calls of `GetDefaultLabelMapColorNodeID` on a
fresh logic object, whatever the scene attachment at each call: every call returns the
identifier `vtkMRMLColorTableNodeUserDefined`; the cached identifier is non-null after the
calls (it is this identifier); the world after the calls is the world after the first call,
so that the calls after the first add nothing. When the first call is made with a scene, it
adds exactly one node to the scene, a new color table node named `IsodoseColor`; when it is
made without a scene, it raises a warning and no node is added, neither by it nor by any
later call, with or without a scene. -/
theorem default_color_node_id_idempotent (b : Bool) (rest : List Bool) (w : World) :
    (callsOfGetDefaultLabelMapColorNodeID (b :: rest) vtkSlicerIsodoseModuleLogic.fresh w).1 =
      List.replicate (rest.length + 1) "vtkMRMLColorTableNodeUserDefined" ∧
    (callsOfGetDefaultLabelMapColorNodeID (b :: rest)
      vtkSlicerIsodoseModuleLogic.fresh w).2.1.colorTableID =
      some (NodeID.named "vtkMRMLColorTableNodeUserDefined") ∧
    (callsOfGetDefaultLabelMapColorNodeID (b :: rest) vtkSlicerIsodoseModuleLogic.fresh w).2.2 =
      (GetDefaultLabelMapColorNodeID
        { vtkSlicerIsodoseModuleLogic.fresh with HasMRMLScene := b } w).2.2 ∧
    (b = true →
      (callsOfGetDefaultLabelMapColorNodeID (b :: rest)
        vtkSlicerIsodoseModuleLogic.fresh w).2.2.Nodes = w.Nodes ++ [w.heap.length] ∧
      ∃ n t, (callsOfGetDefaultLabelMapColorNodeID (b :: rest)
          vtkSlicerIsodoseModuleLogic.fresh w).2.2.node? w.heap.length = some n ∧
        n.Name = "IsodoseColor" ∧ n.data = NodeData.ColorTable t) ∧
    (b = false →
      (callsOfGetDefaultLabelMapColorNodeID (b :: rest)
        vtkSlicerIsodoseModuleLogic.fresh w).2.2 =
        w.emit (Event.Warning Message.NoSceneForColorNodes) ∧
      (callsOfGetDefaultLabelMapColorNodeID (b :: rest)
        vtkSlicerIsodoseModuleLogic.fresh w).2.2.Nodes = w.Nodes ∧
      (callsOfGetDefaultLabelMapColorNodeID (b :: rest)
        vtkSlicerIsodoseModuleLogic.fresh w).2.2.heap = w.heap) := by
  have hfold : callsOfGetDefaultLabelMapColorNodeID (b :: rest)
      vtkSlicerIsodoseModuleLogic.fresh w =
      rest.foldl callGetDefaultLabelMapColorNodeID
        (["vtkMRMLColorTableNodeUserDefined"],
          (GetDefaultLabelMapColorNodeID
            { vtkSlicerIsodoseModuleLogic.fresh with HasMRMLScene := b } w).2.1,
          (GetDefaultLabelMapColorNodeID
            { vtkSlicerIsodoseModuleLogic.fresh with HasMRMLScene := b } w).2.2) := rfl
  obtain ⟨h1, h2, h3⟩ := callsOfGetDefaultLabelMapColorNodeID_cached rest
    ["vtkMRMLColorTableNodeUserDefined"]
    (GetDefaultLabelMapColorNodeID
      { vtkSlicerIsodoseModuleLogic.fresh with HasMRMLScene := b } w).2.1
    (GetDefaultLabelMapColorNodeID
      { vtkSlicerIsodoseModuleLogic.fresh with HasMRMLScene := b } w).2.2
    (GetDefaultLabelMapColorNodeID_colorTableID _ _)
  rw [hfold]
  refine ⟨?_, h2, h3, ?_, ?_⟩
  · rw [h1]
    rfl
  · intro hb
    subst hb
    rw [h3]
    obtain ⟨a, _, c⟩ := GetDefaultLabelMapColorNodeID_fresh_scene w
    exact ⟨a, c⟩
  · intro hb
    subst hb
    rw [h3, GetDefaultLabelMapColorNodeID_fresh_no_scene]
    exact ⟨rfl, rfl, rfl⟩

/-- C23 at two sample sequences of three calls on the empty world. With a scene at the first
call, the three calls return the same identifier and the scene holds one node afterwards.
Without a scene at the first call and with a scene at the two later calls, the three calls
return the same identifier, the scene stays empty and the only call logged is the warning. -/
theorem default_color_node_id_idempotent_witness :
    ((callsOfGetDefaultLabelMapColorNodeID [true, false, true]
        vtkSlicerIsodoseModuleLogic.fresh emptyWorld).1 =
        ["vtkMRMLColorTableNodeUserDefined", "vtkMRMLColorTableNodeUserDefined",
          "vtkMRMLColorTableNodeUserDefined"] ∧
      (callsOfGetDefaultLabelMapColorNodeID [true, false, true]
        vtkSlicerIsodoseModuleLogic.fresh emptyWorld).2.2.Nodes = [0]) ∧
    ((callsOfGetDefaultLabelMapColorNodeID [false, true, true]
        vtkSlicerIsodoseModuleLogic.fresh emptyWorld).1 =
        ["vtkMRMLColorTableNodeUserDefined", "vtkMRMLColorTableNodeUserDefined",
          "vtkMRMLColorTableNodeUserDefined"] ∧
      (callsOfGetDefaultLabelMapColorNodeID [false, true, true]
        vtkSlicerIsodoseModuleLogic.fresh emptyWorld).2.2.Nodes = [] ∧
      (callsOfGetDefaultLabelMapColorNodeID [false, true, true]
        vtkSlicerIsodoseModuleLogic.fresh emptyWorld).2.2.log =
        [Event.Warning Message.NoSceneForColorNodes]) := by
  constructor
  · obtain ⟨h1, _, _, h4, _⟩ :=
      default_color_node_id_idempotent true [false, true] emptyWorld
    exact ⟨h1, (h4 rfl).1⟩
  · obtain ⟨h1, _, _, _, h5⟩ :=
      default_color_node_id_idempotent false [true, true] emptyWorld
    refine ⟨h1, (h5 rfl).2.1, ?_⟩
    rw [(h5 rfl).1]
    rfl

/-! ## Registrations of the isodose hierarchy root -/

theorem isodoseLoopBody_produced (env : IsodoseEnv) (t : vtkMRMLColorTableNode)
    (img : Option vtkImageData) (st : IsodoseLoopState) (lvl : ℚ)
    (hne : 1 ≤ (env.MarchingCubes img lvl).GetNumberOfPoints) :
    isodoseLoopBody env t img st lvl =
      addToIsodoseHierarchy (st.w.heap.length + 1)
        { st with
          w := (addIsodoseModel env t (st.w.emit (Event.MarchingCubesUpdate img lvl)) lvl
            (isodoseSurfacePipeline env (env.MarchingCubes img lvl))).1 } := by
  simp [isodoseLoopBody, hne]

theorem isodoseLoopBody_skipped (env : IsodoseEnv) (t : vtkMRMLColorTableNode)
    (img : Option vtkImageData) (st : IsodoseLoopState) (lvl : ℚ)
    (hne : ¬ 1 ≤ (env.MarchingCubes img lvl).GetNumberOfPoints) :
    isodoseLoopBody env t img st lvl =
      { st with w := st.w.emit (Event.MarchingCubesUpdate img lvl) } := by
  simp [isodoseLoopBody, hne]

theorem World.isRootDisplay_congr {w w' : World} {p : Ptr} (h : w'.node? p = w.node? p) :
    w'.isRootDisplay p = w.isRootDisplay p := by
  unfold World.isRootDisplay; rw [h]

theorem World.isRootDisplay_of_kind_ne {w : World} {p : Ptr}
    (h : w.kind? p ≠ some NodeKind.ModelDisplay) : w.isRootDisplay p = false := by
  unfold World.isRootDisplay
  unfold World.kind? at h
  cases hn : w.node? p with
  | none => rfl
  | some n =>
    rw [hn] at h
    simp only [Option.map_some', ne_eq, Option.some.injEq] at h
    simp [h]

/-- The surface display node of `addIsodoseModel` is not named `Display`. -/
theorem addIsodoseModel_isRootDisplay (env : IsodoseEnv) (t : vtkMRMLColorTableNode)
    (w : World) (lvl : ℚ) (poly : vtkPolyData) :
    (addIsodoseModel env t w lvl poly).1.isRootDisplay w.heap.length = false := by
  simp [World.isRootDisplay, addIsodoseModel, World.New, World.node?_alloc, World.node?_modify,
    World.node?_modifyData, World.node?_AddNode]
  decide

/-- The display node the hierarchy block creates for the root is a model display node named
`Display`. -/
theorem addToIsodoseHierarchy_isRootDisplay (m : Ptr) (st : IsodoseLoopState)
    (hroot : st.RootOK) :
    (addToIsodoseHierarchy m st).w.isRootDisplay
      (match st.modelHierarchyRootNode with
        | some _ => st.w.heap.length
        | none => st.w.heap.length + 1) = true := by
  cases h : st.modelHierarchyRootNode with
  | none =>
    simp [World.isRootDisplay, addToIsodoseHierarchy, h, World.New, World.node?_alloc,
      World.node?_modify, World.node?_modifyData, World.node?_AddNode,
      NodeData.mapModelDisplay, NodeData.kind]
  | some r =>
    have hlt : r < st.w.heap.length := World.lt_of_kind? (hroot r h)
    have h0 : st.w.heap.length ≠ r := Nat.ne_of_gt hlt
    simp [World.isRootDisplay, addToIsodoseHierarchy, h, World.New, World.node?_alloc,
      World.node?_modify, World.node?_modifyData, World.node?_AddNode,
      NodeData.mapModelDisplay, NodeData.kind, h0]

theorem IsodoseRegistrations.registrations_empty (w : World) (root : Option Ptr) :
    IsodoseRegistrations w [] root 0 :=
  ⟨fun _ h => absurd h (List.not_mem_nil _), rfl, rfl, rfl, fun _ _ => rfl,
    fun h => absurd h (by decide)⟩

theorem IsodoseRegistrations.registrations_evolves {w w' : World} {added : List Ptr} {root : Option Ptr}
    {k : Nat} (h : IsodoseRegistrations w added root k) (he : World.Evolves w w') :
    IsodoseRegistrations w' added root k := by
  have hkind : ∀ p ∈ added, w'.kind? p = w.kind? p := fun p hp => he.kinds p (h.lt p hp)
  refine ⟨fun p hp => Nat.lt_of_lt_of_le (h.lt p hp) he.heap, ?_, ?_, ?_, h.rootEntries,
    h.hasRoot⟩
  · rw [← h.models]
    exact List.countP_congr fun p hp => by rw [hkind p hp]
  · rw [← h.hierarchyNodes]
    exact List.countP_congr fun p hp => by rw [hkind p hp]
  · rw [← h.rootDisplays]
    refine List.countP_congr fun p hp => ?_
    by_cases hk : w.kind? p = some NodeKind.ModelHierarchy
    · rw [World.isRootDisplay_of_kind_ne (w := w) (by rw [hk]; decide),
        World.isRootDisplay_of_kind_ne (w := w') (by rw [hkind p hp, hk]; decide)]
    · rw [World.isRootDisplay_congr (he.frame p (h.lt p hp) hk)]

theorem IsodoseRegistrations.registrations_append {w : World} {a b : List Ptr} {r : Ptr} {root : Option Ptr}
    {k1 k2 : Nat} (ha : IsodoseRegistrations w a (some r) k1)
    (hb : IsodoseRegistrations w b root k2) (hroot : root = some r) :
    IsodoseRegistrations w (a ++ b) root (k1 + k2) := by
  subst hroot
  refine ⟨?_, ?_, ?_, ?_, ?_, fun _ => rfl⟩
  · intro p hp
    rcases List.mem_append.1 hp with h | h
    · exact ha.lt p h
    · exact hb.lt p h
  · rw [List.countP_append, ha.models, hb.models]
  · rw [List.countP_append, ha.hierarchyNodes, hb.hierarchyNodes, Nat.mul_add]
  · rw [List.countP_append, ha.rootDisplays, hb.rootDisplays]
  · intro r' hr'
    rw [List.count_append, ha.rootEntries r' hr', hb.rootEntries r' hr']

/-- The hierarchy block when the root is not yet created, behind `addIsodoseModel`. -/
theorem addToIsodoseHierarchy_first_registrations (env : IsodoseEnv)
    (t : vtkMRMLColorTableNode) (w : World) (lvl : ℚ) (poly : vtkPolyData)
    (st2 : IsodoseLoopState) (hw : st2.w = (addIsodoseModel env t w lvl poly).1)
    (hnone : st2.modelHierarchyRootNode = none) (m : Ptr) :
    (addToIsodoseHierarchy m st2).modelHierarchyRootNode = some (w.heap.length + 2) ∧
    (addToIsodoseHierarchy m st2).w.Nodes = w.Nodes ++
      [w.heap.length, w.heap.length + 1, w.heap.length + 2, w.heap.length + 3,
        w.heap.length + 4] ∧
    IsodoseRegistrations (addToIsodoseHierarchy m st2).w
      [w.heap.length, w.heap.length + 1, w.heap.length + 2, w.heap.length + 3,
        w.heap.length + 4] (some (w.heap.length + 2)) 1 := by
  have hlen : st2.w.heap.length = w.heap.length + 2 := by rw [hw]; simp
  have hkind : ∀ q, (addToIsodoseHierarchy m st2).w.kind? q =
      if q = w.heap.length + 4 then some NodeKind.ModelHierarchy
      else if q = w.heap.length + 3 then some NodeKind.ModelDisplay
      else if q = w.heap.length + 2 then some NodeKind.ModelHierarchy
      else if q = w.heap.length + 1 then some NodeKind.Model
      else if q = w.heap.length then some NodeKind.ModelDisplay
      else w.kind? q := by
    intro q
    rw [addToIsodoseHierarchy_kind?]
    simp only [hnone, hlen, Nat.add_assoc]
    rw [hw, addIsodoseModel_kind?]
  have hd3 := addToIsodoseHierarchy_isRootDisplay m st2
    (by intro r hr; simp [hnone] at hr)
  simp only [hnone, hlen, Nat.add_assoc] at hd3
  have hd0 : (addToIsodoseHierarchy m st2).w.isRootDisplay w.heap.length = false := by
    rw [World.isRootDisplay_congr (addToIsodoseHierarchy_node? m st2 w.heap.length
      (by rw [hlen]; omega) (by simp [hnone])), hw]
    exact addIsodoseModel_isRootDisplay env t w lvl poly
  have h1 := World.isRootDisplay_of_kind_ne (w := (addToIsodoseHierarchy m st2).w)
    (p := w.heap.length + 1) (by rw [hkind]; simp)
  have h2 := World.isRootDisplay_of_kind_ne (w := (addToIsodoseHierarchy m st2).w)
    (p := w.heap.length + 2) (by rw [hkind]; simp)
  have h4 := World.isRootDisplay_of_kind_ne (w := (addToIsodoseHierarchy m st2).w)
    (p := w.heap.length + 4) (by rw [hkind]; simp)
  have hheap : (addToIsodoseHierarchy m st2).w.heap.length = w.heap.length + 5 := by
    rw [addToIsodoseHierarchy_heap_length, hnone, hlen]; rfl
  refine ⟨?_, ?_, ?_, ?_, ?_, ?_, ?_, fun _ => rfl⟩
  · rw [addToIsodoseHierarchy_root_none m st2 hnone, hlen]
  · rw [addToIsodoseHierarchy_Nodes, hnone, hw]
    simp [Nat.add_assoc]
  · intro p hp
    rw [hheap]
    simp only [List.mem_cons, List.mem_singleton, List.not_mem_nil, or_false] at hp
    rcases hp with h | h | h | h | h <;> subst h <;> simp
  · simp [List.countP_cons, hkind]
  · simp [List.countP_cons, hkind]
  · simp [List.countP_cons, hd0, h1, h2, hd3, h4]
  · intro r hr
    simp only [Option.some.injEq] at hr
    subst hr
    simp [List.count_cons]

/-- The hierarchy block when the root exists, behind `addIsodoseModel`: the root is added to
the scene again and gets one more display node. -/
theorem addToIsodoseHierarchy_next_registrations (env : IsodoseEnv)
    (t : vtkMRMLColorTableNode) (w : World) (lvl : ℚ) (poly : vtkPolyData)
    (st2 : IsodoseLoopState) (hw : st2.w = (addIsodoseModel env t w lvl poly).1) (r : Ptr)
    (hsome : st2.modelHierarchyRootNode = some r)
    (hk : w.kind? r = some NodeKind.ModelHierarchy) (m : Ptr) :
    (addToIsodoseHierarchy m st2).modelHierarchyRootNode = some r ∧
    (addToIsodoseHierarchy m st2).w.Nodes = w.Nodes ++
      [w.heap.length, w.heap.length + 1, r, w.heap.length + 2, w.heap.length + 3] ∧
    IsodoseRegistrations (addToIsodoseHierarchy m st2).w
      [w.heap.length, w.heap.length + 1, r, w.heap.length + 2, w.heap.length + 3]
      (some r) 1 := by
  have hlt : r < w.heap.length := World.lt_of_kind? hk
  have hr0 : r ≠ w.heap.length := Nat.ne_of_lt hlt
  have hr1 : r ≠ w.heap.length + 1 := Nat.ne_of_lt (Nat.lt_succ_of_lt hlt)
  have hr2 : r ≠ w.heap.length + 2 := Nat.ne_of_lt (Nat.lt_add_right 2 hlt)
  have hr3 : r ≠ w.heap.length + 3 := Nat.ne_of_lt (Nat.lt_add_right 3 hlt)
  have hlen : st2.w.heap.length = w.heap.length + 2 := by rw [hw]; simp
  have hkind : ∀ q, (addToIsodoseHierarchy m st2).w.kind? q =
      if q = w.heap.length + 3 then some NodeKind.ModelHierarchy
      else if q = w.heap.length + 2 then some NodeKind.ModelDisplay
      else if q = w.heap.length + 1 then some NodeKind.Model
      else if q = w.heap.length then some NodeKind.ModelDisplay
      else w.kind? q := by
    intro q
    rw [addToIsodoseHierarchy_kind?]
    simp only [hsome, hlen, Nat.add_assoc]
    rw [hw, addIsodoseModel_kind?]
  have hroot2 : st2.RootOK := by
    intro r' hr'
    rw [hsome] at hr'
    simp only [Option.some.injEq] at hr'
    subst hr'
    rw [hw, addIsodoseModel_kind?, if_neg hr1, if_neg hr0, hk]
  have hd2 := addToIsodoseHierarchy_isRootDisplay m st2 hroot2
  simp only [hsome, hlen] at hd2
  have hd0 : (addToIsodoseHierarchy m st2).w.isRootDisplay w.heap.length = false := by
    rw [World.isRootDisplay_congr (addToIsodoseHierarchy_node? m st2 w.heap.length
      (by rw [hlen]; omega) (by rw [hsome]; simpa using hr0)), hw]
    exact addIsodoseModel_isRootDisplay env t w lvl poly
  have h1 := World.isRootDisplay_of_kind_ne (w := (addToIsodoseHierarchy m st2).w)
    (p := w.heap.length + 1) (by rw [hkind]; simp)
  have hr := World.isRootDisplay_of_kind_ne (w := (addToIsodoseHierarchy m st2).w)
    (p := r) (by rw [hkind, if_neg hr3, if_neg hr2, if_neg hr1, if_neg hr0, hk]; decide)
  have h3 := World.isRootDisplay_of_kind_ne (w := (addToIsodoseHierarchy m st2).w)
    (p := w.heap.length + 3) (by rw [hkind]; simp)
  have hheap : (addToIsodoseHierarchy m st2).w.heap.length = w.heap.length + 4 := by
    rw [addToIsodoseHierarchy_heap_length, hsome, hlen]; rfl
  refine ⟨?_, ?_, ?_, ?_, ?_, ?_, ?_, fun _ => rfl⟩
  · rw [addToIsodoseHierarchy_root_some m st2 r hsome]
  · rw [addToIsodoseHierarchy_Nodes, hsome, hw]
    simp [Nat.add_assoc]
  · intro p hp
    rw [hheap]
    simp only [List.mem_cons, List.mem_singleton, List.not_mem_nil, or_false] at hp
    rcases hp with h | h | h | h | h <;> subst h <;>
      first
      | exact Nat.lt_add_right 4 hlt
      | simp
  · simp [List.countP_cons, hkind, hr0, hr1, hr2, hr3, hk]
  · simp [List.countP_cons, hkind, hr0, hr1, hr2, hr3, hk]
  · simp [List.countP_cons, hd0, h1, hr, hd2, h3]
  · intro r' hr'
    simp only [Option.some.injEq] at hr'
    subst hr'
    simp [List.count_cons, hr0.symm, hr1.symm, hr2.symm, hr3.symm]

/-- One produced dose level: five entries are added to the scene, among them the root and a
new root display node, whether or not the root exists already. -/
theorem isodoseLoopBody_produced_registrations (env : IsodoseEnv) (t : vtkMRMLColorTableNode)
    (img : Option vtkImageData) (st : IsodoseLoopState) (lvl : ℚ) (hroot : st.RootOK)
    (hne : 1 ≤ (env.MarchingCubes img lvl).GetNumberOfPoints) :
    ∃ r mid, (isodoseLoopBody env t img st lvl).modelHierarchyRootNode = some r ∧
      (∀ r0, st.modelHierarchyRootNode = some r0 → r = r0) ∧
      (isodoseLoopBody env t img st lvl).w.Nodes = st.w.Nodes ++ mid ∧
      IsodoseRegistrations (isodoseLoopBody env t img st lvl).w mid (some r) 1 := by
  rw [isodoseLoopBody_produced env t img st lvl hne]
  have hcases : st.modelHierarchyRootNode = none ∨ ∃ r, st.modelHierarchyRootNode = some r := by
    cases st.modelHierarchyRootNode with
    | none => exact Or.inl rfl
    | some r => exact Or.inr ⟨r, rfl⟩
  rcases hcases with hr0 | ⟨r, hr0⟩
  · obtain ⟨h1, h2, h3⟩ := addToIsodoseHierarchy_first_registrations env t
      (st.w.emit (Event.MarchingCubesUpdate img lvl)) lvl
      (isodoseSurfacePipeline env (env.MarchingCubes img lvl))
      { st with
        w := (addIsodoseModel env t (st.w.emit (Event.MarchingCubesUpdate img lvl)) lvl
          (isodoseSurfacePipeline env (env.MarchingCubes img lvl))).1 }
      rfl hr0 (st.w.heap.length + 1)
    exact ⟨_, _, h1, fun r0 h => by rw [hr0] at h; simp at h, h2, h3⟩
  · obtain ⟨h1, h2, h3⟩ := addToIsodoseHierarchy_next_registrations env t
      (st.w.emit (Event.MarchingCubesUpdate img lvl)) lvl
      (isodoseSurfacePipeline env (env.MarchingCubes img lvl))
      { st with
        w := (addIsodoseModel env t (st.w.emit (Event.MarchingCubesUpdate img lvl)) lvl
          (isodoseSurfacePipeline env (env.MarchingCubes img lvl))).1 }
      rfl r hr0 (hroot r hr0) (st.w.heap.length + 1)
    exact ⟨_, _, h1, fun r0 h => by rw [hr0] at h; simpa using h, h2, h3⟩

/-- The loop over the dose levels: each produced level adds the root to the scene again and
adds one more root display node. -/
theorem isodoseLoop_registrations (env : IsodoseEnv) (t : vtkMRMLColorTableNode)
    (img : Option vtkImageData) (levels : List ℚ) :
    ∀ st : IsodoseLoopState, st.RootOK → st.w.IDsBelow →
      ∃ added, (levels.foldl (isodoseLoopBody env t img) st).w.Nodes = st.w.Nodes ++ added ∧
        IsodoseRegistrations (levels.foldl (isodoseLoopBody env t img) st).w added
          (levels.foldl (isodoseLoopBody env t img) st).modelHierarchyRootNode
          (producedLevels env img levels).length ∧
        ∀ r, st.modelHierarchyRootNode = some r →
          (levels.foldl (isodoseLoopBody env t img) st).modelHierarchyRootNode = some r := by
  induction levels with
  | nil =>
    intro st _ _
    exact ⟨[], by simp, IsodoseRegistrations.registrations_empty _ _, fun r h => h⟩
  | cons lvl rest ih =>
    intro st hroot hb
    obtain ⟨he0, hroot1, _, _⟩ := isodoseLoopBody_spec env t img st lvl hroot hb
    obtain ⟨added1, hn1, hreg1, hpres1⟩ :=
      ih (isodoseLoopBody env t img st lvl) hroot1 (he0.below hb)
    obtain ⟨hev, _⟩ := isodoseLoop_spec env t img rest (isodoseLoopBody env t img st lvl)
      hroot1 (he0.below hb)
    simp only [List.foldl_cons]
    by_cases hne : 1 ≤ (env.MarchingCubes img lvl).GetNumberOfPoints
    · obtain ⟨r, mid, hr, hsame, hn0, hreg0⟩ :=
        isodoseLoopBody_produced_registrations env t img st lvl hroot hne
      have hk : (producedLevels env img (lvl :: rest)).length =
          1 + (producedLevels env img rest).length := by
        simp [producedLevels, List.filter_cons, hne, Nat.add_comm]
      rw [hk]
      refine ⟨mid ++ added1, by rw [hn1, hn0, List.append_assoc],
        (hreg0.registrations_evolves hev).registrations_append hreg1 (hpres1 r hr), ?_⟩
      intro r0 hr0
      rw [← hsame r0 hr0]
      exact hpres1 r hr
    · have hbody := isodoseLoopBody_skipped env t img st lvl hne
      have hk : (producedLevels env img (lvl :: rest)).length =
          (producedLevels env img rest).length := by
        simp [producedLevels, List.filter_cons, hne]
      rw [hk]
      refine ⟨added1, ?_, hreg1, ?_⟩
      · rw [hn1, hbody]; rfl
      · intro r0 hr0
        apply hpres1
        rw [hbody]
        exact hr0

/-- A run of `ComputeIsodose` with initialized inputs as a run of the loop over the dose
levels. -/
theorem ComputeIsodose_eq (C : SlicerRtCommon) (env : IsodoseEnv)
    (self : vtkSlicerIsodoseModuleLogic) (w : World) (node : vtkMRMLIsodoseNode)
    (n : vtkMRMLNode) (v : vtkMRMLScalarVolumeNode) (t : vtkMRMLColorTableNode)
    (hscene : self.HasMRMLScene = true) (hnode : self.IsodoseNode = some node)
    (hvol : w.scalarVolume? (w.GetNodeByID node.DoseVolumeNodeId) = some (n, v))
    (hcolor : w.volumeColorNode? v = some t) :
    ComputeIsodose C env self w = some (0,
      (node.IsodoseLevelVector.foldl (isodoseLoopBody env t (isodoseInputImage v))
        { w := (match n.GetAttribute C.DICOMRTIMPORT_DOSE_UNIT_VALUE_ATTRIBUTE_NAME with
            | some _ => w
            | none => w.emit (Event.Warning Message.DoseGridScalingNotSet)).emit
              Event.StartState
          modelHierarchyRootNode :=
            w.modelHierarchy? (w.GetNodeByID node.OutputHierarchyNodeId) }).w.emit
        Event.EndState) := by
  cases hattr : n.GetAttribute C.DICOMRTIMPORT_DOSE_UNIT_VALUE_ATTRIBUTE_NAME with
  | none =>
    simp only [ComputeIsodose, hscene, hnode, hvol, hattr]
    rw [show ((w.emit (Event.Warning Message.DoseGridScalingNotSet)).emit
        Event.StartState).volumeColorNode? v = w.volumeColorNode? v from rfl, hcolor]
    rfl
  | some text =>
    simp only [ComputeIsodose, hscene, hnode, hvol, hattr]
    rw [show (w.emit Event.StartState).volumeColorNode? v = w.volumeColorNode? v from rfl,
      hcolor]
    rfl

/-- A run of `ComputeIsodose` with initialized inputs that produces `k` surfaces: among the
nodes it adds to the scene are `k` model nodes, `2 * k` entries that are model hierarchy
nodes and `k` root display nodes, and the root is `k` times among them. -/
theorem ComputeIsodose_registrations (C : SlicerRtCommon) (env : IsodoseEnv)
    (self : vtkSlicerIsodoseModuleLogic) (w : World) (node : vtkMRMLIsodoseNode)
    (n : vtkMRMLNode) (v : vtkMRMLScalarVolumeNode) (t : vtkMRMLColorTableNode)
    (hscene : self.HasMRMLScene = true) (hnode : self.IsodoseNode = some node)
    (hvol : w.scalarVolume? (w.GetNodeByID node.DoseVolumeNodeId) = some (n, v))
    (hcolor : w.volumeColorNode? v = some t) (hb : w.IDsBelow) :
    ∃ w' added root, ComputeIsodose C env self w = some (0, w') ∧
      w'.Nodes = w.Nodes ++ added ∧
      IsodoseRegistrations w' added root
        (producedLevels env (isodoseInputImage v) node.IsodoseLevelVector).length ∧
      ∀ r, root = some r → w'.kind? r = some NodeKind.ModelHierarchy := by
  have hrun := ComputeIsodose_eq C env self w node n v t hscene hnode hvol hcolor
  have hroot : IsodoseLoopState.RootOK
      { w := (match n.GetAttribute C.DICOMRTIMPORT_DOSE_UNIT_VALUE_ATTRIBUTE_NAME with
          | some _ => w
          | none => w.emit (Event.Warning Message.DoseGridScalingNotSet)).emit Event.StartState
        modelHierarchyRootNode :=
          w.modelHierarchy? (w.GetNodeByID node.OutputHierarchyNodeId) } := by
    intro r hr
    have := World.modelHierarchy?_kind (w := w) hr
    cases n.GetAttribute C.DICOMRTIMPORT_DOSE_UNIT_VALUE_ATTRIBUTE_NAME <;> exact this
  have hb0 : World.IDsBelow
      ((match n.GetAttribute C.DICOMRTIMPORT_DOSE_UNIT_VALUE_ATTRIBUTE_NAME with
        | some _ => w
        | none => w.emit (Event.Warning Message.DoseGridScalingNotSet)).emit
          Event.StartState) := by
    cases n.GetAttribute C.DICOMRTIMPORT_DOSE_UNIT_VALUE_ATTRIBUTE_NAME <;> exact hb
  obtain ⟨added, hn, hreg, _⟩ := isodoseLoop_registrations env t (isodoseInputImage v)
    node.IsodoseLevelVector _ hroot hb0
  obtain ⟨_, hrootf, _⟩ := isodoseLoop_spec env t (isodoseInputImage v)
    node.IsodoseLevelVector _ hroot hb0
  refine ⟨_, added, _, hrun, ?_, hreg.registrations_evolves (World.Evolves.emit _ _), ?_⟩
  · rw [World.Nodes_emit, hn]
    cases n.GetAttribute C.DICOMRTIMPORT_DOSE_UNIT_VALUE_ATTRIBUTE_NAME <;> rfl
  · intro r hr
    exact hrootf r hr

/-- C21 at the sample scene. The run of `ComputeIsodose` for the levels 1, 2, 3 on a volume
with values from 1/2 to 5/2, with no output hierarchy node to start with, produces two
surface models. The root is not registered once for the run: the root object is twice in
the node collection of the scene, two root display nodes are added, and of the four entries
of the scene that are model hierarchy nodes two are the root. -/
theorem isodose_root_registered_per_surface :
    ∃ w' root,
      ComputeIsodose sampleCommon sampleIsodoseEnv sampleIsodoseLogic
        (sampleIsodoseWorld (1 / 5)) = some (0, w') ∧
      (World.createdOfKind (sampleIsodoseWorld (1 / 5)) w' NodeKind.Model).length = 2 ∧
      w'.kind? root = some NodeKind.ModelHierarchy ∧
      (w'.Nodes.drop (sampleIsodoseWorld (1 / 5)).Nodes.length).count root = 2 ∧
      ((w'.Nodes.drop (sampleIsodoseWorld (1 / 5)).Nodes.length).filter
        w'.isRootDisplay).length = 2 ∧
      (World.createdOfKind (sampleIsodoseWorld (1 / 5)) w' NodeKind.ModelHierarchy).length =
        4 := by
  obtain ⟨w', added, root, hrun, hn, hreg, hkind⟩ :=
    ComputeIsodose_registrations sampleCommon sampleIsodoseEnv sampleIsodoseLogic
      (sampleIsodoseWorld (1 / 5)) _ _ _ _ rfl rfl (sampleIsodoseWorld_volume (1 / 5))
      (sampleIsodoseWorld_colorNode (1 / 5)) (sampleIsodoseWorld_IDsBelow (1 / 5))
  rw [sample_producedLevels] at hreg
  have hsome : root.isSome = true := hreg.hasRoot (by decide)
  obtain ⟨r, hr⟩ := Option.isSome_iff_exists.1 hsome
  have hdrop : w'.Nodes.drop (sampleIsodoseWorld (1 / 5)).Nodes.length = added := by
    rw [hn, List.drop_left]
  refine ⟨w', r, hrun, ?_, hkind r hr, ?_, ?_, ?_⟩
  · unfold World.createdOfKind
    rw [hdrop, ← List.countP_eq_length_filter]
    exact hreg.models
  · rw [hdrop]
    exact hreg.rootEntries r hr
  · rw [hdrop, ← List.countP_eq_length_filter]
    exact hreg.rootDisplays
  · unfold World.createdOfKind
    rw [hdrop, ← List.countP_eq_length_filter]
    exact hreg.hierarchyNodes

/-! ## The entity of one region -/

theorem AddRoiContour_display (C : SlicerRtCommon) (env : ImportEnv) (w : World)
    (poly : vtkPolyData) (name : String) (c : Vec3) :
    (AddRoiContour C env w poly name c).1.node? w.heap.length =
      some (roiModelDisplayNode c (some (NodeID.generated w.UniqueIDIndex))) := by
  simp [AddRoiContour, World.New, World.node?_alloc, World.node?_modify,
    World.node?_modifyData, World.node?_AddNode, NodeData.mapModelDisplay, roiModelDisplayNode]

theorem AddRoiContour_model (C : SlicerRtCommon) (env : ImportEnv) (w : World)
    (poly : vtkPolyData) (name : String) (c : Vec3) :
    (AddRoiContour C env w poly name c).1.node? (w.heap.length + 1) =
      some (roiModelNode C env w poly name c (some (NodeID.generated w.UniqueIDIndex))
        (some (NodeID.generated (w.UniqueIDIndex + 1)))) := by
  simp [AddRoiContour, World.New, World.node?_alloc, World.node?_modify,
    World.node?_modifyData, World.node?_AddNode, NodeData.mapModel, roiModelNode,
    roiModelDisplayAdded, World.GetID_alloc, World.GetID_modify, World.GetID_modifyData,
    World.GetID_AddNode]

theorem roiLoopBody_point_eq (C : SlicerRtCommon) (env : ImportEnv)
    (rtReader : vtkSlicerDicomRtReader) (seriesName : String) (ct : Ptr) (st : RoiLoopState)
    (i : Nat) (roiPoly : vtkPolyData) (hpoly : rtReader.GetRoiPolyData i = some roiPoly)
    (h1 : roiPoly.GetNumberOfPoints = 1) :
    roiLoopBody C env rtReader seriesName ct st i =
      addToModelHierarchy C env seriesName st.w.heap.length
        { st with
          w := (AddRoiPoint (saveRoiColor rtReader ct st.w i) (roiPoly.GetPoint 0)
            (roiContourNodeName C env rtReader ct st.w i) (rtReader.GetRoiDisplayColor i)).1 } := by
  unfold roiLoopBody
  simp only [hpoly, h1]
  simp [saveRoiColor, roiContourNodeName]

theorem roiLoopBody_contour_eq (C : SlicerRtCommon) (env : ImportEnv)
    (rtReader : vtkSlicerDicomRtReader) (seriesName : String) (ct : Ptr) (st : RoiLoopState)
    (i : Nat) (roiPoly : vtkPolyData) (hpoly : rtReader.GetRoiPolyData i = some roiPoly)
    (h2 : 2 ≤ roiPoly.GetNumberOfPoints) :
    roiLoopBody C env rtReader seriesName ct st i =
      addToModelHierarchy C env seriesName (st.w.heap.length + 1)
        (addContourNode C env seriesName (rtReader.GetRoiName i)
          (roiContourNodeName C env rtReader ct st.w i) (st.w.heap.length + 1)
          { st with
            w := (AddRoiContour C env (saveRoiColor rtReader ct st.w i) roiPoly
              (roiContourNodeName C env rtReader ct st.w i) (rtReader.GetRoiDisplayColor i)).1
            roiCollection := st.roiCollection ++ [roiPoly] }) := by
  have g1 : ¬ roiPoly.GetNumberOfPoints < 1 := by omega
  have g3 : ¬ roiPoly.GetNumberOfPoints = 1 := by omega
  unfold roiLoopBody
  simp only [hpoly, g1, g3, if_false]
  simp [saveRoiColor, roiContourNodeName]

/-- The node with a given identifier is the first node of the scene that has it: a node
behind nodes none of which has the identifier, unless it is that node. -/
theorem World.GetNodeByID_first (w : World) (pre rest : List Ptr) (h : Ptr) (id : NodeID)
    (hN : w.Nodes = pre ++ h :: rest) (hh : w.GetID h = some id)
    (hpre : ∀ p ∈ pre, w.GetID p = some id → p = h) :
    w.GetNodeByID (some id) = some h := by
  unfold World.GetNodeByID
  simp only []
  rw [hN]
  clear hN
  induction pre with
  | nil => simp [List.find?_cons, hh]
  | cons a l ih =>
    rw [List.cons_append, List.find?_cons]
    by_cases ha : w.GetID a = some id
    · have := hpre a (List.mem_cons_self _ _) ha
      subst this
      simp [ha]
    · have hf : (w.GetID a == some id) = false := by simpa using ha
      rw [hf]
      exact ih (fun p hp => hpre p (List.mem_cons_of_mem _ hp))

theorem saveRoiColor_heap_length (rtReader : vtkSlicerDicomRtReader) (ct : Ptr) (w : World)
    (i : Nat) : (saveRoiColor rtReader ct w i).heap.length = w.heap.length := by
  simp [saveRoiColor]

theorem saveRoiColor_UniqueIDIndex (rtReader : vtkSlicerDicomRtReader) (ct : Ptr) (w : World)
    (i : Nat) : (saveRoiColor rtReader ct w i).UniqueIDIndex = w.UniqueIDIndex := by
  simp [saveRoiColor]

theorem saveRoiColor_Nodes (rtReader : vtkSlicerDicomRtReader) (ct : Ptr) (w : World)
    (i : Nat) : (saveRoiColor rtReader ct w i).Nodes = w.Nodes := by
  simp [saveRoiColor]

/-- The fiducial of a region with exactly one point, after the iteration of the region
loop. -/
theorem roiLoopBody_point_node (C : SlicerRtCommon) (env : ImportEnv)
    (rtReader : vtkSlicerDicomRtReader) (seriesName : String) (ct : Ptr) (st : RoiLoopState)
    (i : Nat) (roiPoly : vtkPolyData) (hpoly : rtReader.GetRoiPolyData i = some roiPoly)
    (h1 : roiPoly.GetNumberOfPoints = 1) :
    (roiLoopBody C env rtReader seriesName ct st i).w.node? st.w.heap.length =
      some (roiPointNode (roiPoly.GetPoint 0) (roiContourNodeName C env rtReader ct st.w i)
        (rtReader.GetRoiDisplayColor i) (some (NodeID.generated st.w.UniqueIDIndex))) := by
  rw [roiLoopBody_point_eq C env rtReader seriesName ct st i roiPoly hpoly h1,
    addToModelHierarchy_node? _ _ _ _ _ _ (by simp [saveRoiColor_heap_length])]
  have := AddRoiPoint_new (saveRoiColor rtReader ct st.w i) (roiPoly.GetPoint 0)
    (roiContourNodeName C env rtReader ct st.w i) (rtReader.GetRoiDisplayColor i)
  rw [saveRoiColor_heap_length, saveRoiColor_UniqueIDIndex] at this
  exact this

/-- The model node and the display node of a region with two or more points, after the
iteration of the region loop. -/
theorem roiLoopBody_contour_nodes (C : SlicerRtCommon) (env : ImportEnv)
    (rtReader : vtkSlicerDicomRtReader) (seriesName : String) (ct : Ptr) (st : RoiLoopState)
    (i : Nat) (roiPoly : vtkPolyData) (hpoly : rtReader.GetRoiPolyData i = some roiPoly)
    (h2 : 2 ≤ roiPoly.GetNumberOfPoints) :
    (roiLoopBody C env rtReader seriesName ct st i).w.node? (st.w.heap.length + 1) =
      some (roiModelNode C env (saveRoiColor rtReader ct st.w i) roiPoly
        (roiContourNodeName C env rtReader ct st.w i) (rtReader.GetRoiDisplayColor i)
        (some (NodeID.generated st.w.UniqueIDIndex))
        (some (NodeID.generated (st.w.UniqueIDIndex + 1)))) ∧
    (roiLoopBody C env rtReader seriesName ct st i).w.node? st.w.heap.length =
      some (roiModelDisplayNode (rtReader.GetRoiDisplayColor i)
        (some (NodeID.generated st.w.UniqueIDIndex))) ∧
    ∃ rest, (roiLoopBody C env rtReader seriesName ct st i).w.Nodes =
      st.w.Nodes ++ st.w.heap.length :: rest := by
  rw [roiLoopBody_contour_eq C env rtReader seriesName ct st i roiPoly hpoly h2]
  have hlen : (addContourNode C env seriesName (rtReader.GetRoiName i)
      (roiContourNodeName C env rtReader ct st.w i) (st.w.heap.length + 1)
      { st with
        w := (AddRoiContour C env (saveRoiColor rtReader ct st.w i) roiPoly
          (roiContourNodeName C env rtReader ct st.w i) (rtReader.GetRoiDisplayColor i)).1
        roiCollection := st.roiCollection ++ [roiPoly] }).w.heap.length =
      st.w.heap.length + 2 + (if st.contourHierarchyRootNode.isSome then 2 else 3) := by
    rw [addContourNode_heap_length]
    simp [saveRoiColor_heap_length]
  have hm := AddRoiContour_model C env (saveRoiColor rtReader ct st.w i) roiPoly
    (roiContourNodeName C env rtReader ct st.w i) (rtReader.GetRoiDisplayColor i)
  have hd := AddRoiContour_display C env (saveRoiColor rtReader ct st.w i) roiPoly
    (roiContourNodeName C env rtReader ct st.w i) (rtReader.GetRoiDisplayColor i)
  rw [saveRoiColor_heap_length, saveRoiColor_UniqueIDIndex] at hm hd
  refine ⟨?_, ?_, ?_⟩
  · rw [addToModelHierarchy_node? _ _ _ _ _ _ (by rw [hlen]; split <;> omega),
      addContourNode_node? _ _ _ _ _ _ _ _ (by simp [saveRoiColor_heap_length])]
    exact hm
  · rw [addToModelHierarchy_node? _ _ _ _ _ _ (by rw [hlen]; split <;> omega),
      addContourNode_node? _ _ _ _ _ _ _ _ (by simp [saveRoiColor_heap_length])]
    exact hd
  · rw [addToModelHierarchy_Nodes, addContourNode_Nodes]
    simp only [AddRoiContour_Nodes, saveRoiColor_Nodes, saveRoiColor_heap_length,
      List.append_assoc, List.cons_append]
    exact ⟨_, rfl⟩

theorem roiLoopBody_point_created (C : SlicerRtCommon) (env : ImportEnv)
    (rtReader : vtkSlicerDicomRtReader) (seriesName : String) (ct : Ptr) (st : RoiLoopState)
    (i : Nat) (roiPoly : vtkPolyData) (hpoly : rtReader.GetRoiPolyData i = some roiPoly)
    (h1 : roiPoly.GetNumberOfPoints = 1) :
    World.createdOfKind st.w (roiLoopBody C env rtReader seriesName ct st i).w
      NodeKind.AnnotationFiducial = [st.w.heap.length] ∧
    World.createdOfKind st.w (roiLoopBody C env rtReader seriesName ct st i).w
      NodeKind.Model = [] := by
  rw [roiLoopBody_point_eq C env rtReader seriesName ct st i roiPoly hpoly h1]
  unfold World.createdOfKind
  cases hroot : st.modelHierarchyRootNode <;>
  simp [addToModelHierarchy_Nodes, saveRoiColor_Nodes, saveRoiColor_heap_length,
    List.filter_cons, Nat.add_assoc, addToModelHierarchy_kind?, AddRoiPoint_kind?, hroot]

theorem roiLoopBody_contour_created (C : SlicerRtCommon) (env : ImportEnv)
    (rtReader : vtkSlicerDicomRtReader) (seriesName : String) (ct : Ptr) (st : RoiLoopState)
    (i : Nat) (roiPoly : vtkPolyData) (hpoly : rtReader.GetRoiPolyData i = some roiPoly)
    (h2 : 2 ≤ roiPoly.GetNumberOfPoints) :
    World.createdOfKind st.w (roiLoopBody C env rtReader seriesName ct st i).w
      NodeKind.Model = [st.w.heap.length + 1] ∧
    World.createdOfKind st.w (roiLoopBody C env rtReader seriesName ct st i).w
      NodeKind.AnnotationFiducial = [] := by
  rw [roiLoopBody_contour_eq C env rtReader seriesName ct st i roiPoly hpoly h2]
  unfold World.createdOfKind
  cases hroot : st.modelHierarchyRootNode <;>
  cases hroot2 : st.contourHierarchyRootNode <;>
  simp [addToModelHierarchy_Nodes, addContourNode_Nodes, addContourNode_heap_length,
    saveRoiColor_Nodes, saveRoiColor_heap_length, List.filter_cons, Nat.add_assoc,
    addToModelHierarchy_kind?, addContourNode_kind?, AddRoiContour_kind?, hroot, hroot2]

/-- The display node reference of the model node of a region resolves to its display node,
in a scene whose nodes are existing objects with identifiers below the counter. -/
theorem roiLoopBody_contour_display_resolves (C : SlicerRtCommon) (env : ImportEnv)
    (rtReader : vtkSlicerDicomRtReader) (seriesName : String) (ct : Ptr) (st : RoiLoopState)
    (i : Nat) (roiPoly : vtkPolyData) (hpoly : rtReader.GetRoiPolyData i = some roiPoly)
    (h2 : 2 ≤ roiPoly.GetNumberOfPoints) (hb : st.w.IDsBelow)
    (hN : ∀ p ∈ st.w.Nodes, p < st.w.heap.length) :
    (roiLoopBody C env rtReader seriesName ct st i).w.GetNodeByID
      (some (NodeID.generated st.w.UniqueIDIndex)) = some st.w.heap.length := by
  obtain ⟨_, hd, rest, hnodes⟩ :=
    roiLoopBody_contour_nodes C env rtReader seriesName ct st i roiPoly hpoly h2
  refine World.GetNodeByID_first _ st.w.Nodes rest _ _ hnodes ?_ ?_
  · rw [World.GetID_of_node? hd]; rfl
  · intro p hp hid
    exfalso
    have hlt := hN p hp
    have hframe := roiLoopBody_node? C env rtReader seriesName ct st i p hlt
    rw [World.GetID_congr hframe, World.GetID_modifyData] at hid
    exact Nat.lt_irrefl _ (hb p hp _ hid)

/-- C3. One iteration of the region loop of the structure-set import, from any loop state
and for any region index. With missing poly data, or with poly data of zero points, no node
is added to the scene and the warning for the region is raised. With exactly one point the
nodes added contain exactly one fiducial and no model node; the fiducial is the point marker
of `AddRoiPoint`: it is named by the contour node name of the region, has one control point,
at the point of the region, and its point and text displays have the color of the region.
With two or more points the nodes added contain exactly one model node and no fiducial; the
model node is the surface model of `AddRoiContour`: it holds the poly data of the region, is
named by the contour node name of the region with the ribbon model postfix, and refers to
the display node added with it, which has the color of the region; in a scene whose nodes
are existing objects with identifiers below the counter this reference resolves to that
display node. -/
theorem roi_entity_by_point_count (C : SlicerRtCommon) (env : ImportEnv)
    (rtReader : vtkSlicerDicomRtReader) (seriesName : String) (ct : Ptr) (st : RoiLoopState)
    (i : Nat) :
    match rtReader.GetRoiPolyData i with
    | none =>
      st.w.createdKinds (roiLoopBody C env rtReader seriesName ct st i).w = [] ∧
      (roiLoopBody C env rtReader seriesName ct st i).w.log =
        st.w.log ++ [Event.Warning (Message.CannotReadPolydata i)]
    | some roiPoly =>
      if roiPoly.GetNumberOfPoints = 0 then
        st.w.createdKinds (roiLoopBody C env rtReader seriesName ct st i).w = [] ∧
        (roiLoopBody C env rtReader seriesName ct st i).w.log =
          st.w.log ++ [Event.Warning (Message.RoiHasNoPoints i)]
      else if roiPoly.GetNumberOfPoints = 1 then
        (st.w.createdKinds (roiLoopBody C env rtReader seriesName ct st i).w).count
            NodeKind.AnnotationFiducial = 1 ∧
        (st.w.createdKinds (roiLoopBody C env rtReader seriesName ct st i).w).count
            NodeKind.Model = 0 ∧
        World.createdOfKind st.w (roiLoopBody C env rtReader seriesName ct st i).w
          NodeKind.AnnotationFiducial = [st.w.heap.length] ∧
        World.createdOfKind st.w (roiLoopBody C env rtReader seriesName ct st i).w
          NodeKind.Model = [] ∧
        (roiLoopBody C env rtReader seriesName ct st i).w.node? st.w.heap.length =
          some (roiPointNode (roiPoly.GetPoint 0)
            (roiContourNodeName C env rtReader ct st.w i) (rtReader.GetRoiDisplayColor i)
            (some (NodeID.generated st.w.UniqueIDIndex)))
      else
        (st.w.createdKinds (roiLoopBody C env rtReader seriesName ct st i).w).count
            NodeKind.Model = 1 ∧
        (st.w.createdKinds (roiLoopBody C env rtReader seriesName ct st i).w).count
            NodeKind.AnnotationFiducial = 0 ∧
        World.createdOfKind st.w (roiLoopBody C env rtReader seriesName ct st i).w
          NodeKind.Model = [st.w.heap.length + 1] ∧
        World.createdOfKind st.w (roiLoopBody C env rtReader seriesName ct st i).w
          NodeKind.AnnotationFiducial = [] ∧
        (roiLoopBody C env rtReader seriesName ct st i).w.node? (st.w.heap.length + 1) =
          some (roiModelNode C env (saveRoiColor rtReader ct st.w i) roiPoly
            (roiContourNodeName C env rtReader ct st.w i) (rtReader.GetRoiDisplayColor i)
            (some (NodeID.generated st.w.UniqueIDIndex))
            (some (NodeID.generated (st.w.UniqueIDIndex + 1)))) ∧
        (roiLoopBody C env rtReader seriesName ct st i).w.node? st.w.heap.length =
          some (roiModelDisplayNode (rtReader.GetRoiDisplayColor i)
            (some (NodeID.generated st.w.UniqueIDIndex))) ∧
        (st.w.IDsBelow → (∀ p ∈ st.w.Nodes, p < st.w.heap.length) →
          (roiLoopBody C env rtReader seriesName ct st i).w.GetNodeByID
            (some (NodeID.generated st.w.UniqueIDIndex)) = some st.w.heap.length) := by
  have hkinds := roiLoopBody_createdKinds C env rtReader seriesName ct st i
  cases hpoly : rtReader.GetRoiPolyData i with
  | none =>
    rw [hpoly] at hkinds
    exact ⟨hkinds, by simp [roiLoopBody, hpoly]⟩
  | some roiPoly =>
    rw [hpoly] at hkinds
    simp only [] at hkinds ⊢
    by_cases h0 : roiPoly.GetNumberOfPoints = 0
    · rw [if_pos h0] at hkinds ⊢
      exact ⟨hkinds, by simp [roiLoopBody, hpoly, h0]⟩
    · rw [if_neg h0] at hkinds ⊢
      by_cases h1 : roiPoly.GetNumberOfPoints = 1
      · rw [if_pos h1] at hkinds ⊢
        obtain ⟨c1, c2⟩ := roiLoopBody_point_created C env rtReader seriesName ct st i roiPoly
          hpoly h1
        exact ⟨hkinds.1, hkinds.2, c1, c2,
          roiLoopBody_point_node C env rtReader seriesName ct st i roiPoly hpoly h1⟩
      · rw [if_neg h1] at hkinds ⊢
        have h2 : 2 ≤ roiPoly.GetNumberOfPoints := by omega
        obtain ⟨c1, c2⟩ := roiLoopBody_contour_created C env rtReader seriesName ct st i
          roiPoly hpoly h2
        obtain ⟨n1, n2, _⟩ := roiLoopBody_contour_nodes C env rtReader seriesName ct st i
          roiPoly hpoly h2
        exact ⟨hkinds.1, hkinds.2, c1, c2, n1, n2, fun hb hN =>
          roiLoopBody_contour_display_resolves C env rtReader seriesName ct st i roiPoly hpoly
            h2 hb hN⟩

/-- C3 at two sample regions, each handled from the empty world. The region `A` of three
points gives a model node holding these three points, named `A_Contour_RibbonModel`, whose
display node reference resolves to the red display node added with it, and no fiducial. The
region `P` of one point gives a fiducial named `P_Contour` with one control point, at
(7, 8, 9), and no model node. -/
theorem roi_entity_by_point_count_witness :
    (World.createdOfKind emptyWorld
        (roiLoopBody sampleCommon (sampleEnv sampleThreeSurfaces [])
          (sampleReader sampleThreeSurfaces) "RS" 0 { w := emptyWorld } 0).w
        NodeKind.Model = [1] ∧
      World.createdOfKind emptyWorld
        (roiLoopBody sampleCommon (sampleEnv sampleThreeSurfaces [])
          (sampleReader sampleThreeSurfaces) "RS" 0 { w := emptyWorld } 0).w
        NodeKind.AnnotationFiducial = [] ∧
      (roiLoopBody sampleCommon (sampleEnv sampleThreeSurfaces [])
          (sampleReader sampleThreeSurfaces) "RS" 0 { w := emptyWorld } 0).w.node? 1 =
        some
          { ID := some (NodeID.generated 1)
            Name := "A_Contour_RibbonModel"
            HideFromEditors := false
            data := NodeData.Model
              { DisplayNodeID := some (NodeID.generated 0)
                PolyData := some { points := [(0, 0, 0), (1, 0, 0), (0, 1, 0)] }
                Selectable := true } } ∧
      (roiLoopBody sampleCommon (sampleEnv sampleThreeSurfaces [])
          (sampleReader sampleThreeSurfaces) "RS" 0 { w := emptyWorld } 0).w.node? 0 =
        some
          { ID := some (NodeID.generated 0)
            data := NodeData.ModelDisplay
              { SliceIntersectionVisibility := true
                Visibility := true
                Color := (1, 0, 0)
                BackfaceCulling := false } } ∧
      (roiLoopBody sampleCommon (sampleEnv sampleThreeSurfaces [])
          (sampleReader sampleThreeSurfaces) "RS" 0 { w := emptyWorld } 0).w.GetNodeByID
        (some (NodeID.generated 0)) = some 0) ∧
    (World.createdOfKind emptyWorld
        (roiLoopBody sampleCommon (sampleEnv samplePointRegion [])
          (sampleReader samplePointRegion) "RS" 0 { w := emptyWorld } 0).w
        NodeKind.AnnotationFiducial = [0] ∧
      World.createdOfKind emptyWorld
        (roiLoopBody sampleCommon (sampleEnv samplePointRegion [])
          (sampleReader samplePointRegion) "RS" 0 { w := emptyWorld } 0).w
        NodeKind.Model = [] ∧
      ∃ n f, (roiLoopBody sampleCommon (sampleEnv samplePointRegion [])
          (sampleReader samplePointRegion) "RS" 0 { w := emptyWorld } 0).w.node? 0 = some n ∧
        n.Name = "P_Contour" ∧ n.data = NodeData.AnnotationFiducial f ∧
        f.ControlPoints = [((7, 8, 9), false, true)] ∧
        f.PointDisplayColor = some (0, 1, 0)) := by
  constructor
  · have h := roi_entity_by_point_count sampleCommon (sampleEnv sampleThreeSurfaces [])
      (sampleReader sampleThreeSurfaces) "RS" 0 { w := emptyWorld } 0
    have hp : (sampleReader sampleThreeSurfaces).GetRoiPolyData 0 =
        some { points := [(0, 0, 0), (1, 0, 0), (0, 1, 0)] } := rfl
    rw [hp] at h
    simp only [] at h
    rw [if_neg (by decide), if_neg (by decide)] at h
    obtain ⟨_, _, c1, c2, n1, n2, r⟩ := h
    exact ⟨c1, c2, n1, n2, r emptyWorld_IDsBelow (fun p hp => by simp [emptyWorld] at hp)⟩
  · have h := roi_entity_by_point_count sampleCommon (sampleEnv samplePointRegion [])
      (sampleReader samplePointRegion) "RS" 0 { w := emptyWorld } 0
    have hp : (sampleReader samplePointRegion).GetRoiPolyData 0 =
        some { points := [(7, 8, 9)] } := rfl
    rw [hp] at h
    simp only [] at h
    rw [if_neg (by decide), if_pos (by decide)] at h
    obtain ⟨_, _, c1, c2, n1⟩ := h
    exact ⟨c1, c2, _, _, n1, rfl, rfl, rfl, rfl⟩

end SlicerRT
